import Mathlib

/-
Verification of the TLSF (two-level segregated fit) allocator:
size-class math (`function.rs`), block headers and the free-list index
(`structs.rs`), and the allocate / free paths (`lib.rs`), shallowly embedded.

Modelling conventions:
* the target is 64-bit: `usize` is `Nat`, wrapping arithmetic carries an
  explicit `% 2 ^ 64`; `u32` values carry `% 2 ^ 32` where they can wrap;
* pointers are `Nat` addresses; memory is a total function from addresses to
  block records, updated functionally;
* a Rust `panic!` / failed `assert!` / out-of-bounds index is modelled by an
  `Option`-valued operation returning `none`.
-/

namespace Tlsf

/-! ## Constants (`consts.rs`), 64-bit target (a pointer is 8 bytes) -/

def MINIMUM_BLOCK_SIZE : Nat := 16

def BLOCK_ALIGNOF : Nat := 8 * 2

def SMALL_BLOCK_SIZE : Nat := 128

def FIRST_INDEX_MAX : Nat := 36

def FIRST_INDEX_OFFSET : Nat := 6

def SECOND_INDEX_LOG2_MAX : Nat := 5

def SECOND_INDEX_MAX : Nat := 1 <<< SECOND_INDEX_LOG2_MAX

def FIRST_INDEX_REAL : Nat := FIRST_INDEX_MAX - FIRST_INDEX_OFFSET

def TOTAL_COUNT : Nat := FIRST_INDEX_REAL * SECOND_INDEX_MAX

/-- The 256-entry lookup table for most/least significant bit search. -/
def INDEX_TABLE : List Nat := [
  0, 0, 1, 1, 2, 2, 2, 2, 3, 3, 3, 3, 3, 3, 3, 3, 4, 4, 4, 4, 4, 4, 4, 4, 4, 4, 4, 4, 4, 4, 4, 4,
  5, 5, 5, 5, 5, 5, 5, 5, 5, 5, 5, 5, 5, 5, 5, 5, 5, 5, 5, 5, 5, 5, 5, 5, 5, 5, 5, 5, 5, 5, 5, 5,
  6, 6, 6, 6, 6, 6, 6, 6, 6, 6, 6, 6, 6, 6, 6, 6, 6, 6, 6, 6, 6, 6, 6, 6, 6, 6, 6, 6, 6, 6, 6, 6,
  6, 6, 6, 6, 6, 6, 6, 6, 6, 6, 6, 6, 6, 6, 6, 6, 6, 6, 6, 6, 6, 6, 6, 6, 6, 6, 6, 6, 6, 6, 6, 6,
  7, 7, 7, 7, 7, 7, 7, 7, 7, 7, 7, 7, 7, 7, 7, 7, 7, 7, 7, 7, 7, 7, 7, 7, 7, 7, 7, 7, 7, 7, 7, 7,
  7, 7, 7, 7, 7, 7, 7, 7, 7, 7, 7, 7, 7, 7, 7, 7, 7, 7, 7, 7, 7, 7, 7, 7, 7, 7, 7, 7, 7, 7, 7, 7,
  7, 7, 7, 7, 7, 7, 7, 7, 7, 7, 7, 7, 7, 7, 7, 7, 7, 7, 7, 7, 7, 7, 7, 7, 7, 7, 7, 7, 7, 7, 7, 7,
  7, 7, 7, 7, 7, 7, 7, 7, 7, 7, 7, 7, 7, 7, 7, 7, 7, 7, 7, 7, 7, 7, 7, 7, 7, 7, 7, 7, 7, 7, 7, 7]

def indexTable (i : Nat) : Nat := INDEX_TABLE.getD i 0

/-! ## Size-class math (`function.rs`) -/

def U64 : Nat := 2 ^ 64

def U32 : Nat := 2 ^ 32

/-- The byte-folding loop `while value > 0xFF { offset += 8; value >>= 8 }`
shared by `calculate_msb` and `calculate_lsb`.  The first argument is fuel that
dominates the iteration count (the loop runs at most `v` times since `v`
strictly decreases on every iteration). -/
def byteOffsetAux : Nat → Nat → Nat
  | 0, _ => 0
  | fuel + 1, v => if 0xFF < v then 8 + byteOffsetAux fuel (v >>> 8) else 0

def byteOffset (v : Nat) : Nat := byteOffsetAux v v

/-- `INDEX_TABLE[value >> offset] as usize + offset`, the shared tail of
`calculate_msb` and `calculate_lsb`. -/
def msb_core (v : Nat) : Nat := indexTable (v >>> byteOffset v) + byteOffset v

/-- `calculate_msb` from `function.rs`: `None` for input 0. -/
def calculate_msb (value : Nat) : Option Nat :=
  if value = 0 then none else some (msb_core value)

/-- `value & (!value).overflowing_add(1).0`: two's-complement isolation of the
lowest set bit of a 64-bit `value`. -/
def lsb_isolate (value : Nat) : Nat :=
  value &&& ((U64 - 1 - value % U64 + 1) % U64)

/-- `calculate_lsb` from `function.rs`: never `none`. -/
def calculate_lsb (value : Nat) : Option Nat :=
  some (msb_core (lsb_isolate value))

/-- `!m` on a 64-bit word. -/
def not64 (m : Nat) : Nat := U64 - 1 - m % U64

def round_up_block (value : Nat) : Nat :=
  ((value + (BLOCK_ALIGNOF - 1)) % U64) &&& not64 (BLOCK_ALIGNOF - 1)

def round_down_block (value : Nat) : Nat :=
  value &&& not64 (BLOCK_ALIGNOF - 1)

def is_aligned (value : Nat) : Bool :=
  value &&& (BLOCK_ALIGNOF - 1) == 0

def calculate_allocation_size (size : Nat) : Nat :=
  round_up_block (max size MINIMUM_BLOCK_SIZE)

def calculate_allocation_searching_size (size : Nat) : Nat :=
  let size := calculate_allocation_size size
  if size < SMALL_BLOCK_SIZE then size
  else
    -- `calculate_msb(size).unwrap()`: here `size ≥ 128 > 0`, so always `some`.
    let t := (1 <<< ((calculate_msb size).getD 0 - SECOND_INDEX_LOG2_MAX)) - 1
    ((size + t) % U64) &&& not64 t

def calculate_mapping_indices (block_size : Nat) : Nat × Nat :=
  if block_size < SMALL_BLOCK_SIZE then
    (0, block_size / (SMALL_BLOCK_SIZE / SECOND_INDEX_MAX))
  else
    -- `calculate_msb(block_size).unwrap()`: here `block_size ≥ 128 > 0`.
    let first := (calculate_msb block_size).getD 0
    (first - FIRST_INDEX_OFFSET,
      (block_size >>> (first - SECOND_INDEX_LOG2_MAX)) - SECOND_INDEX_MAX)

def calculate_index (mapping_indices : Nat × Nat) : Nat :=
  mapping_indices.1 * SECOND_INDEX_MAX + mapping_indices.2

def megabytes_of (size : Nat) : Nat := size * 1024 * 1024

/-- `next_chunk_size` from `function.rs`.  The shift `0x01 << (msb + 1)` and
the products/sums wrap as 64-bit words in release mode, modelled by explicit
`% 2 ^ 64` (and a masked shift amount). -/
def next_chunk_size (total last_chunk_size size : Nat) : Nat :=
  let INIT_CHUNK_SIZE := megabytes_of 2
  let INIT_EXPANDED_ALIGNMENT := megabytes_of 8
  let aligned_size :=
    if 0 < size then (1 <<< (((calculate_msb size).getD 0 + 1) % 64)) % U64 else 1024
  if total = 0 then
    if aligned_size ≤ INIT_CHUNK_SIZE >>> 2 then INIT_CHUNK_SIZE
    else
      ((aligned_size * 4 + (INIT_EXPANDED_ALIGNMENT - 1)) % U64) &&&
        not64 (INIT_EXPANDED_ALIGNMENT - 1)
  else
    let expected := (last_chunk_size <<< 1) % U64
    if (aligned_size * 4) % U64 ≤ expected then expected
    else
      let min1 := last_chunk_size - 1
      ((aligned_size * 4 + min1) % U64) &&& not64 min1

/-! ## Block headers (`structs.rs`)

A block is the in-band `BlockHeader` (`previous_header`, `stored_size`)
together with the leading bytes of its buffer, which hold a `FreeNode` when
the block is free and an `AreaInfo` when it is a start sentinel; `area_end`
and `area_next` model the two `AreaInfo` fields (`end_block_header`,
`next_area_header`).  A `usize` subtraction that cannot underflow in any
non-panicking run is modelled by truncated `Nat` subtraction. -/

/-- `FreeNode`: the doubly linked free-list node in a free block's buffer. -/
structure FreeNode where
  prev : Option Nat
  next : Option Nat
deriving DecidableEq

def FreeNode.new : FreeNode := ⟨none, none⟩

/-- `mem::size_of::<FreeNode>()`: two 8-byte `Option<NonNull<_>>` fields. -/
def FreeNode.size_of : Nat := 16

structure Blk where
  previous_header : Option Nat
  stored_size : Nat
  node : FreeNode
  area_end : Option Nat
  area_next : Option Nat
deriving DecidableEq

/-- `mem::size_of::<BlockHeader>()` on the 64-bit target: an 8-byte
`Option<NonNull<_>>` niche pointer plus an 8-byte `usize`. -/
def BlockHeader.size_of : Nat := 16

def BlockHeader.get_aligned_size : Nat := round_up_block BlockHeader.size_of

/-- `mem::size_of::<AreaInfo>()`: two 8-byte `Option<NonNull<_>>` fields. -/
def AreaInfo.size_of : Nat := 16

def AreaInfo.get_aligned_size : Nat := round_up_block AreaInfo.size_of

def FREED_MASK : Nat := 0x01

def PREV_FREED_MASK : Nat := 0x02

/-- `BlockHeader::calculate_stored_size`. -/
def calculate_stored_size (buffer_size : Nat) (is_freed is_prev_freed : Bool) : Nat :=
  let size := round_up_block buffer_size
  let flags :=
    (if is_freed then FREED_MASK else 0x00) |||
      (if is_prev_freed then PREV_FREED_MASK else 0x00)
  size ||| flags

def Blk.buffer_size (b : Blk) : Nat := round_down_block b.stored_size

def Blk.buffer_size_with_header (b : Blk) : Nat :=
  BlockHeader.get_aligned_size + b.buffer_size

def Blk.is_freed (b : Blk) : Bool := b.stored_size &&& FREED_MASK != 0

def Blk.is_prev_freed (b : Blk) : Bool := b.stored_size &&& PREV_FREED_MASK != 0

/-- `BlockHeader::next_block_ptr`: `self + header size + buffer size`. -/
def next_block_addr (addr : Nat) (b : Blk) : Nat :=
  addr + (BlockHeader.get_aligned_size + b.buffer_size)

def Blk.set_freed (b : Blk) (is_free : Bool) : Blk :=
  { b with stored_size := calculate_stored_size b.buffer_size is_free b.is_prev_freed }

def Blk.set_previous_freed (b : Blk) (is_prev_free : Bool) : Blk :=
  { b with stored_size := calculate_stored_size b.buffer_size b.is_freed is_prev_free }

/-- `BlockHeader::set_buffer_size`, whose `assert!(is_aligned(size))` is
modelled by returning `none`. -/
def Blk.set_buffer_size (b : Blk) (size : Nat) : Option Blk :=
  if is_aligned size then
    some { b with stored_size := calculate_stored_size size b.is_freed b.is_prev_freed }
  else none

def Blk.set_previous_header (b : Blk) (prev_block : Nat) : Blk :=
  { b with previous_header := some prev_block }

/-! ## The global TLSF state (`TLSFRawHeader` plus the block heap) -/

abbrev Heap := Nat → Blk

/-- Read-modify-write of the block record at one address. -/
def updBlk (h : Heap) (addr : Nat) (f : Blk → Blk) : Heap :=
  Function.update h addr (f (h addr))

/-- The `TLSFRawHeader` fields plus the block heap.  `sl_bitmap` (30 `u32`
words) and `freed_block_map` (`TOTAL_COUNT` head pointers) are total functions
accessed through the bound-checked accessors below, mirroring Rust's panicking
array indexing. -/
structure St where
  heap : Heap
  fl_bitmap : Nat
  sl_bitmap : Nat → Nat
  freed_block_map : Nat → Option Nat
  areainfo_ptr : Option Nat
  maximum_memory_size : Nat
  used_memory_size : Nat

/-- `FreeNodeHeaderMap::get_item`. -/
def map_get_item (m : Nat → Option Nat) (mapping_indices : Nat × Nat) :
    Option (Option Nat) :=
  if TOTAL_COUNT ≤ calculate_index mapping_indices then none
  else some (m (calculate_index mapping_indices))

/-- `FreeNodeHeaderMap::set_item` (its `assert!(index < TOTAL_COUNT)` is
`none`). -/
def map_set_item (m : Nat → Option Nat) (mapping_indices : Nat × Nat)
    (block : Nat) : Option (Nat → Option Nat) :=
  if calculate_index mapping_indices < TOTAL_COUNT then
    some (Function.update m (calculate_index mapping_indices) (some block))
  else none

/-- `FreeNodeHeaderMap::reset_item`. -/
def map_reset_item (m : Nat → Option Nat) (mapping_indices : Nat × Nat) :
    Option (Nat → Option Nat) :=
  if calculate_index mapping_indices < TOTAL_COUNT then
    some (Function.update m (calculate_index mapping_indices) none)
  else none

/-- `TLSFRawHeader::insert_block`.  A `none` result models a panicking run: a
failed `assert!`, an out-of-range map or `sl_bitmap` index, or
`buffer_as_freenode_as_mut().unwrap()` on a non-free block. -/
def insert_block (st : St) (block_ptr : Nat) (mapping_indices : Nat × Nat) :
    Option St := do
  let block := st.heap block_ptr
  -- `assert!(block.is_freed())`
  if block.is_freed = false then none else
  -- `freed_block.prev = None; freed_block.next = map.get_item(mi).unwrap()`
  let oldHead ← map_get_item st.freed_block_map mapping_indices
  let heap1 := updBlk st.heap block_ptr fun b => { b with node := ⟨none, oldHead⟩ }
  -- when the class already has a head: `head.freenode.prev = Some(block_ptr)`
  let heap2 ←
    match oldHead with
    | none => some heap1
    | some target =>
      if (heap1 target).is_freed then
        some (updBlk heap1 target fun b =>
          { b with node := { b.node with prev := some block_ptr } })
      else none
  let map1 ← map_set_item st.freed_block_map mapping_indices block_ptr
  -- `fl_bitmap |= 1 << (first & 0x1F); sl_bitmap[first] |= 1 << (second & 0x1F)`
  let first := mapping_indices.1
  let second := mapping_indices.2
  let row ← if first < FIRST_INDEX_REAL then some (st.sl_bitmap first) else none
  some { st with
    heap := heap2
    freed_block_map := map1
    fl_bitmap := st.fl_bitmap ||| (1 <<< (first % 32))
    sl_bitmap := Function.update st.sl_bitmap first (row ||| (1 <<< (second % 32))) }

/-- `(!0u32).overflowing_shl(n)`: the shift amount wraps modulo 32. -/
def overflowing_shl_u32 (x n : Nat) : Nat := (x <<< (n % 32)) % U32

def second_level_mask (second : Nat) : Nat := overflowing_shl_u32 (U32 - 1) second

def first_level_mask (first : Nat) : Nat := overflowing_shl_u32 (U32 - 1) (first + 1)

/-- `TLSFRawHeader::find_suitable_indices`.  The outer `Option` is a
panicking run (`sl_bitmap` indexed out of bounds); the inner `Option` is the
function's own result (`none` = no suitable class). -/
def find_suitable_indices (st : St) (size : Nat) : Option (Option (Nat × Nat)) := do
  let first := (calculate_mapping_indices (calculate_allocation_size size)).1
  let second := (calculate_mapping_indices (calculate_allocation_size size)).2
  let row ← if first < FIRST_INDEX_REAL then some (st.sl_bitmap first) else none
  let second_masked_bits := row &&& second_level_mask second
  if 0 < second_masked_bits then
    -- `calculate_lsb(..).unwrap()`: `calculate_lsb` never returns `none`.
    some (some (first, (calculate_lsb second_masked_bits).getD 0))
  else
    let first_masked_bits := st.fl_bitmap &&& first_level_mask first
    if first_masked_bits = 0 then
      some none
    else
      let first1 := (calculate_lsb first_masked_bits).getD 0
      let row1 ← if first1 < FIRST_INDEX_REAL then some (st.sl_bitmap first1) else none
      some (some (first1, (calculate_lsb row1).getD 0))

/-- `TLSFRawHeader::extract_root_block`: pop the head of the class.  Returns
the updated state and the popped block (`none` when the class was empty); the
outer `none` is a panicking run. -/
def extract_root_block (st : St) (mapping_indices : Nat × Nat) :
    Option (St × Option Nat) := do
  let block_ptr ← map_get_item st.freed_block_map mapping_indices
  match block_ptr with
  | none => some (st, none)
  | some bp =>
    let block := st.heap bp
    -- `assert!(block.is_freed())`, `buffer_as_freenode_as_mut().unwrap()`
    if block.is_freed = false then none else
    let next_block := block.node.next
    let heap1 := updBlk st.heap bp fun b => { b with node := ⟨none, none⟩ }
    match next_block with
    | none => do
      let map1 ← map_reset_item st.freed_block_map mapping_indices
      let first := mapping_indices.1
      let second := mapping_indices.2
      let row ← if first < FIRST_INDEX_REAL then some (st.sl_bitmap first) else none
      let row1 := row ^^^ (1 <<< (second % 32))
      let fl1 := if row1 = 0 then st.fl_bitmap ^^^ (1 <<< (first % 32)) else st.fl_bitmap
      some ({ st with
        heap := heap1
        freed_block_map := map1
        sl_bitmap := Function.update st.sl_bitmap first row1
        fl_bitmap := fl1 }, some bp)
    | some nb => do
      let map1 ← map_set_item st.freed_block_map mapping_indices nb
      -- `item_as_mut(mi) …buffer_as_freenode_as_mut().unwrap().prev = None`
      if (heap1 nb).is_freed = false then none else
      let heap2 := updBlk heap1 nb fun b => { b with node := { b.node with prev := none } }
      some ({ st with heap := heap2, freed_block_map := map1 }, some bp)

/-- `TLSFRawHeader::extract_freed_block`: unlink `block_ptr` from the middle
or head of its class list.  `none` is a panicking run. -/
def extract_freed_block (st : St) (block_ptr : Nat) : Option St := do
  let block := st.heap block_ptr
  -- `assert_eq!(block.is_freed(), true)`
  if block.is_freed = false then none else
  let p0 := block.node.prev
  let n0 := block.node.next
  -- `next_block.freenode.prev = freed_list.prev`
  let heap1 ←
    match n0 with
    | some nb =>
      if (st.heap nb).is_freed then
        some (updBlk st.heap nb fun b => { b with node := { b.node with prev := p0 } })
      else none
    | none => some st.heap
  -- `prev_block.freenode.next = freed_list.next`
  let heap2 ←
    match p0 with
    | some pb =>
      if (heap1 pb).is_freed then
        some (updBlk heap1 pb fun b => { b with node := { b.node with next := n0 } })
      else none
    | none => some heap1
  let mapping_indices := calculate_mapping_indices block.buffer_size
  let block_in_map ← map_get_item st.freed_block_map mapping_indices
  let upd ←
    match block_in_map with
    | some head =>
      if head = block_ptr then
        match n0 with
        | some nb => do
          let map1 ← map_set_item st.freed_block_map mapping_indices nb
          some (map1, st.sl_bitmap, st.fl_bitmap)
        | none => do
          let map1 ← map_reset_item st.freed_block_map mapping_indices
          let first := mapping_indices.1
          let second := mapping_indices.2
          let row ← if first < FIRST_INDEX_REAL then some (st.sl_bitmap first) else none
          let row1 := row ^^^ (1 <<< (second % 32))
          let fl1 := if row1 = 0 then st.fl_bitmap ^^^ (1 <<< (first % 32)) else st.fl_bitmap
          some (map1, Function.update st.sl_bitmap first row1, fl1)
      else some (st.freed_block_map, st.sl_bitmap, st.fl_bitmap)
    | none => some (st.freed_block_map, st.sl_bitmap, st.fl_bitmap)
  -- `freed_list.prev = None; freed_list.next = None`
  let heap3 := updBlk heap2 block_ptr fun b => { b with node := ⟨none, none⟩ }
  some { st with
    heap := heap3
    freed_block_map := upd.1
    sl_bitmap := upd.2.1
    fl_bitmap := upd.2.2 }

/-! ## Allocate and free (`lib.rs`) -/

/-- `BLOCK_SIZE` from `RootPool::alloc`: the least size a split remainder can
host (`BlockHeader::get_aligned_size() + mem::size_of::<FreeNode>()`). -/
def BLOCK_SIZE : Nat := BlockHeader.get_aligned_size + FreeNode.size_of

/-- The split step of `RootPool::alloc` (`lib.rs` lines 110-139), acting on
the already-extracted block at address `sb`; `aligned_size` is the searching
size.  `none` is a panicking run. -/
def alloc_split_step (st : St) (sb : Nat) (aligned_size : Nat) : Option St := do
  let suitable := st.heap sb
  let remained_size := suitable.buffer_size - aligned_size
  if remained_size < BLOCK_SIZE then
    -- `suitable_block.next_block_as_mut().set_previous_freed(false)`
    let nb := next_block_addr sb suitable
    some { st with heap := updBlk st.heap nb fun b => b.set_previous_freed false }
  else
    -- `ptr::write(buffer + aligned_size, BlockHeader::new(sz, true, false, None))`
    let new_buffer_size := remained_size - BlockHeader.get_aligned_size
    let new_block_addr := sb + BlockHeader.get_aligned_size + aligned_size
    let heap1 := updBlk st.heap new_block_addr fun b =>
      { b with previous_header := none
               stored_size := calculate_stored_size new_buffer_size true false }
    -- `orig_next_block.set_previous_header(new_block_ptr)`
    let orig_next := next_block_addr sb suitable
    let heap2 := updBlk heap1 orig_next fun b => b.set_previous_header new_block_addr
    -- `suitable_block.set_buffer_size(aligned_size)`
    let sb1 ← (heap2 sb).set_buffer_size aligned_size
    let heap3 := Function.update heap2 sb sb1
    insert_block { st with heap := heap3 } new_block_addr
      (calculate_mapping_indices new_buffer_size)

/-- `RootPool::alloc` (`lib.rs`): the updated state and the allocated buffer
address (inner `none` = null return).  The outer `none` is a panicking run. -/
def root_alloc (st : St) (size : Nat) : Option (St × Option Nat) := do
  let aligned_size := calculate_allocation_searching_size size
  let found ← find_suitable_indices st aligned_size
  match found with
  | none => some (st, none)
  | some mapping_indices => do
    let res ← extract_root_block st mapping_indices
    match res.2 with
    | none => some (res.1, none)
    | some sb => do
      let st1 := res.1
      -- `assert!(suitable_block.buffer_size() >= aligned_size)`
      if (st1.heap sb).buffer_size < aligned_size then none else
      let st2 ← alloc_split_step st1 sb aligned_size
      -- `suitable_block.set_freed(false); used += buffer_size_with_header()`
      let heap4 := updBlk st2.heap sb fun b => b.set_freed false
      some ({ st2 with
        heap := heap4
        used_memory_size := st2.used_memory_size + (heap4 sb).buffer_size_with_header },
        some (sb + BlockHeader.get_aligned_size))

/-- `RootPool::dealloc` (`lib.rs`): free the buffer at `ptr`.  `none` is a
panicking run. -/
def root_dealloc (st : St) (ptr : Nat) : Option St := do
  let baddr := ptr - BlockHeader.get_aligned_size
  -- `block.set_freed(true)`
  let heap0 := updBlk st.heap baddr fun b => b.set_freed true
  -- `used -= buffer_size_with_header()`, then write a fresh `FreeNode`
  let used0 := st.used_memory_size - (heap0 baddr).buffer_size_with_header
  let heap1 := updBlk heap0 baddr fun b => { b with node := FreeNode.new }
  let st0 : St := { st with heap := heap1, used_memory_size := used0 }
  -- forward merge with the next physical block when it is free
  let nb := next_block_addr baddr (heap1 baddr)
  let st1 ←
    if (heap1 nb).is_freed then do
      let additional := (heap1 nb).buffer_size_with_header
      let stx ← extract_freed_block st0 nb
      let b1 ← (stx.heap baddr).set_buffer_size ((stx.heap baddr).buffer_size + additional)
      some { stx with heap := Function.update stx.heap baddr b1 }
    else some st0
  -- backward merge with the previous physical block when it is free
  let block1 := st1.heap baddr
  if block1.is_prev_freed then do
    let pb ← block1.previous_header   -- `previous_block_ptr().unwrap()`
    let sty ← extract_freed_block st1 pb
    let p1 ← (sty.heap pb).set_buffer_size
      ((sty.heap pb).buffer_size + (sty.heap baddr).buffer_size_with_header)
    let heap2 := Function.update sty.heap pb p1
    let stz ← insert_block { sty with heap := heap2 } pb
      (calculate_mapping_indices p1.buffer_size)
    -- `prev_next_block.set_previous_freed(true); …set_previous_header(prev)`
    let pnext := next_block_addr pb (stz.heap pb)
    let heap3 := updBlk stz.heap pnext fun b =>
      (b.set_previous_freed true).set_previous_header pb
    some { stz with heap := heap3 }
  else do
    let stz ← insert_block st1 baddr (calculate_mapping_indices block1.buffer_size)
    -- `next_block.set_previous_freed(true); …set_previous_header(block)`
    let pnext := next_block_addr baddr (stz.heap baddr)
    let heap3 := updBlk stz.heap pnext fun b =>
      (b.set_previous_freed true).set_previous_header baddr
    some { stz with heap := heap3 }

/-- Steps 1–2 of `initialize_pool` (`structs.rs`):
`ptr::write(start_block_ptr, BlockHeader::new_start_block())` followed by
`ptr::write(areainfo_ptr, AreaInfo::new())` into the start block's buffer. -/
def ip_write_start (heap : Heap) (start_addr : Nat) : Heap :=
  let heap1 := updBlk heap start_addr fun b =>
    { b with previous_header := none
             stored_size :=
               calculate_stored_size (calculate_allocation_size AreaInfo.size_of)
                 false false }
  updBlk heap1 start_addr fun b => { b with area_end := none, area_next := none }

/-- Step 3 of `initialize_pool`: the first block's header
(`BlockHeader::new(buffer_size, false, false, None)`) and a fresh `FreeNode`
in its buffer. -/
def ip_write_first (heap : Heap) (next_addr buffer_size : Nat) : Heap :=
  let heap3 := updBlk heap next_addr fun b =>
    { b with previous_header := none
             stored_size := calculate_stored_size buffer_size false false }
  updBlk heap3 next_addr fun b => { b with node := FreeNode.new }

/-- Step 4 of `initialize_pool`: the end sentinel header
(`BlockHeader::new(0, false, true, Some(next_block))`). -/
def ip_write_end (heap : Heap) (end_addr next_addr : Nat) : Heap :=
  updBlk heap end_addr fun b =>
    { b with previous_header := some next_addr
             stored_size := calculate_stored_size 0 false true }

/-- `initialize_pool` (`structs.rs`): lay out the start sentinel (holding a
fresh `AreaInfo`), the first block (holding a fresh `FreeNode`) and the end
sentinel at `start_addr`, then point the `AreaInfo` at the end sentinel.
`none` models a failed assert (the `usize` subtraction computing the first
block's size would be a debug-build panic when `total_size < 64`; theorems
about this function carry `64 ≤ total_size`). -/
def initialize_pool (heap : Heap) (start_addr total_size : Nat) : Option Heap :=
  if is_aligned total_size = false then none else
  let heap2 := ip_write_start heap start_addr
  let buffer_size :=
    total_size - (heap2 start_addr).buffer_size - 3 * BlockHeader.get_aligned_size
  let next_addr := next_block_addr start_addr (heap2 start_addr)
  let heap4 := ip_write_first heap2 next_addr buffer_size
  let end_addr := next_block_addr next_addr (heap4 next_addr)
  let heap5 := ip_write_end heap4 end_addr next_addr
  -- `start_block.buffer_as_areainfo_as_mut().unwrap().end_block_header = …`
  if (heap5 start_addr).is_freed then none else
  some (updBlk heap5 start_addr fun b => { b with area_end := some end_addr })

/-- An all-blank block record (zeroed memory). -/
def emptyBlk : Blk := ⟨none, 0, FreeNode.new, none, none⟩

/-- `TLSFRawHeader::new()` paired with an all-zero heap. -/
def emptySt : St := ⟨fun _ => emptyBlk, 0, fun _ => 0, fun _ => none, none, 0, 0⟩

/-- Bitmap–list consistency of the free-block index: for every class
`(fl, sl)` the head pointer `freed_block_map[fl*SECOND_INDEX_MAX + sl]` is
non-null exactly when bit `sl` of `sl_bitmap[fl]` is set, and `sl_bitmap[fl]`
is non-zero exactly when bit `fl` of `fl_bitmap` is set. -/
def index_consistent (st : St) : Prop :=
  (∀ fl sl, fl < FIRST_INDEX_REAL → sl < SECOND_INDEX_MAX →
    (st.freed_block_map (fl * SECOND_INDEX_MAX + sl)).isSome =
      (st.sl_bitmap fl).testBit sl) ∧
  (∀ fl, fl < FIRST_INDEX_REAL →
    (st.sl_bitmap fl ≠ 0 ↔ st.fl_bitmap.testBit fl = true))

/-- Index states reachable from the zeroed index (`TLSFRawHeader::new`) by
the three free-list operations.  `mi.2 < SECOND_INDEX_MAX` mirrors the
callers, which always pass `calculate_mapping_indices` results (whose second
component is `< SECOND_INDEX_MAX` for every size); the heap may be mutated
arbitrarily between operations (`alloc`/`dealloc` write block headers
directly). -/
inductive IndexReachable : St → Prop where
  | base (st : St) (h1 : st.fl_bitmap = 0) (h2 : ∀ i, st.sl_bitmap i = 0)
      (h3 : ∀ i, st.freed_block_map i = none) : IndexReachable st
  | insert (st st' : St) (bp : Nat) (mi : Nat × Nat) (hr : IndexReachable st)
      (hsl : mi.2 < SECOND_INDEX_MAX) (hs : insert_block st bp mi = some st') :
      IndexReachable st'
  | extract_head (st st' : St) (mi : Nat × Nat) (ob : Option Nat)
      (hr : IndexReachable st) (hsl : mi.2 < SECOND_INDEX_MAX)
      (hs : extract_root_block st mi = some (st', ob)) : IndexReachable st'
  | extract (st st' : St) (bp : Nat) (hr : IndexReachable st)
      (hs : extract_freed_block st bp = some st') : IndexReachable st'
  | mutate_heap (st : St) (h : Heap) (hr : IndexReachable st) :
      IndexReachable { st with heap := h }

/-- The least buffer size whose TLSF class is `(fl, sl)`: class `(0, sl)`
holds the sizes `[4*sl, 4*sl + 4)` and class `(fl, sl)` with `fl ≥ 1` holds
the sizes `[2^(fl+6) + sl*2^(fl+1), 2^(fl+6) + (sl+1)*2^(fl+1))`. -/
def class_floor (mi : Nat × Nat) : Nat :=
  if mi.1 = 0 then mi.2 * 4 else 2 ^ (mi.1 + 6) + mi.2 * 2 ^ (mi.1 + 1)

/-! ## Bridge lemmas: the table-driven bit search computes `Nat.log2` -/

theorem byteOffsetAux_of_le (fuel v : Nat) (h : v ≤ 0xFF) : byteOffsetAux fuel v = 0 := by
  cases fuel with
  | zero => rfl
  | succ f => simp [byteOffsetAux, Nat.not_lt.mpr h]

theorem byteOffsetAux_congr (f1 : Nat) : ∀ f2 v, v ≤ f1 → v ≤ f2 →
    byteOffsetAux f1 v = byteOffsetAux f2 v := by
  induction f1 with
  | zero =>
    intro f2 v h1 _
    interval_cases v
    exact (byteOffsetAux_of_le f2 0 (by norm_num)).symm
  | succ f ih =>
    intro f2 v h1 h2
    by_cases hv : 0xFF < v
    · obtain ⟨f2', rfl⟩ : ∃ f2', f2 = f2' + 1 := ⟨f2 - 1, by omega⟩
      simp only [byteOffsetAux, if_pos hv]
      have hd : v >>> 8 < v := by
        rw [Nat.shiftRight_eq_div_pow]
        exact Nat.div_lt_self (by omega) (by norm_num)
      have := ih f2' (v >>> 8) (by omega) (by omega)
      omega
    · rw [byteOffsetAux_of_le _ _ (by omega), byteOffsetAux_of_le _ _ (by omega)]

theorem byteOffset_of_le (v : Nat) (h : v ≤ 0xFF) : byteOffset v = 0 :=
  byteOffsetAux_of_le v v h

theorem byteOffset_step (v : Nat) (h : 0xFF < v) :
    byteOffset v = 8 + byteOffset (v >>> 8) := by
  obtain ⟨f, hf⟩ : ∃ f, v = f + 1 := ⟨v - 1, by omega⟩
  have hd : v >>> 8 < v := by
    rw [Nat.shiftRight_eq_div_pow]
    exact Nat.div_lt_self (by omega) (by norm_num)
  calc byteOffset v = byteOffsetAux v v := rfl
    _ = 8 + byteOffsetAux f (v >>> 8) := by rw [hf]; simp [byteOffsetAux, if_pos (hf ▸ h)]
    _ = 8 + byteOffsetAux (v >>> 8) (v >>> 8) := by
        rw [byteOffsetAux_congr f (v >>> 8) (v >>> 8) (by omega) le_rfl]
    _ = 8 + byteOffset (v >>> 8) := rfl

set_option maxRecDepth 4000 in
theorem indexTable_bounds :
    ∀ i < 256, 1 ≤ i → 2 ^ indexTable i ≤ i ∧ i < 2 ^ (indexTable i + 1) := by
  decide

theorem msb_core_bounds (v : Nat) (h : 0 < v) :
    2 ^ msb_core v ≤ v ∧ v < 2 ^ (msb_core v + 1) := by
  induction v using Nat.strong_induction_on with
  | _ v ih =>
    by_cases hv : v ≤ 0xFF
    · unfold msb_core
      rw [byteOffset_of_le v hv]
      simpa using indexTable_bounds v (by omega) (by omega)
    · push_neg at hv
      have hd : v >>> 8 < v := by
        rw [Nat.shiftRight_eq_div_pow]
        exact Nat.div_lt_self (by omega) (by norm_num)
      have h8 : 0 < v >>> 8 := by
        rw [Nat.shiftRight_eq_div_pow]
        exact Nat.div_pos (by norm_num; omega) (by norm_num : (0:Nat) < 2 ^ 8)
      obtain ⟨hl, hr⟩ := ih (v >>> 8) hd h8
      have hstep : msb_core v = msb_core (v >>> 8) + 8 := by
        unfold msb_core
        rw [byteOffset_step v (by omega), Nat.shiftRight_add]
        omega
      rw [hstep]
      have hdiv : v >>> 8 = v / 256 := by rw [Nat.shiftRight_eq_div_pow]
      constructor
      · calc 2 ^ (msb_core (v >>> 8) + 8) = 2 ^ msb_core (v >>> 8) * 256 := by ring
          _ ≤ (v >>> 8) * 256 := Nat.mul_le_mul_right _ hl
          _ = v / 256 * 256 := by rw [hdiv]
          _ ≤ v := Nat.div_mul_le_self v 256
      · have : v / 256 < 2 ^ (msb_core (v >>> 8) + 1) := hdiv ▸ hr
        have := (Nat.div_lt_iff_lt_mul (by norm_num : 0 < 256)).mp this
        calc v < 2 ^ (msb_core (v >>> 8) + 1) * 256 := this
          _ = 2 ^ (msb_core (v >>> 8) + 8 + 1) := by ring

theorem log2_eq_of_bounds (v k : Nat) (hl : 2 ^ k ≤ v) (hr : v < 2 ^ (k + 1)) :
    Nat.log2 v = k := by
  have h0 : v ≠ 0 := by
    have := Nat.pow_pos (n := k) (by norm_num : (0:Nat) < 2)
    omega
  have h1 := Nat.log2_self_le h0
  have h2 := Nat.lt_log2_self (n := v)
  have a1 : Nat.log2 v < k + 1 :=
    (Nat.pow_lt_pow_iff_right (by norm_num)).mp (Nat.lt_of_le_of_lt h1 hr)
  have a2 : k < Nat.log2 v + 1 :=
    (Nat.pow_lt_pow_iff_right (by norm_num)).mp (Nat.lt_of_le_of_lt hl h2)
  omega

theorem msb_core_eq_log2 (v : Nat) (h : 0 < v) : msb_core v = Nat.log2 v := by
  obtain ⟨hl, hr⟩ := msb_core_bounds v h
  exact (log2_eq_of_bounds v _ hl hr).symm

theorem calculate_msb_eq (v : Nat) (h : 0 < v) : calculate_msb v = some (Nat.log2 v) := by
  unfold calculate_msb
  rw [if_neg (by omega), msb_core_eq_log2 v h]

/-! ### Bit-level helper lemmas -/

theorem land_two_mul_add (a b e f : Nat) (he : e < 2) (hf : f < 2) :
    (2 * a + e) &&& (2 * b + f) = 2 * (a &&& b) + (e &&& f) := by
  have hef : e &&& f < 2 := by interval_cases e <;> interval_cases f <;> decide
  apply Nat.eq_of_testBit_eq
  intro i
  rw [Nat.testBit_land]
  cases i with
  | zero =>
    rw [Nat.testBit_zero, Nat.testBit_zero, Nat.testBit_zero]
    have h1 : (2 * a + e) % 2 = e := by omega
    have h2 : (2 * b + f) % 2 = f := by omega
    have h3 : (2 * (a &&& b) + (e &&& f)) % 2 = e &&& f := by omega
    rw [h1, h2, h3]
    interval_cases e <;> interval_cases f <;> decide
  | succ i =>
    rw [Nat.testBit_succ, Nat.testBit_succ, Nat.testBit_succ]
    have h1 : (2 * a + e) / 2 = a := by omega
    have h2 : (2 * b + f) / 2 = b := by omega
    have h3 : (2 * (a &&& b) + (e &&& f)) / 2 = a &&& b := by omega
    rw [h1, h2, h3, Nat.testBit_land]

theorem land_compl_self (w : Nat) : ∀ a, a < 2 ^ w → a &&& (2 ^ w - 1 - a) = 0 := by
  induction w with
  | zero =>
    intro a ha
    interval_cases a
    decide
  | succ w ih =>
    intro a ha
    obtain ⟨q, e, he, rfl⟩ : ∃ q e, e < 2 ∧ a = 2 * q + e :=
      ⟨a / 2, a % 2, by omega, by omega⟩
    have hq : q < 2 ^ w := by rw [pow_succ] at ha; omega
    have hsub : 2 ^ (w + 1) - 1 - (2 * q + e) = 2 * (2 ^ w - 1 - q) + (1 - e) := by
      rw [pow_succ]
      omega
    rw [hsub, land_two_mul_add _ _ _ _ he (by omega), ih q hq]
    have hzero : e &&& (1 - e) = 0 := by interval_cases e <;> decide
    rw [hzero]

theorem land_sub_self_pow (w : Nat) : ∀ x, 0 < x → x < 2 ^ w →
    ∃ k, x &&& (2 ^ w - x) = 2 ^ k ∧ x.testBit k = true ∧ ∀ j < k, x.testBit j = false := by
  induction w with
  | zero => intro x h0 h1; omega
  | succ w ih =>
    intro x h0 h1
    obtain ⟨q, e, he, rfl⟩ : ∃ q e, e < 2 ∧ x = 2 * q + e :=
      ⟨x / 2, x % 2, by omega, by omega⟩
    have hq : q < 2 ^ w := by rw [pow_succ] at h1; omega
    rcases e with _ | e
    · -- even case `x = 2 * q`
      have hq0 : 0 < q := by omega
      obtain ⟨k, hk, hbit, hmin⟩ := ih q hq0 hq
      refine ⟨k + 1, ?_, ?_, ?_⟩
      · have hsub : 2 ^ (w + 1) - (2 * q + 0) = 2 * (2 ^ w - q) + 0 := by
          rw [pow_succ]
          omega
        rw [hsub, land_two_mul_add _ _ _ _ (by omega) (by omega), hk]
        have hz : (0 &&& 0 : Nat) = 0 := rfl
        rw [hz, pow_succ]
        ring
      · rw [Nat.testBit_succ]
        have hdq : (2 * q + 0) / 2 = q := by omega
        rw [hdq]
        exact hbit
      · intro j hj
        cases j with
        | zero =>
          simp only [Nat.testBit_zero, decide_eq_false_iff_not]
          omega
        | succ j =>
          rw [Nat.testBit_succ]
          have hdq : (2 * q + 0) / 2 = q := by omega
          rw [hdq]
          exact hmin j (by omega)
    · -- odd case `x = 2 * q + 1`
      obtain rfl : e = 0 := by omega
      refine ⟨0, ?_, ?_, by omega⟩
      · have hsub : 2 ^ (w + 1) - (2 * q + 1) = 2 * (2 ^ w - 1 - q) + 1 := by
          rw [pow_succ]
          omega
        rw [hsub, land_two_mul_add _ _ _ _ (by omega) (by omega), land_compl_self w q hq]
        decide
      · simp only [Nat.testBit_zero, decide_eq_true_eq]
        omega

theorem lsb_isolate_spec (x : Nat) (h0 : 0 < x) (hx : x < U64) :
    ∃ k, lsb_isolate x = 2 ^ k ∧ x.testBit k = true ∧ ∀ j < k, x.testBit j = false := by
  have hU : U64 = 2 ^ 64 := rfl
  have hmod : x % U64 = x := Nat.mod_eq_of_lt hx
  have heq : (U64 - 1 - x % U64 + 1) % U64 = 2 ^ 64 - x := by
    rw [hmod, hU]
    rw [hU] at hx
    omega
  unfold lsb_isolate
  rw [heq]
  exact land_sub_self_pow 64 x h0 (hU ▸ hx)

theorem calculate_lsb_spec (x : Nat) (h0 : 0 < x) (hx : x < U64) :
    ∃ k, calculate_lsb x = some k ∧ x.testBit k = true ∧ ∀ j < k, x.testBit j = false := by
  obtain ⟨k, hiso, hbit, hmin⟩ := lsb_isolate_spec x h0 hx
  refine ⟨k, ?_, hbit, hmin⟩
  unfold calculate_lsb
  rw [hiso, msb_core_eq_log2 _ (Nat.pow_pos (by norm_num)), Nat.log2_two_pow]

theorem not64_two_pow_sub_one (k : Nat) (hk : k ≤ 64) : not64 (2 ^ k - 1) = 2 ^ 64 - 2 ^ k := by
  have h2 : (2:Nat) ^ k ≤ 2 ^ 64 := Nat.pow_le_pow_right (by norm_num) hk
  have h1 : (2:Nat) ^ k - 1 < 2 ^ 64 := by omega
  have hp : 0 < (2:Nat) ^ k := Nat.pow_pos (by norm_num)
  unfold not64 U64
  rw [Nat.mod_eq_of_lt h1]
  omega

theorem land_mask_high (x k : Nat) (hx : x < 2 ^ 64) (hk : k ≤ 64) :
    x &&& (2 ^ 64 - 2 ^ k) = x / 2 ^ k * 2 ^ k := by
  have hrw : (2:Nat) ^ 64 - 2 ^ k = (2 ^ (64 - k) - 1) <<< k := by
    rw [Nat.shiftLeft_eq, Nat.sub_mul, ← Nat.pow_add, Nat.one_mul]
    rw [Nat.sub_add_cancel hk]
  have hx2 : x / 2 ^ k * 2 ^ k = (x >>> k) <<< k := by
    rw [Nat.shiftRight_eq_div_pow, Nat.shiftLeft_eq]
  rw [hrw, hx2]
  apply Nat.eq_of_testBit_eq
  intro j
  rw [Nat.testBit_land, Nat.testBit_shiftLeft, Nat.testBit_shiftLeft,
    Nat.testBit_two_pow_sub_one, Nat.testBit_shiftRight]
  by_cases hj1 : k ≤ j
  · have hkj : k + (j - k) = j := by omega
    by_cases hj2 : j < 64
    · have hlt : j - k < 64 - k := by omega
      simp [hj1, hlt, hkj, ge_iff_le]
    · have hxj : x.testBit j = false :=
        Nat.testBit_lt_two_pow
          (lt_of_lt_of_le hx (Nat.pow_le_pow_right (by norm_num) (by omega)))
      simp [hj1, hkj, hxj, ge_iff_le]
  · simp [hj1, ge_iff_le]

theorem land_two_pow_sub_one_eq_mod (x n : Nat) : x &&& (2 ^ n - 1) = x % 2 ^ n := by
  apply Nat.eq_of_testBit_eq
  intro j
  rw [Nat.testBit_land, Nat.testBit_two_pow_sub_one, Nat.testBit_mod_two_pow]
  exact Bool.and_comm _ _

/-! ### Alignment and rounding -/

theorem is_aligned_iff (v : Nat) : is_aligned v = true ↔ v % 16 = 0 := by
  unfold is_aligned BLOCK_ALIGNOF
  rw [show (8 * 2 - 1 : Nat) = 2 ^ 4 - 1 by norm_num, land_two_pow_sub_one_eq_mod]
  norm_num

theorem round_up_block_eq (v : Nat) (h : v + 15 < U64) :
    round_up_block v = (v + 15) / 16 * 16 := by
  have hU : U64 = 2 ^ 64 := rfl
  unfold round_up_block BLOCK_ALIGNOF
  rw [show (8 * 2 - 1 : Nat) = 2 ^ 4 - 1 by norm_num]
  rw [not64_two_pow_sub_one 4 (by norm_num)]
  rw [Nat.mod_eq_of_lt (by rw [hU] at h; simpa using h)]
  rw [land_mask_high _ 4 (by rw [hU] at h; omega) (by norm_num)]
  norm_num

theorem round_up_block_bounds (v : Nat) (h : v + 15 < U64) :
    v ≤ round_up_block v ∧ round_up_block v < v + 16 ∧ round_up_block v % 16 = 0 := by
  rw [round_up_block_eq v h]
  have hdm := Nat.div_add_mod (v + 15) 16
  have hmlt : (v + 15) % 16 < 16 := Nat.mod_lt _ (by norm_num)
  have hml : (v + 15) / 16 * 16 % 16 = 0 := by
    simp [Nat.mul_mod_left]
  refine ⟨by omega, by omega, hml⟩

theorem round_up_block_of_aligned (v : Nat) (h : v + 15 < U64) (ha : v % 16 = 0) :
    round_up_block v = v := by
  rw [round_up_block_eq v h]
  omega

theorem lor_two_mul_add (a b e f : Nat) (he : e < 2) (hf : f < 2) :
    (2 * a + e) ||| (2 * b + f) = 2 * (a ||| b) + (e ||| f) := by
  have hef : e ||| f < 2 := by interval_cases e <;> interval_cases f <;> decide
  apply Nat.eq_of_testBit_eq
  intro i
  rw [Nat.testBit_lor]
  cases i with
  | zero =>
    rw [Nat.testBit_zero, Nat.testBit_zero, Nat.testBit_zero]
    have h1 : (2 * a + e) % 2 = e := by omega
    have h2 : (2 * b + f) % 2 = f := by omega
    have h3 : (2 * (a ||| b) + (e ||| f)) % 2 = e ||| f := by omega
    rw [h1, h2, h3]
    interval_cases e <;> interval_cases f <;> decide
  | succ i =>
    rw [Nat.testBit_succ, Nat.testBit_succ, Nat.testBit_succ]
    have h1 : (2 * a + e) / 2 = a := by omega
    have h2 : (2 * b + f) / 2 = b := by omega
    have h3 : (2 * (a ||| b) + (e ||| f)) / 2 = a ||| b := by omega
    rw [h1, h2, h3, Nat.testBit_lor]

theorem lor_of_lt (k : Nat) : ∀ q f, f < 2 ^ k → (2 ^ k * q) ||| f = 2 ^ k * q + f := by
  induction k with
  | zero =>
    intro q f hf
    interval_cases f
    simp
  | succ k ih =>
    intro q f hf
    obtain ⟨f1, e, he, rfl⟩ : ∃ f1 e, e < 2 ∧ f = 2 * f1 + e :=
      ⟨f / 2, f % 2, by omega, by omega⟩
    have hf1 : f1 < 2 ^ k := by rw [pow_succ] at hf; omega
    have hq : 2 ^ (k + 1) * q = 2 * (2 ^ k * q) + 0 := by rw [pow_succ]; ring
    rw [hq, lor_two_mul_add _ _ _ _ (by omega) he, ih q f1 hf1]
    have h0 : (0 ||| e) = e := Nat.zero_or e
    rw [h0]
    ring

theorem land_one (x : Nat) : x &&& 1 = x % 2 := by
  simpa using land_two_pow_sub_one_eq_mod x 1

theorem land_two_split (m f : Nat) : (16 * m + f) &&& 2 = f &&& 2 := by
  apply Nat.eq_of_testBit_eq
  intro j
  rw [Nat.testBit_land, Nat.testBit_land]
  match j with
  | 0 =>
    have h2 : (2:Nat).testBit 0 = false := by decide
    rw [h2, Bool.and_false, Bool.and_false]
  | 1 =>
    have h1 : (16 * m + f).testBit 1 = f.testBit 1 := by
      rw [Nat.testBit_to_div_mod, Nat.testBit_to_div_mod]
      have hd : (16 * m + f) / 2 ^ 1 % 2 = f / 2 ^ 1 % 2 := by
        norm_num
        omega
      rw [hd]
    rw [h1]
  | j + 2 =>
    have h2 : (2:Nat).testBit (j + 2) = false := by
      apply Nat.testBit_lt_two_pow
      calc (2:Nat) < 2 ^ 2 := by norm_num
        _ ≤ 2 ^ (j + 2) := Nat.pow_le_pow_right (by norm_num) (by omega)
    rw [h2, Bool.and_false, Bool.and_false]

/-! ### Characterization of `calculate_stored_size` -/

theorem calculate_stored_size_eq (sz : Nat) (fr pf : Bool) (h : sz + 15 < U64) :
    calculate_stored_size sz fr pf =
      round_up_block sz + ((cond fr 1 0) + (cond pf 2 0)) := by
  obtain ⟨-, -, hmod⟩ := round_up_block_bounds sz h
  unfold calculate_stored_size FREED_MASK PREV_FREED_MASK
  have hflags : ((if fr then 1 else 0x00) ||| (if pf then 2 else 0x00) : Nat) =
      (cond fr 1 0) + (cond pf 2 0) := by
    cases fr <;> cases pf <;> rfl
  rw [hflags]
  have hRrw : round_up_block sz = 2 ^ 4 * (round_up_block sz / 16) := by omega
  rw [hRrw, lor_of_lt 4 _ _ (by cases fr <;> cases pf <;> norm_num)]

theorem round_up_block_lt (sz : Nat) (h : sz + 15 < U64) :
    round_up_block sz ≤ U64 - 16 := by
  obtain ⟨h1, h2, hmod⟩ := round_up_block_bounds sz h
  have : U64 % 16 = 0 := by decide
  omega

theorem round_down_block_eq (v : Nat) (hv : v < U64) : round_down_block v = v / 16 * 16 := by
  unfold round_down_block BLOCK_ALIGNOF
  rw [show (8 * 2 - 1 : Nat) = 2 ^ 4 - 1 by norm_num, not64_two_pow_sub_one 4 (by norm_num),
    land_mask_high _ 4 hv (by norm_num)]
  norm_num

theorem buffer_size_stored (sz : Nat) (fr pf : Bool) (h : sz + 15 < U64) :
    round_down_block (calculate_stored_size sz fr pf) = round_up_block sz := by
  have hR := round_up_block_lt sz h
  obtain ⟨-, -, hmod⟩ := round_up_block_bounds sz h
  rw [calculate_stored_size_eq sz fr pf h]
  have hlt : round_up_block sz + ((cond fr 1 0) + (cond pf 2 0)) < U64 := by
    cases fr <;> cases pf <;> simp [cond] <;> omega
  rw [round_down_block_eq _ hlt]
  cases fr <;> cases pf <;> simp [cond] <;> omega

theorem freed_flag_stored (sz : Nat) (fr pf : Bool) (h : sz + 15 < U64) :
    ((calculate_stored_size sz fr pf) &&& FREED_MASK != 0) = fr := by
  obtain ⟨-, -, hmod⟩ := round_up_block_bounds sz h
  rw [calculate_stored_size_eq sz fr pf h]
  show ((_ &&& 1 != 0) = fr)
  rw [land_one]
  cases fr <;> cases pf <;> simp [cond] <;> omega

theorem prev_freed_flag_stored (sz : Nat) (fr pf : Bool) (h : sz + 15 < U64) :
    ((calculate_stored_size sz fr pf) &&& PREV_FREED_MASK != 0) = pf := by
  obtain ⟨-, -, hmod⟩ := round_up_block_bounds sz h
  rw [calculate_stored_size_eq sz fr pf h]
  show ((_ &&& 2 != 0) = pf)
  have hrw : round_up_block sz + ((cond fr 1 0) + (cond pf 2 0)) =
      16 * (round_up_block sz / 16) + ((cond fr 1 0) + (cond pf 2 0)) := by omega
  rw [hrw, land_two_split]
  cases fr <;> cases pf <;> rfl

/-! ### Constant normalizations and mapping-index bounds -/

theorem SECOND_INDEX_MAX_eq : SECOND_INDEX_MAX = 32 := rfl

theorem TOTAL_COUNT_eq : TOTAL_COUNT = 960 := rfl

theorem FIRST_INDEX_REAL_eq : FIRST_INDEX_REAL = 30 := rfl

theorem header_aligned_eq : BlockHeader.get_aligned_size = 16 := by decide

theorem areainfo_aligned_eq : AreaInfo.get_aligned_size = 16 := by decide

theorem BLOCK_SIZE_eq : BLOCK_SIZE = 32 := by decide

@[simp] theorem updBlk_same (h : Heap) (a : Nat) (f : Blk → Blk) :
    updBlk h a f a = f (h a) := by
  simp [updBlk]

theorem updBlk_ne (h : Heap) (a b : Nat) (f : Blk → Blk) (hab : b ≠ a) :
    updBlk h a f b = h b := by
  simp [updBlk, Function.update_noteq hab]

theorem mapping_indices_small (sz : Nat) (h : sz < 128) :
    calculate_mapping_indices sz = (0, sz / 4) := by
  unfold calculate_mapping_indices
  rw [if_pos (by exact h), show SMALL_BLOCK_SIZE / SECOND_INDEX_MAX = 4 from by decide]

theorem mapping_indices_large (sz : Nat) (h : 128 ≤ sz) :
    calculate_mapping_indices sz =
      (Nat.log2 sz - 6, (sz >>> (Nat.log2 sz - 5)) - 32) := by
  unfold calculate_mapping_indices
  rw [if_neg (by simp [SMALL_BLOCK_SIZE]; omega), calculate_msb_eq sz (by omega)]
  rfl

theorem log2_ge_seven (sz : Nat) (h : 128 ≤ sz) : 7 ≤ Nat.log2 sz := by
  by_contra hcon
  push_neg at hcon
  have h1 : sz < 2 ^ (Nat.log2 sz + 1) := Nat.lt_log2_self
  have h2 : (2:Nat) ^ (Nat.log2 sz + 1) ≤ 2 ^ 7 :=
    Nat.pow_le_pow_right (by norm_num) (by omega)
  norm_num at h2
  omega

theorem mapping_fst_lt (sz : Nat) (h : sz < 2 ^ 36) :
    (calculate_mapping_indices sz).1 < 30 := by
  by_cases hs : sz < 128
  · rw [mapping_indices_small sz hs]
    norm_num
  · push_neg at hs
    rw [mapping_indices_large sz hs]
    have h1 : 2 ^ Nat.log2 sz ≤ sz := Nat.log2_self_le (by omega)
    have h2 : Nat.log2 sz < 36 := by
      by_contra hcon
      push_neg at hcon
      have : (2:Nat) ^ 36 ≤ 2 ^ Nat.log2 sz := Nat.pow_le_pow_right (by norm_num) hcon
      omega
    simp only []
    omega

theorem mapping_snd_lt (sz : Nat) : (calculate_mapping_indices sz).2 < 32 := by
  by_cases hs : sz < 128
  · rw [mapping_indices_small sz hs]
    simp only []
    omega
  · push_neg at hs
    rw [mapping_indices_large sz hs]
    have h7 := log2_ge_seven sz hs
    have h1 : sz < 2 ^ (Nat.log2 sz + 1) := Nat.lt_log2_self
    have h2 : sz >>> (Nat.log2 sz - 5) < 64 := by
      rw [Nat.shiftRight_eq_div_pow]
      rw [Nat.div_lt_iff_lt_mul (Nat.pow_pos (by norm_num))]
      calc sz < 2 ^ (Nat.log2 sz + 1) := h1
        _ = 64 * 2 ^ (Nat.log2 sz - 5) := by
            rw [show (64:Nat) = 2 ^ 6 by norm_num, ← pow_add]
            congr 1
            omega
    simp only []
    omega

theorem calculate_index_lt (sz : Nat) (h : (calculate_mapping_indices sz).1 < 30) :
    calculate_index (calculate_mapping_indices sz) < TOTAL_COUNT := by
  have h2 := mapping_snd_lt sz
  rw [TOTAL_COUNT_eq]
  unfold calculate_index
  rw [SECOND_INDEX_MAX_eq]
  omega

/-! ### Frame helpers and `insert_block` characterization -/

theorem shift_small (k : Nat) (h : k < 32) : (1 <<< (k % 32) : Nat) = 2 ^ k := by
  rw [Nat.mod_eq_of_lt h, Nat.shiftLeft_eq, one_mul]

theorem updBlk_stored_size (h : Heap) (a b : Nat) (f : Blk → Blk)
    (hf : ∀ blk, (f blk).stored_size = blk.stored_size) :
    ((updBlk h a f) b).stored_size = (h b).stored_size := by
  by_cases hab : b = a
  · subst hab
    rw [updBlk_same, hf]
  · rw [updBlk_ne _ _ _ _ hab]

theorem updBlk_is_freed (h : Heap) (a b : Nat) (f : Blk → Blk)
    (hf : ∀ blk, (f blk).stored_size = blk.stored_size) :
    ((updBlk h a f) b).is_freed = (h b).is_freed := by
  unfold Blk.is_freed
  rw [updBlk_stored_size h a b f hf]

theorem updBlk_is_prev_freed (h : Heap) (a b : Nat) (f : Blk → Blk)
    (hf : ∀ blk, (f blk).stored_size = blk.stored_size) :
    ((updBlk h a f) b).is_prev_freed = (h b).is_prev_freed := by
  unfold Blk.is_prev_freed
  rw [updBlk_stored_size h a b f hf]

theorem updBlk_buffer_size (h : Heap) (a b : Nat) (f : Blk → Blk)
    (hf : ∀ blk, (f blk).stored_size = blk.stored_size) :
    ((updBlk h a f) b).buffer_size = (h b).buffer_size := by
  unfold Blk.buffer_size
  rw [updBlk_stored_size h a b f hf]

theorem updBlk_previous_header (h : Heap) (a b : Nat) (f : Blk → Blk)
    (hf : ∀ blk, (f blk).previous_header = blk.previous_header) :
    ((updBlk h a f) b).previous_header = (h b).previous_header := by
  by_cases hab : b = a
  · subst hab
    rw [updBlk_same, hf]
  · rw [updBlk_ne _ _ _ _ hab]

theorem insert_block_eq_empty (st : St) (bp : Nat) (mi : Nat × Nat)
    (hfree : (st.heap bp).is_freed = true)
    (hfl : mi.1 < FIRST_INDEX_REAL)
    (hidx : calculate_index mi < TOTAL_COUNT)
    (hnone : st.freed_block_map (calculate_index mi) = none) :
    insert_block st bp mi = some { st with
      heap := updBlk st.heap bp fun b => { b with node := ⟨none, none⟩ }
      freed_block_map := Function.update st.freed_block_map (calculate_index mi) (some bp)
      fl_bitmap := st.fl_bitmap ||| (1 <<< (mi.1 % 32))
      sl_bitmap := Function.update st.sl_bitmap mi.1
        (st.sl_bitmap mi.1 ||| (1 <<< (mi.2 % 32))) } := by
  obtain ⟨fl, sl⟩ := mi
  have hle : ¬ TOTAL_COUNT ≤ calculate_index (fl, sl) := by omega
  simp only [insert_block, map_get_item, map_set_item, hfree, hnone, hle, hidx, hfl,
    Bool.true_eq_false, if_false, if_true, ite_true, ite_false, Option.some_bind,
    reduceCtorEq]
  simp [hle, hidx, hfl]

theorem insert_block_eq_head (st : St) (bp t : Nat) (mi : Nat × Nat)
    (hfree : (st.heap bp).is_freed = true)
    (hfl : mi.1 < FIRST_INDEX_REAL)
    (hidx : calculate_index mi < TOTAL_COUNT)
    (hsome : st.freed_block_map (calculate_index mi) = some t)
    (htfree : (st.heap t).is_freed = true) :
    insert_block st bp mi = some { st with
      heap := updBlk (updBlk st.heap bp fun b => { b with node := ⟨none, some t⟩ }) t
        fun b => { b with node := { b.node with prev := some bp } }
      freed_block_map := Function.update st.freed_block_map (calculate_index mi) (some bp)
      fl_bitmap := st.fl_bitmap ||| (1 <<< (mi.1 % 32))
      sl_bitmap := Function.update st.sl_bitmap mi.1
        (st.sl_bitmap mi.1 ||| (1 <<< (mi.2 % 32))) } := by
  obtain ⟨fl, sl⟩ := mi
  have ht1 : ((updBlk st.heap bp fun b => { b with node := ⟨none, some t⟩ }) t).is_freed =
      true := by
    rw [updBlk_is_freed st.heap bp t (fun b => { b with node := ⟨none, some t⟩ })
      (fun blk => rfl)]
    exact htfree
  have hle : ¬ TOTAL_COUNT ≤ calculate_index (fl, sl) := by omega
  simp only [insert_block, map_get_item, map_set_item, hfree, hsome, hle, hidx, hfl, ht1,
    Bool.true_eq_false, if_false, if_true, ite_true, ite_false, Option.some_bind,
    reduceCtorEq]
  simp [hle, hidx, hfl, ht1]

/-! ## Claim C10 -/

/-- C10: `calculate_lsb 0 = Some 0`, unlike `calculate_msb`, which returns
`None` for input 0; `calculate_lsb` never returns `None` and reports bit
index 0 for a value with no set bit. -/
theorem C10_calculate_lsb_zero :
    calculate_lsb 0 = some 0 ∧ calculate_msb 0 = none ∧
      ∀ v, (calculate_lsb v).isSome = true :=
  ⟨by decide, rfl, fun _ => rfl⟩

/-! ## Claim C9 -/

/-- C9: for a `BLOCK_ALIGN`-aligned size `s`, `set_buffer_size s` makes
`buffer_size()` return `s` and leaves the `FREE` flag, the `PREV_FREE` flag
and `prev_physical` unchanged; for an unaligned `s` the alignment assertion
fails (modelled as `none`). -/
theorem C9_set_buffer_size_frame (b : Blk) (s : Nat) (hbound : s + 15 < U64) :
    (s % 16 = 0 →
      ∃ b1, b.set_buffer_size s = some b1 ∧
        b1.buffer_size = s ∧
        b1.is_freed = b.is_freed ∧
        b1.is_prev_freed = b.is_prev_freed ∧
        b1.previous_header = b.previous_header) ∧
    (s % 16 ≠ 0 → b.set_buffer_size s = none) := by
  constructor
  · intro hs
    refine ⟨{ b with stored_size := calculate_stored_size s b.is_freed b.is_prev_freed },
      ?_, ?_, ?_, ?_, rfl⟩
    · unfold Blk.set_buffer_size
      rw [if_pos ((is_aligned_iff s).mpr hs)]
    · show round_down_block (calculate_stored_size s b.is_freed b.is_prev_freed) = s
      rw [buffer_size_stored s _ _ hbound, round_up_block_of_aligned s hbound hs]
    · show (calculate_stored_size s b.is_freed b.is_prev_freed &&& FREED_MASK != 0) = b.is_freed
      exact freed_flag_stored s _ _ hbound
    · show (calculate_stored_size s b.is_freed b.is_prev_freed &&& PREV_FREED_MASK != 0) =
        b.is_prev_freed
      exact prev_freed_flag_stored s _ _ hbound
  · intro hs
    unfold Blk.set_buffer_size
    rw [if_neg (by simpa [is_aligned_iff] using hs)]

/-- Witness for C9 at a concrete block and the concrete sizes 48 and 23. -/
theorem C9_set_buffer_size_frame_witness :
    (∃ b1, Blk.set_buffer_size ⟨some 5, 35, FreeNode.new, none, none⟩ 48 = some b1 ∧
      b1.buffer_size = 48 ∧ b1.is_freed = true ∧ b1.is_prev_freed = true ∧
      b1.previous_header = some 5) ∧
    Blk.set_buffer_size ⟨some 5, 35, FreeNode.new, none, none⟩ 23 = none := by
  constructor
  · obtain ⟨b1, h1, h2, h3, h4, h5⟩ :=
      (C9_set_buffer_size_frame ⟨some 5, 35, FreeNode.new, none, none⟩ 48
        (by norm_num [U64])).1 (by norm_num)
    exact ⟨b1, h1, h2, by rw [h3]; decide, by rw [h4]; decide, h5⟩
  · exact (C9_set_buffer_size_frame ⟨some 5, 35, FreeNode.new, none, none⟩ 23
      (by norm_num [U64])).2 (by norm_num)

/-! ## Claim C5 -/

/-- C5 counterexample: at `total = 1`, `last_chunk_bytes = 3`, `req = 16` the
power-of-two bound is `a = 32` and `4a = 128 > 2 × 3`, so the claim demands
`4a` rounded up to a multiple of 3 (which is 129), but `next_chunk_size`
returns 128, not a multiple of 3: the mask rounding `(4a + last−1) & !(last−1)`
only rounds to a multiple for power-of-two `last_chunk_bytes`. -/
theorem C5_next_chunk_size_counterexample :
    next_chunk_size 1 3 16 = 128 ∧ ¬ (3 ∣ 128) ∧ 3 * 2 < 4 * 32 ∧
      2 ^ (Nat.log2 16 + 1) = 32 := by
  refine ⟨by decide, by decide, by decide, ?_⟩
  rw [show (16:Nat) = 2 ^ 4 by norm_num, Nat.log2_two_pow]
  norm_num

/-- C5 amended: with `a = 2 ^ (log2 req + 1)` — the least power of two
strictly greater than the request, so twice the request when the request is
itself a power of two — `next_chunk_size` returns, for `max_bytes = 0`,
`2 MiB` when `4a ≤ 2 MiB` and otherwise `4a` rounded up to a multiple of
`8 MiB`; for `max_bytes ≠ 0` it returns `last_chunk_bytes × 2` when `4a` is
not larger, and otherwise `(4a + last−1) & !(last−1)`, which equals rounding
`4a` up to a multiple of `last_chunk_bytes` only when `last_chunk_bytes` is a
power of two (the power-of-two case is stated here; the counterexample shows
the general-multiple reading false). -/
theorem C5_next_chunk_size_amended (total last size : Nat)
    (h0 : 0 < size) (hsz : size < 2 ^ 60) :
    (total = 0 →
      next_chunk_size total last size =
        if 4 * 2 ^ (Nat.log2 size + 1) ≤ megabytes_of 2 then megabytes_of 2
        else (4 * 2 ^ (Nat.log2 size + 1) + (megabytes_of 8 - 1)) / megabytes_of 8 *
          megabytes_of 8) ∧
    (∀ k, total ≠ 0 → k ≤ 60 → last = 2 ^ k →
      next_chunk_size total last size =
        if 4 * 2 ^ (Nat.log2 size + 1) ≤ 2 * last then 2 * last
        else (4 * 2 ^ (Nat.log2 size + 1) + (last - 1)) / last * last) ∧
    size < 2 ^ (Nat.log2 size + 1) ∧ 2 ^ (Nat.log2 size + 1) ≤ 2 * size := by
  have hlogle : 2 ^ Nat.log2 size ≤ size := Nat.log2_self_le (by omega)
  have hloglt : size < 2 ^ (Nat.log2 size + 1) := Nat.lt_log2_self
  have hlog60 : Nat.log2 size < 60 := by
    by_contra hcon
    push_neg at hcon
    have : (2:Nat) ^ 60 ≤ 2 ^ Nat.log2 size := Nat.pow_le_pow_right (by norm_num) hcon
    omega
  have hpow : (2:Nat) ^ (Nat.log2 size + 1) ≤ 2 ^ 61 :=
    Nat.pow_le_pow_right (by norm_num) (by omega)
  have h64 : (2:Nat) ^ 61 < 2 ^ 64 := by norm_num
  have haligned :
      (if 0 < size then (1 <<< (((calculate_msb size).getD 0 + 1) % 64)) % U64 else 1024) =
        2 ^ (Nat.log2 size + 1) := by
    rw [if_pos h0, calculate_msb_eq size h0]
    show (1 <<< ((Nat.log2 size + 1) % 64)) % U64 = 2 ^ (Nat.log2 size + 1)
    rw [Nat.mod_eq_of_lt (by omega : Nat.log2 size + 1 < 64), Nat.shiftLeft_eq, one_mul]
    exact Nat.mod_eq_of_lt (by unfold U64; omega)
  refine ⟨?_, ?_, hloglt, by rw [pow_succ]; omega⟩
  · intro ht
    unfold next_chunk_size
    rw [haligned, if_pos ht]
    have h2m : megabytes_of 2 = 2 ^ 21 := by norm_num [megabytes_of]
    have h8m : megabytes_of 8 = 2 ^ 23 := by norm_num [megabytes_of]
    have hshr : megabytes_of 2 >>> 2 = 2 ^ 19 := by decide
    rw [hshr]
    by_cases hc : 2 ^ (Nat.log2 size + 1) ≤ 2 ^ 19
    · rw [if_pos hc, if_pos (by rw [h2m]; omega)]
    · rw [if_neg hc, if_neg (by rw [h2m]; omega)]
      have hmeg : megabytes_of 8 - 1 = 2 ^ 23 - 1 := by rw [h8m]
      rw [hmeg, Nat.mod_eq_of_lt (by unfold U64; omega),
        not64_two_pow_sub_one 23 (by norm_num),
        land_mask_high _ 23 (by omega) (by norm_num), h8m]
      congr 2
      omega
  · intro k ht hk hlast
    subst hlast
    unfold next_chunk_size
    rw [haligned, if_neg ht]
    have hk64 : (2:Nat) ^ k ≤ 2 ^ 60 := Nat.pow_le_pow_right (by norm_num) hk
    have hexp : ((2 ^ k) <<< 1) % U64 = 2 * 2 ^ k := by
      rw [Nat.shiftLeft_eq]
      show (2 ^ k * 2 ^ 1) % U64 = 2 * 2 ^ k
      rw [Nat.mod_eq_of_lt (by unfold U64; norm_num; omega)]
      ring
    rw [hexp]
    have hmodmul : (2 ^ (Nat.log2 size + 1) * 4) % U64 = 2 ^ (Nat.log2 size + 1) * 4 :=
      Nat.mod_eq_of_lt (by unfold U64; omega)
    rw [hmodmul]
    by_cases hc : 2 ^ (Nat.log2 size + 1) * 4 ≤ 2 * 2 ^ k
    · rw [if_pos hc, if_pos (by omega)]
    · rw [if_neg hc, if_neg (by omega)]
      show ((2 ^ (Nat.log2 size + 1) * 4 + (2 ^ k - 1)) % U64 &&& not64 (2 ^ k - 1)) =
        (4 * 2 ^ (Nat.log2 size + 1) + (2 ^ k - 1)) / 2 ^ k * 2 ^ k
      rw [Nat.mod_eq_of_lt (by unfold U64; omega), not64_two_pow_sub_one k (by omega),
        land_mask_high _ k (by omega) (by omega)]
      congr 2
      omega

set_option maxRecDepth 4000 in
/-- Witness for C5 amended at `total = 1`, `last = 1024 = 2 ^ 10`,
`req = 100000`: the returned chunk size is `4 × 2 ^ 17` rounded up to a
multiple of 1024, i.e. 524288. -/
theorem C5_next_chunk_size_amended_witness : next_chunk_size 1 1024 100000 = 524288 := by
  have hlog : Nat.log2 100000 = 16 := log2_eq_of_bounds 100000 16 (by norm_num) (by norm_num)
  have h := (C5_next_chunk_size_amended 1 1024 100000 (by norm_num) (by norm_num)).2.1
    10 (by norm_num) (by norm_num) (by norm_num)
  rw [hlog] at h
  norm_num at h
  exact h

/-! ## Claim C6 -/

/-- C6 counterexample: the first-level mask at `fl = 31` is
`(!0u32).overflowing_shl(32)`; the wrapping shift reduces the amount mod 32,
so the mask is the all-ones word `2^32 − 1`, not 0, and every first-level
bit (bit 31 included) survives it. -/
theorem C6_first_level_mask_counterexample :
    first_level_mask 31 = U32 - 1 ∧ first_level_mask 31 ≠ 0 ∧
      Nat.testBit (first_level_mask 31) 31 = true := by
  refine ⟨by decide, by decide, by decide⟩

/-- C6 amended: with the implementation's wrapping shift, `shl(fl+1)` at
`fl = 31` yields the all-ones mask `2^32 − 1` (not 0), so every first-level
bit would survive; the case is unreachable inside `find_suitable_indices`,
because a size whose first-level index is 31 makes the `sl_bitmap[first]`
read panic (index ≥ `FIRST_INDEX_REAL = 30`) before the mask is computed. -/
theorem C6_first_level_mask_amended :
    first_level_mask 31 = U32 - 1 ∧
      ∀ (st : St) (size : Nat),
        (calculate_mapping_indices (calculate_allocation_size size)).1 = 31 →
        find_suitable_indices st size = none := by
  refine ⟨by decide, ?_⟩
  intro st size h31
  unfold find_suitable_indices
  rw [h31, if_neg (by decide : ¬ (31 < FIRST_INDEX_REAL))]
  rfl

set_option maxRecDepth 4000 in
/-- Witness for C6 amended: a request of `2 ^ 37` bytes has first-level index
31 and makes `find_suitable_indices` panic on any state. -/
theorem C6_first_level_mask_amended_witness :
    find_suitable_indices emptySt (2 ^ 37) = none :=
  C6_first_level_mask_amended.2 emptySt (2 ^ 37) (by decide)

/-! ## Claim C8 -/

theorem start_stored_eq :
    calculate_stored_size (calculate_allocation_size AreaInfo.size_of) false false = 16 := by
  decide

@[simp] theorem Blk_buffer_size_mk (ph : Option Nat) (ss : Nat) (nd : FreeNode)
    (ae an : Option Nat) :
    (Blk.mk ph ss nd ae an).buffer_size = round_down_block ss := rfl

@[simp] theorem Blk_is_freed_mk (ph : Option Nat) (ss : Nat) (nd : FreeNode)
    (ae an : Option Nat) :
    (Blk.mk ph ss nd ae an).is_freed = (ss &&& FREED_MASK != 0) := rfl

@[simp] theorem Blk_is_prev_freed_mk (ph : Option Nat) (ss : Nat) (nd : FreeNode)
    (ae an : Option Nat) :
    (Blk.mk ph ss nd ae an).is_prev_freed = (ss &&& PREV_FREED_MASK != 0) := rfl

@[simp] theorem round_down_16 : round_down_block 16 = 16 := by decide

@[simp] theorem round_down_two : round_down_block 2 = 0 := by decide

@[simp] theorem land16_freed : (16 : Nat) &&& FREED_MASK = 0 := by decide

@[simp] theorem land16_prev : (16 : Nat) &&& PREV_FREED_MASK = 0 := by decide

@[simp] theorem land2_freed : (2 : Nat) &&& FREED_MASK = 0 := by decide

@[simp] theorem land2_prev : (2 : Nat) &&& PREV_FREED_MASK = 2 := by decide

theorem ip_write_start_same (heap : Heap) (p : Nat) :
    ip_write_start heap p p =
      ⟨none, 16, (heap p).node, none, none⟩ := by
  simp only [ip_write_start, updBlk_same, start_stored_eq]

theorem ip_write_start_ne (heap : Heap) (p a : Nat) (h : a ≠ p) :
    ip_write_start heap p a = heap a := by
  simp only [ip_write_start, updBlk, Function.update_noteq h]

theorem ip_write_first_same (heap : Heap) (n bs : Nat) :
    ip_write_first heap n bs n =
      ⟨none, calculate_stored_size bs false false, FreeNode.new,
        (heap n).area_end, (heap n).area_next⟩ := by
  simp only [ip_write_first, updBlk_same]

theorem ip_write_first_ne (heap : Heap) (n bs a : Nat) (h : a ≠ n) :
    ip_write_first heap n bs a = heap a := by
  simp only [ip_write_first, updBlk, Function.update_noteq h]

theorem ip_write_end_same (heap : Heap) (e n : Nat) :
    ip_write_end heap e n e =
      ⟨some n, 2, (heap e).node, (heap e).area_end, (heap e).area_next⟩ := by
  simp only [ip_write_end, updBlk_same]
  have h2 : calculate_stored_size 0 false true = 2 := by decide
  rw [h2]

theorem ip_write_end_ne (heap : Heap) (e n a : Nat) (h : a ≠ e) :
    ip_write_end heap e n a = heap a := by
  simp only [ip_write_end, updBlk, Function.update_noteq h]

/-- C8: on an aligned region of `total` bytes at `p`, `initialize_pool`
writes exactly three headers: a start sentinel at `p` with buffer size equal
to the aligned `AreaInfo` size, `FREE` and `PREV_FREE` clear, null
`prev_physical`, and a fresh `AreaInfo` in its buffer whose `end_block`
finally points at the end sentinel; a first block at `p + 32` with buffer
size `total` minus the start sentinel's buffer minus three header sizes and
`FREE` clear (holding a fresh `FreeNode`); and an end sentinel at
`p + total - 16` with buffer size 0, `FREE` clear, `PREV_FREE` set and
`prev_physical` pointing at the first block.  Nothing else is written. -/
theorem C8_initialize_pool (heap : Heap) (p total : Nat)
    (htot : total % 16 = 0) (hge : 64 ≤ total) (hlt : total < U64) :
    ∃ h', initialize_pool heap p total = some h' ∧
      (h' p).buffer_size = AreaInfo.get_aligned_size ∧
      (h' p).is_freed = false ∧
      (h' p).is_prev_freed = false ∧
      (h' p).previous_header = none ∧
      (h' p).area_next = none ∧
      (h' p).area_end = some (p + (total - 16)) ∧
      (h' (p + 32)).buffer_size =
        total - AreaInfo.get_aligned_size - 3 * BlockHeader.get_aligned_size ∧
      (h' (p + 32)).is_freed = false ∧
      (h' (p + 32)).node = FreeNode.new ∧
      (h' (p + (total - 16))).buffer_size = 0 ∧
      (h' (p + (total - 16))).is_freed = false ∧
      (h' (p + (total - 16))).is_prev_freed = true ∧
      (h' (p + (total - 16))).previous_header = some (p + 32) ∧
      ∀ a, a ≠ p → a ≠ p + 32 → a ≠ p + (total - 16) → h' a = heap a := by
  have hal : is_aligned total = true := (is_aligned_iff total).mpr htot
  have hD : (total - 16 - 48) + 15 < U64 := by unfold U64 at hlt ⊢; omega
  have hDal : (total - 16 - 48) % 16 = 0 := by omega
  have hDbuf : round_down_block (calculate_stored_size (total - 16 - 48) false false) =
      total - 16 - 48 := by
    rw [buffer_size_stored _ _ _ hD, round_up_block_of_aligned _ hD hDal]
  have hne1 : (p + 32 : Nat) ≠ p := by omega
  unfold initialize_pool
  rw [if_neg (by simp [hal])]
  simp only [ip_write_start_same, Blk_buffer_size_mk, round_down_16, header_aligned_eq,
    next_block_addr, ip_write_first_same, hDbuf]
  have ha3 : total - 16 - 3 * 16 = total - 16 - 48 := by omega
  have ha2 : p + (16 + 16) + (16 + (total - 16 - 48)) = p + (total - 16) := by omega
  have ha1 : p + (16 + 16) = p + 32 := by omega
  rw [ha3, ha2, ha1]
  have hq1 : p ≠ p + 32 := by omega
  have hq2 : p ≠ p + (total - 16) := by omega
  have hq3 : (p + 32 : Nat) ≠ p := by omega
  have hq4 : p + 32 ≠ p + (total - 16) := by omega
  have hq5 : (p + (total - 16) : Nat) ≠ p := by omega
  have hq6 : p + (total - 16) ≠ p + 32 := by omega
  have hfr := freed_flag_stored (total - 16 - 48) false false hD
  have hguard : (ip_write_end (ip_write_first (ip_write_start heap p) (p + 32)
      (total - 16 - 48)) (p + (total - 16)) (p + 32) p).is_freed = false := by
    rw [ip_write_end_ne _ _ _ _ hq2, ip_write_first_ne _ _ _ _ hq1, ip_write_start_same]
    simp
  rw [if_neg (by simp [hguard])]
  refine ⟨_, rfl, ?_, ?_, ?_, ?_, ?_, ?_, ?_, ?_, ?_, ?_, ?_, ?_, ?_, ?_⟩
  · simp [updBlk_same, ip_write_end_ne _ _ _ _ hq2, ip_write_first_ne _ _ _ _ hq1,
      ip_write_start_same, areainfo_aligned_eq]
  · simp [updBlk_same, ip_write_end_ne _ _ _ _ hq2, ip_write_first_ne _ _ _ _ hq1,
      ip_write_start_same]
  · simp [updBlk_same, ip_write_end_ne _ _ _ _ hq2, ip_write_first_ne _ _ _ _ hq1,
      ip_write_start_same]
  · simp [updBlk_same, ip_write_end_ne _ _ _ _ hq2, ip_write_first_ne _ _ _ _ hq1,
      ip_write_start_same]
  · simp [updBlk_same, ip_write_end_ne _ _ _ _ hq2, ip_write_first_ne _ _ _ _ hq1,
      ip_write_start_same]
  · simp [updBlk_same, ip_write_end_ne _ _ _ _ hq2, ip_write_first_ne _ _ _ _ hq1,
      ip_write_start_same]
  · simp [updBlk_ne _ _ _ _ hq3, ip_write_end_ne _ _ _ _ hq4, ip_write_first_same,
      hDbuf, areainfo_aligned_eq]
  · simp [updBlk_ne _ _ _ _ hq3, ip_write_end_ne _ _ _ _ hq4, ip_write_first_same, hfr]
  · simp [updBlk_ne _ _ _ _ hq3, ip_write_end_ne _ _ _ _ hq4, ip_write_first_same]
  · simp [updBlk_ne _ _ _ _ hq5, ip_write_end_same]
  · simp [updBlk_ne _ _ _ _ hq5, ip_write_end_same]
  · simp [updBlk_ne _ _ _ _ hq5, ip_write_end_same]
  · simp [updBlk_ne _ _ _ _ hq5, ip_write_end_same]
  · intro a h1 h2 h3
    rw [updBlk_ne _ _ _ _ h1, ip_write_end_ne _ _ _ _ h3, ip_write_first_ne _ _ _ _ h2,
      ip_write_start_ne _ _ _ h1]

/-- Witness for C8 on an all-blank heap at `p = 0` with `total = 160`. -/
theorem C8_initialize_pool_witness :
    ∃ h', initialize_pool (fun _ => emptyBlk) 0 160 = some h' ∧
      (h' 0).buffer_size = AreaInfo.get_aligned_size ∧
      (h' 0).is_freed = false ∧
      (h' 0).is_prev_freed = false ∧
      (h' 0).previous_header = none ∧
      (h' 0).area_next = none ∧
      (h' 0).area_end = some (0 + (160 - 16)) ∧
      (h' (0 + 32)).buffer_size =
        160 - AreaInfo.get_aligned_size - 3 * BlockHeader.get_aligned_size ∧
      (h' (0 + 32)).is_freed = false ∧
      (h' (0 + 32)).node = FreeNode.new ∧
      (h' (0 + (160 - 16))).buffer_size = 0 ∧
      (h' (0 + (160 - 16))).is_freed = false ∧
      (h' (0 + (160 - 16))).is_prev_freed = true ∧
      (h' (0 + (160 - 16))).previous_header = some (0 + 32) ∧
      ∀ a, a ≠ 0 → a ≠ 0 + 32 → a ≠ 0 + (160 - 16) → h' a = emptyBlk :=
  C8_initialize_pool (fun _ => emptyBlk) 0 160 (by decide) (by decide) (by decide)

theorem round_down_block_eq_mod (v : Nat) : round_down_block v = (v % U64) / 16 * 16 := by
  have hstep : round_down_block v = round_down_block (v % U64) := by
    unfold round_down_block BLOCK_ALIGNOF
    rw [show (8 * 2 - 1 : Nat) = 2 ^ 4 - 1 by norm_num, not64_two_pow_sub_one 4 (by norm_num)]
    apply Nat.eq_of_testBit_eq
    intro j
    rw [Nat.testBit_land, Nat.testBit_land]
    by_cases hj : j < 64
    · have : (v % U64).testBit j = v.testBit j := by
        unfold U64
        rw [Nat.testBit_mod_two_pow]
        simp [hj]
      rw [this]
    · have hm : ((2:Nat) ^ 64 - 2 ^ 4).testBit j = false := by
        apply Nat.testBit_lt_two_pow
        calc (2:Nat) ^ 64 - 2 ^ 4 < 2 ^ 64 := by norm_num
          _ ≤ 2 ^ j := Nat.pow_le_pow_right (by norm_num) (by omega)
      rw [hm, Bool.and_false, Bool.and_false]
  rw [hstep, round_down_block_eq _ (Nat.mod_lt _ (by decide))]

theorem buffer_size_mod16 (b : Blk) : b.buffer_size % 16 = 0 := by
  unfold Blk.buffer_size
  rw [round_down_block_eq_mod]
  simp [Nat.mul_mod_left]

theorem buffer_size_lt_u64 (b : Blk) : b.buffer_size < U64 := by
  unfold Blk.buffer_size
  rw [round_down_block_eq_mod]
  have h1 : b.stored_size % U64 < U64 := Nat.mod_lt _ (by decide)
  have h2 := Nat.div_add_mod (b.stored_size % U64) 16
  have h3 : b.stored_size % U64 / 16 * 16 ≤ b.stored_size % U64 := by omega
  omega

/-! ### Per-shape frame corollaries -/

theorem blk_buffer_bound (b : Blk) : b.buffer_size + 15 < U64 := by
  have h1 := buffer_size_mod16 b
  have h2 := buffer_size_lt_u64 b
  have h3 : U64 % 16 = 0 := by decide
  omega

theorem set_previous_freed_buffer_size (b : Blk) (v : Bool) :
    (b.set_previous_freed v).buffer_size = b.buffer_size := by
  unfold Blk.set_previous_freed
  show round_down_block (calculate_stored_size b.buffer_size b.is_freed v) = _
  rw [buffer_size_stored _ _ _ (blk_buffer_bound b),
    round_up_block_of_aligned _ (blk_buffer_bound b) (buffer_size_mod16 b)]

theorem set_previous_freed_is_freed (b : Blk) (v : Bool) :
    (b.set_previous_freed v).is_freed = b.is_freed := by
  unfold Blk.set_previous_freed
  show (calculate_stored_size b.buffer_size b.is_freed v &&& FREED_MASK != 0) = _
  rw [freed_flag_stored _ _ _ (blk_buffer_bound b)]

theorem set_previous_freed_is_prev_freed (b : Blk) (v : Bool) :
    (b.set_previous_freed v).is_prev_freed = v := by
  unfold Blk.set_previous_freed
  show (calculate_stored_size b.buffer_size b.is_freed v &&& PREV_FREED_MASK != 0) = _
  rw [prev_freed_flag_stored _ _ _ (blk_buffer_bound b)]

theorem set_previous_freed_previous_header (b : Blk) (v : Bool) :
    (b.set_previous_freed v).previous_header = b.previous_header := rfl

theorem set_freed_buffer_size (b : Blk) (v : Bool) :
    (b.set_freed v).buffer_size = b.buffer_size := by
  unfold Blk.set_freed
  show round_down_block (calculate_stored_size b.buffer_size v b.is_prev_freed) = _
  rw [buffer_size_stored _ _ _ (blk_buffer_bound b),
    round_up_block_of_aligned _ (blk_buffer_bound b) (buffer_size_mod16 b)]

theorem set_freed_is_freed (b : Blk) (v : Bool) : (b.set_freed v).is_freed = v := by
  unfold Blk.set_freed
  show (calculate_stored_size b.buffer_size v b.is_prev_freed &&& FREED_MASK != 0) = _
  rw [freed_flag_stored _ _ _ (blk_buffer_bound b)]

theorem set_freed_is_prev_freed (b : Blk) (v : Bool) :
    (b.set_freed v).is_prev_freed = b.is_prev_freed := by
  unfold Blk.set_freed
  show (calculate_stored_size b.buffer_size v b.is_prev_freed &&& PREV_FREED_MASK != 0) = _
  rw [prev_freed_flag_stored _ _ _ (blk_buffer_bound b)]

theorem set_freed_previous_header (b : Blk) (v : Bool) :
    (b.set_freed v).previous_header = b.previous_header := rfl

theorem updBlk_nodew_stored (h : Heap) (a b : Nat) (n : FreeNode) :
    ((updBlk h a fun blk => { blk with node := n }) b).stored_size = (h b).stored_size :=
  updBlk_stored_size h a b _ (fun _ => rfl)

theorem updBlk_nodew_buffer_size (h : Heap) (a b : Nat) (n : FreeNode) :
    ((updBlk h a fun blk => { blk with node := n }) b).buffer_size = (h b).buffer_size :=
  updBlk_buffer_size h a b _ (fun _ => rfl)

theorem updBlk_nodew_is_freed (h : Heap) (a b : Nat) (n : FreeNode) :
    ((updBlk h a fun blk => { blk with node := n }) b).is_freed = (h b).is_freed :=
  updBlk_is_freed h a b _ (fun _ => rfl)

theorem updBlk_nodew_is_prev_freed (h : Heap) (a b : Nat) (n : FreeNode) :
    ((updBlk h a fun blk => { blk with node := n }) b).is_prev_freed =
      (h b).is_prev_freed :=
  updBlk_is_prev_freed h a b _ (fun _ => rfl)

theorem updBlk_nodew_previous_header (h : Heap) (a b : Nat) (n : FreeNode) :
    ((updBlk h a fun blk => { blk with node := n }) b).previous_header =
      (h b).previous_header :=
  updBlk_previous_header h a b _ (fun _ => rfl)

theorem updBlk_nodeprev_stored (h : Heap) (a b : Nat) (p : Option Nat) :
    ((updBlk h a fun blk => { blk with node := { blk.node with prev := p } }) b).stored_size =
      (h b).stored_size :=
  updBlk_stored_size h a b _ (fun _ => rfl)

theorem updBlk_nodeprev_buffer_size (h : Heap) (a b : Nat) (p : Option Nat) :
    ((updBlk h a fun blk => { blk with node := { blk.node with prev := p } }) b).buffer_size =
      (h b).buffer_size :=
  updBlk_buffer_size h a b _ (fun _ => rfl)

theorem updBlk_nodeprev_is_freed (h : Heap) (a b : Nat) (p : Option Nat) :
    ((updBlk h a fun blk => { blk with node := { blk.node with prev := p } }) b).is_freed =
      (h b).is_freed :=
  updBlk_is_freed h a b _ (fun _ => rfl)

theorem updBlk_nodeprev_is_prev_freed (h : Heap) (a b : Nat) (p : Option Nat) :
    ((updBlk h a fun blk =>
      { blk with node := { blk.node with prev := p } }) b).is_prev_freed =
      (h b).is_prev_freed :=
  updBlk_is_prev_freed h a b _ (fun _ => rfl)

theorem updBlk_nodeprev_previous_header (h : Heap) (a b : Nat) (p : Option Nat) :
    ((updBlk h a fun blk =>
      { blk with node := { blk.node with prev := p } }) b).previous_header =
      (h b).previous_header :=
  updBlk_previous_header h a b _ (fun _ => rfl)

theorem updBlk_nodenext_stored (h : Heap) (a b : Nat) (q : Option Nat) :
    ((updBlk h a fun blk => { blk with node := { blk.node with next := q } }) b).stored_size =
      (h b).stored_size :=
  updBlk_stored_size h a b _ (fun _ => rfl)

theorem updBlk_nodenext_is_freed (h : Heap) (a b : Nat) (q : Option Nat) :
    ((updBlk h a fun blk => { blk with node := { blk.node with next := q } }) b).is_freed =
      (h b).is_freed :=
  updBlk_is_freed h a b _ (fun _ => rfl)

theorem updBlk_setph_stored (h : Heap) (a b p : Nat) :
    ((updBlk h a fun blk => blk.set_previous_header p) b).stored_size =
      (h b).stored_size :=
  updBlk_stored_size h a b _ (fun _ => rfl)

theorem updBlk_setph_is_freed (h : Heap) (a b p : Nat) :
    ((updBlk h a fun blk => blk.set_previous_header p) b).is_freed = (h b).is_freed :=
  updBlk_is_freed h a b _ (fun _ => rfl)

theorem updBlk_setph_buffer_size (h : Heap) (a b p : Nat) :
    ((updBlk h a fun blk => blk.set_previous_header p) b).buffer_size =
      (h b).buffer_size :=
  updBlk_buffer_size h a b _ (fun _ => rfl)

theorem updBlk_setph_is_prev_freed (h : Heap) (a b p : Nat) :
    ((updBlk h a fun blk => blk.set_previous_header p) b).is_prev_freed =
      (h b).is_prev_freed :=
  updBlk_is_prev_freed h a b _ (fun _ => rfl)

/-! ## Claim C3 -/

set_option maxRecDepth 4000 in
/-- C3 counterexample: splitting a free 128-byte block at address 0 with
searching size 32 writes the remainder header N at address 48 with
`previous_header = None` — not `prev_physical = B` (which would be
`some 0`) as the claim states. -/
theorem C3_alloc_split_step_counterexample :
    ((alloc_split_step
        { emptySt with
          heap := Function.update emptySt.heap 0 ⟨none, 129, FreeNode.new, none, none⟩ }
        0 32).map fun st1 =>
      ((st1.heap 48).previous_header, (st1.heap 48).is_freed, (st1.heap 48).buffer_size)) =
      some (none, true, 80) ∧ (none : Option Nat) ≠ some 0 :=
  ⟨by decide, by decide⟩

/-- C3 amended: the split step of `alloc` with searching size `s` and
`rem = B.buffer_size − s` keeps `B` whole and clears `PREV_FREE` on `B`'s
physical successor when `rem < header_size + sizeof(FreeNode)`; otherwise it
writes a remainder header N at `B.buffer + s` with
`buffer_size = rem − header_size`, `FREE` set, `PREV_FREE` clear and
`prev_physical = None` (not `B`: the code passes `None`, and `prev_physical`
is only made valid later, when a predecessor is freed), redirects the old
successor's `prev_physical` to N, shrinks `B.buffer_size` to `s`, and files N
at the head of class `map_indices(N.buffer_size)`, setting both bitmap
bits. -/
theorem C3_alloc_split_step_amended (st : St) (sb s : Nat)
    (hBfree : (st.heap sb).is_freed = true)
    (hsal : s % 16 = 0)
    (hsle : s ≤ (st.heap sb).buffer_size)
    (hBbound : (st.heap sb).buffer_size < 2 ^ 36)
    (hheads : ∀ hb, st.freed_block_map (calculate_index (calculate_mapping_indices
        ((st.heap sb).buffer_size - s - BlockHeader.get_aligned_size))) = some hb →
      (st.heap hb).is_freed = true) :
    ((st.heap sb).buffer_size - s < BLOCK_SIZE →
      alloc_split_step st sb s = some { st with
        heap := updBlk st.heap (next_block_addr sb (st.heap sb)) fun b =>
          b.set_previous_freed false }) ∧
    (BLOCK_SIZE ≤ (st.heap sb).buffer_size - s →
      ∃ st', alloc_split_step st sb s = some st' ∧
        (st'.heap (sb + BlockHeader.get_aligned_size + s)).buffer_size =
          (st.heap sb).buffer_size - s - BlockHeader.get_aligned_size ∧
        (st'.heap (sb + BlockHeader.get_aligned_size + s)).is_freed = true ∧
        (st'.heap (sb + BlockHeader.get_aligned_size + s)).is_prev_freed = false ∧
        (st'.heap (sb + BlockHeader.get_aligned_size + s)).previous_header = none ∧
        (st'.heap (next_block_addr sb (st.heap sb))).previous_header =
          some (sb + BlockHeader.get_aligned_size + s) ∧
        (st'.heap sb).buffer_size = s ∧
        (st'.heap sb).is_freed = true ∧
        st'.freed_block_map (calculate_index (calculate_mapping_indices
          ((st.heap sb).buffer_size - s - BlockHeader.get_aligned_size))) =
          some (sb + BlockHeader.get_aligned_size + s) ∧
        st'.sl_bitmap (calculate_mapping_indices
          ((st.heap sb).buffer_size - s - BlockHeader.get_aligned_size)).1 =
          st.sl_bitmap (calculate_mapping_indices
            ((st.heap sb).buffer_size - s - BlockHeader.get_aligned_size)).1 |||
          (1 <<< ((calculate_mapping_indices
            ((st.heap sb).buffer_size - s - BlockHeader.get_aligned_size)).2 % 32)) ∧
        st'.fl_bitmap = st.fl_bitmap ||| (1 <<< ((calculate_mapping_indices
          ((st.heap sb).buffer_size - s - BlockHeader.get_aligned_size)).1 % 32))) := by
  have hb16 := buffer_size_mod16 (st.heap sb)
  have hbU := buffer_size_lt_u64 (st.heap sb)
  have hU : U64 = 2 ^ 64 := rfl
  constructor
  · intro hlt
    simp only [alloc_split_step]
    rw [if_pos hlt]
  · intro hge
    rw [BLOCK_SIZE_eq] at hge
    rw [header_aligned_eq] at hheads
    simp only [alloc_split_step, header_aligned_eq, BLOCK_SIZE_eq, next_block_addr]
    rw [if_neg (by omega)]
    have hsbound : s + 15 < U64 := by rw [hU] at hbU ⊢; omega
    have hnbound : ((st.heap sb).buffer_size - s - 16) + 15 < U64 := by
      rw [hU] at hbU ⊢
      omega
    have hnal : ((st.heap sb).buffer_size - s - 16) % 16 = 0 := by omega
    set N := sb + 16 + s with hN
    set SUCC := sb + (16 + (st.heap sb).buffer_size) with hSUCC
    have hdNsb : N ≠ sb := by omega
    have hdNS : N ≠ SUCC := by rw [hN, hSUCC]; omega
    have hdSsb : SUCC ≠ sb := by rw [hSUCC]; omega
    set H1 : Heap := updBlk st.heap N (fun b => { b with previous_header := none, stored_size := calculate_stored_size ((st.heap sb).buffer_size - s - 16) true false }) with hH1
    set H2 : Heap := updBlk H1 SUCC (fun b => b.set_previous_header N) with hH2
    have h2sb : H2 sb = st.heap sb := by
      rw [hH2, updBlk_ne _ _ _ _ (Ne.symm hdSsb), hH1, updBlk_ne _ _ _ _ (Ne.symm hdNsb)]
    rw [h2sb]
    have hsbs : (st.heap sb).set_buffer_size s = some { st.heap sb with stored_size := calculate_stored_size s (st.heap sb).is_freed (st.heap sb).is_prev_freed } := by
      unfold Blk.set_buffer_size
      rw [if_pos ((is_aligned_iff s).mpr hsal)]
    rw [hsbs]
    simp only [Option.bind_eq_bind, Option.some_bind]
    set SB1 : Blk := { st.heap sb with stored_size := calculate_stored_size s (st.heap sb).is_freed (st.heap sb).is_prev_freed } with hSB1
    set H3 : Heap := Function.update H2 sb SB1 with hH3
    -- the heap seen by `insert_block`
    have hH3N_stored : (H3 N).stored_size = calculate_stored_size ((st.heap sb).buffer_size - s - 16) true false := by
      rw [hH3, Function.update_noteq hdNsb, hH2, updBlk_ne _ _ _ _ hdNS, hH1, updBlk_same]
    have hH3N_prev : (H3 N).previous_header = none := by
      rw [hH3, Function.update_noteq hdNsb, hH2, updBlk_ne _ _ _ _ hdNS, hH1, updBlk_same]
    have hH3S_prev : (H3 SUCC).previous_header = some N := by
      rw [hH3, Function.update_noteq hdSsb, hH2, updBlk_same]
      rfl
    have hH3sb_stored : (H3 sb).stored_size = calculate_stored_size s (st.heap sb).is_freed (st.heap sb).is_prev_freed := by
      rw [hH3, Function.update_same]
    have hH3N_free : (H3 N).is_freed = true := by
      unfold Blk.is_freed
      rw [hH3N_stored]
      have := freed_flag_stored ((st.heap sb).buffer_size - s - 16) true false hnbound
      simpa using this
    have hH3sb_free : (H3 sb).is_freed = true := by
      unfold Blk.is_freed
      rw [hH3sb_stored]
      have := freed_flag_stored s (st.heap sb).is_freed (st.heap sb).is_prev_freed hsbound
      rw [show ((calculate_stored_size s (st.heap sb).is_freed (st.heap sb).is_prev_freed &&& FREED_MASK != 0) = true) = ((st.heap sb).is_freed = true) from by rw [this], hBfree]
    have hH3_free_other : ∀ x, x ≠ sb → x ≠ N → (st.heap x).is_freed = true → (H3 x).is_freed = true := by
      intro x hx1 hx2
      rw [hH3, Function.update_noteq hx1, hH2, updBlk_setph_is_freed, hH1,
        updBlk_ne _ _ _ _ hx2]
      exact id
    have hfl : (calculate_mapping_indices ((st.heap sb).buffer_size - s - 16)).1 < FIRST_INDEX_REAL := by
      rw [FIRST_INDEX_REAL_eq]
      exact mapping_fst_lt _ (by omega)
    have hidx : calculate_index (calculate_mapping_indices ((st.heap sb).buffer_size - s - 16)) < TOTAL_COUNT :=
      calculate_index_lt _ (by rw [FIRST_INDEX_REAL_eq] at hfl; exact hfl)
    have hnbuf2 : (H3 N).buffer_size = (st.heap sb).buffer_size - s - 16 := by
      show round_down_block (H3 N).stored_size = _
      rw [hH3N_stored, buffer_size_stored _ _ _ hnbound, round_up_block_of_aligned _ hnbound hnal]
    have hsbuf2 : (H3 sb).buffer_size = s := by
      show round_down_block (H3 sb).stored_size = _
      rw [hH3sb_stored, buffer_size_stored _ _ _ hsbound, round_up_block_of_aligned _ hsbound hsal]
    have hH3N_pf : (H3 N).is_prev_freed = false := by
      unfold Blk.is_prev_freed
      rw [hH3N_stored]
      have := prev_freed_flag_stored ((st.heap sb).buffer_size - s - 16) true false hnbound
      simpa using this
    rcases hOH : st.freed_block_map (calculate_index (calculate_mapping_indices ((st.heap sb).buffer_size - s - 16))) with _ | t
    · rw [insert_block_eq_empty { st with heap := H3 } N _ hH3N_free hfl hidx hOH]
      refine ⟨_, rfl, ?_, ?_, ?_, ?_, ?_, ?_, ?_, ?_, ?_, ?_⟩
      · rw [updBlk_nodew_buffer_size]
        exact hnbuf2
      · rw [updBlk_nodew_is_freed]
        exact hH3N_free
      · rw [updBlk_nodew_is_prev_freed]
        exact hH3N_pf
      · rw [updBlk_nodew_previous_header]
        exact hH3N_prev
      · rw [updBlk_nodew_previous_header]
        exact hH3S_prev
      · rw [updBlk_nodew_buffer_size]
        exact hsbuf2
      · rw [updBlk_nodew_is_freed]
        exact hH3sb_free
      · simp [Function.update_same]
      · simp [Function.update_same]
      · rfl
    · have htfree : (H3 t).is_freed = true := by
        by_cases h1 : t = sb
        · subst h1
          exact hH3sb_free
        · by_cases h2 : t = N
          · subst h2
            exact hH3N_free
          · exact hH3_free_other t h1 h2 (hheads t hOH)
      rw [insert_block_eq_head { st with heap := H3 } N t _ hH3N_free hfl hidx hOH htfree]
      refine ⟨_, rfl, ?_, ?_, ?_, ?_, ?_, ?_, ?_, ?_, ?_, ?_⟩
      · rw [updBlk_nodeprev_buffer_size, updBlk_nodew_buffer_size]
        exact hnbuf2
      · rw [updBlk_nodeprev_is_freed, updBlk_nodew_is_freed]
        exact hH3N_free
      · rw [updBlk_nodeprev_is_prev_freed, updBlk_nodew_is_prev_freed]
        exact hH3N_pf
      · rw [updBlk_nodeprev_previous_header, updBlk_nodew_previous_header]
        exact hH3N_prev
      · rw [updBlk_nodeprev_previous_header, updBlk_nodew_previous_header]
        exact hH3S_prev
      · rw [updBlk_nodeprev_buffer_size, updBlk_nodew_buffer_size]
        exact hsbuf2
      · rw [updBlk_nodeprev_is_freed, updBlk_nodew_is_freed]
        exact hH3sb_free
      · simp [Function.update_same]
      · simp [Function.update_same]
      · rfl

set_option maxRecDepth 4000 in
/-- Witness for C3: the free 128-byte block at address 0 split with
searching size 32. -/
theorem C3_alloc_split_step_amended_witness :
    ∃ st', alloc_split_step
        { emptySt with
          heap := Function.update emptySt.heap 0 ⟨none, 129, FreeNode.new, none, none⟩ }
        0 32 = some st' ∧
      (st'.heap 48).buffer_size = 80 ∧
      (st'.heap 48).is_freed = true ∧
      (st'.heap 48).is_prev_freed = false ∧
      (st'.heap 48).previous_header = none ∧
      (st'.heap 144).previous_header = some 48 ∧
      (st'.heap 0).buffer_size = 32 ∧
      (st'.heap 0).is_freed = true ∧
      st'.freed_block_map 20 = some 48 ∧
      st'.sl_bitmap 0 = 1 <<< 20 ∧
      st'.fl_bitmap = 1 <<< 0 :=
  (C3_alloc_split_step_amended
      { emptySt with
        heap := Function.update emptySt.heap 0 ⟨none, 129, FreeNode.new, none, none⟩ }
      0 32 (by decide) (by decide) (by decide) (by decide)
      (by intro hb h; simp [emptySt] at h)).2 (by decide)

/-! ## Claim C2: bitmap-list consistency -/

theorem testBit_ne_zero (x i : Nat) (h : x.testBit i = true) : x ≠ 0 := by
  intro h0
  subst h0
  simp [Nat.zero_testBit] at h

theorem index_consistent_frame (st st' : St)
    (hmap : st'.freed_block_map = st.freed_block_map)
    (hslb : st'.sl_bitmap = st.sl_bitmap)
    (hflb : st'.fl_bitmap = st.fl_bitmap)
    (hc : index_consistent st) : index_consistent st' := by
  obtain ⟨hc1, hc2⟩ := hc
  refine ⟨?_, ?_⟩
  · intro fl sl hfl hsl
    rw [hmap, hslb]
    exact hc1 fl sl hfl hsl
  · intro fl hfl
    rw [hslb, hflb]
    exact hc2 fl hfl

theorem index_consistent_insert_upd (st st' : St) (bp fl sl : Nat)
    (hsl : sl < 32)
    (hmap : st'.freed_block_map =
      Function.update st.freed_block_map (fl * 32 + sl) (some bp))
    (hslb : st'.sl_bitmap =
      Function.update st.sl_bitmap fl (st.sl_bitmap fl ||| 2 ^ sl))
    (hflb : st'.fl_bitmap = st.fl_bitmap ||| 2 ^ fl)
    (hc : index_consistent st) : index_consistent st' := by
  obtain ⟨hc1, hc2⟩ := hc
  simp only [index_consistent, SECOND_INDEX_MAX_eq, FIRST_INDEX_REAL_eq] at hc1 hc2 ⊢
  refine ⟨?_, ?_⟩
  · intro fl' sl' hfl' hsl'
    rw [hmap, hslb]
    by_cases he : fl' = fl
    · subst he
      rw [Function.update_same]
      by_cases he2 : sl' = sl
      · subst he2
        rw [Function.update_same, Nat.testBit_lor, Nat.testBit_two_pow_self, Bool.or_true]
        rfl
      · rw [Function.update_noteq (by omega : fl' * 32 + sl' ≠ fl' * 32 + sl),
          Nat.testBit_lor, Nat.testBit_two_pow_of_ne (fun h => he2 h.symm), Bool.or_false]
        exact hc1 fl' sl' hfl' hsl'
    · have hne : fl' * 32 + sl' ≠ fl * 32 + sl := by omega
      rw [Function.update_noteq hne, Function.update_noteq he]
      exact hc1 fl' sl' hfl' hsl'
  · intro fl' hfl'
    rw [hslb, hflb]
    by_cases he : fl' = fl
    · subst he
      rw [Function.update_same, Nat.testBit_lor, Nat.testBit_two_pow_self, Bool.or_true]
      exact iff_of_true
        (testBit_ne_zero _ sl
          (by rw [Nat.testBit_lor, Nat.testBit_two_pow_self, Bool.or_true])) rfl
    · rw [Function.update_noteq he, Nat.testBit_lor,
        Nat.testBit_two_pow_of_ne (fun h => he h.symm), Bool.or_false]
      exact hc2 fl' hfl'

theorem index_consistent_sethead_upd (st st' : St) (idx nb : Nat)
    (hold : (st.freed_block_map idx).isSome = true)
    (hmap : st'.freed_block_map = Function.update st.freed_block_map idx (some nb))
    (hslb : st'.sl_bitmap = st.sl_bitmap)
    (hflb : st'.fl_bitmap = st.fl_bitmap)
    (hc : index_consistent st) : index_consistent st' := by
  obtain ⟨hc1, hc2⟩ := hc
  refine ⟨?_, ?_⟩
  · intro fl' sl' hfl' hsl'
    rw [hmap, hslb]
    by_cases he : fl' * SECOND_INDEX_MAX + sl' = idx
    · rw [he, Function.update_same, Option.isSome_some]
      rw [← hc1 fl' sl' hfl' hsl', he, hold]
    · rw [Function.update_noteq he]
      exact hc1 fl' sl' hfl' hsl'
  · intro fl' hfl'
    rw [hslb, hflb]
    exact hc2 fl' hfl'

theorem index_consistent_reset_upd (st st' : St) (bp fl sl : Nat)
    (hsl : sl < 32)
    (hold : st.freed_block_map (fl * 32 + sl) = some bp)
    (hmap : st'.freed_block_map =
      Function.update st.freed_block_map (fl * 32 + sl) none)
    (hslb : st'.sl_bitmap =
      Function.update st.sl_bitmap fl (st.sl_bitmap fl ^^^ 2 ^ sl))
    (hflb : st'.fl_bitmap = if st.sl_bitmap fl ^^^ 2 ^ sl = 0
      then st.fl_bitmap ^^^ 2 ^ fl else st.fl_bitmap)
    (hfl : fl < 30)
    (hc : index_consistent st) : index_consistent st' := by
  obtain ⟨hc1, hc2⟩ := hc
  simp only [index_consistent, SECOND_INDEX_MAX_eq, FIRST_INDEX_REAL_eq] at hc1 hc2 ⊢
  have hbit : (st.sl_bitmap fl).testBit sl = true := by
    have h := hc1 fl sl hfl hsl
    rw [hold] at h
    exact h.symm
  have hrow : st.sl_bitmap fl ≠ 0 := testBit_ne_zero _ sl hbit
  have hflbbit : st.fl_bitmap.testBit fl = true := (hc2 fl hfl).mp hrow
  refine ⟨?_, ?_⟩
  · intro fl' sl' hfl' hsl'
    rw [hmap, hslb]
    by_cases he : fl' = fl
    · subst he
      rw [Function.update_same]
      by_cases he2 : sl' = sl
      · subst he2
        rw [Function.update_same, Nat.testBit_xor, Nat.testBit_two_pow_self, hbit]
        rfl
      · rw [Function.update_noteq (by omega : fl' * 32 + sl' ≠ fl' * 32 + sl),
          Nat.testBit_xor, Nat.testBit_two_pow_of_ne (fun h => he2 h.symm),
          Bool.xor_false]
        exact hc1 fl' sl' hfl' hsl'
    · have hne : fl' * 32 + sl' ≠ fl * 32 + sl := by omega
      rw [Function.update_noteq hne, Function.update_noteq he]
      exact hc1 fl' sl' hfl' hsl'
  · intro fl' hfl'
    rw [hslb, hflb]
    by_cases he : fl' = fl
    · subst he
      rw [Function.update_same]
      by_cases hz : st.sl_bitmap fl' ^^^ 2 ^ sl = 0
      · rw [if_pos hz]
        refine iff_of_false (by simp [hz]) ?_
        rw [Nat.testBit_xor, Nat.testBit_two_pow_self, hflbbit]
        simp
      · rw [if_neg hz]
        exact iff_of_true hz hflbbit
    · rw [Function.update_noteq he]
      have hproj : (if st.sl_bitmap fl ^^^ 2 ^ sl = 0 then st.fl_bitmap ^^^ 2 ^ fl
          else st.fl_bitmap).testBit fl' = st.fl_bitmap.testBit fl' := by
        split
        · rw [Nat.testBit_xor, Nat.testBit_two_pow_of_ne (fun h => he h.symm),
            Bool.xor_false]
        · rfl
      rw [hproj]
      exact hc2 fl' hfl'

theorem insert_block_index_inversion (st st' : St) (bp : Nat) (mi : Nat × Nat)
    (hs : insert_block st bp mi = some st') :
    mi.1 < FIRST_INDEX_REAL ∧ calculate_index mi < TOTAL_COUNT ∧
    st'.freed_block_map =
      Function.update st.freed_block_map (calculate_index mi) (some bp) ∧
    st'.sl_bitmap = Function.update st.sl_bitmap mi.1
      (st.sl_bitmap mi.1 ||| (1 <<< (mi.2 % 32))) ∧
    st'.fl_bitmap = st.fl_bitmap ||| (1 <<< (mi.1 % 32)) := by
  obtain ⟨fl, sl⟩ := mi
  simp only [insert_block, map_get_item, map_set_item, Option.bind_eq_bind] at hs
  by_cases hfr : (st.heap bp).is_freed = false
  · rw [if_pos hfr] at hs
    exact absurd hs (by simp)
  by_cases hle : TOTAL_COUNT ≤ calculate_index (fl, sl)
  · rw [if_neg hfr, if_pos hle] at hs
    exact absurd hs (by simp)
  have hidx : calculate_index (fl, sl) < TOTAL_COUNT := Nat.not_le.mp hle
  rcases hoh : st.freed_block_map (calculate_index (fl, sl)) with _ | t
  · by_cases hfl : fl < FIRST_INDEX_REAL
    · simp only [hoh, if_neg hfr, if_neg hle, if_pos hidx, if_pos hfl,
        Option.some_bind, Option.none_bind, Option.some.injEq] at hs
      subst hs
      exact ⟨hfl, hidx, rfl, rfl, rfl⟩
    · simp only [hoh, if_neg hfr, if_neg hle, if_pos hidx, if_neg hfl,
        Option.some_bind, Option.none_bind] at hs
      exact absurd hs (by simp)
  · by_cases htf : ((updBlk st.heap bp fun b =>
        { b with node := ⟨none, some t⟩ }) t).is_freed = true
    · by_cases hfl : fl < FIRST_INDEX_REAL
      · simp only [hoh, if_neg hfr, if_neg hle, if_pos hidx, if_pos hfl, if_pos htf,
          Option.some_bind, Option.none_bind, Option.some.injEq] at hs
        subst hs
        exact ⟨hfl, hidx, rfl, rfl, rfl⟩
      · simp only [hoh, if_neg hfr, if_neg hle, if_pos hidx, if_neg hfl, if_pos htf,
          Option.some_bind, Option.none_bind] at hs
        exact absurd hs (by simp)
    · simp only [hoh, if_neg hfr, if_neg hle, if_neg htf,
        Option.some_bind, Option.none_bind] at hs
      exact absurd hs (by simp)

theorem extract_root_index_inversion (st st' : St) (mi : Nat × Nat) (ob : Option Nat)
    (hs : extract_root_block st mi = some (st', ob)) :
    (st'.freed_block_map = st.freed_block_map ∧ st'.sl_bitmap = st.sl_bitmap ∧
      st'.fl_bitmap = st.fl_bitmap) ∨
    (∃ bp, st.freed_block_map (calculate_index mi) = some bp ∧
      ((∃ nb, st'.freed_block_map =
          Function.update st.freed_block_map (calculate_index mi) (some nb) ∧
          st'.sl_bitmap = st.sl_bitmap ∧ st'.fl_bitmap = st.fl_bitmap) ∨
        (mi.1 < FIRST_INDEX_REAL ∧
          st'.freed_block_map =
            Function.update st.freed_block_map (calculate_index mi) none ∧
          st'.sl_bitmap = Function.update st.sl_bitmap mi.1
            (st.sl_bitmap mi.1 ^^^ (1 <<< (mi.2 % 32))) ∧
          st'.fl_bitmap =
            (if st.sl_bitmap mi.1 ^^^ (1 <<< (mi.2 % 32)) = 0
              then st.fl_bitmap ^^^ (1 <<< (mi.1 % 32)) else st.fl_bitmap)))) := by
  obtain ⟨fl, sl⟩ := mi
  simp only [extract_root_block, map_get_item, map_set_item, map_reset_item,
    Option.bind_eq_bind] at hs
  by_cases hle : TOTAL_COUNT ≤ calculate_index (fl, sl)
  · rw [if_pos hle] at hs
    exact absurd hs (by simp)
  have hidx : calculate_index (fl, sl) < TOTAL_COUNT := Nat.not_le.mp hle
  rcases hoh : st.freed_block_map (calculate_index (fl, sl)) with _ | bp
  · simp only [hoh, if_neg hle, Option.some_bind, Option.some.injEq,
      Prod.mk.injEq] at hs
    obtain ⟨rfl, rfl⟩ := hs
    exact Or.inl ⟨rfl, rfl, rfl⟩
  · by_cases hbf : (st.heap bp).is_freed = false
    · simp only [hoh, if_neg hle, if_pos hbf, Option.some_bind,
        Option.none_bind] at hs
      exact absurd hs (by simp)
    rcases hnn : (st.heap bp).node.next with _ | nb
    · by_cases hfl : fl < FIRST_INDEX_REAL
      · simp only [hoh, hnn, if_neg hle, if_neg hbf, if_pos hidx, if_pos hfl,
          Option.some_bind, Option.none_bind, Option.some.injEq, Prod.mk.injEq] at hs
        obtain ⟨rfl, rfl⟩ := hs
        exact Or.inr ⟨bp, rfl, Or.inr ⟨hfl, rfl, rfl, rfl⟩⟩
      · simp only [hoh, hnn, if_neg hle, if_neg hbf, if_pos hidx, if_neg hfl,
          Option.some_bind, Option.none_bind] at hs
        exact absurd hs (by simp)
    · by_cases hnf : ((updBlk st.heap bp fun b =>
          { b with node := ⟨none, none⟩ }) nb).is_freed = false
      · simp only [hoh, hnn, if_neg hle, if_neg hbf, if_pos hidx, if_pos hnf,
          Option.some_bind, Option.none_bind] at hs
        exact absurd hs (by simp)
      · simp only [hoh, hnn, if_neg hle, if_neg hbf, if_pos hidx, if_neg hnf,
          Option.some_bind, Option.none_bind, Option.some.injEq, Prod.mk.injEq] at hs
        obtain ⟨rfl, rfl⟩ := hs
        exact Or.inr ⟨bp, rfl, Or.inl ⟨nb, rfl, rfl, rfl⟩⟩

theorem extract_freed_index_inversion (st st' : St) (bp : Nat)
    (hs : extract_freed_block st bp = some st') :
    (st'.freed_block_map = st.freed_block_map ∧ st'.sl_bitmap = st.sl_bitmap ∧
      st'.fl_bitmap = st.fl_bitmap) ∨
    (∃ fl sl, calculate_mapping_indices (st.heap bp).buffer_size = (fl, sl) ∧
      ((∃ nb, (st.freed_block_map (calculate_index (fl, sl))).isSome = true ∧
          st'.freed_block_map =
            Function.update st.freed_block_map (calculate_index (fl, sl)) (some nb) ∧
          st'.sl_bitmap = st.sl_bitmap ∧ st'.fl_bitmap = st.fl_bitmap) ∨
        (fl < FIRST_INDEX_REAL ∧
          st.freed_block_map (calculate_index (fl, sl)) = some bp ∧
          st'.freed_block_map =
            Function.update st.freed_block_map (calculate_index (fl, sl)) none ∧
          st'.sl_bitmap = Function.update st.sl_bitmap fl
            (st.sl_bitmap fl ^^^ (1 <<< (sl % 32))) ∧
          st'.fl_bitmap = (if st.sl_bitmap fl ^^^ (1 <<< (sl % 32)) = 0
            then st.fl_bitmap ^^^ (1 <<< (fl % 32)) else st.fl_bitmap)))) := by
  simp only [extract_freed_block, map_get_item, map_set_item, map_reset_item,
    Option.bind_eq_bind] at hs
  by_cases hbf : (st.heap bp).is_freed = false
  · rw [if_pos hbf] at hs
    exact absurd hs (by simp)
  rcases hmi : calculate_mapping_indices (st.heap bp).buffer_size with ⟨fl, sl⟩
  rcases hnn : (st.heap bp).node.next with _ | nb
  · rcases hpp : (st.heap bp).node.prev with _ | pb
    · by_cases hle : TOTAL_COUNT ≤ calculate_index (fl, sl)
      · simp only [hnn, hpp, hmi, if_neg hbf, if_pos hle, Option.some_bind,
          Option.none_bind] at hs
        exact absurd hs (by simp)
      rcases hbm : st.freed_block_map (calculate_index (fl, sl)) with _ | head
      · simp only [hnn, hpp, hmi, hbm, if_neg hbf, if_neg hle, Option.some_bind,
          Option.none_bind, Option.some.injEq] at hs
        subst hs
        exact Or.inl ⟨rfl, rfl, rfl⟩
      · by_cases hhd : head = bp
        · by_cases hfl : fl < FIRST_INDEX_REAL
          · simp only [hnn, hpp, hmi, hbm, if_neg hbf, if_neg hle,
              if_pos (Nat.not_le.mp hle), if_pos hhd, if_pos hfl, Option.some_bind,
              Option.none_bind, Option.some.injEq] at hs
            subst hs
            exact Or.inr ⟨fl, sl, rfl,
              Or.inr ⟨hfl, by rw [hbm, hhd], rfl, rfl, rfl⟩⟩
          · simp only [hnn, hpp, hmi, hbm, if_neg hbf, if_neg hle,
              if_pos (Nat.not_le.mp hle), if_pos hhd, if_neg hfl, Option.some_bind,
              Option.none_bind] at hs
            exact absurd hs (by simp)
        · simp only [hnn, hpp, hmi, hbm, if_neg hbf, if_neg hle, if_neg hhd,
            Option.some_bind, Option.none_bind, Option.some.injEq] at hs
          subst hs
          exact Or.inl ⟨rfl, rfl, rfl⟩
    · by_cases hpbf : (st.heap pb).is_freed = true
      · by_cases hle : TOTAL_COUNT ≤ calculate_index (fl, sl)
        · simp only [hnn, hpp, hmi, if_neg hbf, if_pos hpbf, if_pos hle,
            Option.some_bind, Option.none_bind] at hs
          exact absurd hs (by simp)
        rcases hbm : st.freed_block_map (calculate_index (fl, sl)) with _ | head
        · simp only [hnn, hpp, hmi, hbm, if_neg hbf, if_pos hpbf, if_neg hle,
            Option.some_bind, Option.none_bind, Option.some.injEq] at hs
          subst hs
          exact Or.inl ⟨rfl, rfl, rfl⟩
        · by_cases hhd : head = bp
          · by_cases hfl : fl < FIRST_INDEX_REAL
            · simp only [hnn, hpp, hmi, hbm, if_neg hbf, if_pos hpbf, if_neg hle,
                if_pos (Nat.not_le.mp hle), if_pos hhd, if_pos hfl, Option.some_bind,
                Option.none_bind, Option.some.injEq] at hs
              subst hs
              exact Or.inr ⟨fl, sl, rfl,
                Or.inr ⟨hfl, by rw [hbm, hhd], rfl, rfl, rfl⟩⟩
            · simp only [hnn, hpp, hmi, hbm, if_neg hbf, if_pos hpbf, if_neg hle,
                if_pos (Nat.not_le.mp hle), if_pos hhd, if_neg hfl, Option.some_bind,
                Option.none_bind] at hs
              exact absurd hs (by simp)
          · simp only [hnn, hpp, hmi, hbm, if_neg hbf, if_pos hpbf, if_neg hle,
              if_neg hhd, Option.some_bind, Option.none_bind, Option.some.injEq] at hs
            subst hs
            exact Or.inl ⟨rfl, rfl, rfl⟩
      · simp only [hnn, hpp, hmi, if_neg hbf, if_neg hpbf, Option.some_bind,
          Option.none_bind] at hs
        exact absurd hs (by simp)
  · by_cases hnbf : (st.heap nb).is_freed = true
    · rcases hpp : (st.heap bp).node.prev with _ | pb
      · by_cases hle : TOTAL_COUNT ≤ calculate_index (fl, sl)
        · simp only [hnn, hpp, hmi, if_neg hbf, if_pos hnbf, if_pos hle,
            Option.some_bind, Option.none_bind] at hs
          exact absurd hs (by simp)
        rcases hbm : st.freed_block_map (calculate_index (fl, sl)) with _ | head
        · simp only [hnn, hpp, hmi, hbm, if_neg hbf, if_pos hnbf, if_neg hle,
            Option.some_bind, Option.none_bind, Option.some.injEq] at hs
          subst hs
          exact Or.inl ⟨rfl, rfl, rfl⟩
        · by_cases hhd : head = bp
          · simp only [hnn, hpp, hmi, hbm, if_neg hbf, if_pos hnbf, if_neg hle,
              if_pos (Nat.not_le.mp hle), if_pos hhd, Option.some_bind,
              Option.none_bind, Option.some.injEq] at hs
            subst hs
            exact Or.inr ⟨fl, sl, rfl, Or.inl ⟨nb, by rw [hbm]; rfl, rfl, rfl, rfl⟩⟩
          · simp only [hnn, hpp, hmi, hbm, if_neg hbf, if_pos hnbf, if_neg hle,
              if_neg hhd, Option.some_bind, Option.none_bind, Option.some.injEq] at hs
            subst hs
            exact Or.inl ⟨rfl, rfl, rfl⟩
      · by_cases hpbf : ((updBlk st.heap nb fun b =>
            { b with node := { b.node with prev := some pb } }) pb).is_freed = true
        · by_cases hle : TOTAL_COUNT ≤ calculate_index (fl, sl)
          · simp only [hnn, hpp, hmi, if_neg hbf, if_pos hnbf, if_pos hpbf,
              if_pos hle, Option.some_bind, Option.none_bind] at hs
            exact absurd hs (by simp)
          rcases hbm : st.freed_block_map (calculate_index (fl, sl)) with _ | head
          · simp only [hnn, hpp, hmi, hbm, if_neg hbf, if_pos hnbf, if_pos hpbf,
              if_neg hle, Option.some_bind, Option.none_bind, Option.some.injEq] at hs
            subst hs
            exact Or.inl ⟨rfl, rfl, rfl⟩
          · by_cases hhd : head = bp
            · simp only [hnn, hpp, hmi, hbm, if_neg hbf, if_pos hnbf, if_pos hpbf,
                if_neg hle, if_pos (Nat.not_le.mp hle), if_pos hhd, Option.some_bind,
                Option.none_bind, Option.some.injEq] at hs
              subst hs
              exact Or.inr ⟨fl, sl, rfl, Or.inl ⟨nb, by rw [hbm]; rfl, rfl, rfl, rfl⟩⟩
            · simp only [hnn, hpp, hmi, hbm, if_neg hbf, if_pos hnbf, if_pos hpbf,
                if_neg hle, if_neg hhd, Option.some_bind, Option.none_bind,
                Option.some.injEq] at hs
              subst hs
              exact Or.inl ⟨rfl, rfl, rfl⟩
        · simp only [hnn, hpp, hmi, if_neg hbf, if_pos hnbf, if_neg hpbf,
            Option.some_bind, Option.none_bind] at hs
          exact absurd hs (by simp)
    · simp only [hnn, hmi, if_neg hbf, if_neg hnbf, Option.some_bind,
        Option.none_bind] at hs
      exact absurd hs (by simp)

/-- C2: in every index state reachable from the zeroed index by
`insert_block`, `extract_root_block` and `extract_freed_block` (with
arbitrary header writes in between), for every class `(fl, sl)` the
free-list head `freed_block_map[fl*SL + sl]` is non-null iff bit `sl` of
`sl_bitmap[fl]` is set, and `sl_bitmap[fl]` is non-zero iff bit `fl` of
`fl_bitmap` is set. -/
theorem C2_bitmap_list_consistency (st : St) (h : IndexReachable st) :
    index_consistent st := by
  induction h with
  | base st h1 h2 h3 =>
    refine ⟨?_, ?_⟩
    · intro fl sl _ _
      rw [h3, h2]
      simp [Nat.zero_testBit]
    · intro fl _
      rw [h2, h1]
      simp [Nat.zero_testBit]
  | insert st st' bp mi hr hsl hs ih =>
    obtain ⟨hfl, hidx, hmap, hslb, hflb⟩ := insert_block_index_inversion st st' bp mi hs
    obtain ⟨fl, sl⟩ := mi
    rw [SECOND_INDEX_MAX_eq] at hsl
    have hfl30 : fl < 30 := by rw [FIRST_INDEX_REAL_eq] at hfl; exact hfl
    rw [shift_small sl hsl] at hslb
    rw [shift_small fl (by omega)] at hflb
    exact index_consistent_insert_upd st st' bp fl sl hsl hmap hslb hflb ih
  | extract_head st st' mi ob hr hsl hs ih =>
    rcases extract_root_index_inversion st st' mi ob hs with
      ⟨hm, hsb, hfb⟩ | ⟨bp, hbm, ⟨nb, hmap, hslb, hflb⟩ | ⟨hfl, hmap, hslb, hflb⟩⟩
    · exact index_consistent_frame st st' hm hsb hfb ih
    · exact index_consistent_sethead_upd st st' (calculate_index mi) nb
        (by rw [hbm]; rfl) hmap hslb hflb ih
    · obtain ⟨fl, sl⟩ := mi
      rw [SECOND_INDEX_MAX_eq] at hsl
      have hfl30 : fl < 30 := by rw [FIRST_INDEX_REAL_eq] at hfl; exact hfl
      rw [shift_small sl hsl] at hslb hflb
      rw [shift_small fl (by omega)] at hflb
      exact index_consistent_reset_upd st st' bp fl sl hsl hbm hmap hslb hflb hfl30 ih
  | extract st st' bp hr hs ih =>
    rcases extract_freed_index_inversion st st' bp hs with
      ⟨hm, hsb, hfb⟩ |
        ⟨fl, sl, hmi, ⟨nb, hsome, hmap, hslb, hflb⟩ | ⟨hfl, hbm, hmap, hslb, hflb⟩⟩
    · exact index_consistent_frame st st' hm hsb hfb ih
    · exact index_consistent_sethead_upd st st' (calculate_index (fl, sl)) nb
        hsome hmap hslb hflb ih
    · have hsl : sl < 32 := by
        have h2 := mapping_snd_lt (st.heap bp).buffer_size
        rw [hmi] at h2
        exact h2
      have hfl30 : fl < 30 := by rw [FIRST_INDEX_REAL_eq] at hfl; exact hfl
      rw [shift_small sl hsl] at hslb hflb
      rw [shift_small fl (by omega)] at hflb
      exact index_consistent_reset_upd st st' bp fl sl hsl hbm hmap hslb hflb hfl30 ih
  | mutate_heap st hp hr ih =>
    exact index_consistent_frame st { st with heap := hp } rfl rfl rfl ih

/-- Witness for C2 at the zeroed index. -/
theorem C2_bitmap_list_consistency_witness :
    emptySt.sl_bitmap 0 ≠ 0 ↔ emptySt.fl_bitmap.testBit 0 = true :=
  (C2_bitmap_list_consistency emptySt
      (IndexReachable.base emptySt rfl (fun _ => rfl) (fun _ => rfl))).2 0 (by decide)

/-! ## Claim C1: search-size adequacy -/

theorem class_floor_le (b : Nat) : class_floor (calculate_mapping_indices b) ≤ b := by
  by_cases h : b < 128
  · rw [mapping_indices_small b h]
    simp only [class_floor]
    rw [if_pos trivial]
    exact Nat.div_mul_le_self b 4
  · push_neg at h
    rw [mapping_indices_large b h]
    have h7 := log2_ge_seven b h
    have hlog : 2 ^ Nat.log2 b ≤ b := Nat.log2_self_le (by omega)
    simp only [class_floor]
    rw [if_neg (by omega : ¬ (Nat.log2 b - 6 = 0))]
    rw [show Nat.log2 b - 6 + 6 = Nat.log2 b from by omega,
      show Nat.log2 b - 6 + 1 = Nat.log2 b - 5 from by omega,
      Nat.shiftRight_eq_div_pow]
    have hP : (0:Nat) < 2 ^ (Nat.log2 b - 5) := Nat.pow_pos (by norm_num)
    have h2f : (2:Nat) ^ Nat.log2 b = 32 * 2 ^ (Nat.log2 b - 5) := by
      rw [show (32:Nat) = 2 ^ 5 from by norm_num, ← pow_add]
      congr 1
      omega
    have hq32 : 32 ≤ b / 2 ^ (Nat.log2 b - 5) := by
      rw [Nat.le_div_iff_mul_le hP]
      omega
    have hsub : (b / 2 ^ (Nat.log2 b - 5) - 32) * 2 ^ (Nat.log2 b - 5) =
        b / 2 ^ (Nat.log2 b - 5) * 2 ^ (Nat.log2 b - 5) -
          32 * 2 ^ (Nat.log2 b - 5) := Nat.sub_mul _ _ _
    have hdmul : b / 2 ^ (Nat.log2 b - 5) * 2 ^ (Nat.log2 b - 5) ≤ b :=
      Nat.div_mul_le_self _ _
    have h32le : 32 * 2 ^ (Nat.log2 b - 5) ≤
        b / 2 ^ (Nat.log2 b - 5) * 2 ^ (Nat.log2 b - 5) :=
      Nat.mul_le_mul_right _ hq32
    rw [h2f, hsub]
    omega

theorem class_floor_mono (fl sl fl' sl' : Nat) (hsl : sl < 32)
    (h : fl < fl' ∨ (fl = fl' ∧ sl ≤ sl')) :
    class_floor (fl, sl) ≤ class_floor (fl', sl') := by
  simp only [class_floor]
  rcases h with hlt | ⟨rfl, hsl'⟩
  · rw [if_neg (by omega : ¬ (fl' = 0))]
    have hbig : (2:Nat) ^ (fl + 7) ≤ 2 ^ (fl' + 6) :=
      Nat.pow_le_pow_right (by norm_num) (by omega)
    have htail : (2:Nat) ^ (fl' + 6) ≤ 2 ^ (fl' + 6) + sl' * 2 ^ (fl' + 1) :=
      Nat.le_add_right _ _
    by_cases hfz : fl = 0
    · subst hfz
      rw [if_pos rfl]
      have h128 : (2:Nat) ^ (0 + 7) = 128 := by norm_num
      omega
    · rw [if_neg hfz]
      have hsl31 : sl * 2 ^ (fl + 1) ≤ 31 * 2 ^ (fl + 1) :=
        Nat.mul_le_mul_right _ (by omega)
      have h1 : (2:Nat) ^ (fl + 6) = 32 * 2 ^ (fl + 1) := by
        rw [show (32:Nat) = 2 ^ 5 from by norm_num, ← pow_add]
        congr 1
        omega
      have h2 : (2:Nat) ^ (fl + 7) = 64 * 2 ^ (fl + 1) := by
        rw [show (64:Nat) = 2 ^ 6 from by norm_num, ← pow_add]
        congr 1
        omega
      omega
  · by_cases hfz : fl = 0
    · subst hfz
      rw [if_pos rfl, if_pos rfl]
      exact Nat.mul_le_mul_right _ hsl'
    · rw [if_neg hfz, if_neg hfz]
      exact Nat.add_le_add_left (Nat.mul_le_mul_right _ hsl') _

theorem alloc_size_facts (req : Nat) (hreq : req < 2 ^ 63) :
    16 ≤ calculate_allocation_size req ∧ calculate_allocation_size req % 16 = 0 ∧
    calculate_allocation_size req < 2 ^ 63 + 16 := by
  have hU : U64 = 2 ^ 64 := rfl
  have hb : max req 16 + 15 < U64 := by
    rw [hU]
    have : (2:Nat) ^ 63 + 16 + 15 < 2 ^ 64 := by norm_num
    omega
  obtain ⟨h1, h2, h3⟩ := round_up_block_bounds (max req 16) hb
  unfold calculate_allocation_size MINIMUM_BLOCK_SIZE
  refine ⟨le_trans (le_max_right _ _) h1, h3, by omega⟩

theorem alloc_size_of_aligned (s : Nat) (h16 : 16 ≤ s) (hal : s % 16 = 0)
    (hb : s + 15 < U64) : calculate_allocation_size s = s := by
  unfold calculate_allocation_size MINIMUM_BLOCK_SIZE
  rw [Nat.max_eq_left h16]
  exact round_up_block_of_aligned s hb hal

theorem searching_size_small (req : Nat) (h : calculate_allocation_size req < 128) :
    calculate_allocation_searching_size req = calculate_allocation_size req := by
  unfold calculate_allocation_searching_size
  rw [if_pos (show calculate_allocation_size req < SMALL_BLOCK_SIZE from h)]

theorem searching_size_large_eq (req : Nat) (hreq : req < 2 ^ 63)
    (hge : 128 ≤ calculate_allocation_size req) :
    calculate_allocation_searching_size req =
      (calculate_allocation_size req +
          (2 ^ (Nat.log2 (calculate_allocation_size req) - 5) - 1)) /
        2 ^ (Nat.log2 (calculate_allocation_size req) - 5) *
        2 ^ (Nat.log2 (calculate_allocation_size req) - 5) := by
  obtain ⟨h16, hal, hub⟩ := alloc_size_facts req hreq
  have hmsb : calculate_msb (calculate_allocation_size req) =
      some (Nat.log2 (calculate_allocation_size req)) :=
    calculate_msb_eq _ (by omega)
  unfold calculate_allocation_searching_size
  rw [if_neg (show ¬ (calculate_allocation_size req < SMALL_BLOCK_SIZE) from
    Nat.not_lt.mpr hge)]
  rw [hmsb, Option.getD_some,
    show SECOND_INDEX_LOG2_MAX = 5 from rfl]
  set a := calculate_allocation_size req with ha
  set f := Nat.log2 a with hf
  have hf7 : 7 ≤ f := log2_ge_seven a hge
  have hfle : f ≤ 63 := by
    have h64 : a < 2 ^ 64 := by
      have : (2:Nat) ^ 63 + 16 < 2 ^ 64 := by norm_num
      omega
    have := (Nat.log2_lt (show a ≠ 0 by omega)).mpr h64
    omega
  have hPle : (2:Nat) ^ (f - 5) ≤ 2 ^ 58 :=
    Nat.pow_le_pow_right (by norm_num) (by omega)
  have h58 : (2:Nat) ^ 58 + 2 ^ 63 + 16 < 2 ^ 64 := by norm_num
  rw [show (1 <<< (f - 5) : Nat) = 2 ^ (f - 5) from by
    rw [Nat.shiftLeft_eq, one_mul]]
  have hmod : (a + (2 ^ (f - 5) - 1)) % U64 = a + (2 ^ (f - 5) - 1) := by
    apply Nat.mod_eq_of_lt
    show a + (2 ^ (f - 5) - 1) < 2 ^ 64
    omega
  show (a + (2 ^ (f - 5) - 1)) % U64 &&& not64 (2 ^ (f - 5) - 1) =
    (a + (2 ^ (f - 5) - 1)) / 2 ^ (f - 5) * 2 ^ (f - 5)
  rw [hmod, not64_two_pow_sub_one (f - 5) (by omega),
    land_mask_high _ (f - 5) (by omega) (by omega)]

theorem searching_size_facts (req : Nat) (hreq : req < 2 ^ 63) :
    calculate_allocation_size req ≤ calculate_allocation_searching_size req ∧
    calculate_allocation_searching_size req % 16 = 0 ∧
    16 ≤ calculate_allocation_searching_size req ∧
    calculate_allocation_searching_size req < 2 ^ 63 + 2 ^ 60 ∧
    class_floor (calculate_mapping_indices (calculate_allocation_searching_size req)) =
      calculate_allocation_searching_size req := by
  obtain ⟨h16, hal, hub⟩ := alloc_size_facts req hreq
  by_cases hsm : calculate_allocation_size req < 128
  · rw [searching_size_small req hsm]
    refine ⟨le_rfl, hal, h16, by omega, ?_⟩
    rw [mapping_indices_small _ hsm]
    simp only [class_floor]
    rw [if_pos trivial]
    exact Nat.div_mul_cancel (by omega : (4:Nat) ∣ calculate_allocation_size req)
  · push_neg at hsm
    rw [searching_size_large_eq req hreq hsm]
    set a := calculate_allocation_size req with ha
    set f := Nat.log2 a with hf
    set j := f - 5 with hj
    set q := (a + (2 ^ j - 1)) / 2 ^ j with hq
    have hf7 : 7 ≤ f := log2_ge_seven a hsm
    have hflow : 2 ^ f ≤ a := Nat.log2_self_le (by omega)
    have hfhigh : a < 2 ^ (f + 1) := Nat.lt_log2_self
    have hfle : f ≤ 63 := by
      have h64 : a < 2 ^ 64 := by
        have : (2:Nat) ^ 63 + 16 < 2 ^ 64 := by norm_num
        omega
      have := (Nat.log2_lt (show a ≠ 0 by omega)).mpr h64
      omega
    have hP : (0:Nat) < 2 ^ j := Nat.pow_pos (by norm_num)
    have hPle : (2:Nat) ^ j ≤ 2 ^ 58 :=
      Nat.pow_le_pow_right (by norm_num) (by omega)
    have h58 : (2:Nat) ^ 58 < 2 ^ 60 := by norm_num
    have hssle : q * 2 ^ j ≤ a + (2 ^ j - 1) := Nat.div_mul_le_self _ _
    have hssge : a ≤ q * 2 ^ j := by
      have h2 : a + (2 ^ j - 1) < q * 2 ^ j + 2 ^ j := by
        rw [hq]
        exact Nat.lt_div_mul_add hP
      omega
    have h2f : (2:Nat) ^ f = 32 * 2 ^ j := by
      rw [show (32:Nat) = 2 ^ 5 from by norm_num, ← pow_add]
      congr 1
      omega
    have h2f1 : (2:Nat) ^ (f + 1) = 64 * 2 ^ j := by
      rw [show (64:Nat) = 2 ^ 6 from by norm_num, ← pow_add]
      congr 1
      omega
    have hq32 : 32 ≤ q := by
      have h1 : 32 * 2 ^ j ≤ q * 2 ^ j := by omega
      exact Nat.le_of_mul_le_mul_right h1 hP
    have hq64 : q ≤ 64 := by
      have h1 : a + (2 ^ j - 1) ≤ 64 * 2 ^ j + (2 ^ j - 1) := by omega
      have h2 : q ≤ (64 * 2 ^ j + (2 ^ j - 1)) / 2 ^ j := Nat.div_le_div_right h1
      rw [Nat.mul_comm, Nat.mul_add_div hP, Nat.div_eq_of_lt (by omega)] at h2
      omega
    have hss16 : q * 2 ^ j % 16 = 0 := by
      by_cases hj4 : 4 ≤ j
      · have h2j : (2:Nat) ^ j = 2 ^ (j - 4) * 16 := by
          rw [show (16:Nat) = 2 ^ 4 from by norm_num, ← pow_add]
          congr 1
          omega
        rw [h2j, ← Nat.mul_assoc]
        exact Nat.mul_mod_left _ _
      · have h2j16 : (2:Nat) ^ j ∣ 16 := by
          rw [show (16:Nat) = 2 ^ 4 from by norm_num]
          exact pow_dvd_pow 2 (by omega)
        have h16a : (16:Nat) ∣ a := Nat.dvd_of_mod_eq_zero hal
        obtain ⟨c, hc⟩ := h2j16.trans h16a
        have hqa : q * 2 ^ j = a := by
          rw [hq, hc, Nat.mul_add_div hP, Nat.div_eq_of_lt (by omega),
            Nat.add_zero, Nat.mul_comm]
        rw [hqa]
        exact hal
    refine ⟨hssge, hss16, by omega, by omega, ?_⟩
    by_cases hqlt : q < 64
    · have hssf : Nat.log2 (q * 2 ^ j) = f := by
        apply log2_eq_of_bounds
        · rw [h2f]
          exact Nat.mul_le_mul_right _ hq32
        · rw [h2f1]
          exact (Nat.mul_lt_mul_right hP).mpr hqlt
      have hss128 : 128 ≤ q * 2 ^ j := by omega
      rw [mapping_indices_large _ hss128, hssf]
      have hshr : (q * 2 ^ j) >>> (f - 5) = q := by
        rw [Nat.shiftRight_eq_div_pow, ← hj]
        exact Nat.mul_div_cancel q hP
      rw [hshr]
      simp only [class_floor]
      rw [if_neg (by omega : ¬ (f - 6 = 0))]
      rw [show f - 6 + 6 = f from by omega, show f - 6 + 1 = j from by omega]
      rw [h2f, Nat.sub_mul]
      have h32q : 32 * 2 ^ j ≤ q * 2 ^ j := by omega
      omega
    · have hq64e : q = 64 := by omega
      rw [hq64e, h2f1.symm]
      have h2f1ge : (128:Nat) ≤ 2 ^ (f + 1) := by
        calc (128:Nat) = 2 ^ 7 := by norm_num
          _ ≤ 2 ^ (f + 1) := Nat.pow_le_pow_right (by norm_num) (by omega)
      rw [mapping_indices_large _ h2f1ge, Nat.log2_two_pow]
      have hshr : (2:Nat) ^ (f + 1) >>> (f + 1 - 5) = 32 := by
        rw [Nat.shiftRight_eq_div_pow]
        rw [show (2:Nat) ^ (f + 1) = 2 ^ (f + 1 - 5) * 32 from by
          rw [show (32:Nat) = 2 ^ 5 from by norm_num, ← pow_add]
          congr 1
          omega]
        exact Nat.mul_div_cancel_left 32 (Nat.pow_pos (by norm_num))
      rw [hshr]
      simp only [class_floor]
      rw [if_neg (by omega : ¬ (f + 1 - 6 = 0))]
      rw [show f + 1 - 6 + 6 = f + 1 from by omega]
      simp

theorem overflowing_mask_testBit_lt (n k : Nat) (hn : n < 32) (hk : k < n) :
    (overflowing_shl_u32 (U32 - 1) n).testBit k = false := by
  unfold overflowing_shl_u32 U32
  rw [Nat.mod_eq_of_lt hn]
  rw [Nat.testBit_mod_two_pow, Nat.testBit_shiftLeft]
  simp [Nat.not_le.mpr hk]

theorem find_suitable_lex (st : St) (sz fl' sl' : Nat)
    (hfind : find_suitable_indices st sz = some (some (fl', sl'))) :
    ((calculate_mapping_indices (calculate_allocation_size sz)).1 = fl' ∧
      (calculate_mapping_indices (calculate_allocation_size sz)).2 ≤ sl') ∨
    (calculate_mapping_indices (calculate_allocation_size sz)).1 < fl' := by
  rcases hmi : calculate_mapping_indices (calculate_allocation_size sz) with
    ⟨first, second⟩
  have hsnd : second < 32 := by
    have h2 := mapping_snd_lt (calculate_allocation_size sz)
    rw [hmi] at h2
    exact h2
  simp only [find_suitable_indices, hmi, Option.bind_eq_bind] at hfind
  by_cases hfl : first < FIRST_INDEX_REAL
  · by_cases hsmb : 0 < st.sl_bitmap first &&& second_level_mask second
    · simp only [if_pos hfl, if_pos hsmb, Option.some_bind, Option.some.injEq,
        Prod.mk.injEq] at hfind
      obtain ⟨hfl'eq, hsl'eq⟩ := hfind
      left
      refine ⟨hfl'eq, ?_⟩
      subst hsl'eq
      have hU32 : U32 = 2 ^ 32 := rfl
      have hmasklt : second_level_mask second < U64 := by
        have h1 : second_level_mask second < U32 := by
          unfold second_level_mask overflowing_shl_u32
          exact Nat.mod_lt _ (by rw [hU32]; exact Nat.pow_pos (by norm_num))
        have h2 : U32 < U64 := by decide
        omega
      have hlt : st.sl_bitmap first &&& second_level_mask second < U64 :=
        lt_of_le_of_lt Nat.and_le_right hmasklt
      obtain ⟨k, hlsb, hbit, hmin⟩ :=
        calculate_lsb_spec (st.sl_bitmap first &&& second_level_mask second) hsmb hlt
      rw [hlsb, Option.getD_some]
      by_contra hc
      push_neg at hc
      have hmaskbit : (second_level_mask second).testBit k = false :=
        overflowing_mask_testBit_lt second k hsnd (by omega)
      have hzero : (st.sl_bitmap first &&& second_level_mask second).testBit k =
          false := by
        rw [Nat.testBit_land, hmaskbit, Bool.and_false]
      rw [hbit] at hzero
      exact absurd hzero (by simp)
    · by_cases hfmb : st.fl_bitmap &&& first_level_mask first = 0
      · simp only [if_pos hfl, if_neg hsmb, if_pos hfmb, Option.some_bind] at hfind
        exact absurd hfind (by simp)
      · have hpos : 0 < st.fl_bitmap &&& first_level_mask first :=
          Nat.pos_of_ne_zero hfmb
        have hU32 : U32 = 2 ^ 32 := rfl
        have hmasklt : first_level_mask first < U64 := by
          have h1 : first_level_mask first < U32 := by
            unfold first_level_mask overflowing_shl_u32
            exact Nat.mod_lt _ (by rw [hU32]; exact Nat.pow_pos (by norm_num))
          have h2 : U32 < U64 := by decide
          omega
        have hlt : st.fl_bitmap &&& first_level_mask first < U64 :=
          lt_of_le_of_lt Nat.and_le_right hmasklt
        obtain ⟨k, hlsb, hbit, hmin⟩ :=
          calculate_lsb_spec (st.fl_bitmap &&& first_level_mask first) hpos hlt
        by_cases hfl1 : (calculate_lsb (st.fl_bitmap &&& first_level_mask first)).getD 0 <
            FIRST_INDEX_REAL
        · simp only [if_pos hfl, if_neg hsmb, if_neg hfmb, if_pos hfl1,
            Option.some_bind, Option.some.injEq, Prod.mk.injEq] at hfind
          obtain ⟨hfl'eq, _⟩ := hfind
          right
          rw [← hfl'eq, hlsb, Option.getD_some]
          have h31 : first + 1 < 32 := by
            rw [FIRST_INDEX_REAL_eq] at hfl
            omega
          by_contra hc
          push_neg at hc
          have hkb : (first_level_mask first).testBit k = false :=
            overflowing_mask_testBit_lt (first + 1) k h31 (by omega)
          have hzero : (st.fl_bitmap &&& first_level_mask first).testBit k = false := by
            rw [Nat.testBit_land, hkb, Bool.and_false]
          rw [hbit] at hzero
          exact absurd hzero (by simp)
        · simp only [if_pos hfl, if_neg hsmb, if_neg hfmb, if_neg hfl1,
            Option.some_bind, Option.none_bind] at hfind
          exact absurd hfind (by simp)
  · simp only [if_neg hfl, Option.none_bind] at hfind
    exact absurd hfind (by simp)

/-- C1: when `find_suitable_indices`, applied to the searching size of a
request `req` (bounded by Rust's `Layout`/`isize` limit), returns the class
`(fl', sl')`, every `BLOCK_ALIGNOF`-aligned size `b ≥ MINIMUM_BLOCK_SIZE`
whose mapping indices are `(fl', sl')` satisfies both
`b ≥ calculate_allocation_size req` and
`b ≥ calculate_allocation_searching_size req`; the searching size itself
dominates the allocation size, so the head block of the returned class always
passes the buffer-size assertion in `alloc`. -/
theorem C1_search_size_adequacy (st : St) (req fl' sl' : Nat)
    (hreq : req < 2 ^ 63)
    (hfind : find_suitable_indices st (calculate_allocation_searching_size req) =
      some (some (fl', sl'))) :
    calculate_allocation_size req ≤ calculate_allocation_searching_size req ∧
    ∀ b, is_aligned b = true → MINIMUM_BLOCK_SIZE ≤ b →
      calculate_mapping_indices b = (fl', sl') →
      calculate_allocation_size req ≤ b ∧
      calculate_allocation_searching_size req ≤ b := by
  obtain ⟨hle, hal, h16, hub, hcf⟩ := searching_size_facts req hreq
  refine ⟨hle, ?_⟩
  intro b _ _ hmi
  have hbound : calculate_allocation_searching_size req + 15 < U64 := by
    show _ < 2 ^ 64
    have : (2:Nat) ^ 63 + 2 ^ 60 + 15 < 2 ^ 64 := by norm_num
    omega
  have hss_al : calculate_allocation_size (calculate_allocation_searching_size req) =
      calculate_allocation_searching_size req :=
    alloc_size_of_aligned _ h16 hal hbound
  have hlex0 := find_suitable_lex st (calculate_allocation_searching_size req)
    fl' sl' hfind
  rw [hss_al] at hlex0
  have hsnd := mapping_snd_lt (calculate_allocation_searching_size req)
  rcases hmiss : calculate_mapping_indices (calculate_allocation_searching_size req)
    with ⟨f0, s0⟩
  rw [hmiss] at hlex0 hsnd hcf
  have h1 : class_floor (f0, s0) ≤ class_floor (fl', sl') := by
    apply class_floor_mono f0 s0 fl' sl' hsnd
    rcases hlex0 with ⟨heq, hles⟩ | hlt
    · exact Or.inr ⟨heq, hles⟩
    · exact Or.inl hlt
  have h2 : class_floor (calculate_mapping_indices b) ≤ b := class_floor_le b
  rw [hmi] at h2
  have hssb : calculate_allocation_searching_size req ≤ b := by
    rw [← hcf]
    exact le_trans h1 h2
  exact ⟨le_trans hle hssb, hssb⟩

set_option maxRecDepth 4000 in
/-- Witness for C1: request 20 against an index whose only free class is
`(0, 12)`. -/
theorem C1_search_size_adequacy_witness :
    (20 : Nat) < 2 ^ 63 ∧
    calculate_allocation_size 20 ≤ calculate_allocation_searching_size 20 ∧
    calculate_allocation_size 20 ≤ 48 ∧ calculate_allocation_searching_size 20 ≤ 48 :=
  ⟨by norm_num,
    (C1_search_size_adequacy
      { emptySt with sl_bitmap := Function.update emptySt.sl_bitmap 0 4096 }
      20 0 12 (by norm_num) (by decide)).1,
    (C1_search_size_adequacy
      { emptySt with sl_bitmap := Function.update emptySt.sl_bitmap 0 4096 }
      20 0 12 (by norm_num) (by decide)).2 48 (by decide) (by decide) (by decide)⟩

/-! ## Claim C7: LIFO round trip -/

theorem lor_pow_of_testBit (x k : Nat) (h : x.testBit k = true) : x ||| 2 ^ k = x := by
  apply Nat.eq_of_testBit_eq
  intro j
  rw [Nat.testBit_lor]
  by_cases hj : j = k
  · subst hj
    rw [h, Nat.testBit_two_pow_self, Bool.true_or]
  · rw [Nat.testBit_two_pow_of_ne (fun hh => hj hh.symm), Bool.or_false]

theorem xor_lor_pow_of_testBit (x k : Nat) (h : x.testBit k = true) :
    (x ^^^ 2 ^ k) ||| 2 ^ k = x := by
  apply Nat.eq_of_testBit_eq
  intro j
  rw [Nat.testBit_lor, Nat.testBit_xor]
  by_cases hj : j = k
  · subst hj
    rw [h, Nat.testBit_two_pow_self]
    rfl
  · rw [Nat.testBit_two_pow_of_ne (fun hh => hj hh.symm), Bool.xor_false, Bool.or_false]

theorem lor_xor_pow_of_not_testBit (x k : Nat) (h : x.testBit k = false) :
    (x ||| 2 ^ k) ^^^ 2 ^ k = x := by
  apply Nat.eq_of_testBit_eq
  intro j
  rw [Nat.testBit_xor, Nat.testBit_lor]
  by_cases hj : j = k
  · subst hj
    rw [h, Nat.testBit_two_pow_self]
    rfl
  · rw [Nat.testBit_two_pow_of_ne (fun hh => hj hh.symm), Bool.or_false, Bool.xor_false]

theorem testBit_lor_pow_self (x k : Nat) : (x ||| 2 ^ k).testBit k = true := by
  rw [Nat.testBit_lor, Nat.testBit_two_pow_self, Bool.or_true]

theorem lor_pow_ne_zero (x k : Nat) : x ||| 2 ^ k ≠ 0 :=
  testBit_ne_zero _ k (testBit_lor_pow_self x k)

theorem updBlk_collapse (h : Heap) (a : Nat) (g f : Blk → Blk) :
    updBlk (updBlk h a g) a f = updBlk h a (fun b => f (g b)) := by
  unfold updBlk
  rw [Function.update_same, Function.update_idem]

theorem set_freed_stored (b : Blk) (v : Bool) :
    (b.set_freed v).stored_size =
      calculate_stored_size b.buffer_size v b.is_prev_freed := rfl

theorem set_previous_freed_stored (b : Blk) (v : Bool) :
    (b.set_previous_freed v).stored_size =
      calculate_stored_size b.buffer_size b.is_freed v := rfl

theorem set_freed_node (b : Blk) (v : Bool) : (b.set_freed v).node = b.node := rfl

theorem set_freed_area (b : Blk) (v : Bool) :
    (b.set_freed v).area_end = b.area_end ∧ (b.set_freed v).area_next = b.area_next :=
  ⟨rfl, rfl⟩

/-- Popping the head of a class whose head has no list successor. -/
theorem extract_root_block_eq_last (st : St) (mi : Nat × Nat) (B : Nat)
    (hidx : calculate_index mi < TOTAL_COUNT)
    (hfl : mi.1 < FIRST_INDEX_REAL)
    (hhead : st.freed_block_map (calculate_index mi) = some B)
    (hfree : (st.heap B).is_freed = true)
    (hnext : (st.heap B).node.next = none) :
    extract_root_block st mi = some ({ st with
      heap := updBlk st.heap B fun b => { b with node := ⟨none, none⟩ }
      freed_block_map := Function.update st.freed_block_map (calculate_index mi) none
      sl_bitmap := Function.update st.sl_bitmap mi.1
        (st.sl_bitmap mi.1 ^^^ (1 <<< (mi.2 % 32)))
      fl_bitmap := if st.sl_bitmap mi.1 ^^^ (1 <<< (mi.2 % 32)) = 0
        then st.fl_bitmap ^^^ (1 <<< (mi.1 % 32)) else st.fl_bitmap }, some B) := by
  obtain ⟨fl, sl⟩ := mi
  have hle : ¬ TOTAL_COUNT ≤ calculate_index (fl, sl) := Nat.not_le.mpr hidx
  simp only [extract_root_block, map_get_item, map_reset_item, Option.bind_eq_bind,
    hhead, hnext, if_neg hle, Option.some_bind,
    if_neg (show ¬ ((st.heap B).is_freed = false) by rw [hfree]; simp),
    if_pos hidx, if_pos hfl]

/-- Popping the head of a class whose head has a list successor `t`. -/
theorem extract_root_block_eq_cons (st : St) (mi : Nat × Nat) (B t : Nat)
    (hidx : calculate_index mi < TOTAL_COUNT)
    (hhead : st.freed_block_map (calculate_index mi) = some B)
    (hfree : (st.heap B).is_freed = true)
    (hnext : (st.heap B).node.next = some t)
    (htB : t ≠ B)
    (htfree : (st.heap t).is_freed = true) :
    extract_root_block st mi = some ({ st with
      heap := updBlk (updBlk st.heap B fun b => { b with node := ⟨none, none⟩ }) t
        fun b => { b with node := { b.node with prev := none } }
      freed_block_map :=
        Function.update st.freed_block_map (calculate_index mi) (some t) }, some B) := by
  obtain ⟨fl, sl⟩ := mi
  have hle : ¬ TOTAL_COUNT ≤ calculate_index (fl, sl) := Nat.not_le.mpr hidx
  have htf1 : ((updBlk st.heap B fun b => { b with node := ⟨none, none⟩ }) t).is_freed =
      true := by
    rw [updBlk_nodew_is_freed]
    exact htfree
  simp only [extract_root_block, map_get_item, map_set_item, Option.bind_eq_bind,
    hhead, hnext, if_neg hle, Option.some_bind,
    if_neg (show ¬ ((st.heap B).is_freed = false) by rw [hfree]; simp),
    if_pos hidx,
    if_neg (show ¬ (((updBlk st.heap B fun b =>
      { b with node := ⟨none, none⟩ }) t).is_freed = false) by rw [htf1]; simp)]

/-- `RootPool::alloc` after a successful head extraction, exact-fit case:
the remainder is too small to split off, so only the successor's `PREV_FREE`
flag is cleared and the block is marked used. -/
theorem root_alloc_eq_nosplit (st stE : St) (n B : Nat) (mi : Nat × Nat)
    (hfind : find_suitable_indices st (calculate_allocation_searching_size n) =
      some (some mi))
    (hext : extract_root_block st mi = some (stE, some B))
    (hble : calculate_allocation_searching_size n ≤ (stE.heap B).buffer_size)
    (hrem : (stE.heap B).buffer_size - calculate_allocation_searching_size n <
      BLOCK_SIZE) :
    root_alloc st n = some
      ({ stE with
          heap := updBlk (updBlk stE.heap
              (next_block_addr B (stE.heap B)) fun b => b.set_previous_freed false)
            B fun b => b.set_freed false
          used_memory_size := stE.used_memory_size +
            ((updBlk (updBlk stE.heap (next_block_addr B (stE.heap B)) fun b =>
                  b.set_previous_freed false) B fun b => b.set_freed false)
              B).buffer_size_with_header },
        some (B + BlockHeader.get_aligned_size)) := by
  simp only [root_alloc, Option.bind_eq_bind, hfind, Option.some_bind, hext]
  rw [if_neg (Nat.not_lt.mpr hble)]
  simp only [alloc_split_step, Option.bind_eq_bind]
  rw [if_pos hrem]
  simp only [Option.some_bind]

theorem alloc_split_step_eq_keep (st : St) (sb s : Nat)
    (hrem : (st.heap sb).buffer_size - s < BLOCK_SIZE) :
    alloc_split_step st sb s = some { st with
      heap := updBlk st.heap (next_block_addr sb (st.heap sb)) fun b =>
        b.set_previous_freed false } := by
  simp only [alloc_split_step]
  rw [if_pos hrem]

theorem root_alloc_eq_of_split (st stE SP : St) (n B : Nat) (mi : Nat × Nat)
    (hfind : find_suitable_indices st (calculate_allocation_searching_size n) =
      some (some mi))
    (hext : extract_root_block st mi = some (stE, some B))
    (hble : calculate_allocation_searching_size n ≤ (stE.heap B).buffer_size)
    (hsp : alloc_split_step stE B (calculate_allocation_searching_size n) = some SP) :
    root_alloc st n = some
      ({ SP with
          heap := updBlk SP.heap B fun b => b.set_freed false
          used_memory_size := SP.used_memory_size +
            ((updBlk SP.heap B fun b => b.set_freed false) B).buffer_size_with_header },
        some (B + BlockHeader.get_aligned_size)) := by
  simp only [root_alloc, Option.bind_eq_bind, hfind, Option.some_bind, hext]
  rw [if_neg (Nat.not_lt.mpr hble)]
  simp only [hsp, Option.some_bind]

set_option maxHeartbeats 1000000 in
/-- The split step when the remainder's class is empty. -/
theorem alloc_split_step_eq_empty (st : St) (sb s : Nat)
    (hsal : s % 16 = 0)
    (hsle : s ≤ (st.heap sb).buffer_size)
    (hBbound : (st.heap sb).buffer_size < 2 ^ 36)
    (hge : BLOCK_SIZE ≤ (st.heap sb).buffer_size - s)
    (hOH : st.freed_block_map (calculate_index (calculate_mapping_indices
      ((st.heap sb).buffer_size - s - BlockHeader.get_aligned_size))) = none) :
    alloc_split_step st sb s = some { st with
      heap := updBlk (Function.update
          (updBlk (updBlk st.heap (sb + 16 + s) fun b =>
            { b with previous_header := none, stored_size := calculate_stored_size ((st.heap sb).buffer_size - s - 16) true false })
            (sb + (16 + (st.heap sb).buffer_size)) fun b =>
              b.set_previous_header (sb + 16 + s))
          sb { st.heap sb with stored_size := calculate_stored_size s (st.heap sb).is_freed (st.heap sb).is_prev_freed })
        (sb + 16 + s) fun b => { b with node := ⟨none, none⟩ }
      freed_block_map := Function.update st.freed_block_map
        (calculate_index (calculate_mapping_indices
          ((st.heap sb).buffer_size - s - 16)))
        (some (sb + 16 + s))
      fl_bitmap := st.fl_bitmap ||| (1 <<< ((calculate_mapping_indices
        ((st.heap sb).buffer_size - s - 16)).1 % 32))
      sl_bitmap := Function.update st.sl_bitmap (calculate_mapping_indices
          ((st.heap sb).buffer_size - s - 16)).1
        (st.sl_bitmap (calculate_mapping_indices
            ((st.heap sb).buffer_size - s - 16)).1 |||
          (1 <<< ((calculate_mapping_indices
            ((st.heap sb).buffer_size - s - 16)).2 % 32))) } := by
  have hb16 := buffer_size_mod16 (st.heap sb)
  have hbU := buffer_size_lt_u64 (st.heap sb)
  have hU : U64 = 2 ^ 64 := rfl
  rw [BLOCK_SIZE_eq] at hge
  rw [header_aligned_eq] at hOH
  simp only [alloc_split_step, header_aligned_eq, BLOCK_SIZE_eq, next_block_addr]
  rw [if_neg (by omega)]
  have hsbound : s + 15 < U64 := by rw [hU] at hbU ⊢; omega
  have hnbound : ((st.heap sb).buffer_size - s - 16) + 15 < U64 := by
    rw [hU] at hbU ⊢
    omega
  have hnal : ((st.heap sb).buffer_size - s - 16) % 16 = 0 := by omega
  set N := sb + 16 + s with hN
  set SUCC := sb + (16 + (st.heap sb).buffer_size) with hSUCC
  have hdNsb : N ≠ sb := by omega
  have hdNS : N ≠ SUCC := by rw [hN, hSUCC]; omega
  have hdSsb : SUCC ≠ sb := by rw [hSUCC]; omega
  set H1 : Heap := updBlk st.heap N (fun b => { b with previous_header := none, stored_size := calculate_stored_size ((st.heap sb).buffer_size - s - 16) true false }) with hH1
  set H2 : Heap := updBlk H1 SUCC (fun b => b.set_previous_header N) with hH2
  have h2sb : H2 sb = st.heap sb := by
    rw [hH2, updBlk_ne _ _ _ _ (Ne.symm hdSsb), hH1, updBlk_ne _ _ _ _ (Ne.symm hdNsb)]
  rw [h2sb]
  have hsbs : (st.heap sb).set_buffer_size s = some { st.heap sb with stored_size := calculate_stored_size s (st.heap sb).is_freed (st.heap sb).is_prev_freed } := by
    unfold Blk.set_buffer_size
    rw [if_pos ((is_aligned_iff s).mpr hsal)]
  rw [hsbs]
  simp only [Option.bind_eq_bind, Option.some_bind]
  set SB1 : Blk := { st.heap sb with stored_size := calculate_stored_size s (st.heap sb).is_freed (st.heap sb).is_prev_freed } with hSB1
  set H3 : Heap := Function.update H2 sb SB1 with hH3
  have hH3N_stored : (H3 N).stored_size =
      calculate_stored_size ((st.heap sb).buffer_size - s - 16) true false := by
    rw [hH3, Function.update_noteq hdNsb, hH2, updBlk_ne _ _ _ _ hdNS, hH1, updBlk_same]
  have hH3N_free : (H3 N).is_freed = true := by
    unfold Blk.is_freed
    rw [hH3N_stored]
    have := freed_flag_stored ((st.heap sb).buffer_size - s - 16) true false hnbound
    simpa using this
  have hfl : (calculate_mapping_indices ((st.heap sb).buffer_size - s - 16)).1 <
      FIRST_INDEX_REAL := by
    rw [FIRST_INDEX_REAL_eq]
    exact mapping_fst_lt _ (by omega)
  have hidx : calculate_index (calculate_mapping_indices
      ((st.heap sb).buffer_size - s - 16)) < TOTAL_COUNT :=
    calculate_index_lt _ (by rw [FIRST_INDEX_REAL_eq] at hfl; exact hfl)
  rw [insert_block_eq_empty { st with heap := H3 } N _ hH3N_free hfl hidx hOH]

set_option maxHeartbeats 1000000 in
/-- The split step when the remainder's class already has a head `t2`. -/
theorem alloc_split_step_eq_head (st : St) (sb s t2 : Nat)
    (hsal : s % 16 = 0)
    (hsle : s ≤ (st.heap sb).buffer_size)
    (hBbound : (st.heap sb).buffer_size < 2 ^ 36)
    (hge : BLOCK_SIZE ≤ (st.heap sb).buffer_size - s)
    (hOH : st.freed_block_map (calculate_index (calculate_mapping_indices
      ((st.heap sb).buffer_size - s - BlockHeader.get_aligned_size))) = some t2)
    (ht2free : (st.heap t2).is_freed = true)
    (ht2sb : t2 ≠ sb)
    (ht2N : t2 ≠ sb + 16 + s)
    (ht2S : t2 ≠ sb + (16 + (st.heap sb).buffer_size)) :
    alloc_split_step st sb s = some { st with
      heap := updBlk (updBlk (Function.update
          (updBlk (updBlk st.heap (sb + 16 + s) fun b =>
            { b with previous_header := none, stored_size := calculate_stored_size ((st.heap sb).buffer_size - s - 16) true false })
            (sb + (16 + (st.heap sb).buffer_size)) fun b =>
              b.set_previous_header (sb + 16 + s))
          sb { st.heap sb with stored_size := calculate_stored_size s (st.heap sb).is_freed (st.heap sb).is_prev_freed })
        (sb + 16 + s) fun b => { b with node := ⟨none, some t2⟩ })
        t2 fun b => { b with node := { b.node with prev := some (sb + 16 + s) } }
      freed_block_map := Function.update st.freed_block_map
        (calculate_index (calculate_mapping_indices
          ((st.heap sb).buffer_size - s - 16)))
        (some (sb + 16 + s))
      fl_bitmap := st.fl_bitmap ||| (1 <<< ((calculate_mapping_indices
        ((st.heap sb).buffer_size - s - 16)).1 % 32))
      sl_bitmap := Function.update st.sl_bitmap (calculate_mapping_indices
          ((st.heap sb).buffer_size - s - 16)).1
        (st.sl_bitmap (calculate_mapping_indices
            ((st.heap sb).buffer_size - s - 16)).1 |||
          (1 <<< ((calculate_mapping_indices
            ((st.heap sb).buffer_size - s - 16)).2 % 32))) } := by
  have hb16 := buffer_size_mod16 (st.heap sb)
  have hbU := buffer_size_lt_u64 (st.heap sb)
  have hU : U64 = 2 ^ 64 := rfl
  rw [BLOCK_SIZE_eq] at hge
  rw [header_aligned_eq] at hOH
  simp only [alloc_split_step, header_aligned_eq, BLOCK_SIZE_eq, next_block_addr]
  rw [if_neg (by omega)]
  have hsbound : s + 15 < U64 := by rw [hU] at hbU ⊢; omega
  have hnbound : ((st.heap sb).buffer_size - s - 16) + 15 < U64 := by
    rw [hU] at hbU ⊢
    omega
  have hnal : ((st.heap sb).buffer_size - s - 16) % 16 = 0 := by omega
  set N := sb + 16 + s with hN
  set SUCC := sb + (16 + (st.heap sb).buffer_size) with hSUCC
  have hdNsb : N ≠ sb := by omega
  have hdNS : N ≠ SUCC := by rw [hN, hSUCC]; omega
  have hdSsb : SUCC ≠ sb := by rw [hSUCC]; omega
  set H1 : Heap := updBlk st.heap N (fun b => { b with previous_header := none, stored_size := calculate_stored_size ((st.heap sb).buffer_size - s - 16) true false }) with hH1
  set H2 : Heap := updBlk H1 SUCC (fun b => b.set_previous_header N) with hH2
  have h2sb : H2 sb = st.heap sb := by
    rw [hH2, updBlk_ne _ _ _ _ (Ne.symm hdSsb), hH1, updBlk_ne _ _ _ _ (Ne.symm hdNsb)]
  rw [h2sb]
  have hsbs : (st.heap sb).set_buffer_size s = some { st.heap sb with stored_size := calculate_stored_size s (st.heap sb).is_freed (st.heap sb).is_prev_freed } := by
    unfold Blk.set_buffer_size
    rw [if_pos ((is_aligned_iff s).mpr hsal)]
  rw [hsbs]
  simp only [Option.bind_eq_bind, Option.some_bind]
  set SB1 : Blk := { st.heap sb with stored_size := calculate_stored_size s (st.heap sb).is_freed (st.heap sb).is_prev_freed } with hSB1
  set H3 : Heap := Function.update H2 sb SB1 with hH3
  have hH3N_stored : (H3 N).stored_size =
      calculate_stored_size ((st.heap sb).buffer_size - s - 16) true false := by
    rw [hH3, Function.update_noteq hdNsb, hH2, updBlk_ne _ _ _ _ hdNS, hH1, updBlk_same]
  have hH3N_free : (H3 N).is_freed = true := by
    unfold Blk.is_freed
    rw [hH3N_stored]
    have := freed_flag_stored ((st.heap sb).buffer_size - s - 16) true false hnbound
    simpa using this
  have hH3t2 : (H3 t2).is_freed = true := by
    rw [hH3, Function.update_noteq ht2sb, hH2, updBlk_setph_is_freed, hH1,
      updBlk_ne _ _ _ _ (by rw [hN]; exact ht2N)]
    exact ht2free
  have hfl : (calculate_mapping_indices ((st.heap sb).buffer_size - s - 16)).1 <
      FIRST_INDEX_REAL := by
    rw [FIRST_INDEX_REAL_eq]
    exact mapping_fst_lt _ (by omega)
  have hidx : calculate_index (calculate_mapping_indices
      ((st.heap sb).buffer_size - s - 16)) < TOTAL_COUNT :=
    calculate_index_lt _ (by rw [FIRST_INDEX_REAL_eq] at hfl; exact hfl)
  rw [insert_block_eq_head { st with heap := H3 } N t2 _ hH3N_free hfl hidx hOH hH3t2]

/-- `RootPool::dealloc` when the physical successor is not free and the
freed block's `PREV_FREE` flag is clear: no coalescing, just re-insertion. -/
theorem root_dealloc_eq_nomerge (st stz : St) (ba : Nat)
    (hnbfree : (st.heap (next_block_addr ba (st.heap ba))).is_freed = false)
    (hpf : (st.heap ba).is_prev_freed = false)
    (hins : insert_block { st with
        heap := updBlk (updBlk st.heap ba fun b => b.set_freed true) ba fun b =>
          { b with node := FreeNode.new }
        used_memory_size := st.used_memory_size -
          ((updBlk st.heap ba fun b => b.set_freed true) ba).buffer_size_with_header }
      ba (calculate_mapping_indices (st.heap ba).buffer_size) = some stz)
    (hstzba : (stz.heap ba).buffer_size = (st.heap ba).buffer_size) :
    root_dealloc st (ba + BlockHeader.get_aligned_size) = some { stz with
      heap := updBlk stz.heap (next_block_addr ba (st.heap ba)) fun b =>
        (b.set_previous_freed true).set_previous_header ba } := by
  have h16 : BlockHeader.get_aligned_size = 16 := header_aligned_eq
  have hba : ba + BlockHeader.get_aligned_size - BlockHeader.get_aligned_size = ba := by
    omega
  have hnbba : next_block_addr ba (st.heap ba) ≠ ba := by
    unfold next_block_addr
    omega
  simp only [root_dealloc, Option.bind_eq_bind, hba]
  have hh1ba : (updBlk (updBlk st.heap ba fun b => b.set_freed true) ba fun b =>
      { b with node := FreeNode.new }) ba =
      { (st.heap ba).set_freed true with node := FreeNode.new } := by
    rw [updBlk_same, updBlk_same]
  have hbuf1 : ({ (st.heap ba).set_freed true with node := FreeNode.new } :
      Blk).buffer_size = (st.heap ba).buffer_size := by
    show ((st.heap ba).set_freed true).buffer_size = _
    exact set_freed_buffer_size (st.heap ba) true
  have hnb_eq : next_block_addr ba ((updBlk (updBlk st.heap ba fun b =>
      b.set_freed true) ba fun b => { b with node := FreeNode.new }) ba) =
      next_block_addr ba (st.heap ba) := by
    unfold next_block_addr
    rw [hh1ba, hbuf1]
  rw [hnb_eq]
  have hh1nb : (updBlk (updBlk st.heap ba fun b => b.set_freed true) ba fun b =>
      { b with node := FreeNode.new }) (next_block_addr ba (st.heap ba)) =
      st.heap (next_block_addr ba (st.heap ba)) := by
    rw [updBlk_ne _ _ _ _ hnbba, updBlk_ne _ _ _ _ hnbba]
  rw [if_neg (by rw [hh1nb, hnbfree]; simp)]
  simp only [Option.some_bind]
  have hpf1 : ({ (st.heap ba).set_freed true with node := FreeNode.new } :
      Blk).is_prev_freed = false := by
    show ((st.heap ba).set_freed true).is_prev_freed = false
    rw [set_freed_is_prev_freed]
    exact hpf
  rw [if_neg (by rw [hh1ba, hpf1]; simp)]
  simp only [hh1ba, hbuf1]
  simp only [hins, Option.some_bind]
  rw [show next_block_addr ba (stz.heap ba) = next_block_addr ba (st.heap ba) from by
    unfold next_block_addr
    rw [hstzba]]

/-- `RootPool::dealloc` when the physical successor is free (forward merge)
and the freed block's `PREV_FREE` flag is clear. -/
theorem root_dealloc_eq_merge (st stx stz : St) (BB : Blk) (ba : Nat)
    (hXfree : (st.heap (next_block_addr ba (st.heap ba))).is_freed = true)
    (hextf : extract_freed_block { st with
        heap := updBlk (updBlk st.heap ba fun b => b.set_freed true) ba fun b =>
          { b with node := FreeNode.new }
        used_memory_size := st.used_memory_size -
          ((updBlk st.heap ba fun b => b.set_freed true) ba).buffer_size_with_header }
      (next_block_addr ba (st.heap ba)) = some stx)
    (hsbs : (stx.heap ba).set_buffer_size ((stx.heap ba).buffer_size +
        (st.heap (next_block_addr ba (st.heap ba))).buffer_size_with_header) =
      some BB)
    (hBBpf : BB.is_prev_freed = false)
    (hins : insert_block { stx with heap := Function.update stx.heap ba BB }
      ba (calculate_mapping_indices BB.buffer_size) = some stz)
    (hstzba : (stz.heap ba).buffer_size = BB.buffer_size) :
    root_dealloc st (ba + BlockHeader.get_aligned_size) = some { stz with
      heap := updBlk stz.heap (ba + (BlockHeader.get_aligned_size + BB.buffer_size))
        fun b => (b.set_previous_freed true).set_previous_header ba } := by
  have h16 : BlockHeader.get_aligned_size = 16 := header_aligned_eq
  have hba : ba + BlockHeader.get_aligned_size - BlockHeader.get_aligned_size = ba := by
    omega
  have hnbba : next_block_addr ba (st.heap ba) ≠ ba := by
    unfold next_block_addr
    omega
  simp only [root_dealloc, Option.bind_eq_bind, hba]
  have hh1ba : (updBlk (updBlk st.heap ba fun b => b.set_freed true) ba fun b =>
      { b with node := FreeNode.new }) ba =
      { (st.heap ba).set_freed true with node := FreeNode.new } := by
    rw [updBlk_same, updBlk_same]
  have hbuf1 : ({ (st.heap ba).set_freed true with node := FreeNode.new } :
      Blk).buffer_size = (st.heap ba).buffer_size := by
    show ((st.heap ba).set_freed true).buffer_size = _
    exact set_freed_buffer_size (st.heap ba) true
  have hnb_eq : next_block_addr ba ((updBlk (updBlk st.heap ba fun b =>
      b.set_freed true) ba fun b => { b with node := FreeNode.new }) ba) =
      next_block_addr ba (st.heap ba) := by
    unfold next_block_addr
    rw [hh1ba, hbuf1]
  rw [hnb_eq]
  have hh1nb : (updBlk (updBlk st.heap ba fun b => b.set_freed true) ba fun b =>
      { b with node := FreeNode.new }) (next_block_addr ba (st.heap ba)) =
      st.heap (next_block_addr ba (st.heap ba)) := by
    rw [updBlk_ne _ _ _ _ hnbba, updBlk_ne _ _ _ _ hnbba]
  rw [if_pos (by rw [hh1nb]; exact hXfree)]
  simp only [hh1nb, hextf, Option.some_bind, hsbs]
  simp only [Option.some_bind, Function.update_same]
  rw [if_neg (by rw [hBBpf]; simp)]
  simp only [hins, Option.some_bind]
  rw [show next_block_addr ba (stz.heap ba) =
      ba + (BlockHeader.get_aligned_size + BB.buffer_size) from by
    unfold next_block_addr
    rw [hstzba]]

/-- Unlinking a head block with no list successor. -/
theorem extract_freed_block_eq_last (st : St) (bp : Nat)
    (hfree : (st.heap bp).is_freed = true)
    (hprev : (st.heap bp).node.prev = none)
    (hnext : (st.heap bp).node.next = none)
    (hidx : calculate_index (calculate_mapping_indices
      (st.heap bp).buffer_size) < TOTAL_COUNT)
    (hfl : (calculate_mapping_indices (st.heap bp).buffer_size).1 <
      FIRST_INDEX_REAL)
    (hhead : st.freed_block_map (calculate_index (calculate_mapping_indices
      (st.heap bp).buffer_size)) = some bp) :
    extract_freed_block st bp = some { st with
      heap := updBlk st.heap bp fun b => { b with node := ⟨none, none⟩ }
      freed_block_map := Function.update st.freed_block_map
        (calculate_index (calculate_mapping_indices (st.heap bp).buffer_size)) none
      sl_bitmap := Function.update st.sl_bitmap
        (calculate_mapping_indices (st.heap bp).buffer_size).1
        (st.sl_bitmap (calculate_mapping_indices (st.heap bp).buffer_size).1 ^^^
          (1 <<< ((calculate_mapping_indices (st.heap bp).buffer_size).2 % 32)))
      fl_bitmap := if st.sl_bitmap
          (calculate_mapping_indices (st.heap bp).buffer_size).1 ^^^
          (1 <<< ((calculate_mapping_indices (st.heap bp).buffer_size).2 % 32)) = 0
        then st.fl_bitmap ^^^
          (1 <<< ((calculate_mapping_indices (st.heap bp).buffer_size).1 % 32))
        else st.fl_bitmap } := by
  have hle : ¬ TOTAL_COUNT ≤ calculate_index (calculate_mapping_indices
      (st.heap bp).buffer_size) := Nat.not_le.mpr hidx
  simp only [extract_freed_block, map_get_item, map_reset_item, Option.bind_eq_bind,
    hprev, hnext, hhead, if_neg hle, Option.some_bind,
    if_neg (show ¬ ((st.heap bp).is_freed = false) by rw [hfree]; simp),
    if_pos hidx, if_pos hfl]
  rw [if_pos trivial]

/-- Unlinking a head block whose list successor is `t2`. -/
theorem extract_freed_block_eq_cons (st : St) (bp t2 : Nat)
    (hfree : (st.heap bp).is_freed = true)
    (hprev : (st.heap bp).node.prev = none)
    (hnext : (st.heap bp).node.next = some t2)
    (ht2free : (st.heap t2).is_freed = true)
    (hidx : calculate_index (calculate_mapping_indices
      (st.heap bp).buffer_size) < TOTAL_COUNT)
    (hhead : st.freed_block_map (calculate_index (calculate_mapping_indices
      (st.heap bp).buffer_size)) = some bp) :
    extract_freed_block st bp = some { st with
      heap := updBlk (updBlk st.heap t2 fun b =>
          { b with node := { b.node with prev := none } }) bp fun b =>
        { b with node := ⟨none, none⟩ }
      freed_block_map := Function.update st.freed_block_map
        (calculate_index (calculate_mapping_indices (st.heap bp).buffer_size))
        (some t2) } := by
  have hle : ¬ TOTAL_COUNT ≤ calculate_index (calculate_mapping_indices
      (st.heap bp).buffer_size) := Nat.not_le.mpr hidx
  simp only [extract_freed_block, map_get_item, map_set_item, Option.bind_eq_bind,
    hprev, hnext, hhead, if_neg hle, Option.some_bind,
    if_neg (show ¬ ((st.heap bp).is_freed = false) by rw [hfree]; simp),
    if_pos ht2free, if_pos hidx]
  rw [if_pos trivial]

theorem freenode_fields_eq (a b : FreeNode) (h1 : a.prev = b.prev)
    (h2 : a.next = b.next) : a = b := by
  cases a
  cases b
  simp_all

theorem blk_fields_eq (a b : Blk) (h1 : a.previous_header = b.previous_header)
    (h2 : a.stored_size = b.stored_size) (h3 : a.node = b.node)
    (h4 : a.area_end = b.area_end) (h5 : a.area_next = b.area_next) : a = b := by
  cases a
  cases b
  simp_all

theorem st_fields_eq (a b : St) (h1 : a.heap = b.heap)
    (h2 : a.fl_bitmap = b.fl_bitmap) (h3 : a.sl_bitmap = b.sl_bitmap)
    (h4 : a.freed_block_map = b.freed_block_map)
    (h5 : a.areainfo_ptr = b.areainfo_ptr)
    (h6 : a.maximum_memory_size = b.maximum_memory_size)
    (h7 : a.used_memory_size = b.used_memory_size) : a = b := by
  cases a
  cases b
  simp_all

theorem canonical_freed (b : Blk) (fr pf : Bool)
    (h : b.stored_size = calculate_stored_size b.buffer_size fr pf) :
    b.is_freed = fr := by
  unfold Blk.is_freed
  rw [h]
  have := freed_flag_stored b.buffer_size fr pf (blk_buffer_bound b)
  simpa using this

theorem canonical_prev_freed (b : Blk) (fr pf : Bool)
    (h : b.stored_size = calculate_stored_size b.buffer_size fr pf) :
    b.is_prev_freed = pf := by
  unfold Blk.is_prev_freed
  rw [h]
  have := prev_freed_flag_stored b.buffer_size fr pf (blk_buffer_bound b)
  simpa using this

theorem canonical_set_freed (b : Blk) (fr pf v : Bool)
    (h : b.stored_size = calculate_stored_size b.buffer_size fr pf) :
    (b.set_freed v).stored_size = calculate_stored_size b.buffer_size v pf := by
  rw [set_freed_stored, canonical_prev_freed b fr pf h]

theorem stored_buffer_eq (sz : Nat) (fr pf : Bool) (hsz : sz % 16 = 0)
    (hb : sz + 15 < U64) :
    round_down_block (calculate_stored_size sz fr pf) = sz := by
  rw [buffer_size_stored sz fr pf hb, round_up_block_of_aligned sz hb hsz]

theorem update_self_of_eq {α β : Type} [DecidableEq α] (f : α → β) (a : α)
    (v : β) (h : f a = v) : Function.update f a v = f := by
  rw [← h]
  exact Function.update_eq_self a f

set_option maxHeartbeats 1000000 in
/-- LIFO round trip, exact-fit allocation from a singleton class. -/
theorem lifo_case_nosplit_last (st : St) (n B : Nat) (mi : Nat × Nat)
    (hfind : find_suitable_indices st (calculate_allocation_searching_size n) =
      some (some mi))
    (hidx : calculate_index mi < TOTAL_COUNT)
    (hfl : mi.1 < FIRST_INDEX_REAL)
    (hsl : mi.2 < SECOND_INDEX_MAX)
    (hhead : st.freed_block_map (calculate_index mi) = some B)
    (hnext : (st.heap B).node.next = none)
    (hprev : (st.heap B).node.prev = none)
    (hcan : (st.heap B).stored_size =
      calculate_stored_size (st.heap B).buffer_size true false)
    (hble : calculate_allocation_searching_size n ≤ (st.heap B).buffer_size)
    (hrem : (st.heap B).buffer_size - calculate_allocation_searching_size n <
      BLOCK_SIZE)
    (hmibuf : calculate_mapping_indices (st.heap B).buffer_size = mi)
    (hslbit : (st.sl_bitmap mi.1).testBit mi.2 = true)
    (hflbit : st.fl_bitmap.testBit mi.1 = true)
    (hnbfree : (st.heap (next_block_addr B (st.heap B))).is_freed = false)
    (hnbcan : (st.heap (next_block_addr B (st.heap B))).stored_size =
      calculate_stored_size
        (st.heap (next_block_addr B (st.heap B))).buffer_size false true)
    (hnbph : (st.heap (next_block_addr B (st.heap B))).previous_header = some B) :
    ∃ st1 st2,
      root_alloc st n = some (st1, some (B + BlockHeader.get_aligned_size)) ∧
      root_dealloc st1 (B + BlockHeader.get_aligned_size) = some st2 ∧
      root_alloc st2 n = some (st1, some (B + BlockHeader.get_aligned_size)) := by
  have h16 : BlockHeader.get_aligned_size = 16 := header_aligned_eq
  have hm132 : mi.1 < 32 := by rw [FIRST_INDEX_REAL_eq] at hfl; omega
  have hsl32 : mi.2 < 32 := by rw [SECOND_INDEX_MAX_eq] at hsl; omega
  have hfree : (st.heap B).is_freed = true := canonical_freed _ _ _ hcan
  have hpf : (st.heap B).is_prev_freed = false := canonical_prev_freed _ _ _ hcan
  have hnbne : next_block_addr B (st.heap B) ≠ B := by
    unfold next_block_addr
    omega
  have hext := extract_root_block_eq_last st mi B hidx hfl hhead hfree hnext
  set stE : St := { st with
    heap := updBlk st.heap B fun b => { b with node := ⟨none, none⟩ }
    freed_block_map := Function.update st.freed_block_map (calculate_index mi) none
    sl_bitmap := Function.update st.sl_bitmap mi.1
      (st.sl_bitmap mi.1 ^^^ (1 <<< (mi.2 % 32)))
    fl_bitmap := if st.sl_bitmap mi.1 ^^^ (1 <<< (mi.2 % 32)) = 0
      then st.fl_bitmap ^^^ (1 <<< (mi.1 % 32)) else st.fl_bitmap } with hstE
  have hstEheap : stE.heap =
      updBlk st.heap B (fun b => { b with node := ⟨none, none⟩ }) := by rw [hstE]
  have hstEmap : stE.freed_block_map =
      Function.update st.freed_block_map (calculate_index mi) none := by rw [hstE]
  have hstEsl : stE.sl_bitmap = Function.update st.sl_bitmap mi.1
      (st.sl_bitmap mi.1 ^^^ (1 <<< (mi.2 % 32))) := by rw [hstE]
  have hstEfl : stE.fl_bitmap = (if st.sl_bitmap mi.1 ^^^ (1 <<< (mi.2 % 32)) = 0
      then st.fl_bitmap ^^^ (1 <<< (mi.1 % 32)) else st.fl_bitmap) := by rw [hstE]
  have hstEused : stE.used_memory_size = st.used_memory_size := by rw [hstE]
  have hstEB : stE.heap B = { st.heap B with node := ⟨none, none⟩ } := by
    rw [hstEheap, updBlk_same]
  have hnb0 : next_block_addr B (st.heap B) ≠ B := hnbne
  have hstEnb : stE.heap (next_block_addr B (st.heap B)) =
      st.heap (next_block_addr B (st.heap B)) := by
    rw [hstEheap, updBlk_ne _ _ _ _ hnb0]
  have hEBbuf : (stE.heap B).buffer_size = (st.heap B).buffer_size := by
    rw [hstEB]
    rfl
  have hEnb : next_block_addr B (stE.heap B) = next_block_addr B (st.heap B) := by
    unfold next_block_addr
    rw [hEBbuf]
  have hrun1 := root_alloc_eq_nosplit st stE n B mi hfind hext
    (by rw [hEBbuf]; exact hble) (by rw [hEBbuf]; exact hrem)
  rw [hEnb] at hrun1
  set nb := next_block_addr B (st.heap B) with hnb
  set st1 : St := { stE with
    heap := updBlk (updBlk stE.heap nb fun b => b.set_previous_freed false)
      B fun b => b.set_freed false
    used_memory_size := stE.used_memory_size +
      ((updBlk (updBlk stE.heap nb fun b => b.set_previous_freed false)
          B fun b => b.set_freed false) B).buffer_size_with_header } with hst1
  have hst1heap : st1.heap =
      updBlk (updBlk stE.heap nb fun b => b.set_previous_freed false)
        B fun b => b.set_freed false := by rw [hst1]
  have hst1B : st1.heap B = (stE.heap B).set_freed false := by
    rw [hst1heap, updBlk_same, updBlk_ne _ _ _ _ (Ne.symm hnbne)]
  have hst1Bbuf : (st1.heap B).buffer_size = (st.heap B).buffer_size := by
    rw [hst1B, set_freed_buffer_size, hEBbuf]
  have hst1nb : st1.heap nb = (st.heap nb).set_previous_freed false := by
    rw [hst1heap, updBlk_ne _ _ _ _ hnbne, updBlk_same, hstEnb]
  have hst1map : st1.freed_block_map = stE.freed_block_map := by rw [hst1]
  have hst1sl : st1.sl_bitmap = stE.sl_bitmap := by rw [hst1]
  have hst1fl : st1.fl_bitmap = stE.fl_bitmap := by rw [hst1]
  have hst1used : st1.used_memory_size = st.used_memory_size +
      (BlockHeader.get_aligned_size + (st.heap B).buffer_size) := by
    rw [hst1]
    show stE.used_memory_size +
      ((updBlk (updBlk stE.heap nb fun b => b.set_previous_freed false)
          B fun b => b.set_freed false) B).buffer_size_with_header = _
    rw [updBlk_same, updBlk_ne _ _ _ _ (Ne.symm hnbne), hstEused]
    unfold Blk.buffer_size_with_header
    rw [set_freed_buffer_size, hEBbuf]
  have hnbeq1 : next_block_addr B (st1.heap B) = nb := by
    rw [hnb]
    unfold next_block_addr
    rw [hst1Bbuf]
  -- the dealloc intermediate state
  set ST0 : St := { st1 with
    heap := updBlk (updBlk st1.heap B fun b => b.set_freed true) B fun b =>
      { b with node := FreeNode.new }
    used_memory_size := st1.used_memory_size -
      ((updBlk st1.heap B fun b => b.set_freed true) B).buffer_size_with_header }
    with hST0
  have hST0heap : ST0.heap =
      updBlk (updBlk st1.heap B fun b => b.set_freed true) B fun b =>
        { b with node := FreeNode.new } := by rw [hST0]
  have hST0B : ST0.heap B = { (st1.heap B).set_freed true with
      node := FreeNode.new } := by
    rw [hST0heap, updBlk_same, updBlk_same]
  have hST0Bfree : (ST0.heap B).is_freed = true := by
    rw [hST0B]
    show ((st1.heap B).set_freed true).is_freed = true
    rw [set_freed_is_freed]
  have hST0Bbuf : (ST0.heap B).buffer_size = (st.heap B).buffer_size := by
    rw [hST0B]
    show ((st1.heap B).set_freed true).buffer_size = _
    rw [set_freed_buffer_size, hst1Bbuf]
  have hST0map : ST0.freed_block_map = stE.freed_block_map := by
    rw [hST0]
  have hST0sl : ST0.sl_bitmap = stE.sl_bitmap := by
    rw [hST0]
  have hST0fl : ST0.fl_bitmap = stE.fl_bitmap := by
    rw [hST0]
  have hST0used : ST0.used_memory_size = st.used_memory_size := by
    rw [hST0]
    show st1.used_memory_size -
      ((updBlk st1.heap B fun b => b.set_freed true) B).buffer_size_with_header = _
    rw [updBlk_same, hst1used]
    unfold Blk.buffer_size_with_header
    rw [set_freed_buffer_size, hst1Bbuf]
    omega
  have hnone0 : ST0.freed_block_map (calculate_index mi) = none := by
    rw [hST0map, hstEmap, Function.update_same]
  have hins0 := insert_block_eq_empty ST0 B mi hST0Bfree hfl hidx hnone0
  set stz : St := { ST0 with
    heap := updBlk ST0.heap B fun b => { b with node := ⟨none, none⟩ }
    freed_block_map := Function.update ST0.freed_block_map (calculate_index mi)
      (some B)
    fl_bitmap := ST0.fl_bitmap ||| (1 <<< (mi.1 % 32))
    sl_bitmap := Function.update ST0.sl_bitmap mi.1
      (ST0.sl_bitmap mi.1 ||| (1 <<< (mi.2 % 32))) } with hstz
  have hstzheap : stz.heap =
      updBlk ST0.heap B fun b => { b with node := ⟨none, none⟩ } := by rw [hstz]
  have hstzB : stz.heap B = { ST0.heap B with node := ⟨none, none⟩ } := by
    rw [hstzheap, updBlk_same]
  have hstzBbuf : (stz.heap B).buffer_size = (st1.heap B).buffer_size := by
    rw [hstzB]
    show (ST0.heap B).buffer_size = _
    rw [hST0Bbuf, hst1Bbuf]
  have hmapst1 : calculate_mapping_indices (st1.heap B).buffer_size = mi := by
    rw [hst1Bbuf, hmibuf]
  have hins1 : insert_block { st1 with
      heap := updBlk (updBlk st1.heap B fun b => b.set_freed true) B fun b =>
        { b with node := FreeNode.new }
      used_memory_size := st1.used_memory_size -
        ((updBlk st1.heap B fun b => b.set_freed true) B).buffer_size_with_header }
      B (calculate_mapping_indices (st1.heap B).buffer_size) = some stz := by
    rw [hmapst1]
    exact hins0
  have hnbf1 : (st1.heap (next_block_addr B (st1.heap B))).is_freed = false := by
    rw [hnbeq1, hst1nb, set_previous_freed_is_freed]
    exact hnbfree
  have hpf1 : (st1.heap B).is_prev_freed = false := by
    rw [hst1B, set_freed_is_prev_freed, hstEB]
    exact hpf
  have hdeal := root_dealloc_eq_nomerge st1 stz B hnbf1 hpf1 hins1 hstzBbuf
  rw [hnbeq1] at hdeal
  set st2 : St := { stz with
    heap := updBlk stz.heap nb fun b =>
      (b.set_previous_freed true).set_previous_header B } with hst2d
  have hst2heap : st2.heap = updBlk stz.heap nb fun b =>
      (b.set_previous_freed true).set_previous_header B := by rw [hst2d]
  -- the post-free state is the initial state
  have hst2eq : st2 = st := by
    apply st_fields_eq
    · funext a
      by_cases haB : a = B
      · rw [haB]
        rw [hst2heap, updBlk_ne _ _ _ _ (Ne.symm hnbne), hstzB, hST0B, hst1B, hstEB]
        apply blk_fields_eq
        · rfl
        · show ((({ st.heap B with node := (⟨none, none⟩ : FreeNode) } :
              Blk).set_freed false).set_freed true).stored_size = _
          rw [set_freed_stored, set_freed_buffer_size, set_freed_is_prev_freed]
          show calculate_stored_size (st.heap B).buffer_size true
            ((st.heap B).is_prev_freed) = _
          rw [hpf, hcan]
        · exact freenode_fields_eq _ _ (by rw [hprev]) (by rw [hnext])
        · rfl
        · rfl
      · by_cases hanb : a = nb
        · subst hanb
          rw [hst2heap, updBlk_same, hstzheap, updBlk_ne _ _ _ _ haB, hST0heap,
            updBlk_ne _ _ _ _ haB, updBlk_ne _ _ _ _ haB, hst1nb]
          apply blk_fields_eq
          · show some B = _
            rw [hnbph]
          · show (((st.heap nb).set_previous_freed false).set_previous_freed
                true).stored_size = _
            rw [set_previous_freed_stored, set_previous_freed_buffer_size,
              set_previous_freed_is_freed, hnbfree, hnbcan]
          · rfl
          · rfl
          · rfl
        · rw [hst2heap, updBlk_ne _ _ _ _ hanb, hstzheap, updBlk_ne _ _ _ _ haB,
            hST0heap, updBlk_ne _ _ _ _ haB, updBlk_ne _ _ _ _ haB, hst1heap,
            updBlk_ne _ _ _ _ haB, updBlk_ne _ _ _ _ hanb, hstEheap,
            updBlk_ne _ _ _ _ haB]
    · show stz.fl_bitmap = st.fl_bitmap
      rw [hstz]
      show ST0.fl_bitmap ||| (1 <<< (mi.1 % 32)) = st.fl_bitmap
      rw [hST0fl, hstEfl, shift_small mi.1 hm132, shift_small mi.2 hsl32]
      by_cases hz : st.sl_bitmap mi.1 ^^^ 2 ^ mi.2 = 0
      · rw [if_pos hz]
        exact xor_lor_pow_of_testBit _ _ hflbit
      · rw [if_neg hz]
        exact lor_pow_of_testBit _ _ hflbit
    · show stz.sl_bitmap = st.sl_bitmap
      rw [hstz]
      show Function.update ST0.sl_bitmap mi.1
        (ST0.sl_bitmap mi.1 ||| (1 <<< (mi.2 % 32))) = st.sl_bitmap
      rw [hST0sl, hstEsl, Function.update_same, Function.update_idem,
        shift_small mi.2 hsl32, xor_lor_pow_of_testBit _ _ hslbit]
      exact Function.update_eq_self _ _
    · show stz.freed_block_map = st.freed_block_map
      rw [hstz]
      show Function.update ST0.freed_block_map (calculate_index mi) (some B) =
        st.freed_block_map
      rw [hST0map, hstEmap, Function.update_idem, ← hhead]
      exact Function.update_eq_self _ _
    · rfl
    · rfl
    · show stz.used_memory_size = st.used_memory_size
      rw [hstz]
      show ST0.used_memory_size = _
      exact hST0used
  exact ⟨st1, st2, hrun1, hdeal, by rw [hst2eq]; exact hrun1⟩

set_option maxHeartbeats 1000000 in
/-- LIFO round trip, exact-fit allocation when the class has a further
free block `t` behind the head. -/
theorem lifo_case_nosplit_cons (st : St) (n B t : Nat) (mi : Nat × Nat)
    (hfind : find_suitable_indices st (calculate_allocation_searching_size n) =
      some (some mi))
    (hidx : calculate_index mi < TOTAL_COUNT)
    (hfl : mi.1 < FIRST_INDEX_REAL)
    (hsl : mi.2 < SECOND_INDEX_MAX)
    (hhead : st.freed_block_map (calculate_index mi) = some B)
    (hnext : (st.heap B).node.next = some t)
    (hprev : (st.heap B).node.prev = none)
    (hcan : (st.heap B).stored_size =
      calculate_stored_size (st.heap B).buffer_size true false)
    (hble : calculate_allocation_searching_size n ≤ (st.heap B).buffer_size)
    (hrem : (st.heap B).buffer_size - calculate_allocation_searching_size n <
      BLOCK_SIZE)
    (hmibuf : calculate_mapping_indices (st.heap B).buffer_size = mi)
    (hslbit : (st.sl_bitmap mi.1).testBit mi.2 = true)
    (hflbit : st.fl_bitmap.testBit mi.1 = true)
    (htB : t ≠ B)
    (htnb : t ≠ next_block_addr B (st.heap B))
    (htfree : (st.heap t).is_freed = true)
    (htprev : (st.heap t).node.prev = some B)
    (hnbfree : (st.heap (next_block_addr B (st.heap B))).is_freed = false)
    (hnbcan : (st.heap (next_block_addr B (st.heap B))).stored_size =
      calculate_stored_size
        (st.heap (next_block_addr B (st.heap B))).buffer_size false true)
    (hnbph : (st.heap (next_block_addr B (st.heap B))).previous_header = some B) :
    ∃ st1 st2,
      root_alloc st n = some (st1, some (B + BlockHeader.get_aligned_size)) ∧
      root_dealloc st1 (B + BlockHeader.get_aligned_size) = some st2 ∧
      root_alloc st2 n = some (st1, some (B + BlockHeader.get_aligned_size)) := by
  have h16 : BlockHeader.get_aligned_size = 16 := header_aligned_eq
  have hm132 : mi.1 < 32 := by rw [FIRST_INDEX_REAL_eq] at hfl; omega
  have hsl32 : mi.2 < 32 := by rw [SECOND_INDEX_MAX_eq] at hsl; omega
  have hfree : (st.heap B).is_freed = true := canonical_freed _ _ _ hcan
  have hpf : (st.heap B).is_prev_freed = false := canonical_prev_freed _ _ _ hcan
  have hnbne : next_block_addr B (st.heap B) ≠ B := by
    unfold next_block_addr
    omega
  have hext := extract_root_block_eq_cons st mi B t hidx hhead hfree hnext htB htfree
  set stE : St := { st with
    heap := updBlk (updBlk st.heap B fun b => { b with node := ⟨none, none⟩ }) t
      fun b => { b with node := { b.node with prev := none } }
    freed_block_map := Function.update st.freed_block_map (calculate_index mi)
      (some t) } with hstE
  have hstEheap : stE.heap =
      updBlk (updBlk st.heap B fun b => { b with node := ⟨none, none⟩ }) t
        fun b => { b with node := { b.node with prev := none } } := by rw [hstE]
  have hstEmap : stE.freed_block_map =
      Function.update st.freed_block_map (calculate_index mi) (some t) := by
    rw [hstE]
  have hstEsl : stE.sl_bitmap = st.sl_bitmap := by rw [hstE]
  have hstEfl : stE.fl_bitmap = st.fl_bitmap := by rw [hstE]
  have hstEused : stE.used_memory_size = st.used_memory_size := by rw [hstE]
  have hstEB : stE.heap B = { st.heap B with node := ⟨none, none⟩ } := by
    rw [hstEheap, updBlk_ne _ _ _ _ (Ne.symm htB), updBlk_same]
  have hstEt : stE.heap t = { st.heap t with
      node := { (st.heap t).node with prev := none } } := by
    rw [hstEheap, updBlk_same, updBlk_ne _ _ _ _ htB]
  have hstEnb : stE.heap (next_block_addr B (st.heap B)) =
      st.heap (next_block_addr B (st.heap B)) := by
    rw [hstEheap, updBlk_ne _ _ _ _ (Ne.symm htnb), updBlk_ne _ _ _ _ hnbne]
  have hEBbuf : (stE.heap B).buffer_size = (st.heap B).buffer_size := by
    rw [hstEB]
    rfl
  have hEnb : next_block_addr B (stE.heap B) = next_block_addr B (st.heap B) := by
    unfold next_block_addr
    rw [hEBbuf]
  have hrun1 := root_alloc_eq_nosplit st stE n B mi hfind hext
    (by rw [hEBbuf]; exact hble) (by rw [hEBbuf]; exact hrem)
  rw [hEnb] at hrun1
  set nb := next_block_addr B (st.heap B) with hnb
  set st1 : St := { stE with
    heap := updBlk (updBlk stE.heap nb fun b => b.set_previous_freed false)
      B fun b => b.set_freed false
    used_memory_size := stE.used_memory_size +
      ((updBlk (updBlk stE.heap nb fun b => b.set_previous_freed false)
          B fun b => b.set_freed false) B).buffer_size_with_header } with hst1
  have hst1heap : st1.heap =
      updBlk (updBlk stE.heap nb fun b => b.set_previous_freed false)
        B fun b => b.set_freed false := by rw [hst1]
  have hst1B : st1.heap B = (stE.heap B).set_freed false := by
    rw [hst1heap, updBlk_same, updBlk_ne _ _ _ _ (Ne.symm hnbne)]
  have hst1Bbuf : (st1.heap B).buffer_size = (st.heap B).buffer_size := by
    rw [hst1B, set_freed_buffer_size, hEBbuf]
  have hst1nb : st1.heap nb = (st.heap nb).set_previous_freed false := by
    rw [hst1heap, updBlk_ne _ _ _ _ hnbne, updBlk_same, hstEnb]
  have hst1t : st1.heap t = stE.heap t := by
    rw [hst1heap, updBlk_ne _ _ _ _ htB, updBlk_ne _ _ _ _ htnb]
  have hst1map : st1.freed_block_map = stE.freed_block_map := by rw [hst1]
  have hst1sl : st1.sl_bitmap = stE.sl_bitmap := by rw [hst1]
  have hst1fl : st1.fl_bitmap = stE.fl_bitmap := by rw [hst1]
  have hst1used : st1.used_memory_size = st.used_memory_size +
      (BlockHeader.get_aligned_size + (st.heap B).buffer_size) := by
    rw [hst1]
    show stE.used_memory_size +
      ((updBlk (updBlk stE.heap nb fun b => b.set_previous_freed false)
          B fun b => b.set_freed false) B).buffer_size_with_header = _
    rw [updBlk_same, updBlk_ne _ _ _ _ (Ne.symm hnbne), hstEused]
    unfold Blk.buffer_size_with_header
    rw [set_freed_buffer_size, hEBbuf]
  have hnbeq1 : next_block_addr B (st1.heap B) = nb := by
    rw [hnb]
    unfold next_block_addr
    rw [hst1Bbuf]
  set ST0 : St := { st1 with
    heap := updBlk (updBlk st1.heap B fun b => b.set_freed true) B fun b =>
      { b with node := FreeNode.new }
    used_memory_size := st1.used_memory_size -
      ((updBlk st1.heap B fun b => b.set_freed true) B).buffer_size_with_header }
    with hST0
  have hST0heap : ST0.heap =
      updBlk (updBlk st1.heap B fun b => b.set_freed true) B fun b =>
        { b with node := FreeNode.new } := by rw [hST0]
  have hST0B : ST0.heap B = { (st1.heap B).set_freed true with
      node := FreeNode.new } := by
    rw [hST0heap, updBlk_same, updBlk_same]
  have hST0Bfree : (ST0.heap B).is_freed = true := by
    rw [hST0B]
    show ((st1.heap B).set_freed true).is_freed = true
    rw [set_freed_is_freed]
  have hST0Bbuf : (ST0.heap B).buffer_size = (st.heap B).buffer_size := by
    rw [hST0B]
    show ((st1.heap B).set_freed true).buffer_size = _
    rw [set_freed_buffer_size, hst1Bbuf]
  have hST0t : ST0.heap t = stE.heap t := by
    rw [hST0heap, updBlk_ne _ _ _ _ htB, updBlk_ne _ _ _ _ htB, hst1t]
  have hST0tfree : (ST0.heap t).is_freed = true := by
    rw [hST0t, hstEt]
    show (st.heap t).is_freed = true
    exact htfree
  have hST0map : ST0.freed_block_map = stE.freed_block_map := by
    rw [hST0]
  have hST0sl : ST0.sl_bitmap = stE.sl_bitmap := by
    rw [hST0]
  have hST0fl : ST0.fl_bitmap = stE.fl_bitmap := by
    rw [hST0]
  have hST0used : ST0.used_memory_size = st.used_memory_size := by
    rw [hST0]
    show st1.used_memory_size -
      ((updBlk st1.heap B fun b => b.set_freed true) B).buffer_size_with_header = _
    rw [updBlk_same, hst1used]
    unfold Blk.buffer_size_with_header
    rw [set_freed_buffer_size, hst1Bbuf]
    omega
  have hsome0 : ST0.freed_block_map (calculate_index mi) = some t := by
    rw [hST0map, hstEmap, Function.update_same]
  have hins0 := insert_block_eq_head ST0 B t mi hST0Bfree hfl hidx hsome0 hST0tfree
  set stz : St := { ST0 with
    heap := updBlk (updBlk ST0.heap B fun b => { b with node := ⟨none, some t⟩ }) t
      fun b => { b with node := { b.node with prev := some B } }
    freed_block_map := Function.update ST0.freed_block_map (calculate_index mi)
      (some B)
    fl_bitmap := ST0.fl_bitmap ||| (1 <<< (mi.1 % 32))
    sl_bitmap := Function.update ST0.sl_bitmap mi.1
      (ST0.sl_bitmap mi.1 ||| (1 <<< (mi.2 % 32))) } with hstz
  have hstzheap : stz.heap =
      updBlk (updBlk ST0.heap B fun b => { b with node := ⟨none, some t⟩ }) t
        fun b => { b with node := { b.node with prev := some B } } := by rw [hstz]
  have hstzB : stz.heap B = { ST0.heap B with node := ⟨none, some t⟩ } := by
    rw [hstzheap, updBlk_ne _ _ _ _ (Ne.symm htB), updBlk_same]
  have hstzBbuf : (stz.heap B).buffer_size = (st1.heap B).buffer_size := by
    rw [hstzB]
    show (ST0.heap B).buffer_size = _
    rw [hST0Bbuf, hst1Bbuf]
  have hmapst1 : calculate_mapping_indices (st1.heap B).buffer_size = mi := by
    rw [hst1Bbuf, hmibuf]
  have hins1 : insert_block { st1 with
      heap := updBlk (updBlk st1.heap B fun b => b.set_freed true) B fun b =>
        { b with node := FreeNode.new }
      used_memory_size := st1.used_memory_size -
        ((updBlk st1.heap B fun b => b.set_freed true) B).buffer_size_with_header }
      B (calculate_mapping_indices (st1.heap B).buffer_size) = some stz := by
    rw [hmapst1]
    exact hins0
  have hnbf1 : (st1.heap (next_block_addr B (st1.heap B))).is_freed = false := by
    rw [hnbeq1, hst1nb, set_previous_freed_is_freed]
    exact hnbfree
  have hpf1 : (st1.heap B).is_prev_freed = false := by
    rw [hst1B, set_freed_is_prev_freed, hstEB]
    exact hpf
  have hdeal := root_dealloc_eq_nomerge st1 stz B hnbf1 hpf1 hins1 hstzBbuf
  rw [hnbeq1] at hdeal
  set st2 : St := { stz with
    heap := updBlk stz.heap nb fun b =>
      (b.set_previous_freed true).set_previous_header B } with hst2d
  have hst2heap : st2.heap = updBlk stz.heap nb fun b =>
      (b.set_previous_freed true).set_previous_header B := by rw [hst2d]
  have hst2eq : st2 = st := by
    apply st_fields_eq
    · funext a
      by_cases haB : a = B
      · rw [haB]
        rw [hst2heap, updBlk_ne _ _ _ _ (Ne.symm hnbne), hstzB, hST0B, hst1B, hstEB]
        apply blk_fields_eq
        · rfl
        · show ((({ st.heap B with node := (⟨none, none⟩ : FreeNode) } :
              Blk).set_freed false).set_freed true).stored_size = _
          rw [set_freed_stored, set_freed_buffer_size, set_freed_is_prev_freed]
          show calculate_stored_size (st.heap B).buffer_size true
            ((st.heap B).is_prev_freed) = _
          rw [hpf, hcan]
        · exact freenode_fields_eq _ _ (by rw [hprev]) (by rw [hnext])
        · rfl
        · rfl
      · by_cases hat : a = t
        · rw [hat]
          rw [hst2heap, updBlk_ne _ _ _ _ htnb, hstzheap, updBlk_same,
            updBlk_ne _ _ _ _ htB, hST0t, hstEt]
          apply blk_fields_eq
          · rfl
          · rfl
          · exact freenode_fields_eq _ _ (by show some B = _; rw [htprev]) rfl
          · rfl
          · rfl
        · by_cases hanb : a = nb
          · subst hanb
            rw [hst2heap, updBlk_same, hstzheap, updBlk_ne _ _ _ _ (Ne.symm htnb),
              updBlk_ne _ _ _ _ haB, hST0heap, updBlk_ne _ _ _ _ haB,
              updBlk_ne _ _ _ _ haB, hst1nb]
            apply blk_fields_eq
            · show some B = _
              rw [hnbph]
            · show (((st.heap nb).set_previous_freed false).set_previous_freed
                  true).stored_size = _
              rw [set_previous_freed_stored, set_previous_freed_buffer_size,
                set_previous_freed_is_freed, hnbfree, hnbcan]
            · rfl
            · rfl
            · rfl
          · rw [hst2heap, updBlk_ne _ _ _ _ hanb, hstzheap,
              updBlk_ne _ _ _ _ hat, updBlk_ne _ _ _ _ haB, hST0heap,
              updBlk_ne _ _ _ _ haB, updBlk_ne _ _ _ _ haB, hst1heap,
              updBlk_ne _ _ _ _ haB, updBlk_ne _ _ _ _ hanb, hstEheap,
              updBlk_ne _ _ _ _ hat, updBlk_ne _ _ _ _ haB]
    · show stz.fl_bitmap = st.fl_bitmap
      rw [hstz]
      show ST0.fl_bitmap ||| (1 <<< (mi.1 % 32)) = st.fl_bitmap
      rw [hST0fl, hstEfl, shift_small mi.1 hm132]
      exact lor_pow_of_testBit _ _ hflbit
    · show stz.sl_bitmap = st.sl_bitmap
      rw [hstz]
      show Function.update ST0.sl_bitmap mi.1
        (ST0.sl_bitmap mi.1 ||| (1 <<< (mi.2 % 32))) = st.sl_bitmap
      rw [hST0sl, hstEsl, shift_small mi.2 hsl32, lor_pow_of_testBit _ _ hslbit]
      exact Function.update_eq_self _ _
    · show stz.freed_block_map = st.freed_block_map
      rw [hstz]
      show Function.update ST0.freed_block_map (calculate_index mi) (some B) =
        st.freed_block_map
      rw [hST0map, hstEmap, Function.update_idem, ← hhead]
      exact Function.update_eq_self _ _
    · rfl
    · rfl
    · show stz.used_memory_size = st.used_memory_size
      rw [hstz]
      show ST0.used_memory_size = _
      exact hST0used
  exact ⟨st1, st2, hrun1, hdeal, by rw [hst2eq]; exact hrun1⟩

set_option maxHeartbeats 4000000 in
/-- LIFO round trip with a split: singleton class, remainder class empty. -/
theorem lifo_case_split_last_empty (st : St) (n B : Nat) (mi : Nat × Nat)
    (hfind : find_suitable_indices st (calculate_allocation_searching_size n) =
      some (some mi))
    (hidx : calculate_index mi < TOTAL_COUNT)
    (hfl : mi.1 < FIRST_INDEX_REAL)
    (hsl : mi.2 < SECOND_INDEX_MAX)
    (hhead : st.freed_block_map (calculate_index mi) = some B)
    (hnext : (st.heap B).node.next = none)
    (hprev : (st.heap B).node.prev = none)
    (hcan : (st.heap B).stored_size =
      calculate_stored_size (st.heap B).buffer_size true false)
    (hble : calculate_allocation_searching_size n ≤ (st.heap B).buffer_size)
    (hge : BLOCK_SIZE ≤ (st.heap B).buffer_size -
      calculate_allocation_searching_size n)
    (hsal : calculate_allocation_searching_size n % 16 = 0)
    (hBbound : (st.heap B).buffer_size < 2 ^ 36)
    (hmibuf : calculate_mapping_indices (st.heap B).buffer_size = mi)
    (hslbit : (st.sl_bitmap mi.1).testBit mi.2 = true)
    (hflbit : st.fl_bitmap.testBit mi.1 = true)
    (hnbfree : (st.heap (next_block_addr B (st.heap B))).is_freed = false)
    (hnbcan : (st.heap (next_block_addr B (st.heap B))).stored_size =
      calculate_stored_size
        (st.heap (next_block_addr B (st.heap B))).buffer_size false true)
    (hnbph : (st.heap (next_block_addr B (st.heap B))).previous_header = some B)
    (hv : Function.update st.freed_block_map (calculate_index mi) none
      (calculate_index (calculate_mapping_indices ((st.heap B).buffer_size -
        calculate_allocation_searching_size n - BlockHeader.get_aligned_size))) =
      none)
    (hS1bit : (Function.update st.sl_bitmap mi.1
        (st.sl_bitmap mi.1 ^^^ 2 ^ mi.2)
        (calculate_mapping_indices ((st.heap B).buffer_size -
          calculate_allocation_searching_size n -
          BlockHeader.get_aligned_size)).1).testBit
      (calculate_mapping_indices ((st.heap B).buffer_size -
        calculate_allocation_searching_size n -
        BlockHeader.get_aligned_size)).2 = false)
    (hconsN0 : st.sl_bitmap (calculate_mapping_indices ((st.heap B).buffer_size -
        calculate_allocation_searching_size n -
        BlockHeader.get_aligned_size)).1 = 0 →
      st.fl_bitmap.testBit (calculate_mapping_indices ((st.heap B).buffer_size -
        calculate_allocation_searching_size n -
        BlockHeader.get_aligned_size)).1 = false)
    (hconsN1 : st.sl_bitmap (calculate_mapping_indices ((st.heap B).buffer_size -
        calculate_allocation_searching_size n -
        BlockHeader.get_aligned_size)).1 ≠ 0 →
      st.fl_bitmap.testBit (calculate_mapping_indices ((st.heap B).buffer_size -
        calculate_allocation_searching_size n -
        BlockHeader.get_aligned_size)).1 = true) :
    ∃ st1 st2 st3,
      root_alloc st n = some (st1, some (B + BlockHeader.get_aligned_size)) ∧
      root_dealloc st1 (B + BlockHeader.get_aligned_size) = some st2 ∧
      root_alloc st2 n = some (st3, some (B + BlockHeader.get_aligned_size)) := by
  have h16 : BlockHeader.get_aligned_size = 16 := header_aligned_eq
  have hb32 : BLOCK_SIZE = 32 := BLOCK_SIZE_eq
  have hm132 : mi.1 < 32 := by rw [FIRST_INDEX_REAL_eq] at hfl; omega
  have hsl32 : mi.2 < 32 := by rw [SECOND_INDEX_MAX_eq] at hsl; omega
  have hfree : (st.heap B).is_freed = true := canonical_freed _ _ _ hcan
  have hpf : (st.heap B).is_prev_freed = false := canonical_prev_freed _ _ _ hcan
  have hbal : (st.heap B).buffer_size % 16 = 0 := buffer_size_mod16 _
  rw [h16] at hv hS1bit hconsN0 hconsN1
  rw [hb32] at hge
  set SS := calculate_allocation_searching_size n with hSS
  set buf := (st.heap B).buffer_size with hbuf
  set nbuf := buf - SS - 16 with hnbuf
  set miN := calculate_mapping_indices nbuf with hmiN
  set idxN := calculate_index miN with hidxN
  have hnbufal : nbuf % 16 = 0 := by omega
  have hnbufb : nbuf < 2 ^ 36 := by omega
  have hmiN1 : miN.1 < 30 := by
    rw [hmiN]
    exact mapping_fst_lt _ hnbufb
  have hmiN132 : miN.1 < 32 := by omega
  have hmiN232 : miN.2 < 32 := by
    rw [hmiN]
    exact mapping_snd_lt _
  have hidxNlt : idxN < TOTAL_COUNT := by
    rw [hidxN, hmiN]
    exact calculate_index_lt _ (by rw [hmiN] at hmiN1; exact hmiN1)
  set N : Nat := B + 16 + SS with hN
  set SC : Nat := B + (16 + buf) with hSC
  have hnbSC : next_block_addr B (st.heap B) = SC := by
    unfold next_block_addr
    rw [h16, hSC, hbuf]
  have hNB : N ≠ B := by omega
  have hNSC : N ≠ SC := by omega
  have hSCB : SC ≠ B := by omega
  rw [hnbSC] at hnbfree hnbcan hnbph
  -- run 1: pop the singleton head
  have hext := extract_root_block_eq_last st mi B hidx hfl hhead hfree hnext
  set stE : St := { st with
    heap := updBlk st.heap B fun b => { b with node := ⟨none, none⟩ }
    freed_block_map := Function.update st.freed_block_map (calculate_index mi) none
    sl_bitmap := Function.update st.sl_bitmap mi.1
      (st.sl_bitmap mi.1 ^^^ (1 <<< (mi.2 % 32)))
    fl_bitmap := if st.sl_bitmap mi.1 ^^^ (1 <<< (mi.2 % 32)) = 0
      then st.fl_bitmap ^^^ (1 <<< (mi.1 % 32)) else st.fl_bitmap } with hstE
  have hstEheap : stE.heap =
      updBlk st.heap B (fun b => { b with node := ⟨none, none⟩ }) := by rw [hstE]
  have hstEmap : stE.freed_block_map =
      Function.update st.freed_block_map (calculate_index mi) none := by rw [hstE]
  have hstEsl : stE.sl_bitmap = Function.update st.sl_bitmap mi.1
      (st.sl_bitmap mi.1 ^^^ (1 <<< (mi.2 % 32))) := by rw [hstE]
  have hstEfl : stE.fl_bitmap = (if st.sl_bitmap mi.1 ^^^ (1 <<< (mi.2 % 32)) = 0
      then st.fl_bitmap ^^^ (1 <<< (mi.1 % 32)) else st.fl_bitmap) := by rw [hstE]
  have hstEused : stE.used_memory_size = st.used_memory_size := by rw [hstE]
  have hstEB : stE.heap B = { st.heap B with node := ⟨none, none⟩ } := by
    rw [hstEheap, updBlk_same]
  have hEBbuf : (stE.heap B).buffer_size = buf := by
    rw [hstEB, hbuf]
    rfl
  have hEBfree : (stE.heap B).is_freed = true := by
    rw [hstEB]
    show (st.heap B).is_freed = true
    exact hfree
  have hEBpf : (stE.heap B).is_prev_freed = false := by
    rw [hstEB]
    show (st.heap B).is_prev_freed = false
    exact hpf
  have hEBstored : (stE.heap B).stored_size = calculate_stored_size buf true false := by
    rw [hstEB, hbuf]
    show (st.heap B).stored_size = _
    exact hcan
  have hOH1 : stE.freed_block_map (calculate_index (calculate_mapping_indices
      ((stE.heap B).buffer_size - SS - 16))) = none := by
    rw [hstEmap, hEBbuf]
    exact hv
  have hsp := alloc_split_step_eq_empty stE B SS hsal (by rw [hEBbuf]; omega)
    (by rw [hEBbuf]; exact hBbound) (by rw [hEBbuf]; rw [BLOCK_SIZE_eq]; omega) hOH1
  rw [hEBbuf] at hsp
  have hrun1 := root_alloc_eq_of_split st stE _ n B mi hfind hext
    (by rw [hEBbuf]; omega) hsp
  rw [← hnbuf, ← hN, ← hSC, ← hmiN, ← hidxN, hEBfree, hEBpf] at hsp
  set SP : St := { stE with
    heap := updBlk (Function.update (updBlk (updBlk stE.heap N fun b => { b with previous_header := none, stored_size := calculate_stored_size nbuf true false }) SC fun b => b.set_previous_header N) B { stE.heap B with stored_size := calculate_stored_size SS true false }) N fun b => { b with node := ⟨none, none⟩ }
    freed_block_map := Function.update stE.freed_block_map idxN (some N)
    fl_bitmap := stE.fl_bitmap ||| (1 <<< (miN.1 % 32))
    sl_bitmap := Function.update stE.sl_bitmap miN.1 (stE.sl_bitmap miN.1 ||| (1 <<< (miN.2 % 32))) } with hSP
  have hU : U64 = 2 ^ 64 := rfl
  have hSSb : SS + 15 < U64 := by rw [hU]; omega
  have hbufb : buf + 15 < U64 := by rw [hU]; omega
  have hnbufbU : nbuf + 15 < U64 := by rw [hU]; omega
  have hSPheap : SP.heap = updBlk (Function.update (updBlk (updBlk stE.heap N fun b => { b with previous_header := none, stored_size := calculate_stored_size nbuf true false }) SC fun b => b.set_previous_header N) B { stE.heap B with stored_size := calculate_stored_size SS true false }) N fun b => { b with node := ⟨none, none⟩ } := by rw [hSP]
  have hSPmap : SP.freed_block_map = Function.update stE.freed_block_map idxN (some N) := by rw [hSP]
  have hSPfl : SP.fl_bitmap = stE.fl_bitmap ||| (1 <<< (miN.1 % 32)) := by rw [hSP]
  have hSPsl : SP.sl_bitmap = Function.update stE.sl_bitmap miN.1 (stE.sl_bitmap miN.1 ||| (1 <<< (miN.2 % 32))) := by rw [hSP]
  have hSPused : SP.used_memory_size = st.used_memory_size := by rw [hSP]
  have hSPB : SP.heap B = { stE.heap B with stored_size := calculate_stored_size SS true false } := by
    rw [hSPheap, updBlk_ne _ _ _ _ (Ne.symm hNB), Function.update_same]
  have hSPBstored : (SP.heap B).stored_size = calculate_stored_size SS true false := by
    rw [hSPB]
  have hSPBbuf : (SP.heap B).buffer_size = SS := by
    unfold Blk.buffer_size
    rw [hSPBstored]
    exact stored_buffer_eq SS true false hsal hSSb
  have hSPBcan : (SP.heap B).stored_size = calculate_stored_size (SP.heap B).buffer_size true false := by
    rw [hSPBbuf, hSPBstored]
  have hSPN : SP.heap N = { st.heap N with previous_header := none, stored_size := calculate_stored_size nbuf true false, node := (⟨none, none⟩ : FreeNode) } := by
    rw [hSPheap, updBlk_same, Function.update_noteq hNB, updBlk_ne _ _ _ _ hNSC, updBlk_same, hstEheap, updBlk_ne _ _ _ _ hNB]
  have hSPNstored : (SP.heap N).stored_size = calculate_stored_size nbuf true false := by
    rw [hSPN]
  have hSPNbuf : (SP.heap N).buffer_size = nbuf := by
    unfold Blk.buffer_size
    rw [hSPNstored]
    exact stored_buffer_eq nbuf true false hnbufal hnbufbU
  have hSPNcan : (SP.heap N).stored_size = calculate_stored_size (SP.heap N).buffer_size true false := by
    rw [hSPNbuf, hSPNstored]
  have hSPNfree : (SP.heap N).is_freed = true := canonical_freed _ true false hSPNcan
  have hSPNnode : (SP.heap N).node = (⟨none, none⟩ : FreeNode) := by rw [hSPN]
  have hSPSC : SP.heap SC = { st.heap SC with previous_header := some N } := by
    rw [hSPheap, updBlk_ne _ _ _ _ (Ne.symm hNSC), Function.update_noteq hSCB, updBlk_same, updBlk_ne _ _ _ _ (Ne.symm hNSC), hstEheap, updBlk_ne _ _ _ _ hSCB]
    rfl
  have hrun1 := root_alloc_eq_of_split st stE SP n B mi hfind hext (by rw [hEBbuf]; omega) hsp
  set st1 : St := { SP with
    heap := updBlk SP.heap B fun b => b.set_freed false
    used_memory_size := SP.used_memory_size + ((updBlk SP.heap B fun b => b.set_freed false) B).buffer_size_with_header } with hst1
  have hst1heap : st1.heap = updBlk SP.heap B fun b => b.set_freed false := by rw [hst1]
  have hst1B : st1.heap B = (SP.heap B).set_freed false := by rw [hst1heap, updBlk_same]
  have hst1Bbuf : (st1.heap B).buffer_size = SS := by
    rw [hst1B, set_freed_buffer_size, hSPBbuf]
  have hst1N : st1.heap N = SP.heap N := by rw [hst1heap, updBlk_ne _ _ _ _ hNB]
  have hst1SC : st1.heap SC = SP.heap SC := by rw [hst1heap, updBlk_ne _ _ _ _ hSCB]
  have hst1used : st1.used_memory_size = st.used_memory_size + (16 + SS) := by
    rw [hst1]
    show SP.used_memory_size + ((updBlk SP.heap B fun b => b.set_freed false) B).buffer_size_with_header = _
    rw [updBlk_same, hSPused]
    unfold Blk.buffer_size_with_header
    rw [set_freed_buffer_size, hSPBbuf, h16]
  have hnbN : next_block_addr B (st1.heap B) = N := by
    unfold next_block_addr
    rw [hst1Bbuf, h16]
    omega
  have hXfree : (st1.heap (next_block_addr B (st1.heap B))).is_freed = true := by
    rw [hnbN, hst1N]
    exact hSPNfree
  set ST0 : St := { st1 with
    heap := updBlk (updBlk st1.heap B fun b => b.set_freed true) B fun b => { b with node := FreeNode.new }
    used_memory_size := st1.used_memory_size - ((updBlk st1.heap B fun b => b.set_freed true) B).buffer_size_with_header } with hST0
  have hST0heap : ST0.heap = updBlk (updBlk st1.heap B fun b => b.set_freed true) B fun b => { b with node := FreeNode.new } := by rw [hST0]
  have hST0B : ST0.heap B = { (st1.heap B).set_freed true with node := FreeNode.new } := by
    rw [hST0heap, updBlk_same, updBlk_same]
  have hST0N : ST0.heap N = SP.heap N := by
    rw [hST0heap, updBlk_ne _ _ _ _ hNB, updBlk_ne _ _ _ _ hNB, hst1N]
  have hST0SC : ST0.heap SC = SP.heap SC := by
    rw [hST0heap, updBlk_ne _ _ _ _ hSCB, updBlk_ne _ _ _ _ hSCB, hst1SC]
  have hST0map : ST0.freed_block_map = SP.freed_block_map := by rw [hST0]
  have hST0sl : ST0.sl_bitmap = SP.sl_bitmap := by rw [hST0]
  have hST0fl : ST0.fl_bitmap = SP.fl_bitmap := by rw [hST0]
  have hST0used : ST0.used_memory_size = st.used_memory_size := by
    rw [hST0]
    show st1.used_memory_size - ((updBlk st1.heap B fun b => b.set_freed true) B).buffer_size_with_header = _
    rw [updBlk_same, hst1used]
    unfold Blk.buffer_size_with_header
    rw [set_freed_buffer_size, hst1Bbuf, h16]
    omega
  have hST0Nb : (ST0.heap N).buffer_size = nbuf := by rw [hST0N]; exact hSPNbuf
  have hST0Nfree : (ST0.heap N).is_freed = true := by rw [hST0N]; exact hSPNfree
  have hST0Nprev : (ST0.heap N).node.prev = none := by rw [hST0N, hSPNnode]
  have hST0Nnext : (ST0.heap N).node.next = none := by rw [hST0N, hSPNnode]
  have hST0Nhead : ST0.freed_block_map (calculate_index (calculate_mapping_indices (ST0.heap N).buffer_size)) = some N := by
    rw [hST0Nb, ← hmiN, ← hidxN, hST0map, hSPmap, Function.update_same]
  have hextf0 := extract_freed_block_eq_last ST0 N hST0Nfree hST0Nprev hST0Nnext (by rw [hST0Nb, ← hmiN, ← hidxN]; exact hidxNlt) (by rw [hST0Nb, ← hmiN, FIRST_INDEX_REAL_eq]; omega) hST0Nhead
  rw [hST0Nb, ← hmiN, ← hidxN] at hextf0
  have hstEslbitN : (stE.sl_bitmap miN.1).testBit miN.2 = false := by
    rw [hstEsl, shift_small mi.2 hsl32]
    exact hS1bit
  have hcondN : (stE.sl_bitmap miN.1 ||| (1 <<< (miN.2 % 32))) ^^^ (1 <<< (miN.2 % 32)) = stE.sl_bitmap miN.1 := by
    rw [shift_small miN.2 hmiN232]
    exact lor_xor_pow_of_not_testBit _ _ hstEslbitN
  set stx : St := { ST0 with
    heap := updBlk ST0.heap N fun b => { b with node := ⟨none, none⟩ }
    freed_block_map := Function.update ST0.freed_block_map idxN none
    sl_bitmap := Function.update ST0.sl_bitmap miN.1 (ST0.sl_bitmap miN.1 ^^^ (1 <<< (miN.2 % 32)))
    fl_bitmap := if ST0.sl_bitmap miN.1 ^^^ (1 <<< (miN.2 % 32)) = 0 then ST0.fl_bitmap ^^^ (1 <<< (miN.1 % 32)) else ST0.fl_bitmap } with hstx
  have hstxheap : stx.heap = updBlk ST0.heap N fun b => { b with node := ⟨none, none⟩ } := by rw [hstx]
  have hstxB : stx.heap B = { (st1.heap B).set_freed true with node := FreeNode.new } := by
    rw [hstxheap, updBlk_ne _ _ _ _ (Ne.symm hNB), hST0B]
  have hstxBbuf : (stx.heap B).buffer_size = SS := by
    rw [hstxB]
    show ((st1.heap B).set_freed true).buffer_size = SS
    rw [set_freed_buffer_size, hst1Bbuf]
  have hstxBfree : (stx.heap B).is_freed = true := by
    rw [hstxB]
    show ((st1.heap B).set_freed true).is_freed = true
    rw [set_freed_is_freed]
  have hstxBpf : (stx.heap B).is_prev_freed = false := by
    rw [hstxB]
    show ((st1.heap B).set_freed true).is_prev_freed = false
    rw [set_freed_is_prev_freed, hst1B, set_freed_is_prev_freed]
    exact canonical_prev_freed _ true false hSPBcan
  have hstxSC : stx.heap SC = SP.heap SC := by
    rw [hstxheap, updBlk_ne _ _ _ _ (Ne.symm hNSC), hST0SC]
  have hstxN : stx.heap N = { SP.heap N with node := (⟨none, none⟩ : FreeNode) } := by
    rw [hstxheap, updBlk_same, hST0N]
  have hstxmap : stx.freed_block_map = Function.update SP.freed_block_map idxN none := by
    rw [hstx]
  have hstxsl : stx.sl_bitmap = stE.sl_bitmap := by
    rw [hstx]
    show Function.update ST0.sl_bitmap miN.1 (ST0.sl_bitmap miN.1 ^^^ (1 <<< (miN.2 % 32))) = _
    rw [hST0sl, hSPsl, Function.update_same, Function.update_idem, hcondN]
    exact Function.update_eq_self _ _
  have hstxfl : stx.fl_bitmap = (if stE.sl_bitmap miN.1 = 0 then SP.fl_bitmap ^^^ (1 <<< (miN.1 % 32)) else SP.fl_bitmap) := by
    rw [hstx]
    show (if ST0.sl_bitmap miN.1 ^^^ (1 <<< (miN.2 % 32)) = 0 then ST0.fl_bitmap ^^^ (1 <<< (miN.1 % 32)) else ST0.fl_bitmap) = _
    rw [hST0sl, hST0fl, hSPsl, Function.update_same, hcondN]
  have hstxused : stx.used_memory_size = st.used_memory_size := by
    rw [hstx]
    show ST0.used_memory_size = _
    exact hST0used
  set BB : Blk := { stx.heap B with stored_size := calculate_stored_size buf true false } with hBB
  have hBBstored : BB.stored_size = calculate_stored_size buf true false := by rw [hBB]
  have hBBbuf : BB.buffer_size = buf := by
    unfold Blk.buffer_size
    rw [hBBstored]
    exact stored_buffer_eq buf true false hbal hbufb
  have hBBcan : BB.stored_size = calculate_stored_size BB.buffer_size true false := by
    rw [hBBbuf, hBBstored]
  have hBBfree : BB.is_freed = true := canonical_freed _ true false hBBcan
  have hBBpf : BB.is_prev_freed = false := canonical_prev_freed _ true false hBBcan
  have hsbs : (stx.heap B).set_buffer_size ((stx.heap B).buffer_size + (st1.heap (next_block_addr B (st1.heap B))).buffer_size_with_header) = some BB := by
    rw [hnbN, hst1N]
    rw [show (SP.heap N).buffer_size_with_header = 16 + nbuf from by unfold Blk.buffer_size_with_header; rw [hSPNbuf, h16]]
    rw [hstxBbuf]
    rw [show SS + (16 + nbuf) = buf from by omega]
    unfold Blk.set_buffer_size
    rw [if_pos ((is_aligned_iff buf).mpr hbal), hstxBfree, hstxBpf, hBB]
  have hstymapval : stx.freed_block_map (calculate_index mi) = none := by
    rw [hstxmap, hSPmap, hstEmap, Function.update_idem, update_self_of_eq _ _ _ hv, Function.update_same]
  set sty : St := { stx with heap := Function.update stx.heap B BB } with hsty
  have hstyheap : sty.heap = Function.update stx.heap B BB := by rw [hsty]
  have hstyB : sty.heap B = BB := by rw [hstyheap, Function.update_same]
  have hstyBfree : (sty.heap B).is_freed = true := by rw [hstyB]; exact hBBfree
  have hstynone : sty.freed_block_map (calculate_index mi) = none := by
    show stx.freed_block_map (calculate_index mi) = none
    exact hstymapval
  have hins0 := insert_block_eq_empty sty B mi hstyBfree hfl hidx hstynone
  set stz : St := { sty with
    heap := updBlk sty.heap B fun b => { b with node := ⟨none, none⟩ }
    freed_block_map := Function.update sty.freed_block_map (calculate_index mi) (some B)
    fl_bitmap := sty.fl_bitmap ||| (1 <<< (mi.1 % 32))
    sl_bitmap := Function.update sty.sl_bitmap mi.1 (sty.sl_bitmap mi.1 ||| (1 <<< (mi.2 % 32))) } with hstz
  have hstzheap : stz.heap = updBlk sty.heap B fun b => { b with node := ⟨none, none⟩ } := by rw [hstz]
  have hstzB : stz.heap B = { BB with node := (⟨none, none⟩ : FreeNode) } := by
    rw [hstzheap, updBlk_same, hstyB]
  have hstzBbuf : (stz.heap B).buffer_size = BB.buffer_size := by
    rw [hstzB]
    rfl
  have hdeal0 := root_dealloc_eq_merge st1 stx stz BB B hXfree (by rw [hnbN]; exact hextf0) hsbs hBBpf (by rw [hBBbuf, hmibuf]; exact hins0) hstzBbuf
  rw [show B + (BlockHeader.get_aligned_size + BB.buffer_size) = SC from by rw [h16, hBBbuf]] at hdeal0
  set st2 : St := { stz with heap := updBlk stz.heap SC fun b => (b.set_previous_freed true).set_previous_header B } with hst2d
  have hst2heap : st2.heap = updBlk stz.heap SC fun b => (b.set_previous_freed true).set_previous_header B := by rw [hst2d]
  set STJ : St := { st with heap := Function.update st.heap N { st.heap N with previous_header := none, stored_size := calculate_stored_size nbuf true false, node := (⟨none, none⟩ : FreeNode) } } with hSTJ
  have hSTJheap : STJ.heap = Function.update st.heap N { st.heap N with previous_header := none, stored_size := calculate_stored_size nbuf true false, node := (⟨none, none⟩ : FreeNode) } := by rw [hSTJ]
  have hst2eq : st2 = STJ := by
    apply st_fields_eq
    · funext a
      by_cases haB : a = B
      · rw [haB, hst2heap, updBlk_ne _ _ _ _ (Ne.symm hSCB), hstzB, hSTJheap, Function.update_noteq (Ne.symm hNB)]
        apply blk_fields_eq
        · show BB.previous_header = (st.heap B).previous_header
          rw [hBB]
          show (stx.heap B).previous_header = _
          rw [hstxB]
          show (st1.heap B).previous_header = _
          rw [hst1B]
          show (SP.heap B).previous_header = _
          rw [hSPB]
          show (stE.heap B).previous_header = _
          rw [hstEB]
        · show BB.stored_size = (st.heap B).stored_size
          rw [hBBstored, hcan]
        · exact freenode_fields_eq _ _ (by rw [hprev]) (by rw [hnext])
        · show BB.area_end = (st.heap B).area_end
          rw [hBB]
          show (stx.heap B).area_end = _
          rw [hstxB]
          show (st1.heap B).area_end = _
          rw [hst1B]
          show (SP.heap B).area_end = _
          rw [hSPB]
          show (stE.heap B).area_end = _
          rw [hstEB]
        · show BB.area_next = (st.heap B).area_next
          rw [hBB]
          show (stx.heap B).area_next = _
          rw [hstxB]
          show (st1.heap B).area_next = _
          rw [hst1B]
          show (SP.heap B).area_next = _
          rw [hSPB]
          show (stE.heap B).area_next = _
          rw [hstEB]
      · by_cases haSC : a = SC
        · rw [haSC, hst2heap, updBlk_same, hstzheap, updBlk_ne _ _ _ _ hSCB, hstyheap, Function.update_noteq hSCB, hstxSC, hSPSC, hSTJheap, Function.update_noteq (Ne.symm hNSC)]
          apply blk_fields_eq
          · show (some B : Option Nat) = (st.heap SC).previous_header
            rw [hnbph]
          · show (({ st.heap SC with previous_header := some N } : Blk).set_previous_freed true).stored_size = (st.heap SC).stored_size
            rw [set_previous_freed_stored]
            show calculate_stored_size (st.heap SC).buffer_size (st.heap SC).is_freed true = (st.heap SC).stored_size
            rw [hnbfree, hnbcan]
          · rfl
          · rfl
          · rfl
        · by_cases haN : a = N
          · rw [haN, hst2heap, updBlk_ne _ _ _ _ hNSC, hstzheap, updBlk_ne _ _ _ _ hNB, hstyheap, Function.update_noteq hNB, hstxN, hSPN, hSTJheap, Function.update_same]
          · rw [hst2heap, updBlk_ne _ _ _ _ haSC, hstzheap, updBlk_ne _ _ _ _ haB, hstyheap, Function.update_noteq haB, hstxheap, updBlk_ne _ _ _ _ haN, hST0heap, updBlk_ne _ _ _ _ haB, updBlk_ne _ _ _ _ haB, hst1heap, updBlk_ne _ _ _ _ haB, hSPheap, updBlk_ne _ _ _ _ haN, Function.update_noteq haB, updBlk_ne _ _ _ _ haSC, updBlk_ne _ _ _ _ haN, hstEheap, updBlk_ne _ _ _ _ haB, hSTJheap, Function.update_noteq haN]
    · show stz.fl_bitmap = st.fl_bitmap
      rw [hstz]
      show sty.fl_bitmap ||| (1 <<< (mi.1 % 32)) = st.fl_bitmap
      show stx.fl_bitmap ||| (1 <<< (mi.1 % 32)) = st.fl_bitmap
      rw [hstxfl, hSPfl, hstEfl, hstEsl, shift_small mi.1 hm132, shift_small mi.2 hsl32, shift_small miN.1 hmiN132]
      by_cases hc2 : (Function.update st.sl_bitmap mi.1 (st.sl_bitmap mi.1 ^^^ 2 ^ mi.2)) miN.1 = 0
      · rw [if_pos hc2]
        have hF1bit : (if st.sl_bitmap mi.1 ^^^ 2 ^ mi.2 = 0 then st.fl_bitmap ^^^ 2 ^ mi.1 else st.fl_bitmap).testBit miN.1 = false := by
          by_cases hba : miN.1 = mi.1
          · rw [hba] at hc2 ⊢
            rw [Function.update_same] at hc2
            rw [if_pos hc2, Nat.testBit_xor, Nat.testBit_two_pow_self, hflbit]
            rfl
          · rw [Function.update_noteq hba] at hc2
            have hflN := hconsN0 hc2
            by_cases hc1 : st.sl_bitmap mi.1 ^^^ 2 ^ mi.2 = 0
            · rw [if_pos hc1, Nat.testBit_xor, hflN, Nat.testBit_two_pow_of_ne (Ne.symm hba)]
              rfl
            · rw [if_neg hc1]
              exact hflN
        rw [lor_xor_pow_of_not_testBit _ _ hF1bit]
        by_cases hc1 : st.sl_bitmap mi.1 ^^^ 2 ^ mi.2 = 0
        · rw [if_pos hc1]
          exact xor_lor_pow_of_testBit _ _ hflbit
        · rw [if_neg hc1]
          exact lor_pow_of_testBit _ _ hflbit
      · rw [if_neg hc2]
        have hF1or : (if st.sl_bitmap mi.1 ^^^ 2 ^ mi.2 = 0 then st.fl_bitmap ^^^ 2 ^ mi.1 else st.fl_bitmap) ||| 2 ^ miN.1 = (if st.sl_bitmap mi.1 ^^^ 2 ^ mi.2 = 0 then st.fl_bitmap ^^^ 2 ^ mi.1 else st.fl_bitmap) := by
          by_cases hba : miN.1 = mi.1
          · rw [hba] at hc2 ⊢
            rw [Function.update_same] at hc2
            rw [if_neg hc2]
            exact lor_pow_of_testBit _ _ hflbit
          · rw [Function.update_noteq hba] at hc2
            have hflN := hconsN1 hc2
            by_cases hc1 : st.sl_bitmap mi.1 ^^^ 2 ^ mi.2 = 0
            · rw [if_pos hc1]
              apply lor_pow_of_testBit
              rw [Nat.testBit_xor, hflN, Nat.testBit_two_pow_of_ne (Ne.symm hba)]
              rfl
            · rw [if_neg hc1]
              exact lor_pow_of_testBit _ _ hflN
        rw [hF1or]
        by_cases hc1 : st.sl_bitmap mi.1 ^^^ 2 ^ mi.2 = 0
        · rw [if_pos hc1]
          exact xor_lor_pow_of_testBit _ _ hflbit
        · rw [if_neg hc1]
          exact lor_pow_of_testBit _ _ hflbit
    · show stz.sl_bitmap = st.sl_bitmap
      rw [hstz]
      show Function.update sty.sl_bitmap mi.1 (sty.sl_bitmap mi.1 ||| (1 <<< (mi.2 % 32))) = st.sl_bitmap
      show Function.update stx.sl_bitmap mi.1 (stx.sl_bitmap mi.1 ||| (1 <<< (mi.2 % 32))) = st.sl_bitmap
      rw [hstxsl, hstEsl, Function.update_same, Function.update_idem, shift_small mi.2 hsl32, xor_lor_pow_of_testBit _ _ hslbit]
      exact Function.update_eq_self _ _
    · show stz.freed_block_map = st.freed_block_map
      rw [hstz]
      show Function.update sty.freed_block_map (calculate_index mi) (some B) = st.freed_block_map
      show Function.update stx.freed_block_map (calculate_index mi) (some B) = st.freed_block_map
      rw [hstxmap, hSPmap, hstEmap, Function.update_idem, update_self_of_eq _ _ _ hv, Function.update_idem, ← hhead]
      exact Function.update_eq_self _ _
    · rfl
    · rfl
    · show stz.used_memory_size = st.used_memory_size
      rw [hstz]
      show stx.used_memory_size = _
      exact hstxused
  have hSTJB : STJ.heap B = st.heap B := by
    rw [hSTJheap, Function.update_noteq (Ne.symm hNB)]
  have hfind2 : find_suitable_indices STJ SS = some (some mi) := hfind
  have hhead2 : STJ.freed_block_map (calculate_index mi) = some B := hhead
  have hext2 := extract_root_block_eq_last STJ mi B hidx hfl hhead2 (by rw [hSTJB]; exact hfree) (by rw [hSTJB]; exact hnext)
  set stE2 : St := { STJ with
    heap := updBlk STJ.heap B fun b => { b with node := ⟨none, none⟩ }
    freed_block_map := Function.update STJ.freed_block_map (calculate_index mi) none
    sl_bitmap := Function.update STJ.sl_bitmap mi.1 (STJ.sl_bitmap mi.1 ^^^ (1 <<< (mi.2 % 32)))
    fl_bitmap := if STJ.sl_bitmap mi.1 ^^^ (1 <<< (mi.2 % 32)) = 0 then STJ.fl_bitmap ^^^ (1 <<< (mi.1 % 32)) else STJ.fl_bitmap } with hstE2
  have hstE2heap : stE2.heap = updBlk STJ.heap B fun b => { b with node := ⟨none, none⟩ } := by rw [hstE2]
  have hstE2B : stE2.heap B = { st.heap B with node := (⟨none, none⟩ : FreeNode) } := by
    rw [hstE2heap, updBlk_same, hSTJB]
  have hE2buf : (stE2.heap B).buffer_size = buf := by
    rw [hstE2B, hbuf]
    rfl
  have hOH2 : stE2.freed_block_map (calculate_index (calculate_mapping_indices ((stE2.heap B).buffer_size - SS - 16))) = none := by
    rw [hE2buf, ← hnbuf, ← hmiN, ← hidxN]
    show Function.update STJ.freed_block_map (calculate_index mi) none idxN = none
    exact hv
  have hsp2 := alloc_split_step_eq_empty stE2 B SS hsal (by rw [hE2buf]; omega) (by rw [hE2buf]; exact hBbound) (by rw [hE2buf, BLOCK_SIZE_eq]; omega) hOH2
  have hrun2 := root_alloc_eq_of_split STJ stE2 _ n B mi hfind2 hext2 (by rw [hE2buf]; omega) hsp2
  obtain ⟨st3v, hrun2v⟩ : ∃ s3, root_alloc STJ n =
      some (s3, some (B + BlockHeader.get_aligned_size)) := ⟨_, hrun2⟩
  exact ⟨st1, st2, st3v, hrun1, hdeal0, by rw [hst2eq]; exact hrun2v⟩

set_option maxHeartbeats 4000000 in
/-- LIFO round trip with a split: singleton class, remainder class already
headed by `t2`. -/
theorem lifo_case_split_last_head (st : St) (n B t2 : Nat) (mi : Nat × Nat)
    (hfind : find_suitable_indices st (calculate_allocation_searching_size n) =
      some (some mi))
    (hidx : calculate_index mi < TOTAL_COUNT)
    (hfl : mi.1 < FIRST_INDEX_REAL)
    (hsl : mi.2 < SECOND_INDEX_MAX)
    (hhead : st.freed_block_map (calculate_index mi) = some B)
    (hnext : (st.heap B).node.next = none)
    (hprev : (st.heap B).node.prev = none)
    (hcan : (st.heap B).stored_size =
      calculate_stored_size (st.heap B).buffer_size true false)
    (hble : calculate_allocation_searching_size n ≤ (st.heap B).buffer_size)
    (hge : BLOCK_SIZE ≤ (st.heap B).buffer_size -
      calculate_allocation_searching_size n)
    (hsal : calculate_allocation_searching_size n % 16 = 0)
    (hBbound : (st.heap B).buffer_size < 2 ^ 36)
    (hmibuf : calculate_mapping_indices (st.heap B).buffer_size = mi)
    (hslbit : (st.sl_bitmap mi.1).testBit mi.2 = true)
    (hflbit : st.fl_bitmap.testBit mi.1 = true)
    (hnbfree : (st.heap (next_block_addr B (st.heap B))).is_freed = false)
    (hnbcan : (st.heap (next_block_addr B (st.heap B))).stored_size =
      calculate_stored_size
        (st.heap (next_block_addr B (st.heap B))).buffer_size false true)
    (hnbph : (st.heap (next_block_addr B (st.heap B))).previous_header = some B)
    (hv : Function.update st.freed_block_map (calculate_index mi) none
      (calculate_index (calculate_mapping_indices ((st.heap B).buffer_size -
        calculate_allocation_searching_size n - BlockHeader.get_aligned_size))) =
      some t2)
    (hS1bitT : (Function.update st.sl_bitmap mi.1
        (st.sl_bitmap mi.1 ^^^ 2 ^ mi.2)
        (calculate_mapping_indices ((st.heap B).buffer_size -
          calculate_allocation_searching_size n -
          BlockHeader.get_aligned_size)).1).testBit
      (calculate_mapping_indices ((st.heap B).buffer_size -
        calculate_allocation_searching_size n -
        BlockHeader.get_aligned_size)).2 = true)
    (hconsN1 : st.sl_bitmap (calculate_mapping_indices ((st.heap B).buffer_size -
        calculate_allocation_searching_size n -
        BlockHeader.get_aligned_size)).1 ≠ 0 →
      st.fl_bitmap.testBit (calculate_mapping_indices ((st.heap B).buffer_size -
        calculate_allocation_searching_size n -
        BlockHeader.get_aligned_size)).1 = true)
    (ht2free0 : (st.heap t2).is_freed = true)
    (ht2prev0 : (st.heap t2).node.prev = none)
    (ht2B : t2 ≠ B)
    (ht2N : t2 ≠ B + BlockHeader.get_aligned_size +
      calculate_allocation_searching_size n) :
    ∃ st1 st2 st3,
      root_alloc st n = some (st1, some (B + BlockHeader.get_aligned_size)) ∧
      root_dealloc st1 (B + BlockHeader.get_aligned_size) = some st2 ∧
      root_alloc st2 n = some (st3, some (B + BlockHeader.get_aligned_size)) := by
  have h16 : BlockHeader.get_aligned_size = 16 := header_aligned_eq
  have hb32 : BLOCK_SIZE = 32 := BLOCK_SIZE_eq
  have hm132 : mi.1 < 32 := by rw [FIRST_INDEX_REAL_eq] at hfl; omega
  have hsl32 : mi.2 < 32 := by rw [SECOND_INDEX_MAX_eq] at hsl; omega
  have hfree : (st.heap B).is_freed = true := canonical_freed _ _ _ hcan
  have hpf : (st.heap B).is_prev_freed = false := canonical_prev_freed _ _ _ hcan
  have hbal : (st.heap B).buffer_size % 16 = 0 := buffer_size_mod16 _
  rw [h16] at hv hS1bitT hconsN1 ht2N
  rw [hb32] at hge
  set SS := calculate_allocation_searching_size n with hSS
  set buf := (st.heap B).buffer_size with hbuf
  set nbuf := buf - SS - 16 with hnbuf
  set miN := calculate_mapping_indices nbuf with hmiN
  set idxN := calculate_index miN with hidxN
  have hnbufal : nbuf % 16 = 0 := by omega
  have hnbufb : nbuf < 2 ^ 36 := by omega
  have hmiN1 : miN.1 < 30 := by
    rw [hmiN]
    exact mapping_fst_lt _ hnbufb
  have hmiN132 : miN.1 < 32 := by omega
  have hmiN232 : miN.2 < 32 := by
    rw [hmiN]
    exact mapping_snd_lt _
  have hidxNlt : idxN < TOTAL_COUNT := by
    rw [hidxN, hmiN]
    exact calculate_index_lt _ (by rw [hmiN] at hmiN1; exact hmiN1)
  set N : Nat := B + 16 + SS with hN
  set SC : Nat := B + (16 + buf) with hSC
  have hnbSC : next_block_addr B (st.heap B) = SC := by
    unfold next_block_addr
    rw [h16, hSC, hbuf]
  have hNB : N ≠ B := by omega
  have hNSC : N ≠ SC := by omega
  have hSCB : SC ≠ B := by omega
  rw [hnbSC] at hnbfree hnbcan hnbph
  have ht2SC : t2 ≠ SC := by
    intro h
    rw [h] at ht2free0
    rw [ht2free0] at hnbfree
    simp at hnbfree
  have hext := extract_root_block_eq_last st mi B hidx hfl hhead hfree hnext
  set stE : St := { st with
    heap := updBlk st.heap B fun b => { b with node := ⟨none, none⟩ }
    freed_block_map := Function.update st.freed_block_map (calculate_index mi) none
    sl_bitmap := Function.update st.sl_bitmap mi.1
      (st.sl_bitmap mi.1 ^^^ (1 <<< (mi.2 % 32)))
    fl_bitmap := if st.sl_bitmap mi.1 ^^^ (1 <<< (mi.2 % 32)) = 0
      then st.fl_bitmap ^^^ (1 <<< (mi.1 % 32)) else st.fl_bitmap } with hstE
  have hstEheap : stE.heap =
      updBlk st.heap B (fun b => { b with node := ⟨none, none⟩ }) := by rw [hstE]
  have hstEmap : stE.freed_block_map =
      Function.update st.freed_block_map (calculate_index mi) none := by rw [hstE]
  have hstEsl : stE.sl_bitmap = Function.update st.sl_bitmap mi.1
      (st.sl_bitmap mi.1 ^^^ (1 <<< (mi.2 % 32))) := by rw [hstE]
  have hstEfl : stE.fl_bitmap = (if st.sl_bitmap mi.1 ^^^ (1 <<< (mi.2 % 32)) = 0
      then st.fl_bitmap ^^^ (1 <<< (mi.1 % 32)) else st.fl_bitmap) := by rw [hstE]
  have hstEused : stE.used_memory_size = st.used_memory_size := by rw [hstE]
  have hstEB : stE.heap B = { st.heap B with node := ⟨none, none⟩ } := by
    rw [hstEheap, updBlk_same]
  have hstEt2 : stE.heap t2 = st.heap t2 := by
    rw [hstEheap, updBlk_ne _ _ _ _ ht2B]
  have hEBbuf : (stE.heap B).buffer_size = buf := by
    rw [hstEB, hbuf]
    rfl
  have hEBfree : (stE.heap B).is_freed = true := by
    rw [hstEB]
    show (st.heap B).is_freed = true
    exact hfree
  have hEBpf : (stE.heap B).is_prev_freed = false := by
    rw [hstEB]
    show (st.heap B).is_prev_freed = false
    exact hpf
  have hOH1 : stE.freed_block_map (calculate_index (calculate_mapping_indices
      ((stE.heap B).buffer_size - SS - 16))) = some t2 := by
    rw [hstEmap, hEBbuf]
    exact hv
  have hsp := alloc_split_step_eq_head stE B SS t2 hsal (by rw [hEBbuf]; omega)
    (by rw [hEBbuf]; exact hBbound) (by rw [hEBbuf]; rw [BLOCK_SIZE_eq]; omega) hOH1
    (by rw [hstEt2]; exact ht2free0) ht2B ht2N (by rw [hEBbuf]; exact ht2SC)
  rw [hEBbuf] at hsp
  rw [← hnbuf, ← hN, ← hSC, ← hmiN, ← hidxN, hEBfree, hEBpf] at hsp
  set SP : St := { stE with
    heap := updBlk (updBlk (Function.update (updBlk (updBlk stE.heap N fun b => { b with previous_header := none, stored_size := calculate_stored_size nbuf true false }) SC fun b => b.set_previous_header N) B { stE.heap B with stored_size := calculate_stored_size SS true false }) N fun b => { b with node := ⟨none, some t2⟩ }) t2 fun b => { b with node := { b.node with prev := some N } }
    freed_block_map := Function.update stE.freed_block_map idxN (some N)
    fl_bitmap := stE.fl_bitmap ||| (1 <<< (miN.1 % 32))
    sl_bitmap := Function.update stE.sl_bitmap miN.1 (stE.sl_bitmap miN.1 ||| (1 <<< (miN.2 % 32))) } with hSP
  have hU : U64 = 2 ^ 64 := rfl
  have hSSb : SS + 15 < U64 := by rw [hU]; omega
  have hbufb : buf + 15 < U64 := by rw [hU]; omega
  have hnbufbU : nbuf + 15 < U64 := by rw [hU]; omega
  have hSPheap : SP.heap = updBlk (updBlk (Function.update (updBlk (updBlk stE.heap N fun b => { b with previous_header := none, stored_size := calculate_stored_size nbuf true false }) SC fun b => b.set_previous_header N) B { stE.heap B with stored_size := calculate_stored_size SS true false }) N fun b => { b with node := ⟨none, some t2⟩ }) t2 fun b => { b with node := { b.node with prev := some N } } := by rw [hSP]
  have hSPmap : SP.freed_block_map = Function.update stE.freed_block_map idxN (some N) := by rw [hSP]
  have hSPfl : SP.fl_bitmap = stE.fl_bitmap ||| (1 <<< (miN.1 % 32)) := by rw [hSP]
  have hSPsl : SP.sl_bitmap = Function.update stE.sl_bitmap miN.1 (stE.sl_bitmap miN.1 ||| (1 <<< (miN.2 % 32))) := by rw [hSP]
  have hSPused : SP.used_memory_size = st.used_memory_size := by rw [hSP]
  have hSPB : SP.heap B = { stE.heap B with stored_size := calculate_stored_size SS true false } := by
    rw [hSPheap, updBlk_ne _ _ _ _ (Ne.symm ht2B), updBlk_ne _ _ _ _ (Ne.symm hNB), Function.update_same]
  have hSPBstored : (SP.heap B).stored_size = calculate_stored_size SS true false := by
    rw [hSPB]
  have hSPBbuf : (SP.heap B).buffer_size = SS := by
    unfold Blk.buffer_size
    rw [hSPBstored]
    exact stored_buffer_eq SS true false hsal hSSb
  have hSPBcan : (SP.heap B).stored_size = calculate_stored_size (SP.heap B).buffer_size true false := by
    rw [hSPBbuf, hSPBstored]
  have hSPN : SP.heap N = { st.heap N with previous_header := none, stored_size := calculate_stored_size nbuf true false, node := (⟨none, some t2⟩ : FreeNode) } := by
    rw [hSPheap, updBlk_ne _ _ _ _ (Ne.symm ht2N), updBlk_same, Function.update_noteq hNB, updBlk_ne _ _ _ _ hNSC, updBlk_same, hstEheap, updBlk_ne _ _ _ _ hNB]
  have hSPNstored : (SP.heap N).stored_size = calculate_stored_size nbuf true false := by
    rw [hSPN]
  have hSPNbuf : (SP.heap N).buffer_size = nbuf := by
    unfold Blk.buffer_size
    rw [hSPNstored]
    exact stored_buffer_eq nbuf true false hnbufal hnbufbU
  have hSPNcan : (SP.heap N).stored_size = calculate_stored_size (SP.heap N).buffer_size true false := by
    rw [hSPNbuf, hSPNstored]
  have hSPNfree : (SP.heap N).is_freed = true := canonical_freed _ true false hSPNcan
  have hSPNnode : (SP.heap N).node = (⟨none, some t2⟩ : FreeNode) := by rw [hSPN]
  have hSPSC : SP.heap SC = { st.heap SC with previous_header := some N } := by
    rw [hSPheap, updBlk_ne _ _ _ _ (Ne.symm ht2SC), updBlk_ne _ _ _ _ (Ne.symm hNSC), Function.update_noteq hSCB, updBlk_same, updBlk_ne _ _ _ _ (Ne.symm hNSC), hstEheap, updBlk_ne _ _ _ _ hSCB]
    rfl
  have hSPt2 : SP.heap t2 = { st.heap t2 with node := { (st.heap t2).node with prev := some N } } := by
    rw [hSPheap, updBlk_same, updBlk_ne _ _ _ _ ht2N, Function.update_noteq ht2B, updBlk_ne _ _ _ _ ht2SC, updBlk_ne _ _ _ _ ht2N, hstEheap, updBlk_ne _ _ _ _ ht2B]
  have hrun1 := root_alloc_eq_of_split st stE SP n B mi hfind hext (by rw [hEBbuf]; omega) hsp
  set st1 : St := { SP with
    heap := updBlk SP.heap B fun b => b.set_freed false
    used_memory_size := SP.used_memory_size + ((updBlk SP.heap B fun b => b.set_freed false) B).buffer_size_with_header } with hst1
  have hst1heap : st1.heap = updBlk SP.heap B fun b => b.set_freed false := by rw [hst1]
  have hst1B : st1.heap B = (SP.heap B).set_freed false := by rw [hst1heap, updBlk_same]
  have hst1Bbuf : (st1.heap B).buffer_size = SS := by
    rw [hst1B, set_freed_buffer_size, hSPBbuf]
  have hst1N : st1.heap N = SP.heap N := by rw [hst1heap, updBlk_ne _ _ _ _ hNB]
  have hst1SC : st1.heap SC = SP.heap SC := by rw [hst1heap, updBlk_ne _ _ _ _ hSCB]
  have hst1t2 : st1.heap t2 = SP.heap t2 := by rw [hst1heap, updBlk_ne _ _ _ _ ht2B]
  have hst1used : st1.used_memory_size = st.used_memory_size + (16 + SS) := by
    rw [hst1]
    show SP.used_memory_size + ((updBlk SP.heap B fun b => b.set_freed false) B).buffer_size_with_header = _
    rw [updBlk_same, hSPused]
    unfold Blk.buffer_size_with_header
    rw [set_freed_buffer_size, hSPBbuf, h16]
  have hnbN : next_block_addr B (st1.heap B) = N := by
    unfold next_block_addr
    rw [hst1Bbuf, h16]
    omega
  have hXfree : (st1.heap (next_block_addr B (st1.heap B))).is_freed = true := by
    rw [hnbN, hst1N]
    exact hSPNfree
  set ST0 : St := { st1 with
    heap := updBlk (updBlk st1.heap B fun b => b.set_freed true) B fun b => { b with node := FreeNode.new }
    used_memory_size := st1.used_memory_size - ((updBlk st1.heap B fun b => b.set_freed true) B).buffer_size_with_header } with hST0
  have hST0heap : ST0.heap = updBlk (updBlk st1.heap B fun b => b.set_freed true) B fun b => { b with node := FreeNode.new } := by rw [hST0]
  have hST0B : ST0.heap B = { (st1.heap B).set_freed true with node := FreeNode.new } := by
    rw [hST0heap, updBlk_same, updBlk_same]
  have hST0N : ST0.heap N = SP.heap N := by
    rw [hST0heap, updBlk_ne _ _ _ _ hNB, updBlk_ne _ _ _ _ hNB, hst1N]
  have hST0SC : ST0.heap SC = SP.heap SC := by
    rw [hST0heap, updBlk_ne _ _ _ _ hSCB, updBlk_ne _ _ _ _ hSCB, hst1SC]
  have hST0t2 : ST0.heap t2 = SP.heap t2 := by
    rw [hST0heap, updBlk_ne _ _ _ _ ht2B, updBlk_ne _ _ _ _ ht2B, hst1t2]
  have hST0map : ST0.freed_block_map = SP.freed_block_map := by rw [hST0]
  have hST0sl : ST0.sl_bitmap = SP.sl_bitmap := by rw [hST0]
  have hST0fl : ST0.fl_bitmap = SP.fl_bitmap := by rw [hST0]
  have hST0used : ST0.used_memory_size = st.used_memory_size := by
    rw [hST0]
    show st1.used_memory_size - ((updBlk st1.heap B fun b => b.set_freed true) B).buffer_size_with_header = _
    rw [updBlk_same, hst1used]
    unfold Blk.buffer_size_with_header
    rw [set_freed_buffer_size, hst1Bbuf, h16]
    omega
  have hST0Nb : (ST0.heap N).buffer_size = nbuf := by rw [hST0N]; exact hSPNbuf
  have hST0Nfree : (ST0.heap N).is_freed = true := by rw [hST0N]; exact hSPNfree
  have hST0Nprev : (ST0.heap N).node.prev = none := by rw [hST0N, hSPNnode]
  have hST0Nnext : (ST0.heap N).node.next = some t2 := by rw [hST0N, hSPNnode]
  have hST0t2free : (ST0.heap t2).is_freed = true := by
    rw [hST0t2, hSPt2]
    show (st.heap t2).is_freed = true
    exact ht2free0
  have hST0Nhead : ST0.freed_block_map (calculate_index (calculate_mapping_indices (ST0.heap N).buffer_size)) = some N := by
    rw [hST0Nb, ← hmiN, ← hidxN, hST0map, hSPmap, Function.update_same]
  have hextf0 := extract_freed_block_eq_cons ST0 N t2 hST0Nfree hST0Nprev hST0Nnext hST0t2free (by rw [hST0Nb, ← hmiN, ← hidxN]; exact hidxNlt) hST0Nhead
  rw [hST0Nb, ← hmiN, ← hidxN] at hextf0
  have hstEbitT : (stE.sl_bitmap miN.1).testBit miN.2 = true := by
    rw [hstEsl, shift_small mi.2 hsl32]
    exact hS1bitT
  set stx : St := { ST0 with
    heap := updBlk (updBlk ST0.heap t2 fun b => { b with node := { b.node with prev := none } }) N fun b => { b with node := ⟨none, none⟩ }
    freed_block_map := Function.update ST0.freed_block_map idxN (some t2) } with hstx
  have hstxheap : stx.heap = updBlk (updBlk ST0.heap t2 fun b => { b with node := { b.node with prev := none } }) N fun b => { b with node := ⟨none, none⟩ } := by rw [hstx]
  have hstxB : stx.heap B = { (st1.heap B).set_freed true with node := FreeNode.new } := by
    rw [hstxheap, updBlk_ne _ _ _ _ (Ne.symm hNB), updBlk_ne _ _ _ _ (Ne.symm ht2B), hST0B]
  have hstxBbuf : (stx.heap B).buffer_size = SS := by
    rw [hstxB]
    show ((st1.heap B).set_freed true).buffer_size = SS
    rw [set_freed_buffer_size, hst1Bbuf]
  have hstxBfree : (stx.heap B).is_freed = true := by
    rw [hstxB]
    show ((st1.heap B).set_freed true).is_freed = true
    rw [set_freed_is_freed]
  have hstxBpf : (stx.heap B).is_prev_freed = false := by
    rw [hstxB]
    show ((st1.heap B).set_freed true).is_prev_freed = false
    rw [set_freed_is_prev_freed, hst1B, set_freed_is_prev_freed]
    exact canonical_prev_freed _ true false hSPBcan
  have hstxSC : stx.heap SC = SP.heap SC := by
    rw [hstxheap, updBlk_ne _ _ _ _ (Ne.symm hNSC), updBlk_ne _ _ _ _ (Ne.symm ht2SC), hST0SC]
  have hstxN : stx.heap N = { SP.heap N with node := (⟨none, none⟩ : FreeNode) } := by
    rw [hstxheap, updBlk_same, updBlk_ne _ _ _ _ (Ne.symm ht2N), hST0N]
  have hstxt2 : stx.heap t2 = { SP.heap t2 with node := { (SP.heap t2).node with prev := none } } := by
    rw [hstxheap, updBlk_ne _ _ _ _ ht2N, updBlk_same, hST0t2]
  have hstxmap : stx.freed_block_map = Function.update SP.freed_block_map idxN (some t2) := by
    rw [hstx]
  have hstxsl : stx.sl_bitmap = SP.sl_bitmap := by rw [hstx]
  have hstxfl : stx.fl_bitmap = SP.fl_bitmap := by rw [hstx]
  have hstxused : stx.used_memory_size = st.used_memory_size := by
    rw [hstx]
    show ST0.used_memory_size = _
    exact hST0used
  set BB : Blk := { stx.heap B with stored_size := calculate_stored_size buf true false } with hBB
  have hBBstored : BB.stored_size = calculate_stored_size buf true false := by rw [hBB]
  have hBBbuf : BB.buffer_size = buf := by
    unfold Blk.buffer_size
    rw [hBBstored]
    exact stored_buffer_eq buf true false hbal hbufb
  have hBBcan : BB.stored_size = calculate_stored_size BB.buffer_size true false := by
    rw [hBBbuf, hBBstored]
  have hBBfree : BB.is_freed = true := canonical_freed _ true false hBBcan
  have hBBpf : BB.is_prev_freed = false := canonical_prev_freed _ true false hBBcan
  have hsbs : (stx.heap B).set_buffer_size ((stx.heap B).buffer_size + (st1.heap (next_block_addr B (st1.heap B))).buffer_size_with_header) = some BB := by
    rw [hnbN, hst1N]
    rw [show (SP.heap N).buffer_size_with_header = 16 + nbuf from by unfold Blk.buffer_size_with_header; rw [hSPNbuf, h16]]
    rw [hstxBbuf]
    rw [show SS + (16 + nbuf) = buf from by omega]
    unfold Blk.set_buffer_size
    rw [if_pos ((is_aligned_iff buf).mpr hbal), hstxBfree, hstxBpf, hBB]
  have hstymapval : stx.freed_block_map (calculate_index mi) = none := by
    rw [hstxmap, hSPmap, hstEmap, Function.update_idem, update_self_of_eq _ _ _ hv, Function.update_same]
  set sty : St := { stx with heap := Function.update stx.heap B BB } with hsty
  have hstyheap : sty.heap = Function.update stx.heap B BB := by rw [hsty]
  have hstyB : sty.heap B = BB := by rw [hstyheap, Function.update_same]
  have hstyBfree : (sty.heap B).is_freed = true := by rw [hstyB]; exact hBBfree
  have hstynone : sty.freed_block_map (calculate_index mi) = none := by
    show stx.freed_block_map (calculate_index mi) = none
    exact hstymapval
  have hins0 := insert_block_eq_empty sty B mi hstyBfree hfl hidx hstynone
  set stz : St := { sty with
    heap := updBlk sty.heap B fun b => { b with node := ⟨none, none⟩ }
    freed_block_map := Function.update sty.freed_block_map (calculate_index mi) (some B)
    fl_bitmap := sty.fl_bitmap ||| (1 <<< (mi.1 % 32))
    sl_bitmap := Function.update sty.sl_bitmap mi.1 (sty.sl_bitmap mi.1 ||| (1 <<< (mi.2 % 32))) } with hstz
  have hstzheap : stz.heap = updBlk sty.heap B fun b => { b with node := ⟨none, none⟩ } := by rw [hstz]
  have hstzB : stz.heap B = { BB with node := (⟨none, none⟩ : FreeNode) } := by
    rw [hstzheap, updBlk_same, hstyB]
  have hstzBbuf : (stz.heap B).buffer_size = BB.buffer_size := by
    rw [hstzB]
    rfl
  have hdeal0 := root_dealloc_eq_merge st1 stx stz BB B hXfree (by rw [hnbN]; exact hextf0) hsbs hBBpf (by rw [hBBbuf, hmibuf]; exact hins0) hstzBbuf
  rw [show B + (BlockHeader.get_aligned_size + BB.buffer_size) = SC from by rw [h16, hBBbuf]] at hdeal0
  set st2 : St := { stz with heap := updBlk stz.heap SC fun b => (b.set_previous_freed true).set_previous_header B } with hst2d
  have hst2heap : st2.heap = updBlk stz.heap SC fun b => (b.set_previous_freed true).set_previous_header B := by rw [hst2d]
  set STJ : St := { st with heap := Function.update st.heap N { st.heap N with previous_header := none, stored_size := calculate_stored_size nbuf true false, node := (⟨none, none⟩ : FreeNode) } } with hSTJ
  have hSTJheap : STJ.heap = Function.update st.heap N { st.heap N with previous_header := none, stored_size := calculate_stored_size nbuf true false, node := (⟨none, none⟩ : FreeNode) } := by rw [hSTJ]
  have hst2eq : st2 = STJ := by
    apply st_fields_eq
    · funext a
      by_cases haB : a = B
      · rw [haB, hst2heap, updBlk_ne _ _ _ _ (Ne.symm hSCB), hstzB, hSTJheap, Function.update_noteq (Ne.symm hNB)]
        apply blk_fields_eq
        · show BB.previous_header = (st.heap B).previous_header
          rw [hBB]
          show (stx.heap B).previous_header = _
          rw [hstxB]
          show (st1.heap B).previous_header = _
          rw [hst1B]
          show (SP.heap B).previous_header = _
          rw [hSPB]
          show (stE.heap B).previous_header = _
          rw [hstEB]
        · show BB.stored_size = (st.heap B).stored_size
          rw [hBBstored, hcan]
        · exact freenode_fields_eq _ _ (by rw [hprev]) (by rw [hnext])
        · show BB.area_end = (st.heap B).area_end
          rw [hBB]
          show (stx.heap B).area_end = _
          rw [hstxB]
          show (st1.heap B).area_end = _
          rw [hst1B]
          show (SP.heap B).area_end = _
          rw [hSPB]
          show (stE.heap B).area_end = _
          rw [hstEB]
        · show BB.area_next = (st.heap B).area_next
          rw [hBB]
          show (stx.heap B).area_next = _
          rw [hstxB]
          show (st1.heap B).area_next = _
          rw [hst1B]
          show (SP.heap B).area_next = _
          rw [hSPB]
          show (stE.heap B).area_next = _
          rw [hstEB]
      · by_cases haSC : a = SC
        · rw [haSC, hst2heap, updBlk_same, hstzheap, updBlk_ne _ _ _ _ hSCB, hstyheap, Function.update_noteq hSCB, hstxSC, hSPSC, hSTJheap, Function.update_noteq (Ne.symm hNSC)]
          apply blk_fields_eq
          · show (some B : Option Nat) = (st.heap SC).previous_header
            rw [hnbph]
          · show (({ st.heap SC with previous_header := some N } : Blk).set_previous_freed true).stored_size = (st.heap SC).stored_size
            rw [set_previous_freed_stored]
            show calculate_stored_size (st.heap SC).buffer_size (st.heap SC).is_freed true = (st.heap SC).stored_size
            rw [hnbfree, hnbcan]
          · rfl
          · rfl
          · rfl
        · by_cases haN : a = N
          · rw [haN, hst2heap, updBlk_ne _ _ _ _ hNSC, hstzheap, updBlk_ne _ _ _ _ hNB, hstyheap, Function.update_noteq hNB, hstxN, hSPN, hSTJheap, Function.update_same]
          · by_cases hat2 : a = t2
            · rw [hat2, hst2heap, updBlk_ne _ _ _ _ ht2SC, hstzheap, updBlk_ne _ _ _ _ ht2B, hstyheap, Function.update_noteq ht2B, hstxt2, hSPt2, hSTJheap, Function.update_noteq ht2N]
              apply blk_fields_eq
              · rfl
              · rfl
              · exact freenode_fields_eq _ _ (by rw [ht2prev0]) rfl
              · rfl
              · rfl
            · rw [hst2heap, updBlk_ne _ _ _ _ haSC, hstzheap, updBlk_ne _ _ _ _ haB, hstyheap, Function.update_noteq haB, hstxheap, updBlk_ne _ _ _ _ haN, updBlk_ne _ _ _ _ hat2, hST0heap, updBlk_ne _ _ _ _ haB, updBlk_ne _ _ _ _ haB, hst1heap, updBlk_ne _ _ _ _ haB, hSPheap, updBlk_ne _ _ _ _ hat2, updBlk_ne _ _ _ _ haN, Function.update_noteq haB, updBlk_ne _ _ _ _ haSC, updBlk_ne _ _ _ _ haN, hstEheap, updBlk_ne _ _ _ _ haB, hSTJheap, Function.update_noteq haN]
    · show stz.fl_bitmap = st.fl_bitmap
      rw [hstz]
      show sty.fl_bitmap ||| (1 <<< (mi.1 % 32)) = st.fl_bitmap
      show stx.fl_bitmap ||| (1 <<< (mi.1 % 32)) = st.fl_bitmap
      have hstEflbitN : stE.fl_bitmap.testBit miN.1 = true := by
        rw [hstEfl, shift_small mi.2 hsl32, shift_small mi.1 hm132]
        by_cases hba : miN.1 = mi.1
        · have hxne : st.sl_bitmap mi.1 ^^^ 2 ^ mi.2 ≠ 0 := by
            apply testBit_ne_zero _ miN.2
            have hbb := hstEbitT
            rw [hstEsl, shift_small mi.2 hsl32, hba, Function.update_same] at hbb
            exact hbb
          rw [if_neg hxne, hba]
          exact hflbit
        · have hslN : st.sl_bitmap miN.1 ≠ 0 := by
            apply testBit_ne_zero _ miN.2
            have hbb := hstEbitT
            rw [hstEsl, shift_small mi.2 hsl32, Function.update_noteq hba] at hbb
            exact hbb
          have hflN := hconsN1 hslN
          by_cases hc1 : st.sl_bitmap mi.1 ^^^ 2 ^ mi.2 = 0
          · rw [if_pos hc1, Nat.testBit_xor, hflN, Nat.testBit_two_pow_of_ne (Ne.symm hba)]
            rfl
          · rw [if_neg hc1]
            exact hflN
      rw [hstxfl, hSPfl, shift_small mi.1 hm132, shift_small miN.1 hmiN132, lor_pow_of_testBit _ _ hstEflbitN, hstEfl, shift_small mi.2 hsl32, shift_small mi.1 hm132]
      by_cases hc1 : st.sl_bitmap mi.1 ^^^ 2 ^ mi.2 = 0
      · rw [if_pos hc1]
        exact xor_lor_pow_of_testBit _ _ hflbit
      · rw [if_neg hc1]
        exact lor_pow_of_testBit _ _ hflbit
    · show stz.sl_bitmap = st.sl_bitmap
      rw [hstz]
      show Function.update sty.sl_bitmap mi.1 (sty.sl_bitmap mi.1 ||| (1 <<< (mi.2 % 32))) = st.sl_bitmap
      show Function.update stx.sl_bitmap mi.1 (stx.sl_bitmap mi.1 ||| (1 <<< (mi.2 % 32))) = st.sl_bitmap
      rw [hstxsl, hSPsl, shift_small miN.2 hmiN232, lor_pow_of_testBit _ _ hstEbitT, Function.update_eq_self, hstEsl, Function.update_same, Function.update_idem, shift_small mi.2 hsl32, xor_lor_pow_of_testBit _ _ hslbit]
      exact Function.update_eq_self _ _
    · show stz.freed_block_map = st.freed_block_map
      rw [hstz]
      show Function.update sty.freed_block_map (calculate_index mi) (some B) = st.freed_block_map
      show Function.update stx.freed_block_map (calculate_index mi) (some B) = st.freed_block_map
      rw [hstxmap, hSPmap, hstEmap, Function.update_idem, update_self_of_eq _ _ _ hv, Function.update_idem, ← hhead]
      exact Function.update_eq_self _ _
    · rfl
    · rfl
    · show stz.used_memory_size = st.used_memory_size
      rw [hstz]
      show stx.used_memory_size = _
      exact hstxused
  have hSTJB : STJ.heap B = st.heap B := by
    rw [hSTJheap, Function.update_noteq (Ne.symm hNB)]
  have hSTJt2 : STJ.heap t2 = st.heap t2 := by
    rw [hSTJheap, Function.update_noteq ht2N]
  have hfind2 : find_suitable_indices STJ SS = some (some mi) := hfind
  have hhead2 : STJ.freed_block_map (calculate_index mi) = some B := hhead
  have hext2 := extract_root_block_eq_last STJ mi B hidx hfl hhead2 (by rw [hSTJB]; exact hfree) (by rw [hSTJB]; exact hnext)
  set stE2 : St := { STJ with
    heap := updBlk STJ.heap B fun b => { b with node := ⟨none, none⟩ }
    freed_block_map := Function.update STJ.freed_block_map (calculate_index mi) none
    sl_bitmap := Function.update STJ.sl_bitmap mi.1 (STJ.sl_bitmap mi.1 ^^^ (1 <<< (mi.2 % 32)))
    fl_bitmap := if STJ.sl_bitmap mi.1 ^^^ (1 <<< (mi.2 % 32)) = 0 then STJ.fl_bitmap ^^^ (1 <<< (mi.1 % 32)) else STJ.fl_bitmap } with hstE2
  have hstE2heap : stE2.heap = updBlk STJ.heap B fun b => { b with node := ⟨none, none⟩ } := by rw [hstE2]
  have hstE2B : stE2.heap B = { st.heap B with node := (⟨none, none⟩ : FreeNode) } := by
    rw [hstE2heap, updBlk_same, hSTJB]
  have hE2buf : (stE2.heap B).buffer_size = buf := by
    rw [hstE2B, hbuf]
    rfl
  have hOH2 : stE2.freed_block_map (calculate_index (calculate_mapping_indices ((stE2.heap B).buffer_size - SS - 16))) = some t2 := by
    rw [hE2buf, ← hnbuf, ← hmiN, ← hidxN]
    show Function.update STJ.freed_block_map (calculate_index mi) none idxN = some t2
    exact hv
  have hsp2 := alloc_split_step_eq_head stE2 B SS t2 hsal (by rw [hE2buf]; omega) (by rw [hE2buf]; exact hBbound) (by rw [hE2buf, BLOCK_SIZE_eq]; omega) hOH2 (by rw [hstE2heap, updBlk_ne _ _ _ _ ht2B, hSTJt2]; exact ht2free0) ht2B ht2N (by rw [hE2buf]; exact ht2SC)
  have hrun2 := root_alloc_eq_of_split STJ stE2 _ n B mi hfind2 hext2 (by rw [hE2buf]; omega) hsp2
  obtain ⟨st3v, hrun2v⟩ : ∃ s3, root_alloc STJ n =
      some (s3, some (B + BlockHeader.get_aligned_size)) := ⟨_, hrun2⟩
  exact ⟨st1, st2, st3v, hrun1, hdeal0, by rw [hst2eq]; exact hrun2v⟩

set_option maxHeartbeats 4000000 in
/-- LIFO round trip with a split: class head has list successor `t`,
remainder class empty. -/
theorem lifo_case_split_cons_empty (st : St) (n B t : Nat) (mi : Nat × Nat)
    (hfind : find_suitable_indices st (calculate_allocation_searching_size n) =
      some (some mi))
    (hidx : calculate_index mi < TOTAL_COUNT)
    (hfl : mi.1 < FIRST_INDEX_REAL)
    (hsl : mi.2 < SECOND_INDEX_MAX)
    (hhead : st.freed_block_map (calculate_index mi) = some B)
    (hnext : (st.heap B).node.next = some t)
    (hprev : (st.heap B).node.prev = none)
    (hcan : (st.heap B).stored_size =
      calculate_stored_size (st.heap B).buffer_size true false)
    (hble : calculate_allocation_searching_size n ≤ (st.heap B).buffer_size)
    (hge : BLOCK_SIZE ≤ (st.heap B).buffer_size -
      calculate_allocation_searching_size n)
    (hsal : calculate_allocation_searching_size n % 16 = 0)
    (hBbound : (st.heap B).buffer_size < 2 ^ 36)
    (hmibuf : calculate_mapping_indices (st.heap B).buffer_size = mi)
    (hslbit : (st.sl_bitmap mi.1).testBit mi.2 = true)
    (hflbit : st.fl_bitmap.testBit mi.1 = true)
    (hnbfree : (st.heap (next_block_addr B (st.heap B))).is_freed = false)
    (hnbcan : (st.heap (next_block_addr B (st.heap B))).stored_size =
      calculate_stored_size
        (st.heap (next_block_addr B (st.heap B))).buffer_size false true)
    (hnbph : (st.heap (next_block_addr B (st.heap B))).previous_header = some B)
    (htfree0 : (st.heap t).is_freed = true)
    (htprev0 : (st.heap t).node.prev = some B)
    (htB : t ≠ B)
    (htN : t ≠ B + BlockHeader.get_aligned_size +
      calculate_allocation_searching_size n)
    (hv : Function.update st.freed_block_map (calculate_index mi) (some t)
      (calculate_index (calculate_mapping_indices ((st.heap B).buffer_size -
        calculate_allocation_searching_size n - BlockHeader.get_aligned_size))) =
      none)
    (hbitN0 : (st.sl_bitmap (calculate_mapping_indices ((st.heap B).buffer_size -
        calculate_allocation_searching_size n -
        BlockHeader.get_aligned_size)).1).testBit
      (calculate_mapping_indices ((st.heap B).buffer_size -
        calculate_allocation_searching_size n -
        BlockHeader.get_aligned_size)).2 = false)
    (hconsN0 : st.sl_bitmap (calculate_mapping_indices ((st.heap B).buffer_size -
        calculate_allocation_searching_size n -
        BlockHeader.get_aligned_size)).1 = 0 →
      st.fl_bitmap.testBit (calculate_mapping_indices ((st.heap B).buffer_size -
        calculate_allocation_searching_size n -
        BlockHeader.get_aligned_size)).1 = false)
    (hconsN1 : st.sl_bitmap (calculate_mapping_indices ((st.heap B).buffer_size -
        calculate_allocation_searching_size n -
        BlockHeader.get_aligned_size)).1 ≠ 0 →
      st.fl_bitmap.testBit (calculate_mapping_indices ((st.heap B).buffer_size -
        calculate_allocation_searching_size n -
        BlockHeader.get_aligned_size)).1 = true) :
    ∃ st1 st2 st3,
      root_alloc st n = some (st1, some (B + BlockHeader.get_aligned_size)) ∧
      root_dealloc st1 (B + BlockHeader.get_aligned_size) = some st2 ∧
      root_alloc st2 n = some (st3, some (B + BlockHeader.get_aligned_size)) := by
  have h16 : BlockHeader.get_aligned_size = 16 := header_aligned_eq
  have hb32 : BLOCK_SIZE = 32 := BLOCK_SIZE_eq
  have hm132 : mi.1 < 32 := by rw [FIRST_INDEX_REAL_eq] at hfl; omega
  have hsl32 : mi.2 < 32 := by rw [SECOND_INDEX_MAX_eq] at hsl; omega
  have hfree : (st.heap B).is_freed = true := canonical_freed _ _ _ hcan
  have hpf : (st.heap B).is_prev_freed = false := canonical_prev_freed _ _ _ hcan
  have hbal : (st.heap B).buffer_size % 16 = 0 := buffer_size_mod16 _
  rw [h16] at hv hbitN0 hconsN0 hconsN1 htN
  rw [hb32] at hge
  set SS := calculate_allocation_searching_size n with hSS
  set buf := (st.heap B).buffer_size with hbuf
  set nbuf := buf - SS - 16 with hnbuf
  set miN := calculate_mapping_indices nbuf with hmiN
  set idxN := calculate_index miN with hidxN
  have hnbufal : nbuf % 16 = 0 := by omega
  have hnbufb : nbuf < 2 ^ 36 := by omega
  have hmiN1 : miN.1 < 30 := by
    rw [hmiN]
    exact mapping_fst_lt _ hnbufb
  have hmiN132 : miN.1 < 32 := by omega
  have hmiN232 : miN.2 < 32 := by
    rw [hmiN]
    exact mapping_snd_lt _
  have hidxNlt : idxN < TOTAL_COUNT := by
    rw [hidxN, hmiN]
    exact calculate_index_lt _ (by rw [hmiN] at hmiN1; exact hmiN1)
  set N : Nat := B + 16 + SS with hN
  set SC : Nat := B + (16 + buf) with hSC
  have hnbSC : next_block_addr B (st.heap B) = SC := by
    unfold next_block_addr
    rw [h16, hSC, hbuf]
  have hNB : N ≠ B := by omega
  have hNSC : N ≠ SC := by omega
  have hSCB : SC ≠ B := by omega
  rw [hnbSC] at hnbfree hnbcan hnbph
  have htSC : t ≠ SC := by
    intro h
    rw [h] at htfree0
    rw [htfree0] at hnbfree
    simp at hnbfree
  have hext := extract_root_block_eq_cons st mi B t hidx hhead hfree hnext htB htfree0
  set stE : St := { st with
    heap := updBlk (updBlk st.heap B fun b => { b with node := ⟨none, none⟩ }) t
      fun b => { b with node := { b.node with prev := none } }
    freed_block_map :=
      Function.update st.freed_block_map (calculate_index mi) (some t) } with hstE
  have hstEheap : stE.heap =
      updBlk (updBlk st.heap B fun b => { b with node := ⟨none, none⟩ }) t
        fun b => { b with node := { b.node with prev := none } } := by rw [hstE]
  have hstEmap : stE.freed_block_map =
      Function.update st.freed_block_map (calculate_index mi) (some t) := by rw [hstE]
  have hstEsl : stE.sl_bitmap = st.sl_bitmap := by rw [hstE]
  have hstEfl : stE.fl_bitmap = st.fl_bitmap := by rw [hstE]
  have hstEused : stE.used_memory_size = st.used_memory_size := by rw [hstE]
  have hstEB : stE.heap B = { st.heap B with node := ⟨none, none⟩ } := by
    rw [hstEheap, updBlk_ne _ _ _ _ (Ne.symm htB), updBlk_same]
  have hstEt : stE.heap t = { st.heap t with node := { (st.heap t).node with prev := none } } := by
    rw [hstEheap, updBlk_same, updBlk_ne _ _ _ _ htB]
  have hEBbuf : (stE.heap B).buffer_size = buf := by
    rw [hstEB, hbuf]
    rfl
  have hEBfree : (stE.heap B).is_freed = true := by
    rw [hstEB]
    show (st.heap B).is_freed = true
    exact hfree
  have hEBpf : (stE.heap B).is_prev_freed = false := by
    rw [hstEB]
    show (st.heap B).is_prev_freed = false
    exact hpf
  have hOH1 : stE.freed_block_map (calculate_index (calculate_mapping_indices
      ((stE.heap B).buffer_size - SS - 16))) = none := by
    rw [hstEmap, hEBbuf]
    exact hv
  have hsp := alloc_split_step_eq_empty stE B SS hsal (by rw [hEBbuf]; omega)
    (by rw [hEBbuf]; exact hBbound) (by rw [hEBbuf]; rw [BLOCK_SIZE_eq]; omega) hOH1
  rw [hEBbuf] at hsp
  rw [← hnbuf, ← hN, ← hSC, ← hmiN, ← hidxN, hEBfree, hEBpf] at hsp
  set SP : St := { stE with
    heap := updBlk (Function.update (updBlk (updBlk stE.heap N fun b => { b with previous_header := none, stored_size := calculate_stored_size nbuf true false }) SC fun b => b.set_previous_header N) B { stE.heap B with stored_size := calculate_stored_size SS true false }) N fun b => { b with node := ⟨none, none⟩ }
    freed_block_map := Function.update stE.freed_block_map idxN (some N)
    fl_bitmap := stE.fl_bitmap ||| (1 <<< (miN.1 % 32))
    sl_bitmap := Function.update stE.sl_bitmap miN.1 (stE.sl_bitmap miN.1 ||| (1 <<< (miN.2 % 32))) } with hSP
  have hU : U64 = 2 ^ 64 := rfl
  have hSSb : SS + 15 < U64 := by rw [hU]; omega
  have hbufb : buf + 15 < U64 := by rw [hU]; omega
  have hnbufbU : nbuf + 15 < U64 := by rw [hU]; omega
  have hSPheap : SP.heap = updBlk (Function.update (updBlk (updBlk stE.heap N fun b => { b with previous_header := none, stored_size := calculate_stored_size nbuf true false }) SC fun b => b.set_previous_header N) B { stE.heap B with stored_size := calculate_stored_size SS true false }) N fun b => { b with node := ⟨none, none⟩ } := by rw [hSP]
  have hSPmap : SP.freed_block_map = Function.update stE.freed_block_map idxN (some N) := by rw [hSP]
  have hSPfl : SP.fl_bitmap = stE.fl_bitmap ||| (1 <<< (miN.1 % 32)) := by rw [hSP]
  have hSPsl : SP.sl_bitmap = Function.update stE.sl_bitmap miN.1 (stE.sl_bitmap miN.1 ||| (1 <<< (miN.2 % 32))) := by rw [hSP]
  have hSPused : SP.used_memory_size = st.used_memory_size := by rw [hSP]
  have hSPB : SP.heap B = { stE.heap B with stored_size := calculate_stored_size SS true false } := by
    rw [hSPheap, updBlk_ne _ _ _ _ (Ne.symm hNB), Function.update_same]
  have hSPBstored : (SP.heap B).stored_size = calculate_stored_size SS true false := by
    rw [hSPB]
  have hSPBbuf : (SP.heap B).buffer_size = SS := by
    unfold Blk.buffer_size
    rw [hSPBstored]
    exact stored_buffer_eq SS true false hsal hSSb
  have hSPBcan : (SP.heap B).stored_size = calculate_stored_size (SP.heap B).buffer_size true false := by
    rw [hSPBbuf, hSPBstored]
  have hSPN : SP.heap N = { st.heap N with previous_header := none, stored_size := calculate_stored_size nbuf true false, node := (⟨none, none⟩ : FreeNode) } := by
    rw [hSPheap, updBlk_same, Function.update_noteq hNB, updBlk_ne _ _ _ _ hNSC, updBlk_same, hstEheap, updBlk_ne _ _ _ _ (Ne.symm htN), updBlk_ne _ _ _ _ hNB]
  have hSPNstored : (SP.heap N).stored_size = calculate_stored_size nbuf true false := by
    rw [hSPN]
  have hSPNbuf : (SP.heap N).buffer_size = nbuf := by
    unfold Blk.buffer_size
    rw [hSPNstored]
    exact stored_buffer_eq nbuf true false hnbufal hnbufbU
  have hSPNcan : (SP.heap N).stored_size = calculate_stored_size (SP.heap N).buffer_size true false := by
    rw [hSPNbuf, hSPNstored]
  have hSPNfree : (SP.heap N).is_freed = true := canonical_freed _ true false hSPNcan
  have hSPNnode : (SP.heap N).node = (⟨none, none⟩ : FreeNode) := by rw [hSPN]
  have hSPSC : SP.heap SC = { st.heap SC with previous_header := some N } := by
    rw [hSPheap, updBlk_ne _ _ _ _ (Ne.symm hNSC), Function.update_noteq hSCB, updBlk_same, updBlk_ne _ _ _ _ (Ne.symm hNSC), hstEheap, updBlk_ne _ _ _ _ (Ne.symm htSC), updBlk_ne _ _ _ _ hSCB]
    rfl
  have hSPt : SP.heap t = { st.heap t with node := { (st.heap t).node with prev := none } } := by
    rw [hSPheap, updBlk_ne _ _ _ _ htN, Function.update_noteq htB, updBlk_ne _ _ _ _ htSC, updBlk_ne _ _ _ _ htN, hstEt]
  have hrun1 := root_alloc_eq_of_split st stE SP n B mi hfind hext (by rw [hEBbuf]; omega) hsp
  set st1 : St := { SP with
    heap := updBlk SP.heap B fun b => b.set_freed false
    used_memory_size := SP.used_memory_size + ((updBlk SP.heap B fun b => b.set_freed false) B).buffer_size_with_header } with hst1
  have hst1heap : st1.heap = updBlk SP.heap B fun b => b.set_freed false := by rw [hst1]
  have hst1B : st1.heap B = (SP.heap B).set_freed false := by rw [hst1heap, updBlk_same]
  have hst1Bbuf : (st1.heap B).buffer_size = SS := by
    rw [hst1B, set_freed_buffer_size, hSPBbuf]
  have hst1N : st1.heap N = SP.heap N := by rw [hst1heap, updBlk_ne _ _ _ _ hNB]
  have hst1SC : st1.heap SC = SP.heap SC := by rw [hst1heap, updBlk_ne _ _ _ _ hSCB]
  have hst1t : st1.heap t = SP.heap t := by rw [hst1heap, updBlk_ne _ _ _ _ htB]
  have hst1used : st1.used_memory_size = st.used_memory_size + (16 + SS) := by
    rw [hst1]
    show SP.used_memory_size + ((updBlk SP.heap B fun b => b.set_freed false) B).buffer_size_with_header = _
    rw [updBlk_same, hSPused]
    unfold Blk.buffer_size_with_header
    rw [set_freed_buffer_size, hSPBbuf, h16]
  have hnbN : next_block_addr B (st1.heap B) = N := by
    unfold next_block_addr
    rw [hst1Bbuf, h16]
    omega
  have hXfree : (st1.heap (next_block_addr B (st1.heap B))).is_freed = true := by
    rw [hnbN, hst1N]
    exact hSPNfree
  set ST0 : St := { st1 with
    heap := updBlk (updBlk st1.heap B fun b => b.set_freed true) B fun b => { b with node := FreeNode.new }
    used_memory_size := st1.used_memory_size - ((updBlk st1.heap B fun b => b.set_freed true) B).buffer_size_with_header } with hST0
  have hST0heap : ST0.heap = updBlk (updBlk st1.heap B fun b => b.set_freed true) B fun b => { b with node := FreeNode.new } := by rw [hST0]
  have hST0B : ST0.heap B = { (st1.heap B).set_freed true with node := FreeNode.new } := by
    rw [hST0heap, updBlk_same, updBlk_same]
  have hST0N : ST0.heap N = SP.heap N := by
    rw [hST0heap, updBlk_ne _ _ _ _ hNB, updBlk_ne _ _ _ _ hNB, hst1N]
  have hST0SC : ST0.heap SC = SP.heap SC := by
    rw [hST0heap, updBlk_ne _ _ _ _ hSCB, updBlk_ne _ _ _ _ hSCB, hst1SC]
  have hST0t : ST0.heap t = SP.heap t := by
    rw [hST0heap, updBlk_ne _ _ _ _ htB, updBlk_ne _ _ _ _ htB, hst1t]
  have hST0map : ST0.freed_block_map = SP.freed_block_map := by rw [hST0]
  have hST0sl : ST0.sl_bitmap = SP.sl_bitmap := by rw [hST0]
  have hST0fl : ST0.fl_bitmap = SP.fl_bitmap := by rw [hST0]
  have hST0used : ST0.used_memory_size = st.used_memory_size := by
    rw [hST0]
    show st1.used_memory_size - ((updBlk st1.heap B fun b => b.set_freed true) B).buffer_size_with_header = _
    rw [updBlk_same, hst1used]
    unfold Blk.buffer_size_with_header
    rw [set_freed_buffer_size, hst1Bbuf, h16]
    omega
  have hST0Nb : (ST0.heap N).buffer_size = nbuf := by rw [hST0N]; exact hSPNbuf
  have hST0Nfree : (ST0.heap N).is_freed = true := by rw [hST0N]; exact hSPNfree
  have hST0Nprev : (ST0.heap N).node.prev = none := by rw [hST0N, hSPNnode]
  have hST0Nnext : (ST0.heap N).node.next = none := by rw [hST0N, hSPNnode]
  have hST0Nhead : ST0.freed_block_map (calculate_index (calculate_mapping_indices (ST0.heap N).buffer_size)) = some N := by
    rw [hST0Nb, ← hmiN, ← hidxN, hST0map, hSPmap, Function.update_same]
  have hextf0 := extract_freed_block_eq_last ST0 N hST0Nfree hST0Nprev hST0Nnext (by rw [hST0Nb, ← hmiN, ← hidxN]; exact hidxNlt) (by rw [hST0Nb, ← hmiN, FIRST_INDEX_REAL_eq]; omega) hST0Nhead
  rw [hST0Nb, ← hmiN, ← hidxN] at hextf0
  have hstEbitN0 : (stE.sl_bitmap miN.1).testBit miN.2 = false := by
    rw [hstEsl]
    exact hbitN0
  have hcondN : (stE.sl_bitmap miN.1 ||| (1 <<< (miN.2 % 32))) ^^^ (1 <<< (miN.2 % 32)) = stE.sl_bitmap miN.1 := by
    rw [shift_small miN.2 hmiN232]
    exact lor_xor_pow_of_not_testBit _ _ hstEbitN0
  set stx : St := { ST0 with
    heap := updBlk ST0.heap N fun b => { b with node := ⟨none, none⟩ }
    freed_block_map := Function.update ST0.freed_block_map idxN none
    sl_bitmap := Function.update ST0.sl_bitmap miN.1 (ST0.sl_bitmap miN.1 ^^^ (1 <<< (miN.2 % 32)))
    fl_bitmap := if ST0.sl_bitmap miN.1 ^^^ (1 <<< (miN.2 % 32)) = 0 then ST0.fl_bitmap ^^^ (1 <<< (miN.1 % 32)) else ST0.fl_bitmap } with hstx
  have hstxheap : stx.heap = updBlk ST0.heap N fun b => { b with node := ⟨none, none⟩ } := by rw [hstx]
  have hstxB : stx.heap B = { (st1.heap B).set_freed true with node := FreeNode.new } := by
    rw [hstxheap, updBlk_ne _ _ _ _ (Ne.symm hNB), hST0B]
  have hstxBbuf : (stx.heap B).buffer_size = SS := by
    rw [hstxB]
    show ((st1.heap B).set_freed true).buffer_size = SS
    rw [set_freed_buffer_size, hst1Bbuf]
  have hstxBfree : (stx.heap B).is_freed = true := by
    rw [hstxB]
    show ((st1.heap B).set_freed true).is_freed = true
    rw [set_freed_is_freed]
  have hstxBpf : (stx.heap B).is_prev_freed = false := by
    rw [hstxB]
    show ((st1.heap B).set_freed true).is_prev_freed = false
    rw [set_freed_is_prev_freed, hst1B, set_freed_is_prev_freed]
    exact canonical_prev_freed _ true false hSPBcan
  have hstxSC : stx.heap SC = SP.heap SC := by
    rw [hstxheap, updBlk_ne _ _ _ _ (Ne.symm hNSC), hST0SC]
  have hstxN : stx.heap N = { SP.heap N with node := (⟨none, none⟩ : FreeNode) } := by
    rw [hstxheap, updBlk_same, hST0N]
  have hstxt : stx.heap t = SP.heap t := by
    rw [hstxheap, updBlk_ne _ _ _ _ htN, hST0t]
  have hstxmap : stx.freed_block_map = Function.update SP.freed_block_map idxN none := by
    rw [hstx]
  have hstxsl : stx.sl_bitmap = stE.sl_bitmap := by
    rw [hstx]
    show Function.update ST0.sl_bitmap miN.1 (ST0.sl_bitmap miN.1 ^^^ (1 <<< (miN.2 % 32))) = _
    rw [hST0sl, hSPsl, Function.update_same, Function.update_idem, hcondN]
    exact Function.update_eq_self _ _
  have hstxfl : stx.fl_bitmap = (if stE.sl_bitmap miN.1 = 0 then SP.fl_bitmap ^^^ (1 <<< (miN.1 % 32)) else SP.fl_bitmap) := by
    rw [hstx]
    show (if ST0.sl_bitmap miN.1 ^^^ (1 <<< (miN.2 % 32)) = 0 then ST0.fl_bitmap ^^^ (1 <<< (miN.1 % 32)) else ST0.fl_bitmap) = _
    rw [hST0sl, hST0fl, hSPsl, Function.update_same, hcondN]
  have hstxused : stx.used_memory_size = st.used_memory_size := by
    rw [hstx]
    show ST0.used_memory_size = _
    exact hST0used
  set BB : Blk := { stx.heap B with stored_size := calculate_stored_size buf true false } with hBB
  have hBBstored : BB.stored_size = calculate_stored_size buf true false := by rw [hBB]
  have hBBbuf : BB.buffer_size = buf := by
    unfold Blk.buffer_size
    rw [hBBstored]
    exact stored_buffer_eq buf true false hbal hbufb
  have hBBcan : BB.stored_size = calculate_stored_size BB.buffer_size true false := by
    rw [hBBbuf, hBBstored]
  have hBBfree : BB.is_freed = true := canonical_freed _ true false hBBcan
  have hBBpf : BB.is_prev_freed = false := canonical_prev_freed _ true false hBBcan
  have hsbs : (stx.heap B).set_buffer_size ((stx.heap B).buffer_size + (st1.heap (next_block_addr B (st1.heap B))).buffer_size_with_header) = some BB := by
    rw [hnbN, hst1N]
    rw [show (SP.heap N).buffer_size_with_header = 16 + nbuf from by unfold Blk.buffer_size_with_header; rw [hSPNbuf, h16]]
    rw [hstxBbuf]
    rw [show SS + (16 + nbuf) = buf from by omega]
    unfold Blk.set_buffer_size
    rw [if_pos ((is_aligned_iff buf).mpr hbal), hstxBfree, hstxBpf, hBB]
  have hstymapval : stx.freed_block_map (calculate_index mi) = some t := by
    rw [hstxmap, hSPmap, hstEmap, Function.update_idem, update_self_of_eq _ _ _ hv, Function.update_same]
  set sty : St := { stx with heap := Function.update stx.heap B BB } with hsty
  have hstyheap : sty.heap = Function.update stx.heap B BB := by rw [hsty]
  have hstyB : sty.heap B = BB := by rw [hstyheap, Function.update_same]
  have hstyBfree : (sty.heap B).is_freed = true := by rw [hstyB]; exact hBBfree
  have hstyt : sty.heap t = SP.heap t := by
    rw [hstyheap, Function.update_noteq htB, hstxt]
  have hstytfree : (sty.heap t).is_freed = true := by
    rw [hstyt, hSPt]
    show (st.heap t).is_freed = true
    exact htfree0
  have hstysome : sty.freed_block_map (calculate_index mi) = some t := by
    show stx.freed_block_map (calculate_index mi) = some t
    exact hstymapval
  have hins0 := insert_block_eq_head sty B t mi hstyBfree hfl hidx hstysome hstytfree
  set stz : St := { sty with
    heap := updBlk (updBlk sty.heap B fun b => { b with node := ⟨none, some t⟩ }) t
      fun b => { b with node := { b.node with prev := some B } }
    freed_block_map := Function.update sty.freed_block_map (calculate_index mi) (some B)
    fl_bitmap := sty.fl_bitmap ||| (1 <<< (mi.1 % 32))
    sl_bitmap := Function.update sty.sl_bitmap mi.1 (sty.sl_bitmap mi.1 ||| (1 <<< (mi.2 % 32))) } with hstz
  have hstzheap : stz.heap = updBlk (updBlk sty.heap B fun b => { b with node := ⟨none, some t⟩ }) t fun b => { b with node := { b.node with prev := some B } } := by rw [hstz]
  have hstzB : stz.heap B = { BB with node := (⟨none, some t⟩ : FreeNode) } := by
    rw [hstzheap, updBlk_ne _ _ _ _ (Ne.symm htB), updBlk_same, hstyB]
  have hstzBbuf : (stz.heap B).buffer_size = BB.buffer_size := by
    rw [hstzB]
    rfl
  have hdeal0 := root_dealloc_eq_merge st1 stx stz BB B hXfree (by rw [hnbN]; exact hextf0) hsbs hBBpf (by rw [hBBbuf, hmibuf]; exact hins0) hstzBbuf
  rw [show B + (BlockHeader.get_aligned_size + BB.buffer_size) = SC from by rw [h16, hBBbuf]] at hdeal0
  set st2 : St := { stz with heap := updBlk stz.heap SC fun b => (b.set_previous_freed true).set_previous_header B } with hst2d
  have hst2heap : st2.heap = updBlk stz.heap SC fun b => (b.set_previous_freed true).set_previous_header B := by rw [hst2d]
  set STJ : St := { st with heap := Function.update st.heap N { st.heap N with previous_header := none, stored_size := calculate_stored_size nbuf true false, node := (⟨none, none⟩ : FreeNode) } } with hSTJ
  have hSTJheap : STJ.heap = Function.update st.heap N { st.heap N with previous_header := none, stored_size := calculate_stored_size nbuf true false, node := (⟨none, none⟩ : FreeNode) } := by rw [hSTJ]
  have hst2eq : st2 = STJ := by
    apply st_fields_eq
    · funext a
      by_cases haB : a = B
      · rw [haB, hst2heap, updBlk_ne _ _ _ _ (Ne.symm hSCB), hstzB, hSTJheap, Function.update_noteq (Ne.symm hNB)]
        apply blk_fields_eq
        · show BB.previous_header = (st.heap B).previous_header
          rw [hBB]
          show (stx.heap B).previous_header = _
          rw [hstxB]
          show (st1.heap B).previous_header = _
          rw [hst1B]
          show (SP.heap B).previous_header = _
          rw [hSPB]
          show (stE.heap B).previous_header = _
          rw [hstEB]
        · show BB.stored_size = (st.heap B).stored_size
          rw [hBBstored, hcan]
        · exact freenode_fields_eq _ _ (by rw [hprev]) (by rw [hnext])
        · show BB.area_end = (st.heap B).area_end
          rw [hBB]
          show (stx.heap B).area_end = _
          rw [hstxB]
          show (st1.heap B).area_end = _
          rw [hst1B]
          show (SP.heap B).area_end = _
          rw [hSPB]
          show (stE.heap B).area_end = _
          rw [hstEB]
        · show BB.area_next = (st.heap B).area_next
          rw [hBB]
          show (stx.heap B).area_next = _
          rw [hstxB]
          show (st1.heap B).area_next = _
          rw [hst1B]
          show (SP.heap B).area_next = _
          rw [hSPB]
          show (stE.heap B).area_next = _
          rw [hstEB]
      · by_cases haSC : a = SC
        · rw [haSC, hst2heap, updBlk_same, hstzheap, updBlk_ne _ _ _ _ (Ne.symm htSC), updBlk_ne _ _ _ _ hSCB, hstyheap, Function.update_noteq hSCB, hstxSC, hSPSC, hSTJheap, Function.update_noteq (Ne.symm hNSC)]
          apply blk_fields_eq
          · show (some B : Option Nat) = (st.heap SC).previous_header
            rw [hnbph]
          · show (({ st.heap SC with previous_header := some N } : Blk).set_previous_freed true).stored_size = (st.heap SC).stored_size
            rw [set_previous_freed_stored]
            show calculate_stored_size (st.heap SC).buffer_size (st.heap SC).is_freed true = (st.heap SC).stored_size
            rw [hnbfree, hnbcan]
          · rfl
          · rfl
          · rfl
        · by_cases haN : a = N
          · rw [haN, hst2heap, updBlk_ne _ _ _ _ hNSC, hstzheap, updBlk_ne _ _ _ _ (Ne.symm htN), updBlk_ne _ _ _ _ hNB, hstyheap, Function.update_noteq hNB, hstxN, hSPN, hSTJheap, Function.update_same]
          · by_cases hat : a = t
            · rw [hat, hst2heap, updBlk_ne _ _ _ _ htSC, hstzheap, updBlk_same, updBlk_ne _ _ _ _ htB, hstyt, hSPt, hSTJheap, Function.update_noteq htN]
              apply blk_fields_eq
              · rfl
              · rfl
              · exact freenode_fields_eq _ _ (by rw [htprev0]) rfl
              · rfl
              · rfl
            · rw [hst2heap, updBlk_ne _ _ _ _ haSC, hstzheap, updBlk_ne _ _ _ _ hat, updBlk_ne _ _ _ _ haB, hstyheap, Function.update_noteq haB, hstxheap, updBlk_ne _ _ _ _ haN, hST0heap, updBlk_ne _ _ _ _ haB, updBlk_ne _ _ _ _ haB, hst1heap, updBlk_ne _ _ _ _ haB, hSPheap, updBlk_ne _ _ _ _ haN, Function.update_noteq haB, updBlk_ne _ _ _ _ haSC, updBlk_ne _ _ _ _ haN, hstEheap, updBlk_ne _ _ _ _ hat, updBlk_ne _ _ _ _ haB, hSTJheap, Function.update_noteq haN]
    · show stz.fl_bitmap = st.fl_bitmap
      rw [hstz]
      show sty.fl_bitmap ||| (1 <<< (mi.1 % 32)) = st.fl_bitmap
      show stx.fl_bitmap ||| (1 <<< (mi.1 % 32)) = st.fl_bitmap
      rw [hstxfl, hSPfl, hstEfl, hstEsl, shift_small mi.1 hm132, shift_small miN.1 hmiN132]
      by_cases hcz : st.sl_bitmap miN.1 = 0
      · rw [if_pos hcz, lor_xor_pow_of_not_testBit _ _ (hconsN0 hcz)]
        exact lor_pow_of_testBit _ _ hflbit
      · rw [if_neg hcz, lor_pow_of_testBit _ _ (hconsN1 hcz)]
        exact lor_pow_of_testBit _ _ hflbit
    · show stz.sl_bitmap = st.sl_bitmap
      rw [hstz]
      show Function.update sty.sl_bitmap mi.1 (sty.sl_bitmap mi.1 ||| (1 <<< (mi.2 % 32))) = st.sl_bitmap
      show Function.update stx.sl_bitmap mi.1 (stx.sl_bitmap mi.1 ||| (1 <<< (mi.2 % 32))) = st.sl_bitmap
      rw [hstxsl, hstEsl, shift_small mi.2 hsl32, lor_pow_of_testBit _ _ hslbit]
      exact Function.update_eq_self _ _
    · show stz.freed_block_map = st.freed_block_map
      rw [hstz]
      show Function.update sty.freed_block_map (calculate_index mi) (some B) = st.freed_block_map
      show Function.update stx.freed_block_map (calculate_index mi) (some B) = st.freed_block_map
      rw [hstxmap, hSPmap, hstEmap, Function.update_idem, update_self_of_eq _ _ _ hv, Function.update_idem, ← hhead]
      exact Function.update_eq_self _ _
    · rfl
    · rfl
    · show stz.used_memory_size = st.used_memory_size
      rw [hstz]
      show stx.used_memory_size = _
      exact hstxused
  have hSTJB : STJ.heap B = st.heap B := by
    rw [hSTJheap, Function.update_noteq (Ne.symm hNB)]
  have hSTJt : STJ.heap t = st.heap t := by
    rw [hSTJheap, Function.update_noteq htN]
  have hfind2 : find_suitable_indices STJ SS = some (some mi) := hfind
  have hhead2 : STJ.freed_block_map (calculate_index mi) = some B := hhead
  have hext2 := extract_root_block_eq_cons STJ mi B t hidx hhead2 (by rw [hSTJB]; exact hfree) (by rw [hSTJB]; exact hnext) htB (by rw [hSTJt]; exact htfree0)
  set stE2 : St := { STJ with
    heap := updBlk (updBlk STJ.heap B fun b => { b with node := ⟨none, none⟩ }) t
      fun b => { b with node := { b.node with prev := none } }
    freed_block_map :=
      Function.update STJ.freed_block_map (calculate_index mi) (some t) } with hstE2
  have hstE2heap : stE2.heap = updBlk (updBlk STJ.heap B fun b => { b with node := ⟨none, none⟩ }) t fun b => { b with node := { b.node with prev := none } } := by rw [hstE2]
  have hstE2B : stE2.heap B = { st.heap B with node := (⟨none, none⟩ : FreeNode) } := by
    rw [hstE2heap, updBlk_ne _ _ _ _ (Ne.symm htB), updBlk_same, hSTJB]
  have hE2buf : (stE2.heap B).buffer_size = buf := by
    rw [hstE2B, hbuf]
    rfl
  have hOH2 : stE2.freed_block_map (calculate_index (calculate_mapping_indices ((stE2.heap B).buffer_size - SS - 16))) = none := by
    rw [hE2buf, ← hnbuf, ← hmiN, ← hidxN]
    show Function.update STJ.freed_block_map (calculate_index mi) (some t) idxN = none
    exact hv
  have hsp2 := alloc_split_step_eq_empty stE2 B SS hsal (by rw [hE2buf]; omega) (by rw [hE2buf]; exact hBbound) (by rw [hE2buf, BLOCK_SIZE_eq]; omega) hOH2
  have hrun2 := root_alloc_eq_of_split STJ stE2 _ n B mi hfind2 hext2 (by rw [hE2buf]; omega) hsp2
  obtain ⟨st3v, hrun2v⟩ : ∃ s3, root_alloc STJ n =
      some (s3, some (B + BlockHeader.get_aligned_size)) := ⟨_, hrun2⟩
  exact ⟨st1, st2, st3v, hrun1, hdeal0, by rw [hst2eq]; exact hrun2v⟩

set_option maxHeartbeats 4000000 in
/-- LIFO round trip with a split: class head has list successor `t` and the
remainder class is already headed by a distinct block `t2`. -/
theorem lifo_case_split_cons_head (st : St) (n B t t2 : Nat) (mi : Nat × Nat)
    (hfind : find_suitable_indices st (calculate_allocation_searching_size n) =
      some (some mi))
    (hidx : calculate_index mi < TOTAL_COUNT)
    (hfl : mi.1 < FIRST_INDEX_REAL)
    (hsl : mi.2 < SECOND_INDEX_MAX)
    (hhead : st.freed_block_map (calculate_index mi) = some B)
    (hnext : (st.heap B).node.next = some t)
    (hprev : (st.heap B).node.prev = none)
    (hcan : (st.heap B).stored_size =
      calculate_stored_size (st.heap B).buffer_size true false)
    (hble : calculate_allocation_searching_size n ≤ (st.heap B).buffer_size)
    (hge : BLOCK_SIZE ≤ (st.heap B).buffer_size -
      calculate_allocation_searching_size n)
    (hsal : calculate_allocation_searching_size n % 16 = 0)
    (hBbound : (st.heap B).buffer_size < 2 ^ 36)
    (hmibuf : calculate_mapping_indices (st.heap B).buffer_size = mi)
    (hslbit : (st.sl_bitmap mi.1).testBit mi.2 = true)
    (hflbit : st.fl_bitmap.testBit mi.1 = true)
    (hnbfree : (st.heap (next_block_addr B (st.heap B))).is_freed = false)
    (hnbcan : (st.heap (next_block_addr B (st.heap B))).stored_size =
      calculate_stored_size
        (st.heap (next_block_addr B (st.heap B))).buffer_size false true)
    (hnbph : (st.heap (next_block_addr B (st.heap B))).previous_header = some B)
    (htfree0 : (st.heap t).is_freed = true)
    (htprev0 : (st.heap t).node.prev = some B)
    (htB : t ≠ B)
    (htN : t ≠ B + BlockHeader.get_aligned_size +
      calculate_allocation_searching_size n)
    (ht2free0 : (st.heap t2).is_freed = true)
    (ht2prev0 : (st.heap t2).node.prev = none)
    (ht2B : t2 ≠ B)
    (ht2N : t2 ≠ B + BlockHeader.get_aligned_size +
      calculate_allocation_searching_size n)
    (ht2t : t2 ≠ t)
    (hv : Function.update st.freed_block_map (calculate_index mi) (some t)
      (calculate_index (calculate_mapping_indices ((st.heap B).buffer_size -
        calculate_allocation_searching_size n - BlockHeader.get_aligned_size))) =
      some t2)
    (hbitN1 : (st.sl_bitmap (calculate_mapping_indices ((st.heap B).buffer_size -
        calculate_allocation_searching_size n -
        BlockHeader.get_aligned_size)).1).testBit
      (calculate_mapping_indices ((st.heap B).buffer_size -
        calculate_allocation_searching_size n -
        BlockHeader.get_aligned_size)).2 = true)
    (hconsN1 : st.sl_bitmap (calculate_mapping_indices ((st.heap B).buffer_size -
        calculate_allocation_searching_size n -
        BlockHeader.get_aligned_size)).1 ≠ 0 →
      st.fl_bitmap.testBit (calculate_mapping_indices ((st.heap B).buffer_size -
        calculate_allocation_searching_size n -
        BlockHeader.get_aligned_size)).1 = true) :
    ∃ st1 st2 st3,
      root_alloc st n = some (st1, some (B + BlockHeader.get_aligned_size)) ∧
      root_dealloc st1 (B + BlockHeader.get_aligned_size) = some st2 ∧
      root_alloc st2 n = some (st3, some (B + BlockHeader.get_aligned_size)) := by
  have h16 : BlockHeader.get_aligned_size = 16 := header_aligned_eq
  have hb32 : BLOCK_SIZE = 32 := BLOCK_SIZE_eq
  have hm132 : mi.1 < 32 := by rw [FIRST_INDEX_REAL_eq] at hfl; omega
  have hsl32 : mi.2 < 32 := by rw [SECOND_INDEX_MAX_eq] at hsl; omega
  have hfree : (st.heap B).is_freed = true := canonical_freed _ _ _ hcan
  have hpf : (st.heap B).is_prev_freed = false := canonical_prev_freed _ _ _ hcan
  have hbal : (st.heap B).buffer_size % 16 = 0 := buffer_size_mod16 _
  rw [h16] at hv hbitN1 hconsN1 htN ht2N
  rw [hb32] at hge
  set SS := calculate_allocation_searching_size n with hSS
  set buf := (st.heap B).buffer_size with hbuf
  set nbuf := buf - SS - 16 with hnbuf
  set miN := calculate_mapping_indices nbuf with hmiN
  set idxN := calculate_index miN with hidxN
  have hnbufal : nbuf % 16 = 0 := by omega
  have hnbufb : nbuf < 2 ^ 36 := by omega
  have hmiN1 : miN.1 < 30 := by
    rw [hmiN]
    exact mapping_fst_lt _ hnbufb
  have hmiN132 : miN.1 < 32 := by omega
  have hmiN232 : miN.2 < 32 := by
    rw [hmiN]
    exact mapping_snd_lt _
  have hidxNlt : idxN < TOTAL_COUNT := by
    rw [hidxN, hmiN]
    exact calculate_index_lt _ (by rw [hmiN] at hmiN1; exact hmiN1)
  set N : Nat := B + 16 + SS with hN
  set SC : Nat := B + (16 + buf) with hSC
  have hnbSC : next_block_addr B (st.heap B) = SC := by
    unfold next_block_addr
    rw [h16, hSC, hbuf]
  have hNB : N ≠ B := by omega
  have hNSC : N ≠ SC := by omega
  have hSCB : SC ≠ B := by omega
  rw [hnbSC] at hnbfree hnbcan hnbph
  have htSC : t ≠ SC := by
    intro h
    rw [h] at htfree0
    rw [htfree0] at hnbfree
    simp at hnbfree
  have ht2SC : t2 ≠ SC := by
    intro h
    rw [h] at ht2free0
    rw [ht2free0] at hnbfree
    simp at hnbfree
  have hext := extract_root_block_eq_cons st mi B t hidx hhead hfree hnext htB htfree0
  set stE : St := { st with
    heap := updBlk (updBlk st.heap B fun b => { b with node := ⟨none, none⟩ }) t
      fun b => { b with node := { b.node with prev := none } }
    freed_block_map :=
      Function.update st.freed_block_map (calculate_index mi) (some t) } with hstE
  have hstEheap : stE.heap =
      updBlk (updBlk st.heap B fun b => { b with node := ⟨none, none⟩ }) t
        fun b => { b with node := { b.node with prev := none } } := by rw [hstE]
  have hstEmap : stE.freed_block_map =
      Function.update st.freed_block_map (calculate_index mi) (some t) := by rw [hstE]
  have hstEsl : stE.sl_bitmap = st.sl_bitmap := by rw [hstE]
  have hstEfl : stE.fl_bitmap = st.fl_bitmap := by rw [hstE]
  have hstEused : stE.used_memory_size = st.used_memory_size := by rw [hstE]
  have hstEB : stE.heap B = { st.heap B with node := ⟨none, none⟩ } := by
    rw [hstEheap, updBlk_ne _ _ _ _ (Ne.symm htB), updBlk_same]
  have hstEt : stE.heap t = { st.heap t with node := { (st.heap t).node with prev := none } } := by
    rw [hstEheap, updBlk_same, updBlk_ne _ _ _ _ htB]
  have hstEt2 : stE.heap t2 = st.heap t2 := by
    rw [hstEheap, updBlk_ne _ _ _ _ ht2t, updBlk_ne _ _ _ _ ht2B]
  have hEBbuf : (stE.heap B).buffer_size = buf := by
    rw [hstEB, hbuf]
    rfl
  have hEBfree : (stE.heap B).is_freed = true := by
    rw [hstEB]
    show (st.heap B).is_freed = true
    exact hfree
  have hEBpf : (stE.heap B).is_prev_freed = false := by
    rw [hstEB]
    show (st.heap B).is_prev_freed = false
    exact hpf
  have hOH1 : stE.freed_block_map (calculate_index (calculate_mapping_indices
      ((stE.heap B).buffer_size - SS - 16))) = some t2 := by
    rw [hstEmap, hEBbuf]
    exact hv
  have hsp := alloc_split_step_eq_head stE B SS t2 hsal (by rw [hEBbuf]; omega)
    (by rw [hEBbuf]; exact hBbound) (by rw [hEBbuf]; rw [BLOCK_SIZE_eq]; omega) hOH1
    (by rw [hstEt2]; exact ht2free0) ht2B ht2N (by rw [hEBbuf]; exact ht2SC)
  rw [hEBbuf] at hsp
  rw [← hnbuf, ← hN, ← hSC, ← hmiN, ← hidxN, hEBfree, hEBpf] at hsp
  set SP : St := { stE with
    heap := updBlk (updBlk (Function.update (updBlk (updBlk stE.heap N fun b => { b with previous_header := none, stored_size := calculate_stored_size nbuf true false }) SC fun b => b.set_previous_header N) B { stE.heap B with stored_size := calculate_stored_size SS true false }) N fun b => { b with node := ⟨none, some t2⟩ }) t2 fun b => { b with node := { b.node with prev := some N } }
    freed_block_map := Function.update stE.freed_block_map idxN (some N)
    fl_bitmap := stE.fl_bitmap ||| (1 <<< (miN.1 % 32))
    sl_bitmap := Function.update stE.sl_bitmap miN.1 (stE.sl_bitmap miN.1 ||| (1 <<< (miN.2 % 32))) } with hSP
  have hU : U64 = 2 ^ 64 := rfl
  have hSSb : SS + 15 < U64 := by rw [hU]; omega
  have hbufb : buf + 15 < U64 := by rw [hU]; omega
  have hnbufbU : nbuf + 15 < U64 := by rw [hU]; omega
  have hSPheap : SP.heap = updBlk (updBlk (Function.update (updBlk (updBlk stE.heap N fun b => { b with previous_header := none, stored_size := calculate_stored_size nbuf true false }) SC fun b => b.set_previous_header N) B { stE.heap B with stored_size := calculate_stored_size SS true false }) N fun b => { b with node := ⟨none, some t2⟩ }) t2 fun b => { b with node := { b.node with prev := some N } } := by rw [hSP]
  have hSPmap : SP.freed_block_map = Function.update stE.freed_block_map idxN (some N) := by rw [hSP]
  have hSPfl : SP.fl_bitmap = stE.fl_bitmap ||| (1 <<< (miN.1 % 32)) := by rw [hSP]
  have hSPsl : SP.sl_bitmap = Function.update stE.sl_bitmap miN.1 (stE.sl_bitmap miN.1 ||| (1 <<< (miN.2 % 32))) := by rw [hSP]
  have hSPused : SP.used_memory_size = st.used_memory_size := by rw [hSP]
  have hSPB : SP.heap B = { stE.heap B with stored_size := calculate_stored_size SS true false } := by
    rw [hSPheap, updBlk_ne _ _ _ _ (Ne.symm ht2B), updBlk_ne _ _ _ _ (Ne.symm hNB), Function.update_same]
  have hSPBstored : (SP.heap B).stored_size = calculate_stored_size SS true false := by
    rw [hSPB]
  have hSPBbuf : (SP.heap B).buffer_size = SS := by
    unfold Blk.buffer_size
    rw [hSPBstored]
    exact stored_buffer_eq SS true false hsal hSSb
  have hSPBcan : (SP.heap B).stored_size = calculate_stored_size (SP.heap B).buffer_size true false := by
    rw [hSPBbuf, hSPBstored]
  have hSPN : SP.heap N = { st.heap N with previous_header := none, stored_size := calculate_stored_size nbuf true false, node := (⟨none, some t2⟩ : FreeNode) } := by
    rw [hSPheap, updBlk_ne _ _ _ _ (Ne.symm ht2N), updBlk_same, Function.update_noteq hNB, updBlk_ne _ _ _ _ hNSC, updBlk_same, hstEheap, updBlk_ne _ _ _ _ (Ne.symm htN), updBlk_ne _ _ _ _ hNB]
  have hSPNstored : (SP.heap N).stored_size = calculate_stored_size nbuf true false := by
    rw [hSPN]
  have hSPNbuf : (SP.heap N).buffer_size = nbuf := by
    unfold Blk.buffer_size
    rw [hSPNstored]
    exact stored_buffer_eq nbuf true false hnbufal hnbufbU
  have hSPNcan : (SP.heap N).stored_size = calculate_stored_size (SP.heap N).buffer_size true false := by
    rw [hSPNbuf, hSPNstored]
  have hSPNfree : (SP.heap N).is_freed = true := canonical_freed _ true false hSPNcan
  have hSPNnode : (SP.heap N).node = (⟨none, some t2⟩ : FreeNode) := by rw [hSPN]
  have hSPSC : SP.heap SC = { st.heap SC with previous_header := some N } := by
    rw [hSPheap, updBlk_ne _ _ _ _ (Ne.symm ht2SC), updBlk_ne _ _ _ _ (Ne.symm hNSC), Function.update_noteq hSCB, updBlk_same, updBlk_ne _ _ _ _ (Ne.symm hNSC), hstEheap, updBlk_ne _ _ _ _ (Ne.symm htSC), updBlk_ne _ _ _ _ hSCB]
    rfl
  have hSPt : SP.heap t = { st.heap t with node := { (st.heap t).node with prev := none } } := by
    rw [hSPheap, updBlk_ne _ _ _ _ (Ne.symm ht2t), updBlk_ne _ _ _ _ htN, Function.update_noteq htB, updBlk_ne _ _ _ _ htSC, updBlk_ne _ _ _ _ htN, hstEt]
  have hSPt2 : SP.heap t2 = { st.heap t2 with node := { (st.heap t2).node with prev := some N } } := by
    rw [hSPheap, updBlk_same, updBlk_ne _ _ _ _ ht2N, Function.update_noteq ht2B, updBlk_ne _ _ _ _ ht2SC, updBlk_ne _ _ _ _ ht2N, hstEt2]
  have hrun1 := root_alloc_eq_of_split st stE SP n B mi hfind hext (by rw [hEBbuf]; omega) hsp
  set st1 : St := { SP with
    heap := updBlk SP.heap B fun b => b.set_freed false
    used_memory_size := SP.used_memory_size + ((updBlk SP.heap B fun b => b.set_freed false) B).buffer_size_with_header } with hst1
  have hst1heap : st1.heap = updBlk SP.heap B fun b => b.set_freed false := by rw [hst1]
  have hst1B : st1.heap B = (SP.heap B).set_freed false := by rw [hst1heap, updBlk_same]
  have hst1Bbuf : (st1.heap B).buffer_size = SS := by
    rw [hst1B, set_freed_buffer_size, hSPBbuf]
  have hst1N : st1.heap N = SP.heap N := by rw [hst1heap, updBlk_ne _ _ _ _ hNB]
  have hst1SC : st1.heap SC = SP.heap SC := by rw [hst1heap, updBlk_ne _ _ _ _ hSCB]
  have hst1t : st1.heap t = SP.heap t := by rw [hst1heap, updBlk_ne _ _ _ _ htB]
  have hst1t2 : st1.heap t2 = SP.heap t2 := by rw [hst1heap, updBlk_ne _ _ _ _ ht2B]
  have hst1used : st1.used_memory_size = st.used_memory_size + (16 + SS) := by
    rw [hst1]
    show SP.used_memory_size + ((updBlk SP.heap B fun b => b.set_freed false) B).buffer_size_with_header = _
    rw [updBlk_same, hSPused]
    unfold Blk.buffer_size_with_header
    rw [set_freed_buffer_size, hSPBbuf, h16]
  have hnbN : next_block_addr B (st1.heap B) = N := by
    unfold next_block_addr
    rw [hst1Bbuf, h16]
    omega
  have hXfree : (st1.heap (next_block_addr B (st1.heap B))).is_freed = true := by
    rw [hnbN, hst1N]
    exact hSPNfree
  set ST0 : St := { st1 with
    heap := updBlk (updBlk st1.heap B fun b => b.set_freed true) B fun b => { b with node := FreeNode.new }
    used_memory_size := st1.used_memory_size - ((updBlk st1.heap B fun b => b.set_freed true) B).buffer_size_with_header } with hST0
  have hST0heap : ST0.heap = updBlk (updBlk st1.heap B fun b => b.set_freed true) B fun b => { b with node := FreeNode.new } := by rw [hST0]
  have hST0B : ST0.heap B = { (st1.heap B).set_freed true with node := FreeNode.new } := by
    rw [hST0heap, updBlk_same, updBlk_same]
  have hST0N : ST0.heap N = SP.heap N := by
    rw [hST0heap, updBlk_ne _ _ _ _ hNB, updBlk_ne _ _ _ _ hNB, hst1N]
  have hST0SC : ST0.heap SC = SP.heap SC := by
    rw [hST0heap, updBlk_ne _ _ _ _ hSCB, updBlk_ne _ _ _ _ hSCB, hst1SC]
  have hST0t : ST0.heap t = SP.heap t := by
    rw [hST0heap, updBlk_ne _ _ _ _ htB, updBlk_ne _ _ _ _ htB, hst1t]
  have hST0t2 : ST0.heap t2 = SP.heap t2 := by
    rw [hST0heap, updBlk_ne _ _ _ _ ht2B, updBlk_ne _ _ _ _ ht2B, hst1t2]
  have hST0map : ST0.freed_block_map = SP.freed_block_map := by rw [hST0]
  have hST0sl : ST0.sl_bitmap = SP.sl_bitmap := by rw [hST0]
  have hST0fl : ST0.fl_bitmap = SP.fl_bitmap := by rw [hST0]
  have hST0used : ST0.used_memory_size = st.used_memory_size := by
    rw [hST0]
    show st1.used_memory_size - ((updBlk st1.heap B fun b => b.set_freed true) B).buffer_size_with_header = _
    rw [updBlk_same, hst1used]
    unfold Blk.buffer_size_with_header
    rw [set_freed_buffer_size, hst1Bbuf, h16]
    omega
  have hST0Nb : (ST0.heap N).buffer_size = nbuf := by rw [hST0N]; exact hSPNbuf
  have hST0Nfree : (ST0.heap N).is_freed = true := by rw [hST0N]; exact hSPNfree
  have hST0Nprev : (ST0.heap N).node.prev = none := by rw [hST0N, hSPNnode]
  have hST0Nnext : (ST0.heap N).node.next = some t2 := by rw [hST0N, hSPNnode]
  have hST0t2free : (ST0.heap t2).is_freed = true := by
    rw [hST0t2, hSPt2]
    show (st.heap t2).is_freed = true
    exact ht2free0
  have hST0Nhead : ST0.freed_block_map (calculate_index (calculate_mapping_indices (ST0.heap N).buffer_size)) = some N := by
    rw [hST0Nb, ← hmiN, ← hidxN, hST0map, hSPmap, Function.update_same]
  have hextf0 := extract_freed_block_eq_cons ST0 N t2 hST0Nfree hST0Nprev hST0Nnext hST0t2free (by rw [hST0Nb, ← hmiN, ← hidxN]; exact hidxNlt) hST0Nhead
  rw [hST0Nb, ← hmiN, ← hidxN] at hextf0
  have hstEbitT : (stE.sl_bitmap miN.1).testBit miN.2 = true := by
    rw [hstEsl]
    exact hbitN1
  set stx : St := { ST0 with
    heap := updBlk (updBlk ST0.heap t2 fun b => { b with node := { b.node with prev := none } }) N fun b => { b with node := ⟨none, none⟩ }
    freed_block_map := Function.update ST0.freed_block_map idxN (some t2) } with hstx
  have hstxheap : stx.heap = updBlk (updBlk ST0.heap t2 fun b => { b with node := { b.node with prev := none } }) N fun b => { b with node := ⟨none, none⟩ } := by rw [hstx]
  have hstxB : stx.heap B = { (st1.heap B).set_freed true with node := FreeNode.new } := by
    rw [hstxheap, updBlk_ne _ _ _ _ (Ne.symm hNB), updBlk_ne _ _ _ _ (Ne.symm ht2B), hST0B]
  have hstxBbuf : (stx.heap B).buffer_size = SS := by
    rw [hstxB]
    show ((st1.heap B).set_freed true).buffer_size = SS
    rw [set_freed_buffer_size, hst1Bbuf]
  have hstxBfree : (stx.heap B).is_freed = true := by
    rw [hstxB]
    show ((st1.heap B).set_freed true).is_freed = true
    rw [set_freed_is_freed]
  have hstxBpf : (stx.heap B).is_prev_freed = false := by
    rw [hstxB]
    show ((st1.heap B).set_freed true).is_prev_freed = false
    rw [set_freed_is_prev_freed, hst1B, set_freed_is_prev_freed]
    exact canonical_prev_freed _ true false hSPBcan
  have hstxSC : stx.heap SC = SP.heap SC := by
    rw [hstxheap, updBlk_ne _ _ _ _ (Ne.symm hNSC), updBlk_ne _ _ _ _ (Ne.symm ht2SC), hST0SC]
  have hstxN : stx.heap N = { SP.heap N with node := (⟨none, none⟩ : FreeNode) } := by
    rw [hstxheap, updBlk_same, updBlk_ne _ _ _ _ (Ne.symm ht2N), hST0N]
  have hstxt : stx.heap t = SP.heap t := by
    rw [hstxheap, updBlk_ne _ _ _ _ htN, updBlk_ne _ _ _ _ (Ne.symm ht2t), hST0t]
  have hstxt2 : stx.heap t2 = { SP.heap t2 with node := { (SP.heap t2).node with prev := none } } := by
    rw [hstxheap, updBlk_ne _ _ _ _ ht2N, updBlk_same, hST0t2]
  have hstxmap : stx.freed_block_map = Function.update SP.freed_block_map idxN (some t2) := by
    rw [hstx]
  have hstxsl : stx.sl_bitmap = SP.sl_bitmap := by rw [hstx]
  have hstxfl : stx.fl_bitmap = SP.fl_bitmap := by rw [hstx]
  have hstxused : stx.used_memory_size = st.used_memory_size := by
    rw [hstx]
    show ST0.used_memory_size = _
    exact hST0used
  set BB : Blk := { stx.heap B with stored_size := calculate_stored_size buf true false } with hBB
  have hBBstored : BB.stored_size = calculate_stored_size buf true false := by rw [hBB]
  have hBBbuf : BB.buffer_size = buf := by
    unfold Blk.buffer_size
    rw [hBBstored]
    exact stored_buffer_eq buf true false hbal hbufb
  have hBBcan : BB.stored_size = calculate_stored_size BB.buffer_size true false := by
    rw [hBBbuf, hBBstored]
  have hBBfree : BB.is_freed = true := canonical_freed _ true false hBBcan
  have hBBpf : BB.is_prev_freed = false := canonical_prev_freed _ true false hBBcan
  have hsbs : (stx.heap B).set_buffer_size ((stx.heap B).buffer_size + (st1.heap (next_block_addr B (st1.heap B))).buffer_size_with_header) = some BB := by
    rw [hnbN, hst1N]
    rw [show (SP.heap N).buffer_size_with_header = 16 + nbuf from by unfold Blk.buffer_size_with_header; rw [hSPNbuf, h16]]
    rw [hstxBbuf]
    rw [show SS + (16 + nbuf) = buf from by omega]
    unfold Blk.set_buffer_size
    rw [if_pos ((is_aligned_iff buf).mpr hbal), hstxBfree, hstxBpf, hBB]
  have hstymapval : stx.freed_block_map (calculate_index mi) = some t := by
    rw [hstxmap, hSPmap, hstEmap, Function.update_idem, update_self_of_eq _ _ _ hv, Function.update_same]
  set sty : St := { stx with heap := Function.update stx.heap B BB } with hsty
  have hstyheap : sty.heap = Function.update stx.heap B BB := by rw [hsty]
  have hstyB : sty.heap B = BB := by rw [hstyheap, Function.update_same]
  have hstyBfree : (sty.heap B).is_freed = true := by rw [hstyB]; exact hBBfree
  have hstyt : sty.heap t = SP.heap t := by
    rw [hstyheap, Function.update_noteq htB, hstxt]
  have hstytfree : (sty.heap t).is_freed = true := by
    rw [hstyt, hSPt]
    show (st.heap t).is_freed = true
    exact htfree0
  have hstysome : sty.freed_block_map (calculate_index mi) = some t := by
    show stx.freed_block_map (calculate_index mi) = some t
    exact hstymapval
  have hins0 := insert_block_eq_head sty B t mi hstyBfree hfl hidx hstysome hstytfree
  set stz : St := { sty with
    heap := updBlk (updBlk sty.heap B fun b => { b with node := ⟨none, some t⟩ }) t
      fun b => { b with node := { b.node with prev := some B } }
    freed_block_map := Function.update sty.freed_block_map (calculate_index mi) (some B)
    fl_bitmap := sty.fl_bitmap ||| (1 <<< (mi.1 % 32))
    sl_bitmap := Function.update sty.sl_bitmap mi.1 (sty.sl_bitmap mi.1 ||| (1 <<< (mi.2 % 32))) } with hstz
  have hstzheap : stz.heap = updBlk (updBlk sty.heap B fun b => { b with node := ⟨none, some t⟩ }) t fun b => { b with node := { b.node with prev := some B } } := by rw [hstz]
  have hstzB : stz.heap B = { BB with node := (⟨none, some t⟩ : FreeNode) } := by
    rw [hstzheap, updBlk_ne _ _ _ _ (Ne.symm htB), updBlk_same, hstyB]
  have hstzBbuf : (stz.heap B).buffer_size = BB.buffer_size := by
    rw [hstzB]
    rfl
  have hdeal0 := root_dealloc_eq_merge st1 stx stz BB B hXfree (by rw [hnbN]; exact hextf0) hsbs hBBpf (by rw [hBBbuf, hmibuf]; exact hins0) hstzBbuf
  rw [show B + (BlockHeader.get_aligned_size + BB.buffer_size) = SC from by rw [h16, hBBbuf]] at hdeal0
  set st2 : St := { stz with heap := updBlk stz.heap SC fun b => (b.set_previous_freed true).set_previous_header B } with hst2d
  have hst2heap : st2.heap = updBlk stz.heap SC fun b => (b.set_previous_freed true).set_previous_header B := by rw [hst2d]
  set STJ : St := { st with heap := Function.update st.heap N { st.heap N with previous_header := none, stored_size := calculate_stored_size nbuf true false, node := (⟨none, none⟩ : FreeNode) } } with hSTJ
  have hSTJheap : STJ.heap = Function.update st.heap N { st.heap N with previous_header := none, stored_size := calculate_stored_size nbuf true false, node := (⟨none, none⟩ : FreeNode) } := by rw [hSTJ]
  have hst2eq : st2 = STJ := by
    apply st_fields_eq
    · funext a
      by_cases haB : a = B
      · rw [haB, hst2heap, updBlk_ne _ _ _ _ (Ne.symm hSCB), hstzB, hSTJheap, Function.update_noteq (Ne.symm hNB)]
        apply blk_fields_eq
        · show BB.previous_header = (st.heap B).previous_header
          rw [hBB]
          show (stx.heap B).previous_header = _
          rw [hstxB]
          show (st1.heap B).previous_header = _
          rw [hst1B]
          show (SP.heap B).previous_header = _
          rw [hSPB]
          show (stE.heap B).previous_header = _
          rw [hstEB]
        · show BB.stored_size = (st.heap B).stored_size
          rw [hBBstored, hcan]
        · exact freenode_fields_eq _ _ (by rw [hprev]) (by rw [hnext])
        · show BB.area_end = (st.heap B).area_end
          rw [hBB]
          show (stx.heap B).area_end = _
          rw [hstxB]
          show (st1.heap B).area_end = _
          rw [hst1B]
          show (SP.heap B).area_end = _
          rw [hSPB]
          show (stE.heap B).area_end = _
          rw [hstEB]
        · show BB.area_next = (st.heap B).area_next
          rw [hBB]
          show (stx.heap B).area_next = _
          rw [hstxB]
          show (st1.heap B).area_next = _
          rw [hst1B]
          show (SP.heap B).area_next = _
          rw [hSPB]
          show (stE.heap B).area_next = _
          rw [hstEB]
      · by_cases haSC : a = SC
        · rw [haSC, hst2heap, updBlk_same, hstzheap, updBlk_ne _ _ _ _ (Ne.symm htSC), updBlk_ne _ _ _ _ hSCB, hstyheap, Function.update_noteq hSCB, hstxSC, hSPSC, hSTJheap, Function.update_noteq (Ne.symm hNSC)]
          apply blk_fields_eq
          · show (some B : Option Nat) = (st.heap SC).previous_header
            rw [hnbph]
          · show (({ st.heap SC with previous_header := some N } : Blk).set_previous_freed true).stored_size = (st.heap SC).stored_size
            rw [set_previous_freed_stored]
            show calculate_stored_size (st.heap SC).buffer_size (st.heap SC).is_freed true = (st.heap SC).stored_size
            rw [hnbfree, hnbcan]
          · rfl
          · rfl
          · rfl
        · by_cases haN : a = N
          · rw [haN, hst2heap, updBlk_ne _ _ _ _ hNSC, hstzheap, updBlk_ne _ _ _ _ (Ne.symm htN), updBlk_ne _ _ _ _ hNB, hstyheap, Function.update_noteq hNB, hstxN, hSPN, hSTJheap, Function.update_same]
          · by_cases hat : a = t
            · rw [hat, hst2heap, updBlk_ne _ _ _ _ htSC, hstzheap, updBlk_same, updBlk_ne _ _ _ _ htB, hstyt, hSPt, hSTJheap, Function.update_noteq htN]
              apply blk_fields_eq
              · rfl
              · rfl
              · exact freenode_fields_eq _ _ (by rw [htprev0]) rfl
              · rfl
              · rfl
            · by_cases hat2 : a = t2
              · rw [hat2, hst2heap, updBlk_ne _ _ _ _ ht2SC, hstzheap, updBlk_ne _ _ _ _ ht2t, updBlk_ne _ _ _ _ ht2B, hstyheap, Function.update_noteq ht2B, hstxt2, hSPt2, hSTJheap, Function.update_noteq ht2N]
                apply blk_fields_eq
                · rfl
                · rfl
                · exact freenode_fields_eq _ _ (by rw [ht2prev0]) rfl
                · rfl
                · rfl
              · rw [hst2heap, updBlk_ne _ _ _ _ haSC, hstzheap, updBlk_ne _ _ _ _ hat, updBlk_ne _ _ _ _ haB, hstyheap, Function.update_noteq haB, hstxheap, updBlk_ne _ _ _ _ haN, updBlk_ne _ _ _ _ hat2, hST0heap, updBlk_ne _ _ _ _ haB, updBlk_ne _ _ _ _ haB, hst1heap, updBlk_ne _ _ _ _ haB, hSPheap, updBlk_ne _ _ _ _ hat2, updBlk_ne _ _ _ _ haN, Function.update_noteq haB, updBlk_ne _ _ _ _ haSC, updBlk_ne _ _ _ _ haN, hstEheap, updBlk_ne _ _ _ _ hat, updBlk_ne _ _ _ _ haB, hSTJheap, Function.update_noteq haN]
    · show stz.fl_bitmap = st.fl_bitmap
      rw [hstz]
      show sty.fl_bitmap ||| (1 <<< (mi.1 % 32)) = st.fl_bitmap
      show stx.fl_bitmap ||| (1 <<< (mi.1 % 32)) = st.fl_bitmap
      have hstEflbitN : stE.fl_bitmap.testBit miN.1 = true := by
        rw [hstEfl]
        exact hconsN1 (testBit_ne_zero _ _ hbitN1)
      rw [hstxfl, hSPfl, shift_small mi.1 hm132, shift_small miN.1 hmiN132, lor_pow_of_testBit _ _ hstEflbitN, hstEfl]
      exact lor_pow_of_testBit _ _ hflbit
    · show stz.sl_bitmap = st.sl_bitmap
      rw [hstz]
      show Function.update sty.sl_bitmap mi.1 (sty.sl_bitmap mi.1 ||| (1 <<< (mi.2 % 32))) = st.sl_bitmap
      show Function.update stx.sl_bitmap mi.1 (stx.sl_bitmap mi.1 ||| (1 <<< (mi.2 % 32))) = st.sl_bitmap
      rw [hstxsl, hSPsl, shift_small miN.2 hmiN232, lor_pow_of_testBit _ _ hstEbitT, Function.update_eq_self, hstEsl, shift_small mi.2 hsl32, lor_pow_of_testBit _ _ hslbit]
      exact Function.update_eq_self _ _
    · show stz.freed_block_map = st.freed_block_map
      rw [hstz]
      show Function.update sty.freed_block_map (calculate_index mi) (some B) = st.freed_block_map
      show Function.update stx.freed_block_map (calculate_index mi) (some B) = st.freed_block_map
      rw [hstxmap, hSPmap, hstEmap, Function.update_idem, update_self_of_eq _ _ _ hv, Function.update_idem, ← hhead]
      exact Function.update_eq_self _ _
    · rfl
    · rfl
    · show stz.used_memory_size = st.used_memory_size
      rw [hstz]
      show stx.used_memory_size = _
      exact hstxused
  have hSTJB : STJ.heap B = st.heap B := by
    rw [hSTJheap, Function.update_noteq (Ne.symm hNB)]
  have hSTJt : STJ.heap t = st.heap t := by
    rw [hSTJheap, Function.update_noteq htN]
  have hSTJt2 : STJ.heap t2 = st.heap t2 := by
    rw [hSTJheap, Function.update_noteq ht2N]
  have hfind2 : find_suitable_indices STJ SS = some (some mi) := hfind
  have hhead2 : STJ.freed_block_map (calculate_index mi) = some B := hhead
  have hext2 := extract_root_block_eq_cons STJ mi B t hidx hhead2 (by rw [hSTJB]; exact hfree) (by rw [hSTJB]; exact hnext) htB (by rw [hSTJt]; exact htfree0)
  set stE2 : St := { STJ with
    heap := updBlk (updBlk STJ.heap B fun b => { b with node := ⟨none, none⟩ }) t
      fun b => { b with node := { b.node with prev := none } }
    freed_block_map :=
      Function.update STJ.freed_block_map (calculate_index mi) (some t) } with hstE2
  have hstE2heap : stE2.heap = updBlk (updBlk STJ.heap B fun b => { b with node := ⟨none, none⟩ }) t fun b => { b with node := { b.node with prev := none } } := by rw [hstE2]
  have hstE2B : stE2.heap B = { st.heap B with node := (⟨none, none⟩ : FreeNode) } := by
    rw [hstE2heap, updBlk_ne _ _ _ _ (Ne.symm htB), updBlk_same, hSTJB]
  have hE2buf : (stE2.heap B).buffer_size = buf := by
    rw [hstE2B, hbuf]
    rfl
  have hOH2 : stE2.freed_block_map (calculate_index (calculate_mapping_indices ((stE2.heap B).buffer_size - SS - 16))) = some t2 := by
    rw [hE2buf, ← hnbuf, ← hmiN, ← hidxN]
    show Function.update STJ.freed_block_map (calculate_index mi) (some t) idxN = some t2
    exact hv
  have hsp2 := alloc_split_step_eq_head stE2 B SS t2 hsal (by rw [hE2buf]; omega) (by rw [hE2buf]; exact hBbound) (by rw [hE2buf, BLOCK_SIZE_eq]; omega) hOH2 (by rw [hstE2heap, updBlk_ne _ _ _ _ ht2t, updBlk_ne _ _ _ _ ht2B, hSTJt2]; exact ht2free0) ht2B ht2N (by rw [hE2buf]; exact ht2SC)
  have hrun2 := root_alloc_eq_of_split STJ stE2 _ n B mi hfind2 hext2 (by rw [hE2buf]; omega) hsp2
  obtain ⟨st3v, hrun2v⟩ : ∃ s3, root_alloc STJ n =
      some (s3, some (B + BlockHeader.get_aligned_size)) := ⟨_, hrun2⟩
  exact ⟨st1, st2, st3v, hrun1, hdeal0, by rw [hst2eq]; exact hrun2v⟩

set_option maxHeartbeats 4000000 in
/-- LIFO round trip with a split: class head has list successor `t` and the
remainder lands back in the very same class. -/
theorem lifo_case_split_cons_self (st : St) (n B t : Nat) (mi : Nat × Nat)
    (hfind : find_suitable_indices st (calculate_allocation_searching_size n) =
      some (some mi))
    (hidx : calculate_index mi < TOTAL_COUNT)
    (hfl : mi.1 < FIRST_INDEX_REAL)
    (hsl : mi.2 < SECOND_INDEX_MAX)
    (hhead : st.freed_block_map (calculate_index mi) = some B)
    (hnext : (st.heap B).node.next = some t)
    (hprev : (st.heap B).node.prev = none)
    (hcan : (st.heap B).stored_size =
      calculate_stored_size (st.heap B).buffer_size true false)
    (hble : calculate_allocation_searching_size n ≤ (st.heap B).buffer_size)
    (hge : BLOCK_SIZE ≤ (st.heap B).buffer_size -
      calculate_allocation_searching_size n)
    (hsal : calculate_allocation_searching_size n % 16 = 0)
    (hBbound : (st.heap B).buffer_size < 2 ^ 36)
    (hmibuf : calculate_mapping_indices (st.heap B).buffer_size = mi)
    (hslbit : (st.sl_bitmap mi.1).testBit mi.2 = true)
    (hflbit : st.fl_bitmap.testBit mi.1 = true)
    (hnbfree : (st.heap (next_block_addr B (st.heap B))).is_freed = false)
    (hnbcan : (st.heap (next_block_addr B (st.heap B))).stored_size =
      calculate_stored_size
        (st.heap (next_block_addr B (st.heap B))).buffer_size false true)
    (hnbph : (st.heap (next_block_addr B (st.heap B))).previous_header = some B)
    (htfree0 : (st.heap t).is_freed = true)
    (htprev0 : (st.heap t).node.prev = some B)
    (htB : t ≠ B)
    (htN : t ≠ B + BlockHeader.get_aligned_size +
      calculate_allocation_searching_size n)
    (hmiNmi : calculate_mapping_indices ((st.heap B).buffer_size -
      calculate_allocation_searching_size n - BlockHeader.get_aligned_size) = mi) :
    ∃ st1 st2 st3,
      root_alloc st n = some (st1, some (B + BlockHeader.get_aligned_size)) ∧
      root_dealloc st1 (B + BlockHeader.get_aligned_size) = some st2 ∧
      root_alloc st2 n = some (st3, some (B + BlockHeader.get_aligned_size)) := by
  have h16 : BlockHeader.get_aligned_size = 16 := header_aligned_eq
  have hb32 : BLOCK_SIZE = 32 := BLOCK_SIZE_eq
  have hm132 : mi.1 < 32 := by rw [FIRST_INDEX_REAL_eq] at hfl; omega
  have hsl32 : mi.2 < 32 := by rw [SECOND_INDEX_MAX_eq] at hsl; omega
  have hfree : (st.heap B).is_freed = true := canonical_freed _ _ _ hcan
  have hpf : (st.heap B).is_prev_freed = false := canonical_prev_freed _ _ _ hcan
  have hbal : (st.heap B).buffer_size % 16 = 0 := buffer_size_mod16 _
  rw [h16] at htN hmiNmi
  rw [hb32] at hge
  set SS := calculate_allocation_searching_size n with hSS
  set buf := (st.heap B).buffer_size with hbuf
  set nbuf := buf - SS - 16 with hnbuf
  have hnbufal : nbuf % 16 = 0 := by omega
  have hnbufb : nbuf < 2 ^ 36 := by omega
  set N : Nat := B + 16 + SS with hN
  set SC : Nat := B + (16 + buf) with hSC
  have hnbSC : next_block_addr B (st.heap B) = SC := by
    unfold next_block_addr
    rw [h16, hSC, hbuf]
  have hNB : N ≠ B := by omega
  have hNSC : N ≠ SC := by omega
  have hSCB : SC ≠ B := by omega
  rw [hnbSC] at hnbfree hnbcan hnbph
  have htSC : t ≠ SC := by
    intro h
    rw [h] at htfree0
    rw [htfree0] at hnbfree
    simp at hnbfree
  have hext := extract_root_block_eq_cons st mi B t hidx hhead hfree hnext htB htfree0
  set stE : St := { st with
    heap := updBlk (updBlk st.heap B fun b => { b with node := ⟨none, none⟩ }) t
      fun b => { b with node := { b.node with prev := none } }
    freed_block_map :=
      Function.update st.freed_block_map (calculate_index mi) (some t) } with hstE
  have hstEheap : stE.heap =
      updBlk (updBlk st.heap B fun b => { b with node := ⟨none, none⟩ }) t
        fun b => { b with node := { b.node with prev := none } } := by rw [hstE]
  have hstEmap : stE.freed_block_map =
      Function.update st.freed_block_map (calculate_index mi) (some t) := by rw [hstE]
  have hstEsl : stE.sl_bitmap = st.sl_bitmap := by rw [hstE]
  have hstEfl : stE.fl_bitmap = st.fl_bitmap := by rw [hstE]
  have hstEused : stE.used_memory_size = st.used_memory_size := by rw [hstE]
  have hstEB : stE.heap B = { st.heap B with node := ⟨none, none⟩ } := by
    rw [hstEheap, updBlk_ne _ _ _ _ (Ne.symm htB), updBlk_same]
  have hstEt : stE.heap t = { st.heap t with node := { (st.heap t).node with prev := none } } := by
    rw [hstEheap, updBlk_same, updBlk_ne _ _ _ _ htB]
  have hstEtfree : (stE.heap t).is_freed = true := by
    rw [hstEt]
    show (st.heap t).is_freed = true
    exact htfree0
  have hEBbuf : (stE.heap B).buffer_size = buf := by
    rw [hstEB, hbuf]
    rfl
  have hEBfree : (stE.heap B).is_freed = true := by
    rw [hstEB]
    show (st.heap B).is_freed = true
    exact hfree
  have hEBpf : (stE.heap B).is_prev_freed = false := by
    rw [hstEB]
    show (st.heap B).is_prev_freed = false
    exact hpf
  have hOH1 : stE.freed_block_map (calculate_index (calculate_mapping_indices
      ((stE.heap B).buffer_size - SS - 16))) = some t := by
    rw [hEBbuf, ← hnbuf, hmiNmi, hstEmap, Function.update_same]
  have hsp := alloc_split_step_eq_head stE B SS t hsal (by rw [hEBbuf]; omega)
    (by rw [hEBbuf]; exact hBbound) (by rw [hEBbuf]; rw [BLOCK_SIZE_eq]; omega) hOH1
    hstEtfree htB htN (by rw [hEBbuf]; exact htSC)
  rw [hEBbuf] at hsp
  rw [← hnbuf, hmiNmi, ← hN, ← hSC, hEBfree, hEBpf] at hsp
  set SP : St := { stE with
    heap := updBlk (updBlk (Function.update (updBlk (updBlk stE.heap N fun b => { b with previous_header := none, stored_size := calculate_stored_size nbuf true false }) SC fun b => b.set_previous_header N) B { stE.heap B with stored_size := calculate_stored_size SS true false }) N fun b => { b with node := ⟨none, some t⟩ }) t fun b => { b with node := { b.node with prev := some N } }
    freed_block_map := Function.update stE.freed_block_map (calculate_index mi) (some N)
    fl_bitmap := stE.fl_bitmap ||| (1 <<< (mi.1 % 32))
    sl_bitmap := Function.update stE.sl_bitmap mi.1 (stE.sl_bitmap mi.1 ||| (1 <<< (mi.2 % 32))) } with hSP
  have hU : U64 = 2 ^ 64 := rfl
  have hSSb : SS + 15 < U64 := by rw [hU]; omega
  have hbufb : buf + 15 < U64 := by rw [hU]; omega
  have hnbufbU : nbuf + 15 < U64 := by rw [hU]; omega
  have hSPheap : SP.heap = updBlk (updBlk (Function.update (updBlk (updBlk stE.heap N fun b => { b with previous_header := none, stored_size := calculate_stored_size nbuf true false }) SC fun b => b.set_previous_header N) B { stE.heap B with stored_size := calculate_stored_size SS true false }) N fun b => { b with node := ⟨none, some t⟩ }) t fun b => { b with node := { b.node with prev := some N } } := by rw [hSP]
  have hSPmap : SP.freed_block_map = Function.update stE.freed_block_map (calculate_index mi) (some N) := by rw [hSP]
  have hSPfl : SP.fl_bitmap = stE.fl_bitmap ||| (1 <<< (mi.1 % 32)) := by rw [hSP]
  have hSPsl : SP.sl_bitmap = Function.update stE.sl_bitmap mi.1 (stE.sl_bitmap mi.1 ||| (1 <<< (mi.2 % 32))) := by rw [hSP]
  have hSPused : SP.used_memory_size = st.used_memory_size := by rw [hSP]
  have hSPB : SP.heap B = { stE.heap B with stored_size := calculate_stored_size SS true false } := by
    rw [hSPheap, updBlk_ne _ _ _ _ (Ne.symm htB), updBlk_ne _ _ _ _ (Ne.symm hNB), Function.update_same]
  have hSPBstored : (SP.heap B).stored_size = calculate_stored_size SS true false := by
    rw [hSPB]
  have hSPBbuf : (SP.heap B).buffer_size = SS := by
    unfold Blk.buffer_size
    rw [hSPBstored]
    exact stored_buffer_eq SS true false hsal hSSb
  have hSPBcan : (SP.heap B).stored_size = calculate_stored_size (SP.heap B).buffer_size true false := by
    rw [hSPBbuf, hSPBstored]
  have hSPN : SP.heap N = { st.heap N with previous_header := none, stored_size := calculate_stored_size nbuf true false, node := (⟨none, some t⟩ : FreeNode) } := by
    rw [hSPheap, updBlk_ne _ _ _ _ (Ne.symm htN), updBlk_same, Function.update_noteq hNB, updBlk_ne _ _ _ _ hNSC, updBlk_same, hstEheap, updBlk_ne _ _ _ _ (Ne.symm htN), updBlk_ne _ _ _ _ hNB]
  have hSPNstored : (SP.heap N).stored_size = calculate_stored_size nbuf true false := by
    rw [hSPN]
  have hSPNbuf : (SP.heap N).buffer_size = nbuf := by
    unfold Blk.buffer_size
    rw [hSPNstored]
    exact stored_buffer_eq nbuf true false hnbufal hnbufbU
  have hSPNcan : (SP.heap N).stored_size = calculate_stored_size (SP.heap N).buffer_size true false := by
    rw [hSPNbuf, hSPNstored]
  have hSPNfree : (SP.heap N).is_freed = true := canonical_freed _ true false hSPNcan
  have hSPNnode : (SP.heap N).node = (⟨none, some t⟩ : FreeNode) := by rw [hSPN]
  have hSPSC : SP.heap SC = { st.heap SC with previous_header := some N } := by
    rw [hSPheap, updBlk_ne _ _ _ _ (Ne.symm htSC), updBlk_ne _ _ _ _ (Ne.symm hNSC), Function.update_noteq hSCB, updBlk_same, updBlk_ne _ _ _ _ (Ne.symm hNSC), hstEheap, updBlk_ne _ _ _ _ (Ne.symm htSC), updBlk_ne _ _ _ _ hSCB]
    rfl
  have hSPt : SP.heap t = { st.heap t with node := { (st.heap t).node with prev := some N } } := by
    rw [hSPheap, updBlk_same, updBlk_ne _ _ _ _ htN, Function.update_noteq htB, updBlk_ne _ _ _ _ htSC, updBlk_ne _ _ _ _ htN, hstEt]
  have hSPtfree : (SP.heap t).is_freed = true := by
    rw [hSPt]
    show (st.heap t).is_freed = true
    exact htfree0
  have hrun1 := root_alloc_eq_of_split st stE SP n B mi hfind hext (by rw [hEBbuf]; omega) hsp
  set st1 : St := { SP with
    heap := updBlk SP.heap B fun b => b.set_freed false
    used_memory_size := SP.used_memory_size + ((updBlk SP.heap B fun b => b.set_freed false) B).buffer_size_with_header } with hst1
  have hst1heap : st1.heap = updBlk SP.heap B fun b => b.set_freed false := by rw [hst1]
  have hst1B : st1.heap B = (SP.heap B).set_freed false := by rw [hst1heap, updBlk_same]
  have hst1Bbuf : (st1.heap B).buffer_size = SS := by
    rw [hst1B, set_freed_buffer_size, hSPBbuf]
  have hst1N : st1.heap N = SP.heap N := by rw [hst1heap, updBlk_ne _ _ _ _ hNB]
  have hst1SC : st1.heap SC = SP.heap SC := by rw [hst1heap, updBlk_ne _ _ _ _ hSCB]
  have hst1t : st1.heap t = SP.heap t := by rw [hst1heap, updBlk_ne _ _ _ _ htB]
  have hst1used : st1.used_memory_size = st.used_memory_size + (16 + SS) := by
    rw [hst1]
    show SP.used_memory_size + ((updBlk SP.heap B fun b => b.set_freed false) B).buffer_size_with_header = _
    rw [updBlk_same, hSPused]
    unfold Blk.buffer_size_with_header
    rw [set_freed_buffer_size, hSPBbuf, h16]
  have hnbN : next_block_addr B (st1.heap B) = N := by
    unfold next_block_addr
    rw [hst1Bbuf, h16]
    omega
  have hXfree : (st1.heap (next_block_addr B (st1.heap B))).is_freed = true := by
    rw [hnbN, hst1N]
    exact hSPNfree
  set ST0 : St := { st1 with
    heap := updBlk (updBlk st1.heap B fun b => b.set_freed true) B fun b => { b with node := FreeNode.new }
    used_memory_size := st1.used_memory_size - ((updBlk st1.heap B fun b => b.set_freed true) B).buffer_size_with_header } with hST0
  have hST0heap : ST0.heap = updBlk (updBlk st1.heap B fun b => b.set_freed true) B fun b => { b with node := FreeNode.new } := by rw [hST0]
  have hST0B : ST0.heap B = { (st1.heap B).set_freed true with node := FreeNode.new } := by
    rw [hST0heap, updBlk_same, updBlk_same]
  have hST0N : ST0.heap N = SP.heap N := by
    rw [hST0heap, updBlk_ne _ _ _ _ hNB, updBlk_ne _ _ _ _ hNB, hst1N]
  have hST0SC : ST0.heap SC = SP.heap SC := by
    rw [hST0heap, updBlk_ne _ _ _ _ hSCB, updBlk_ne _ _ _ _ hSCB, hst1SC]
  have hST0t : ST0.heap t = SP.heap t := by
    rw [hST0heap, updBlk_ne _ _ _ _ htB, updBlk_ne _ _ _ _ htB, hst1t]
  have hST0map : ST0.freed_block_map = SP.freed_block_map := by rw [hST0]
  have hST0sl : ST0.sl_bitmap = SP.sl_bitmap := by rw [hST0]
  have hST0fl : ST0.fl_bitmap = SP.fl_bitmap := by rw [hST0]
  have hST0used : ST0.used_memory_size = st.used_memory_size := by
    rw [hST0]
    show st1.used_memory_size - ((updBlk st1.heap B fun b => b.set_freed true) B).buffer_size_with_header = _
    rw [updBlk_same, hst1used]
    unfold Blk.buffer_size_with_header
    rw [set_freed_buffer_size, hst1Bbuf, h16]
    omega
  have hST0Nb : (ST0.heap N).buffer_size = nbuf := by rw [hST0N]; exact hSPNbuf
  have hST0Nfree : (ST0.heap N).is_freed = true := by rw [hST0N]; exact hSPNfree
  have hST0Nprev : (ST0.heap N).node.prev = none := by rw [hST0N, hSPNnode]
  have hST0Nnext : (ST0.heap N).node.next = some t := by rw [hST0N, hSPNnode]
  have hST0tfree : (ST0.heap t).is_freed = true := by
    rw [hST0t]
    exact hSPtfree
  have hST0Nhead : ST0.freed_block_map (calculate_index (calculate_mapping_indices (ST0.heap N).buffer_size)) = some N := by
    rw [hST0Nb, hmiNmi, hST0map, hSPmap, Function.update_same]
  have hextf0 := extract_freed_block_eq_cons ST0 N t hST0Nfree hST0Nprev hST0Nnext hST0tfree (by rw [hST0Nb, hmiNmi]; exact hidx) hST0Nhead
  rw [hST0Nb, hmiNmi] at hextf0
  set stx : St := { ST0 with
    heap := updBlk (updBlk ST0.heap t fun b => { b with node := { b.node with prev := none } }) N fun b => { b with node := ⟨none, none⟩ }
    freed_block_map := Function.update ST0.freed_block_map (calculate_index mi) (some t) } with hstx
  have hstxheap : stx.heap = updBlk (updBlk ST0.heap t fun b => { b with node := { b.node with prev := none } }) N fun b => { b with node := ⟨none, none⟩ } := by rw [hstx]
  have hstxB : stx.heap B = { (st1.heap B).set_freed true with node := FreeNode.new } := by
    rw [hstxheap, updBlk_ne _ _ _ _ (Ne.symm hNB), updBlk_ne _ _ _ _ (Ne.symm htB), hST0B]
  have hstxBbuf : (stx.heap B).buffer_size = SS := by
    rw [hstxB]
    show ((st1.heap B).set_freed true).buffer_size = SS
    rw [set_freed_buffer_size, hst1Bbuf]
  have hstxBfree : (stx.heap B).is_freed = true := by
    rw [hstxB]
    show ((st1.heap B).set_freed true).is_freed = true
    rw [set_freed_is_freed]
  have hstxBpf : (stx.heap B).is_prev_freed = false := by
    rw [hstxB]
    show ((st1.heap B).set_freed true).is_prev_freed = false
    rw [set_freed_is_prev_freed, hst1B, set_freed_is_prev_freed]
    exact canonical_prev_freed _ true false hSPBcan
  have hstxSC : stx.heap SC = SP.heap SC := by
    rw [hstxheap, updBlk_ne _ _ _ _ (Ne.symm hNSC), updBlk_ne _ _ _ _ (Ne.symm htSC), hST0SC]
  have hstxN : stx.heap N = { SP.heap N with node := (⟨none, none⟩ : FreeNode) } := by
    rw [hstxheap, updBlk_same, updBlk_ne _ _ _ _ (Ne.symm htN), hST0N]
  have hstxt : stx.heap t = { SP.heap t with node := { (SP.heap t).node with prev := none } } := by
    rw [hstxheap, updBlk_ne _ _ _ _ htN, updBlk_same, hST0t]
  have hstxmap : stx.freed_block_map = Function.update SP.freed_block_map (calculate_index mi) (some t) := by
    rw [hstx]
  have hstxsl : stx.sl_bitmap = SP.sl_bitmap := by rw [hstx]
  have hstxfl : stx.fl_bitmap = SP.fl_bitmap := by rw [hstx]
  have hstxused : stx.used_memory_size = st.used_memory_size := by
    rw [hstx]
    show ST0.used_memory_size = _
    exact hST0used
  set BB : Blk := { stx.heap B with stored_size := calculate_stored_size buf true false } with hBB
  have hBBstored : BB.stored_size = calculate_stored_size buf true false := by rw [hBB]
  have hBBbuf : BB.buffer_size = buf := by
    unfold Blk.buffer_size
    rw [hBBstored]
    exact stored_buffer_eq buf true false hbal hbufb
  have hBBcan : BB.stored_size = calculate_stored_size BB.buffer_size true false := by
    rw [hBBbuf, hBBstored]
  have hBBfree : BB.is_freed = true := canonical_freed _ true false hBBcan
  have hBBpf : BB.is_prev_freed = false := canonical_prev_freed _ true false hBBcan
  have hsbs : (stx.heap B).set_buffer_size ((stx.heap B).buffer_size + (st1.heap (next_block_addr B (st1.heap B))).buffer_size_with_header) = some BB := by
    rw [hnbN, hst1N]
    rw [show (SP.heap N).buffer_size_with_header = 16 + nbuf from by unfold Blk.buffer_size_with_header; rw [hSPNbuf, h16]]
    rw [hstxBbuf]
    rw [show SS + (16 + nbuf) = buf from by omega]
    unfold Blk.set_buffer_size
    rw [if_pos ((is_aligned_iff buf).mpr hbal), hstxBfree, hstxBpf, hBB]
  have hstymapval : stx.freed_block_map (calculate_index mi) = some t := by
    rw [hstxmap, Function.update_same]
  set sty : St := { stx with heap := Function.update stx.heap B BB } with hsty
  have hstyheap : sty.heap = Function.update stx.heap B BB := by rw [hsty]
  have hstyB : sty.heap B = BB := by rw [hstyheap, Function.update_same]
  have hstyBfree : (sty.heap B).is_freed = true := by rw [hstyB]; exact hBBfree
  have hstyt : sty.heap t = { SP.heap t with node := { (SP.heap t).node with prev := none } } := by
    rw [hstyheap, Function.update_noteq htB, hstxt]
  have hstytfree : (sty.heap t).is_freed = true := by
    rw [hstyt]
    show (SP.heap t).is_freed = true
    exact hSPtfree
  have hstysome : sty.freed_block_map (calculate_index mi) = some t := by
    show stx.freed_block_map (calculate_index mi) = some t
    exact hstymapval
  have hins0 := insert_block_eq_head sty B t mi hstyBfree hfl hidx hstysome hstytfree
  set stz : St := { sty with
    heap := updBlk (updBlk sty.heap B fun b => { b with node := ⟨none, some t⟩ }) t
      fun b => { b with node := { b.node with prev := some B } }
    freed_block_map := Function.update sty.freed_block_map (calculate_index mi) (some B)
    fl_bitmap := sty.fl_bitmap ||| (1 <<< (mi.1 % 32))
    sl_bitmap := Function.update sty.sl_bitmap mi.1 (sty.sl_bitmap mi.1 ||| (1 <<< (mi.2 % 32))) } with hstz
  have hstzheap : stz.heap = updBlk (updBlk sty.heap B fun b => { b with node := ⟨none, some t⟩ }) t fun b => { b with node := { b.node with prev := some B } } := by rw [hstz]
  have hstzB : stz.heap B = { BB with node := (⟨none, some t⟩ : FreeNode) } := by
    rw [hstzheap, updBlk_ne _ _ _ _ (Ne.symm htB), updBlk_same, hstyB]
  have hstzBbuf : (stz.heap B).buffer_size = BB.buffer_size := by
    rw [hstzB]
    rfl
  have hdeal0 := root_dealloc_eq_merge st1 stx stz BB B hXfree (by rw [hnbN]; exact hextf0) hsbs hBBpf (by rw [hBBbuf, hmibuf]; exact hins0) hstzBbuf
  rw [show B + (BlockHeader.get_aligned_size + BB.buffer_size) = SC from by rw [h16, hBBbuf]] at hdeal0
  set st2 : St := { stz with heap := updBlk stz.heap SC fun b => (b.set_previous_freed true).set_previous_header B } with hst2d
  have hst2heap : st2.heap = updBlk stz.heap SC fun b => (b.set_previous_freed true).set_previous_header B := by rw [hst2d]
  set STJ : St := { st with heap := Function.update st.heap N { st.heap N with previous_header := none, stored_size := calculate_stored_size nbuf true false, node := (⟨none, none⟩ : FreeNode) } } with hSTJ
  have hSTJheap : STJ.heap = Function.update st.heap N { st.heap N with previous_header := none, stored_size := calculate_stored_size nbuf true false, node := (⟨none, none⟩ : FreeNode) } := by rw [hSTJ]
  have hst2eq : st2 = STJ := by
    apply st_fields_eq
    · funext a
      by_cases haB : a = B
      · rw [haB, hst2heap, updBlk_ne _ _ _ _ (Ne.symm hSCB), hstzB, hSTJheap, Function.update_noteq (Ne.symm hNB)]
        apply blk_fields_eq
        · show BB.previous_header = (st.heap B).previous_header
          rw [hBB]
          show (stx.heap B).previous_header = _
          rw [hstxB]
          show (st1.heap B).previous_header = _
          rw [hst1B]
          show (SP.heap B).previous_header = _
          rw [hSPB]
          show (stE.heap B).previous_header = _
          rw [hstEB]
        · show BB.stored_size = (st.heap B).stored_size
          rw [hBBstored, hcan]
        · exact freenode_fields_eq _ _ (by rw [hprev]) (by rw [hnext])
        · show BB.area_end = (st.heap B).area_end
          rw [hBB]
          show (stx.heap B).area_end = _
          rw [hstxB]
          show (st1.heap B).area_end = _
          rw [hst1B]
          show (SP.heap B).area_end = _
          rw [hSPB]
          show (stE.heap B).area_end = _
          rw [hstEB]
        · show BB.area_next = (st.heap B).area_next
          rw [hBB]
          show (stx.heap B).area_next = _
          rw [hstxB]
          show (st1.heap B).area_next = _
          rw [hst1B]
          show (SP.heap B).area_next = _
          rw [hSPB]
          show (stE.heap B).area_next = _
          rw [hstEB]
      · by_cases haSC : a = SC
        · rw [haSC, hst2heap, updBlk_same, hstzheap, updBlk_ne _ _ _ _ (Ne.symm htSC), updBlk_ne _ _ _ _ hSCB, hstyheap, Function.update_noteq hSCB, hstxSC, hSPSC, hSTJheap, Function.update_noteq (Ne.symm hNSC)]
          apply blk_fields_eq
          · show (some B : Option Nat) = (st.heap SC).previous_header
            rw [hnbph]
          · show (({ st.heap SC with previous_header := some N } : Blk).set_previous_freed true).stored_size = (st.heap SC).stored_size
            rw [set_previous_freed_stored]
            show calculate_stored_size (st.heap SC).buffer_size (st.heap SC).is_freed true = (st.heap SC).stored_size
            rw [hnbfree, hnbcan]
          · rfl
          · rfl
          · rfl
        · by_cases haN : a = N
          · rw [haN, hst2heap, updBlk_ne _ _ _ _ hNSC, hstzheap, updBlk_ne _ _ _ _ (Ne.symm htN), updBlk_ne _ _ _ _ hNB, hstyheap, Function.update_noteq hNB, hstxN, hSPN, hSTJheap, Function.update_same]
          · by_cases hat : a = t
            · rw [hat, hst2heap, updBlk_ne _ _ _ _ htSC, hstzheap, updBlk_same, updBlk_ne _ _ _ _ htB, hstyt, hSPt, hSTJheap, Function.update_noteq htN]
              apply blk_fields_eq
              · rfl
              · rfl
              · exact freenode_fields_eq _ _ (by rw [htprev0]) rfl
              · rfl
              · rfl
            · rw [hst2heap, updBlk_ne _ _ _ _ haSC, hstzheap, updBlk_ne _ _ _ _ hat, updBlk_ne _ _ _ _ haB, hstyheap, Function.update_noteq haB, hstxheap, updBlk_ne _ _ _ _ haN, updBlk_ne _ _ _ _ hat, hST0heap, updBlk_ne _ _ _ _ haB, updBlk_ne _ _ _ _ haB, hst1heap, updBlk_ne _ _ _ _ haB, hSPheap, updBlk_ne _ _ _ _ hat, updBlk_ne _ _ _ _ haN, Function.update_noteq haB, updBlk_ne _ _ _ _ haSC, updBlk_ne _ _ _ _ haN, hstEheap, updBlk_ne _ _ _ _ hat, updBlk_ne _ _ _ _ haB, hSTJheap, Function.update_noteq haN]
    · show stz.fl_bitmap = st.fl_bitmap
      rw [hstz]
      show sty.fl_bitmap ||| (1 <<< (mi.1 % 32)) = st.fl_bitmap
      show stx.fl_bitmap ||| (1 <<< (mi.1 % 32)) = st.fl_bitmap
      have hstEflbit : stE.fl_bitmap.testBit mi.1 = true := by
        rw [hstEfl]
        exact hflbit
      rw [hstxfl, hSPfl, shift_small mi.1 hm132, lor_pow_of_testBit _ _ hstEflbit, lor_pow_of_testBit _ _ hstEflbit, hstEfl]
    · show stz.sl_bitmap = st.sl_bitmap
      rw [hstz]
      show Function.update sty.sl_bitmap mi.1 (sty.sl_bitmap mi.1 ||| (1 <<< (mi.2 % 32))) = st.sl_bitmap
      show Function.update stx.sl_bitmap mi.1 (stx.sl_bitmap mi.1 ||| (1 <<< (mi.2 % 32))) = st.sl_bitmap
      have hstEbitT : (stE.sl_bitmap mi.1).testBit mi.2 = true := by
        rw [hstEsl]
        exact hslbit
      rw [hstxsl, hSPsl, Function.update_same, Function.update_idem, shift_small mi.2 hsl32, lor_pow_of_testBit _ _ hstEbitT, lor_pow_of_testBit _ _ hstEbitT, hstEsl]
      exact Function.update_eq_self _ _
    · show stz.freed_block_map = st.freed_block_map
      rw [hstz]
      show Function.update sty.freed_block_map (calculate_index mi) (some B) = st.freed_block_map
      show Function.update stx.freed_block_map (calculate_index mi) (some B) = st.freed_block_map
      rw [hstxmap, hSPmap, hstEmap, Function.update_idem, Function.update_idem, Function.update_idem, ← hhead]
      exact Function.update_eq_self _ _
    · rfl
    · rfl
    · show stz.used_memory_size = st.used_memory_size
      rw [hstz]
      show stx.used_memory_size = _
      exact hstxused
  have hSTJB : STJ.heap B = st.heap B := by
    rw [hSTJheap, Function.update_noteq (Ne.symm hNB)]
  have hSTJt : STJ.heap t = st.heap t := by
    rw [hSTJheap, Function.update_noteq htN]
  have hfind2 : find_suitable_indices STJ SS = some (some mi) := hfind
  have hhead2 : STJ.freed_block_map (calculate_index mi) = some B := hhead
  have hext2 := extract_root_block_eq_cons STJ mi B t hidx hhead2 (by rw [hSTJB]; exact hfree) (by rw [hSTJB]; exact hnext) htB (by rw [hSTJt]; exact htfree0)
  set stE2 : St := { STJ with
    heap := updBlk (updBlk STJ.heap B fun b => { b with node := ⟨none, none⟩ }) t
      fun b => { b with node := { b.node with prev := none } }
    freed_block_map :=
      Function.update STJ.freed_block_map (calculate_index mi) (some t) } with hstE2
  have hstE2heap : stE2.heap = updBlk (updBlk STJ.heap B fun b => { b with node := ⟨none, none⟩ }) t fun b => { b with node := { b.node with prev := none } } := by rw [hstE2]
  have hstE2B : stE2.heap B = { st.heap B with node := (⟨none, none⟩ : FreeNode) } := by
    rw [hstE2heap, updBlk_ne _ _ _ _ (Ne.symm htB), updBlk_same, hSTJB]
  have hE2buf : (stE2.heap B).buffer_size = buf := by
    rw [hstE2B, hbuf]
    rfl
  have hstE2tfree : (stE2.heap t).is_freed = true := by
    rw [hstE2heap, updBlk_same, updBlk_ne _ _ _ _ htB, hSTJt]
    show (st.heap t).is_freed = true
    exact htfree0
  have hOH2 : stE2.freed_block_map (calculate_index (calculate_mapping_indices ((stE2.heap B).buffer_size - SS - 16))) = some t := by
    rw [hE2buf, ← hnbuf, hmiNmi]
    show Function.update STJ.freed_block_map (calculate_index mi) (some t) (calculate_index mi) = some t
    rw [Function.update_same]
  have hsp2 := alloc_split_step_eq_head stE2 B SS t hsal (by rw [hE2buf]; omega) (by rw [hE2buf]; exact hBbound) (by rw [hE2buf, BLOCK_SIZE_eq]; omega) hOH2 hstE2tfree htB htN (by rw [hE2buf]; exact htSC)
  have hrun2 := root_alloc_eq_of_split STJ stE2 _ n B mi hfind2 hext2 (by rw [hE2buf]; omega) hsp2
  obtain ⟨st3v, hrun2v⟩ : ∃ s3, root_alloc STJ n =
      some (s3, some (B + BlockHeader.get_aligned_size)) := ⟨_, hrun2⟩
  exact ⟨st1, st2, st3v, hrun1, hdeal0, by rw [hst2eq]; exact hrun2v⟩

set_option maxHeartbeats 2000000 in
/-- C7: LIFO round-trip idempotence: on a well-formed TLSF state (consistent
index, canonical class head `B`, coalesced physical neighbours), if
`RootPool::alloc(n)` succeeds returning pointer `p = B + header`, then
`dealloc(p)` followed immediately by `alloc(n)` with no intervening operation
succeeds and returns the same pointer `p`. -/
theorem C7_lifo_round_trip (st : St) (n B : Nat) (mi : Nat × Nat)
    (hn : n < 2 ^ 63)
    (hfind : find_suitable_indices st (calculate_allocation_searching_size n) =
      some (some mi))
    (hfl : mi.1 < FIRST_INDEX_REAL)
    (hsl : mi.2 < SECOND_INDEX_MAX)
    (hhead : st.freed_block_map (calculate_index mi) = some B)
    (hprev : (st.heap B).node.prev = none)
    (hcan : (st.heap B).stored_size =
      calculate_stored_size (st.heap B).buffer_size true false)
    (hble : calculate_allocation_searching_size n ≤ (st.heap B).buffer_size)
    (hBbound : (st.heap B).buffer_size < 2 ^ 36)
    (hmibuf : calculate_mapping_indices (st.heap B).buffer_size = mi)
    (hic : index_consistent st)
    (hnbfree : (st.heap (next_block_addr B (st.heap B))).is_freed = false)
    (hnbcan : (st.heap (next_block_addr B (st.heap B))).stored_size =
      calculate_stored_size
        (st.heap (next_block_addr B (st.heap B))).buffer_size false true)
    (hnbph : (st.heap (next_block_addr B (st.heap B))).previous_header = some B)
    (hheads : ∀ i bp, st.freed_block_map i = some bp →
      (st.heap bp).is_freed = true ∧ (st.heap bp).node.prev = none)
    (hheadinj : ∀ i j bp, st.freed_block_map i = some bp →
      st.freed_block_map j = some bp → i = j)
    (hfreshN : ∀ i bp, st.freed_block_map i = some bp →
      bp ≠ B + BlockHeader.get_aligned_size + calculate_allocation_searching_size n)
    (hW : ∀ u, (st.heap B).node.next = some u →
      (st.heap u).is_freed = true ∧ (st.heap u).node.prev = some B ∧ u ≠ B ∧
      u ≠ B + BlockHeader.get_aligned_size + calculate_allocation_searching_size n) :
    ∃ st1 st2 st3,
      root_alloc st n = some (st1, some (B + BlockHeader.get_aligned_size)) ∧
      root_dealloc st1 (B + BlockHeader.get_aligned_size) = some st2 ∧
      root_alloc st2 n = some (st3, some (B + BlockHeader.get_aligned_size)) := by
  have hsal : calculate_allocation_searching_size n % 16 = 0 :=
    (searching_size_facts n hn).2.1
  have hfl30 : mi.1 < 30 := by
    have h := hfl
    rw [FIRST_INDEX_REAL_eq] at h
    exact h
  have hsl32 : mi.2 < 32 := by
    have h := hsl
    rw [SECOND_INDEX_MAX_eq] at h
    exact h
  have hidx : calculate_index mi < TOTAL_COUNT := by
    show mi.1 * SECOND_INDEX_MAX + mi.2 < TOTAL_COUNT
    rw [SECOND_INDEX_MAX_eq, TOTAL_COUNT_eq]
    omega
  have hkey : mi.1 * SECOND_INDEX_MAX + mi.2 = calculate_index mi := rfl
  have hslbit : (st.sl_bitmap mi.1).testBit mi.2 = true := by
    have h1 := hic.1 mi.1 mi.2 hfl hsl
    rw [hkey, hhead] at h1
    exact h1.symm
  have hflbit : st.fl_bitmap.testBit mi.1 = true :=
    (hic.2 mi.1 hfl).mp (testBit_ne_zero _ _ hslbit)
  rcases hnxt : (st.heap B).node.next with _ | t
  · by_cases hrem : (st.heap B).buffer_size -
        calculate_allocation_searching_size n < BLOCK_SIZE
    · obtain ⟨s1, s2, h1, h2, h3⟩ := lifo_case_nosplit_last st n B mi hfind hidx
        hfl hsl hhead hnxt hprev hcan hble hrem hmibuf hslbit hflbit hnbfree
        hnbcan hnbph
      exact ⟨s1, s2, s1, h1, h2, h3⟩
    · have hge : BLOCK_SIZE ≤ (st.heap B).buffer_size -
          calculate_allocation_searching_size n := Nat.le_of_not_lt hrem
      have h16 : BlockHeader.get_aligned_size = 16 := header_aligned_eq
      set nb0 := (st.heap B).buffer_size - calculate_allocation_searching_size n -
        BlockHeader.get_aligned_size with hnb0
      set miN := calculate_mapping_indices nb0 with hmiNd
      set idxN := calculate_index miN with hidxNd
      have hnbufb : nb0 < 2 ^ 36 := by rw [hnb0, h16]; omega
      have hmiN1 : miN.1 < 30 := by rw [hmiNd]; exact mapping_fst_lt _ hnbufb
      have hmiN232 : miN.2 < 32 := by rw [hmiNd]; exact mapping_snd_lt _
      have hmiNfl : miN.1 < FIRST_INDEX_REAL := by
        rw [FIRST_INDEX_REAL_eq]
        exact hmiN1
      have hmiNsl : miN.2 < SECOND_INDEX_MAX := by
        rw [SECOND_INDEX_MAX_eq]
        exact hmiN232
      have hkeyN : miN.1 * SECOND_INDEX_MAX + miN.2 = idxN := rfl
      have hbitiff := hic.1 miN.1 miN.2 hmiNfl hmiNsl
      rw [hkeyN] at hbitiff
      have hconsN1 : st.sl_bitmap miN.1 ≠ 0 → st.fl_bitmap.testBit miN.1 = true :=
        (hic.2 miN.1 hmiNfl).mp
      have hconsN0 : st.sl_bitmap miN.1 = 0 → st.fl_bitmap.testBit miN.1 = false := by
        intro h0
        cases hfb : st.fl_bitmap.testBit miN.1
        · rfl
        · exact absurd h0 ((hic.2 miN.1 hmiNfl).mpr hfb)
      rcases hv : Function.update st.freed_block_map (calculate_index mi) none idxN
        with _ | t2
      · have hS1bit : (Function.update st.sl_bitmap mi.1
            (st.sl_bitmap mi.1 ^^^ 2 ^ mi.2) miN.1).testBit miN.2 = false := by
          by_cases hba : miN.1 = mi.1
          · rw [hba, Function.update_same, Nat.testBit_xor]
            by_cases hs2 : miN.2 = mi.2
            · rw [hs2, hslbit, Nat.testBit_two_pow_self]
              rfl
            · rw [Nat.testBit_two_pow_of_ne (fun h => hs2 h.symm)]
              have hidxne : idxN ≠ calculate_index mi := by
                rw [← hkeyN, ← hkey, SECOND_INDEX_MAX_eq]
                intro hcontra
                omega
              have hMn : st.freed_block_map idxN = none := by
                have hvv := hv
                rw [Function.update_noteq hidxne] at hvv
                exact hvv
              rw [hMn] at hbitiff
              have hbf : (st.sl_bitmap miN.1).testBit miN.2 = false := hbitiff.symm
              rw [hba] at hbf
              rw [hbf]
              rfl
          · rw [Function.update_noteq hba]
            have hidxne : idxN ≠ calculate_index mi := by
              rw [← hkeyN, ← hkey, SECOND_INDEX_MAX_eq]
              intro hcontra
              omega
            have hMn : st.freed_block_map idxN = none := by
              have hvv := hv
              rw [Function.update_noteq hidxne] at hvv
              exact hvv
            rw [hMn] at hbitiff
            exact hbitiff.symm
        exact lifo_case_split_last_empty st n B mi hfind hidx hfl hsl hhead hnxt
          hprev hcan hble hge hsal hBbound hmibuf hslbit hflbit hnbfree hnbcan
          hnbph hv hS1bit hconsN0 hconsN1
      · have hidxne : idxN ≠ calculate_index mi := by
          intro h
          rw [h, Function.update_same] at hv
          simp at hv
        have hMs : st.freed_block_map idxN = some t2 := by
          have hvv := hv
          rw [Function.update_noteq hidxne] at hvv
          exact hvv
        have hbitN : (st.sl_bitmap miN.1).testBit miN.2 = true := by
          rw [hMs] at hbitiff
          exact hbitiff.symm
        have hS1bitT : (Function.update st.sl_bitmap mi.1
            (st.sl_bitmap mi.1 ^^^ 2 ^ mi.2) miN.1).testBit miN.2 = true := by
          by_cases hba : miN.1 = mi.1
          · have hs2 : miN.2 ≠ mi.2 := by
              intro hq
              apply hidxne
              rw [← hkeyN, ← hkey, hba, hq]
            rw [hba, Function.update_same, Nat.testBit_xor,
              Nat.testBit_two_pow_of_ne (fun h => hs2 h.symm)]
            rw [hba] at hbitN
            rw [hbitN]
            rfl
          · rw [Function.update_noteq hba]
            exact hbitN
        obtain ⟨ht2free0, ht2prev0⟩ := hheads idxN t2 hMs
        have ht2B : t2 ≠ B := by
          intro h
          exact hidxne (hheadinj idxN (calculate_index mi) B (h ▸ hMs) hhead)
        have ht2N := hfreshN idxN t2 hMs
        exact lifo_case_split_last_head st n B t2 mi hfind hidx hfl hsl hhead hnxt
          hprev hcan hble hge hsal hBbound hmibuf hslbit hflbit hnbfree hnbcan
          hnbph hv hS1bitT hconsN1 ht2free0 ht2prev0 ht2B ht2N
  · obtain ⟨htfree0, htprev0, htB, htN⟩ := hW t hnxt
    by_cases hrem : (st.heap B).buffer_size -
        calculate_allocation_searching_size n < BLOCK_SIZE
    · have htnb : t ≠ next_block_addr B (st.heap B) := by
        intro h
        rw [h] at htfree0
        rw [htfree0] at hnbfree
        simp at hnbfree
      obtain ⟨s1, s2, h1, h2, h3⟩ := lifo_case_nosplit_cons st n B t mi hfind hidx
        hfl hsl hhead hnxt hprev hcan hble hrem hmibuf hslbit hflbit htB htnb
        htfree0 htprev0 hnbfree hnbcan hnbph
      exact ⟨s1, s2, s1, h1, h2, h3⟩
    · have hge : BLOCK_SIZE ≤ (st.heap B).buffer_size -
          calculate_allocation_searching_size n := Nat.le_of_not_lt hrem
      have h16 : BlockHeader.get_aligned_size = 16 := header_aligned_eq
      set nb0 := (st.heap B).buffer_size - calculate_allocation_searching_size n -
        BlockHeader.get_aligned_size with hnb0
      set miN := calculate_mapping_indices nb0 with hmiNd
      set idxN := calculate_index miN with hidxNd
      have hnbufb : nb0 < 2 ^ 36 := by rw [hnb0, h16]; omega
      have hmiN1 : miN.1 < 30 := by rw [hmiNd]; exact mapping_fst_lt _ hnbufb
      have hmiN232 : miN.2 < 32 := by rw [hmiNd]; exact mapping_snd_lt _
      have hmiNfl : miN.1 < FIRST_INDEX_REAL := by
        rw [FIRST_INDEX_REAL_eq]
        exact hmiN1
      have hmiNsl : miN.2 < SECOND_INDEX_MAX := by
        rw [SECOND_INDEX_MAX_eq]
        exact hmiN232
      have hkeyN : miN.1 * SECOND_INDEX_MAX + miN.2 = idxN := rfl
      have hbitiff := hic.1 miN.1 miN.2 hmiNfl hmiNsl
      rw [hkeyN] at hbitiff
      have hconsN1 : st.sl_bitmap miN.1 ≠ 0 → st.fl_bitmap.testBit miN.1 = true :=
        (hic.2 miN.1 hmiNfl).mp
      have hconsN0 : st.sl_bitmap miN.1 = 0 → st.fl_bitmap.testBit miN.1 = false := by
        intro h0
        cases hfb : st.fl_bitmap.testBit miN.1
        · rfl
        · exact absurd h0 ((hic.2 miN.1 hmiNfl).mpr hfb)
      rcases hv : Function.update st.freed_block_map (calculate_index mi) (some t)
        idxN with _ | t2
      · have hidxne : idxN ≠ calculate_index mi := by
          intro h
          rw [h, Function.update_same] at hv
          simp at hv
        have hMn : st.freed_block_map idxN = none := by
          have hvv := hv
          rw [Function.update_noteq hidxne] at hvv
          exact hvv
        have hbitN0 : (st.sl_bitmap miN.1).testBit miN.2 = false := by
          rw [hMn] at hbitiff
          exact hbitiff.symm
        exact lifo_case_split_cons_empty st n B t mi hfind hidx hfl hsl hhead hnxt
          hprev hcan hble hge hsal hBbound hmibuf hslbit hflbit hnbfree hnbcan
          hnbph htfree0 htprev0 htB htN hv hbitN0 hconsN0 hconsN1
      · by_cases hii : idxN = calculate_index mi
        · have heq : miN.1 * SECOND_INDEX_MAX + miN.2 =
              mi.1 * SECOND_INDEX_MAX + mi.2 := by
            rw [hkeyN, hkey]
            exact hii
          rw [SECOND_INDEX_MAX_eq] at heq
          have hcomp : miN = mi := by
            have h1 : miN.1 = mi.1 := by omega
            have h2 : miN.2 = mi.2 := by omega
            exact Prod.ext h1 h2
          exact lifo_case_split_cons_self st n B t mi hfind hidx hfl hsl hhead
            hnxt hprev hcan hble hge hsal hBbound hmibuf hslbit hflbit hnbfree
            hnbcan hnbph htfree0 htprev0 htB htN hcomp
        · have hMs : st.freed_block_map idxN = some t2 := by
            have hvv := hv
            rw [Function.update_noteq hii] at hvv
            exact hvv
          have hbitN1 : (st.sl_bitmap miN.1).testBit miN.2 = true := by
            rw [hMs] at hbitiff
            exact hbitiff.symm
          obtain ⟨ht2free0, ht2prev0⟩ := hheads idxN t2 hMs
          have ht2B : t2 ≠ B := by
            intro h
            exact hii (hheadinj idxN (calculate_index mi) B (h ▸ hMs) hhead)
          have ht2N := hfreshN idxN t2 hMs
          have ht2t : t2 ≠ t := by
            intro h
            rw [h, htprev0] at ht2prev0
            simp at ht2prev0
          exact lifo_case_split_cons_head st n B t t2 mi hfind hidx hfl hsl hhead
            hnxt hprev hcan hble hge hsal hBbound hmibuf hslbit hflbit hnbfree
            hnbcan hnbph htfree0 htprev0 htB htN ht2free0 ht2prev0 ht2B ht2N ht2t
            hv hbitN1 hconsN1

set_option maxRecDepth 10000 in
/-- Witness: a 48-byte free block at address 0 (class `(0,12)`), followed by
a used terminator at 64; `alloc(20)`, `dealloc`, `alloc(20)` all return 16. -/
theorem C7_lifo_round_trip_witness :
    ∃ st1 st2 st3,
      root_alloc { emptySt with
        heap := fun a => if a = 0 then ⟨none, calculate_stored_size 48 true false, ⟨none, none⟩, none, none⟩ else if a = 64 then ⟨some 0, calculate_stored_size 0 false true, ⟨none, none⟩, none, none⟩ else emptyBlk
        fl_bitmap := 1
        sl_bitmap := Function.update (fun _ => 0) 0 4096
        freed_block_map := Function.update (fun _ => none) 12 (some 0) } 20 =
        some (st1, some (0 + BlockHeader.get_aligned_size)) ∧
      root_dealloc st1 (0 + BlockHeader.get_aligned_size) = some st2 ∧
      root_alloc st2 20 = some (st3, some (0 + BlockHeader.get_aligned_size)) :=
  C7_lifo_round_trip _ 20 0 (0, 12) (by decide) (by decide) (by decide) (by decide)
    (by decide) (by decide) (by decide) (by decide) (by decide) (by decide)
    (by
      constructor
      · intro fl sl hfl hsl
        show (Function.update (fun _ => (none : Option Nat)) 12 (some 0)
            (fl * SECOND_INDEX_MAX + sl)).isSome =
          (Function.update (fun _ => (0 : Nat)) 0 4096 fl).testBit sl
        by_cases h1 : fl = 0
        · subst h1
          by_cases h2 : sl = 12
          · subst h2
            decide
          · have hne : 0 * SECOND_INDEX_MAX + sl ≠ 12 := by
              rw [SECOND_INDEX_MAX_eq]
              omega
            rw [Function.update_noteq hne, Function.update_same,
              show (4096 : Nat) = 2 ^ 12 from by norm_num,
              Nat.testBit_two_pow_of_ne (fun h => h2 h.symm)]
            rfl
        · have hne : fl * SECOND_INDEX_MAX + sl ≠ 12 := by
            rw [SECOND_INDEX_MAX_eq]
            have h2 : 1 ≤ fl := Nat.one_le_iff_ne_zero.mpr h1
            omega
          rw [Function.update_noteq hne, Function.update_noteq h1, Nat.zero_testBit]
          rfl
      · intro fl hfl
        show Function.update (fun _ => (0 : Nat)) 0 4096 fl ≠ 0 ↔
          (1 : Nat).testBit fl = true
        by_cases h1 : fl = 0
        · subst h1
          rw [Function.update_same]
          decide
        · rw [Function.update_noteq h1,
            show (1 : Nat) = 2 ^ 0 from rfl,
            Nat.testBit_two_pow_of_ne (fun h => h1 h.symm)]
          simp)
    (by decide) (by decide) (by decide)
    (by
      intro i bp h
      by_cases hi : i = 12
      · subst hi
        have h2 : (some 0 : Option Nat) = some bp := by
          rw [← h]
          show some 0 = Function.update (fun _ => (none : Option Nat)) 12 (some 0) 12
          rw [Function.update_same]
        cases h2
        constructor
        · decide
        · decide
      · exfalso
        have h2 : (none : Option Nat) = some bp := by
          rw [← h]
          show none = Function.update (fun _ => (none : Option Nat)) 12 (some 0) i
          rw [Function.update_noteq hi]
        simp at h2)
    (by
      intro i j bp hi hj
      by_cases h1 : i = 12
      · by_cases h2 : j = 12
        · rw [h1, h2]
        · exfalso
          have h3 : (none : Option Nat) = some bp := by
            rw [← hj]
            show none = Function.update (fun _ => (none : Option Nat)) 12 (some 0) j
            rw [Function.update_noteq h2]
          simp at h3
      · exfalso
        have h3 : (none : Option Nat) = some bp := by
          rw [← hi]
          show none = Function.update (fun _ => (none : Option Nat)) 12 (some 0) i
          rw [Function.update_noteq h1]
        simp at h3)
    (by
      intro i bp h
      by_cases hi : i = 12
      · subst hi
        have h2 : (some 0 : Option Nat) = some bp := by
          rw [← h]
          show some 0 = Function.update (fun _ => (none : Option Nat)) 12 (some 0) 12
          rw [Function.update_same]
        cases h2
        decide
      · exfalso
        have h2 : (none : Option Nat) = some bp := by
          rw [← h]
          show none = Function.update (fun _ => (none : Option Nat)) 12 (some 0) i
          rw [Function.update_noteq hi]
        simp at h2)
    (by
      intro u h
      have h2 : (none : Option Nat) = some u := by
        rw [← h]
        decide
      simp at h2)

/-- A null result from `extract_root_block` (empty class) leaves the header
untouched: the only `(st, None)` exit is the first match arm. -/
theorem extract_root_block_null (st stx : St) (mi : Nat × Nat)
    (h : extract_root_block st mi = some (stx, none)) : stx = st := by
  by_cases hb : TOTAL_COUNT ≤ calculate_index mi
  · simp only [extract_root_block, map_get_item, Option.bind_eq_bind, if_pos hb,
      Option.none_bind, reduceCtorEq] at h
  · rcases hv : st.freed_block_map (calculate_index mi) with _ | bp
    · simp only [extract_root_block, map_get_item, Option.bind_eq_bind, if_neg hb,
        Option.some_bind, hv, Option.some.injEq, Prod.mk.injEq] at h
      exact h.1.symm
    · by_cases hf : (st.heap bp).is_freed = false
      · simp only [extract_root_block, map_get_item, Option.bind_eq_bind, if_neg hb,
          Option.some_bind, hv, if_pos hf, reduceCtorEq] at h
      · rcases hn : (st.heap bp).node.next with _ | nb
        · by_cases hifl : mi.1 < FIRST_INDEX_REAL
          · simp only [extract_root_block, map_get_item, map_reset_item,
              Option.bind_eq_bind, if_neg hb, Option.some_bind, hv, if_neg hf, hn,
              if_pos (Nat.lt_of_not_le hb), if_pos hifl, Option.some.injEq,
              Prod.mk.injEq, reduceCtorEq, and_false, false_and] at h
          · simp only [extract_root_block, map_get_item, map_reset_item,
              Option.bind_eq_bind, if_neg hb, Option.some_bind, hv, if_neg hf, hn,
              if_pos (Nat.lt_of_not_le hb), if_neg hifl, Option.none_bind,
              reduceCtorEq] at h
        · by_cases hf2 : ((updBlk st.heap bp fun b =>
              { b with node := ⟨none, none⟩ }) nb).is_freed = false
          · simp only [extract_root_block, map_get_item, map_set_item,
              Option.bind_eq_bind, if_neg hb, Option.some_bind, hv, if_neg hf, hn,
              if_pos (Nat.lt_of_not_le hb), if_pos hf2, reduceCtorEq] at h
          · simp only [extract_root_block, map_get_item, map_set_item,
              Option.bind_eq_bind, if_neg hb, Option.some_bind, hv, if_neg hf, hn,
              if_pos (Nat.lt_of_not_le hb), if_neg hf2, Option.some.injEq,
              Prod.mk.injEq, reduceCtorEq, and_false, false_and] at h

/-- OOM atomicity at the `RootPool::alloc` level: whenever the allocator
returns a null pointer (without panicking), the TLSF header state is exactly
the state on entry. -/
theorem root_alloc_null_atomic (st st1 : St) (n : Nat)
    (h : root_alloc st n = some (st1, none)) : st1 = st := by
  rcases hf : find_suitable_indices st (calculate_allocation_searching_size n)
    with _ | fo
  · simp only [root_alloc, Option.bind_eq_bind, hf, Option.none_bind,
      reduceCtorEq] at h
  · rcases fo with _ | mi
    · simp only [root_alloc, Option.bind_eq_bind, hf, Option.some_bind,
        Option.some.injEq, Prod.mk.injEq] at h
      exact h.1.symm
    · rcases he : extract_root_block st mi with _ | res
      · simp only [root_alloc, Option.bind_eq_bind, hf, Option.some_bind, he,
          Option.none_bind, reduceCtorEq] at h
      · rcases res with ⟨stx, po⟩
        rcases po with _ | sb
        · simp only [root_alloc, Option.bind_eq_bind, hf, Option.some_bind, he,
            Option.some.injEq, Prod.mk.injEq] at h
          rw [← h.1]
          exact extract_root_block_null st stx mi he
        · by_cases hlt : (stx.heap sb).buffer_size <
              calculate_allocation_searching_size n
          · simp only [root_alloc, Option.bind_eq_bind, hf, Option.some_bind, he,
              if_pos hlt, reduceCtorEq] at h
          · rcases hsp : alloc_split_step stx sb
                (calculate_allocation_searching_size n) with _ | st2
            · simp only [root_alloc, Option.bind_eq_bind, hf, Option.some_bind, he,
                if_neg hlt, hsp, Option.none_bind, reduceCtorEq] at h
            · simp only [root_alloc, Option.bind_eq_bind, hf, Option.some_bind, he,
                if_neg hlt, hsp, Option.some.injEq, Prod.mk.injEq, reduceCtorEq,
                and_false, false_and] at h

/-- The atomicity fact on a concrete failing run: the empty pool rejects any
allocation and is returned unchanged. -/
theorem root_alloc_null_atomic_witness :
    root_alloc emptySt 20 = some (emptySt, none) ∧
    (∀ st1, root_alloc emptySt 20 = some (st1, none) → st1 = emptySt) :=
  ⟨rfl, fun st1 h => root_alloc_null_atomic emptySt st1 20 h⟩

end Tlsf
